import Mathlib

/-!
# Response handlers of libcouchbase (`src/handler.cc`)

A shallow embedding of the response-side protocol engine: the status mapper
(`lcb_errmap_default`, `lcb_map_error`), the error assembly of the response
builders (`make_error`), the mutation-token extractor (`handle_mutation_token`)
and the sub-document result parser (`sdlookup_next`, `sdmutate_next`,
`lcb_sdresult_next`, `lcb_sdresult_parse`).

Conventions of the embedding.

* Numeric constants that `handler.cc` takes from headers outside `src/`
  (wire status codes, opcodes, flag masks) are fields of the parameter
  `Headers`; every definition that uses one takes `K : Headers`.
* The error-kind enumeration `lcb_STATUS` is an inductive type whose first
  constructor `LCB_SUCCESS` is the zero value of the C enumeration.
* A byte slice is a `List Byte`; a pointer into the value slice is an offset
  (`Option Nat`, `none` being the null pointer).  A read outside a slice, a
  write outside an array and a failed `lcb_assert` are explicit `Fault`s.
* The host byte order is a parameter (`Endian`) of every decoder.
-/

namespace LcbHandler

/-! ## Constants declared outside `src/` -/

/-- Wire status codes `PROTOCOL_BINARY_RESPONSE_*` used by `handler.cc`; their
numeric values come from the memcached protocol header, which is not under `src/`,
and are therefore parameters. -/
structure PROTOCOL_BINARY_RESPONSE where
  SUCCESS : Nat
  KEY_ENOENT : Nat
  E2BIG : Nat
  ENOMEM : Nat
  KEY_EEXISTS : Nat
  SUBDOC_PATH_ENOENT : Nat
  SUBDOC_PATH_MISMATCH : Nat
  SUBDOC_PATH_EINVAL : Nat
  SUBDOC_PATH_E2BIG : Nat
  SUBDOC_DOC_E2DEEP : Nat
  SUBDOC_VALUE_ETOODEEP : Nat
  SUBDOC_VALUE_CANTINSERT : Nat
  SUBDOC_DOC_NOTJSON : Nat
  SUBDOC_NUM_ERANGE : Nat
  SUBDOC_DELTA_ERANGE : Nat
  SUBDOC_PATH_EEXISTS : Nat
  SUBDOC_MULTI_PATH_FAILURE : Nat
  SUBDOC_MULTI_PATH_FAILURE_DELETED : Nat
  SUBDOC_INVALID_COMBO : Nat
  SUBDOC_SUCCESS_DELETED : Nat
  SUBDOC_XATTR_INVALID_FLAG_COMBO : Nat
  SUBDOC_XATTR_INVALID_KEY_COMBO : Nat
  SUBDOC_XATTR_UNKNOWN_MACRO : Nat
  SUBDOC_XATTR_UNKNOWN_VATTR : Nat
  SUBDOC_XATTR_CANT_MODIFY_VATTR : Nat
  SUBDOC_INVALID_XATTR_ORDER : Nat
  EINVAL : Nat
  NOT_STORED : Nat
  DELTA_BADVAL : Nat
  ERANGE : Nat
  UNKNOWN_COMMAND : Nat
  EACCESS : Nat
  AUTH_ERROR : Nat
  AUTH_STALE : Nat
  NO_BUCKET : Nat
  NOT_INITIALIZED : Nat
  UNKNOWN_COLLECTION : Nat
  UNKNOWN_SCOPE : Nat
  NO_COLLECTIONS_MANIFEST : Nat
  CANNOT_APPLY_COLLECTIONS_MANIFEST : Nat
  COLLECTIONS_MANIFEST_IS_AHEAD : Nat
  DURABILITY_INVALID_LEVEL : Nat
  DURABILITY_IMPOSSIBLE : Nat
  SYNC_WRITE_IN_PROGRESS : Nat
  SYNC_WRITE_RE_COMMIT_IN_PROGRESS : Nat
  SYNC_WRITE_AMBIGUOUS : Nat
  LOCKED : Nat
  NOT_MY_VBUCKET : Nat
  AUTH_CONTINUE : Nat
  EBUSY : Nat
  ETMPFAIL : Nat
  EINTERNAL : Nat

/-- Opcodes `PROTOCOL_BINARY_CMD_*` that the sub-document parser and the dispatch
table switch on; declared in a header outside `src/`. -/
structure PROTOCOL_BINARY_CMD where
  SUBDOC_GET : Nat
  SUBDOC_EXISTS : Nat
  SUBDOC_GET_COUNT : Nat
  SUBDOC_MULTI_LOOKUP : Nat
  SUBDOC_MULTI_MUTATION : Nat
  GET : Nat
  GAT : Nat
  GET_LOCKED : Nat
  ADD : Nat
  REPLACE : Nat
  SET : Nat
  APPEND : Nat
  PREPEND : Nat
  INCREMENT : Nat
  DECREMENT : Nat
  SUBDOC_ARRAY_ADD_UNIQUE : Nat
  SUBDOC_ARRAY_PUSH_FIRST : Nat
  SUBDOC_ARRAY_PUSH_LAST : Nat
  SUBDOC_ARRAY_INSERT : Nat
  SUBDOC_DICT_ADD : Nat
  SUBDOC_DICT_UPSERT : Nat
  SUBDOC_REPLACE : Nat
  SUBDOC_DELETE : Nat
  SUBDOC_COUNTER : Nat
  OBSERVE : Nat
  GET_REPLICA : Nat
  UNLOCK_KEY : Nat
  DELETE : Nat
  TOUCH : Nat
  OBSERVE_SEQNO : Nat
  STAT : Nat
  NOOP : Nat
  GET_CLUSTER_CONFIG : Nat
  SELECT_BUCKET : Nat
  COLLECTIONS_GET_MANIFEST : Nat
  COLLECTIONS_GET_CID : Nat
  GET_META : Nat

/-- Bit masks `LCB_RESP_F_*` of a result's `rflags`; declared outside `src/`. -/
structure LCB_RESP_F where
  FINAL : Nat
  CLIENTGEN : Nat
  EXTDATA : Nat
  SDSINGLE : Nat
  ERRINFO : Nat

/-- Bit masks `MCREQ_F_*` of a pending request's `flags`; declared outside `src/`. -/
structure MCREQ_F where
  REQEXT : Nat
  UFWD : Nat
  INVOKED : Nat
  PRIVCALLBACK : Nat
  REPLACE_SEMANTICS : Nat

/-- Bit masks `PROTOCOL_BINARY_DATATYPE_*` of an envelope's datatype; declared
outside `src/`. -/
structure PROTOCOL_BINARY_DATATYPE where
  JSON : Nat
  COMPRESSED : Nat

/-- Bit masks `LCB_VALUE_F_*` of a get result's datatype; declared outside `src/`. -/
structure LCB_VALUE_F where
  JSON : Nat
  SNAPPYCOMP : Nat

/-- All constants that `handler.cc` reads from headers that are not under `src/`;
`COMPRESS_IN` is the mask `LCB_COMPRESS_IN` of the `compressopts` setting. -/
structure Headers where
  RESPONSE : PROTOCOL_BINARY_RESPONSE
  CMD : PROTOCOL_BINARY_CMD
  RESP_F : LCB_RESP_F
  REQ_F : MCREQ_F
  DATATYPE : PROTOCOL_BINARY_DATATYPE
  VALUE_F : LCB_VALUE_F
  COMPRESS_IN : Nat

/-- Error kinds `lcb_STATUS` named in `handler.cc`.  `LCB_SUCCESS` is the zero of
the C enumeration (the value tested by `if (imm)` and left by zero-initialisation);
`LCB_ERR_OTHER n` stands for the kinds of the enumeration that `handler.cc` never
names. -/
inductive lcb_STATUS where
  | LCB_SUCCESS
  | LCB_ERR_TIMEOUT
  | LCB_ERR_AUTH_CONTINUE
  | LCB_ERR_TEMPORARY_FAILURE
  | LCB_ERR_KVENGINE_UNKNOWN_ERROR
  | LCB_ERR_DOCUMENT_NOT_FOUND
  | LCB_ERR_VALUE_TOO_LARGE
  | LCB_ERR_DOCUMENT_EXISTS
  | LCB_ERR_SUBDOC_PATH_NOT_FOUND
  | LCB_ERR_SUBDOC_PATH_MISMATCH
  | LCB_ERR_SUBDOC_PATH_INVALID
  | LCB_ERR_SUBDOC_PATH_TOO_BIG
  | LCB_ERR_SUBDOC_PATH_TOO_DEEP
  | LCB_ERR_SUBDOC_VALUE_TOO_DEEP
  | LCB_ERR_SUBDOC_VALUE_INVALID
  | LCB_ERR_SUBDOC_DOCUMENT_NOT_JSON
  | LCB_ERR_SUBDOC_NUMBER_TOO_BIG
  | LCB_ERR_SUBDOC_DELTA_INVALID
  | LCB_ERR_SUBDOC_PATH_EXISTS
  | LCB_ERR_INVALID_ARGUMENT
  | LCB_ERR_SUBDOC_XATTR_INVALID_FLAG_COMBO
  | LCB_ERR_SUBDOC_XATTR_INVALID_KEY_COMBO
  | LCB_ERR_SUBDOC_XATTR_UNKNOWN_MACRO
  | LCB_ERR_SUBDOC_XATTR_UNKNOWN_VIRTUAL_ATTRIBUTE
  | LCB_ERR_SUBDOC_XATTR_CANNOT_MODIFY_VIRTUAL_ATTRIBUTE
  | LCB_ERR_SUBDOC_XATTR_INVALID_ORDER
  | LCB_ERR_KVENGINE_INVALID_PACKET
  | LCB_ERR_NOT_STORED
  | LCB_ERR_INVALID_DELTA
  | LCB_ERR_INVALID_RANGE
  | LCB_ERR_UNSUPPORTED_OPERATION
  | LCB_ERR_AUTHENTICATION_FAILURE
  | LCB_ERR_BUCKET_NOT_FOUND
  | LCB_ERR_COLLECTION_NOT_FOUND
  | LCB_ERR_SCOPE_NOT_FOUND
  | LCB_ERR_COLLECTION_NO_MANIFEST
  | LCB_ERR_COLLECTION_CANNOT_APPLY_MANIFEST
  | LCB_ERR_COLLECTION_MANIFEST_IS_AHEAD
  | LCB_ERR_DURABILITY_LEVEL_NOT_AVAILABLE
  | LCB_ERR_DURABILITY_IMPOSSIBLE
  | LCB_ERR_DURABLE_WRITE_IN_PROGRESS
  | LCB_ERR_DURABLE_WRITE_RE_COMMIT_IN_PROGRESS
  | LCB_ERR_DURABILITY_AMBIGUOUS
  | LCB_ERR_DOCUMENT_LOCKED
  | LCB_ERR_CAS_MISMATCH
  | LCB_ERR_OTHER (code : Nat)
  deriving DecidableEq, Repr

open lcb_STATUS

/-- Callback types `lcb_CALLBACK_TYPE` named in `handler.cc`; `LCB_CALLBACK_OTHER n`
stands for the values of the enumeration (and of the `int cbtype` arguments) that
`handler.cc` never names. -/
inductive lcb_CALLBACK_TYPE where
  | LCB_CALLBACK_SDLOOKUP
  | LCB_CALLBACK_SDMUTATE
  | LCB_CALLBACK_GET
  | LCB_CALLBACK_STORE
  | LCB_CALLBACK_COUNTER
  | LCB_CALLBACK_TOUCH
  | LCB_CALLBACK_REMOVE
  | LCB_CALLBACK_UNLOCK
  | LCB_CALLBACK_EXISTS
  | LCB_CALLBACK_OBSEQNO
  | LCB_CALLBACK_GETCID
  | LCB_CALLBACK_COLLECTIONS_GET_MANIFEST
  | LCB_CALLBACK_OTHER (code : Nat)
  deriving DecidableEq, Repr

open lcb_CALLBACK_TYPE

/-! ## Bytes, byte order, faults -/

/-- One octet of a wire buffer. -/
abbrev Byte := Fin 256

/-- Byte order of the host that runs the client. -/
inductive Endian where
  | little
  | big
  deriving DecidableEq, Repr

/-- Ways in which the C code leaves defined behaviour: a read at `offset`
outside the slice it was given, a write at `index` outside an array, a failed
`lcb_assert`, or an access through a null pointer. -/
inductive Fault where
  | oob_read (offset : Nat)
  | oob_write (index : Nat)
  | assertion
  | null_deref
  deriving DecidableEq, Repr

/-- Value of a byte string read most-significant byte first. -/
def decodeBE (bs : List Byte) : Nat :=
  bs.foldl (fun acc b => acc * 256 + b.val) 0

/-- Value of a byte string read least-significant byte first. -/
def decodeLE : List Byte → Nat
  | [] => 0
  | b :: bs => b.val + 256 * decodeLE bs

/-- The `w` low-order bytes of `x`, least-significant first: the in-memory image of
a `w`-byte unsigned integer on a little-endian host. -/
def encodeLE : Nat → Nat → List Byte
  | 0, _ => []
  | w + 1, x => ⟨x % 256, Nat.mod_lt _ (by decide)⟩ :: encodeLE w (x / 256)

/-- The `w` low-order bytes of `x`, most-significant first (wire order). -/
def encodeBE (w x : Nat) : List Byte :=
  (encodeLE w x).reverse

/-- The assignment `memcpy(&v, buf, n)` into an unsigned integer `v` of `n` bytes:
the value the host sees after the raw copy of the bytes `bs`. -/
def memcpy_uint (host : Endian) (bs : List Byte) : Nat :=
  match host with
  | Endian.little => decodeLE bs
  | Endian.big => decodeBE bs

/-- The conversions `ntohs`, `ntohl`, `lcb_ntohll` (libc and a header outside
`src/`) on a `w`-byte unsigned integer: the identity on a big-endian host, a byte
swap on a little-endian one. -/
def ntoh (host : Endian) (w x : Nat) : Nat :=
  match host with
  | Endian.little => decodeBE (encodeLE w x)
  | Endian.big => x

/-- `ntohs` -/
def ntohs (host : Endian) (x : Nat) : Nat := ntoh host 2 x

/-- `ntohl` -/
def ntohl (host : Endian) (x : Nat) : Nat := ntoh host 4 x

/-- `lcb_ntohll` -/
def lcb_ntohll (host : Endian) (x : Nat) : Nat := ntoh host 8 x

/-- Read of `n` bytes at offset `off` of the slice `buf`; a fault names the first
offset that lies outside the slice. -/
def readBytes (buf : List Byte) (off n : Nat) : Except Fault (List Byte) :=
  if off + n ≤ buf.length then Except.ok ((buf.drop off).take n)
  else Except.error (Fault.oob_read (max off buf.length))

/-! ## Data model -/

/-- The read-only view `MemcachedResponse` of a received envelope (class declared
outside `src/`): opcode, status, CAS, datatype and the extras and value slices;
`extlen()` and `vallen()` are the lengths of the slices. -/
structure MemcachedResponse where
  opcode : Nat
  status : Nat
  cas : Nat
  datatype : Nat
  ext : List Byte
  value : List Byte
  deriving DecidableEq, Repr

/-- `MemcachedResponse::extlen()` -/
def MemcachedResponse.extlen (r : MemcachedResponse) : Nat := r.ext.length

/-- `MemcachedResponse::vallen()` -/
def MemcachedResponse.vallen (r : MemcachedResponse) : Nat := r.value.length

/-- The fields of a pending request `mc_PACKET` that the handlers read: the flag
word, the vbucket id returned by `mcreq_get_vbucket` and, for multi-path
sub-document requests, `MCREQ_PKT_RDATA(req)->nsubreq`. -/
structure mc_PACKET where
  flags : Nat
  vbucket : Nat
  nsubreq : Nat
  deriving DecidableEq, Repr

/-- `lcb_MUTATION_TOKEN` -/
structure lcb_MUTATION_TOKEN where
  uuid_ : Nat
  seqno_ : Nat
  vbid_ : Nat
  deriving DecidableEq, Repr

/-- The parts of `lcb_INSTANCE` that the handlers use: the error-map callback
`callbacks.errmap`, the vbucket count `LCBT_VBCONFIG(instance)->nvb` and the token
table `dcpinfo` (`none` is the null pointer); the registered response callbacks
`callbacks.v3callbacks[type]` (a function pointer is a number, `none` is null) and
what `lcb_find_callback` answers for a type; the bucket name
`LCBT_VBCONFIG(instance)->bname`; the settings `compressopts` and
`use_collections`; and `collcache->id_to_name`. -/
structure lcb_INSTANCE where
  errmap : Nat → lcb_STATUS
  nvb : Nat
  dcpinfo : Option (List lcb_MUTATION_TOKEN)
  v3callbacks : lcb_CALLBACK_TYPE → Option Nat := fun _ => none
  lcb_find_callback : lcb_CALLBACK_TYPE → Nat := fun _ => 0
  bname : List Char := []
  compressopts : Nat := 0
  use_collections : Bool := false
  id_to_name : Nat → List Char := fun _ => []

/-- The fields `ctx.rc` and `rflags` common to every result type `T` that
`make_error` is instantiated with. -/
structure lcb_RESPBASE where
  rc : lcb_STATUS
  rflags : Nat
  deriving DecidableEq, Repr

/-! ## Status mapper -/

/-- Conversion of an `int` argument to the `lcb_uint16_t` parameter of the
error-map callbacks. -/
def to_uint16 (x : Int) : Nat := (x % 65536).toNat

/-- `lcb_errmap_default` (handler.cc:99).  The instance only selects where the
diagnostic is logged. -/
def lcb_errmap_default (K : Headers) (_inst : Option lcb_INSTANCE) (inp : Nat) : lcb_STATUS :=
  if inp = K.RESPONSE.NOT_MY_VBUCKET then LCB_ERR_TIMEOUT
  else if inp = K.RESPONSE.AUTH_CONTINUE then LCB_ERR_AUTH_CONTINUE
  else if inp = K.RESPONSE.EBUSY ∨ inp = K.RESPONSE.ETMPFAIL then LCB_ERR_TEMPORARY_FAILURE
  else LCB_ERR_KVENGINE_UNKNOWN_ERROR

/-- The `case` labels of the `switch` in `lcb_map_error` (handler.cc:123-213), in
source order, each with the kind its branch returns. -/
def lcb_map_error_cases (K : Headers) : List (Nat × lcb_STATUS) :=
  [ (K.RESPONSE.SUCCESS, LCB_SUCCESS),
    (K.RESPONSE.KEY_ENOENT, LCB_ERR_DOCUMENT_NOT_FOUND),
    (K.RESPONSE.E2BIG, LCB_ERR_VALUE_TOO_LARGE),
    (K.RESPONSE.ENOMEM, LCB_ERR_TEMPORARY_FAILURE),
    (K.RESPONSE.KEY_EEXISTS, LCB_ERR_DOCUMENT_EXISTS),
    (K.RESPONSE.SUBDOC_PATH_ENOENT, LCB_ERR_SUBDOC_PATH_NOT_FOUND),
    (K.RESPONSE.SUBDOC_PATH_MISMATCH, LCB_ERR_SUBDOC_PATH_MISMATCH),
    (K.RESPONSE.SUBDOC_PATH_EINVAL, LCB_ERR_SUBDOC_PATH_INVALID),
    (K.RESPONSE.SUBDOC_PATH_E2BIG, LCB_ERR_SUBDOC_PATH_TOO_BIG),
    (K.RESPONSE.SUBDOC_DOC_E2DEEP, LCB_ERR_SUBDOC_PATH_TOO_DEEP),
    (K.RESPONSE.SUBDOC_VALUE_ETOODEEP, LCB_ERR_SUBDOC_VALUE_TOO_DEEP),
    (K.RESPONSE.SUBDOC_VALUE_CANTINSERT, LCB_ERR_SUBDOC_VALUE_INVALID),
    (K.RESPONSE.SUBDOC_DOC_NOTJSON, LCB_ERR_SUBDOC_DOCUMENT_NOT_JSON),
    (K.RESPONSE.SUBDOC_NUM_ERANGE, LCB_ERR_SUBDOC_NUMBER_TOO_BIG),
    (K.RESPONSE.SUBDOC_DELTA_ERANGE, LCB_ERR_SUBDOC_DELTA_INVALID),
    (K.RESPONSE.SUBDOC_PATH_EEXISTS, LCB_ERR_SUBDOC_PATH_EXISTS),
    (K.RESPONSE.SUBDOC_MULTI_PATH_FAILURE, LCB_SUCCESS),
    (K.RESPONSE.SUBDOC_MULTI_PATH_FAILURE_DELETED, LCB_SUCCESS),
    (K.RESPONSE.SUBDOC_INVALID_COMBO, LCB_ERR_INVALID_ARGUMENT),
    (K.RESPONSE.SUBDOC_SUCCESS_DELETED, LCB_SUCCESS),
    (K.RESPONSE.SUBDOC_XATTR_INVALID_FLAG_COMBO, LCB_ERR_SUBDOC_XATTR_INVALID_FLAG_COMBO),
    (K.RESPONSE.SUBDOC_XATTR_INVALID_KEY_COMBO, LCB_ERR_SUBDOC_XATTR_INVALID_KEY_COMBO),
    (K.RESPONSE.SUBDOC_XATTR_UNKNOWN_MACRO, LCB_ERR_SUBDOC_XATTR_UNKNOWN_MACRO),
    (K.RESPONSE.SUBDOC_XATTR_UNKNOWN_VATTR, LCB_ERR_SUBDOC_XATTR_UNKNOWN_VIRTUAL_ATTRIBUTE),
    (K.RESPONSE.SUBDOC_XATTR_CANT_MODIFY_VATTR, LCB_ERR_SUBDOC_XATTR_CANNOT_MODIFY_VIRTUAL_ATTRIBUTE),
    (K.RESPONSE.SUBDOC_INVALID_XATTR_ORDER, LCB_ERR_SUBDOC_XATTR_INVALID_ORDER),
    (K.RESPONSE.EINVAL, LCB_ERR_KVENGINE_INVALID_PACKET),
    (K.RESPONSE.NOT_STORED, LCB_ERR_NOT_STORED),
    (K.RESPONSE.DELTA_BADVAL, LCB_ERR_INVALID_DELTA),
    (K.RESPONSE.ERANGE, LCB_ERR_INVALID_RANGE),
    (K.RESPONSE.UNKNOWN_COMMAND, LCB_ERR_UNSUPPORTED_OPERATION),
    (K.RESPONSE.EACCESS, LCB_ERR_AUTHENTICATION_FAILURE),
    (K.RESPONSE.AUTH_ERROR, LCB_ERR_AUTHENTICATION_FAILURE),
    (K.RESPONSE.AUTH_STALE, LCB_ERR_AUTHENTICATION_FAILURE),
    (K.RESPONSE.NO_BUCKET, LCB_ERR_BUCKET_NOT_FOUND),
    (K.RESPONSE.NOT_INITIALIZED, LCB_ERR_BUCKET_NOT_FOUND),
    (K.RESPONSE.UNKNOWN_COLLECTION, LCB_ERR_COLLECTION_NOT_FOUND),
    (K.RESPONSE.UNKNOWN_SCOPE, LCB_ERR_SCOPE_NOT_FOUND),
    (K.RESPONSE.NO_COLLECTIONS_MANIFEST, LCB_ERR_COLLECTION_NO_MANIFEST),
    (K.RESPONSE.CANNOT_APPLY_COLLECTIONS_MANIFEST, LCB_ERR_COLLECTION_CANNOT_APPLY_MANIFEST),
    (K.RESPONSE.COLLECTIONS_MANIFEST_IS_AHEAD, LCB_ERR_COLLECTION_MANIFEST_IS_AHEAD),
    (K.RESPONSE.DURABILITY_INVALID_LEVEL, LCB_ERR_DURABILITY_LEVEL_NOT_AVAILABLE),
    (K.RESPONSE.DURABILITY_IMPOSSIBLE, LCB_ERR_DURABILITY_IMPOSSIBLE),
    (K.RESPONSE.SYNC_WRITE_IN_PROGRESS, LCB_ERR_DURABLE_WRITE_IN_PROGRESS),
    (K.RESPONSE.SYNC_WRITE_RE_COMMIT_IN_PROGRESS, LCB_ERR_DURABLE_WRITE_RE_COMMIT_IN_PROGRESS),
    (K.RESPONSE.SYNC_WRITE_AMBIGUOUS, LCB_ERR_DURABILITY_AMBIGUOUS),
    (K.RESPONSE.LOCKED, LCB_ERR_DOCUMENT_LOCKED) ]

/-- `lcb_map_error` (handler.cc:121): the `switch` selects the branch of the label
equal to `inp`; the `default` branch asks the instance's error-map callback, or
`lcb_errmap_default` when no instance is attached. -/
def lcb_map_error (K : Headers) (inst : Option lcb_INSTANCE) (inp : Int) : lcb_STATUS :=
  match (lcb_map_error_cases K).find? (fun p => (p.1 : Int) = inp) with
  | some p => p.2
  | none =>
    match inst with
    | some i => i.errmap (to_uint16 inp)
    | none => lcb_errmap_default K none (to_uint16 inp)

/-- The `case` labels of one `switch` are pairwise distinct constants (the C
compiler rejects a duplicate label). -/
def Headers.labels_distinct (K : Headers) : Prop :=
  ((lcb_map_error_cases K).map Prod.fst).Nodup

instance (K : Headers) : Decidable K.labels_distinct := by
  unfold Headers.labels_distinct; infer_instance

/-! ## Error assembly -/

/-- The first statement of `make_error` (handler.cc:264-271): the kind before the
replace-semantics override. -/
def make_error_kind (K : Headers) (inst : Option lcb_INSTANCE) (resp : lcb_RESPBASE)
    (response : MemcachedResponse) (imm : lcb_STATUS) : lcb_RESPBASE :=
  if imm ≠ LCB_SUCCESS then
    { resp with rc := imm, rflags := resp.rflags ||| K.RESP_F.CLIENTGEN }
  else if response.status = K.RESPONSE.SUCCESS then
    { resp with rc := LCB_SUCCESS }
  else
    { resp with rc := lcb_map_error K inst response.status }

/-- `make_error` (handler.cc:260): the kind of `make_error_kind`, rewritten to
`LCB_ERR_CAS_MISMATCH` when it is `LCB_ERR_DOCUMENT_EXISTS` and the request carries
`MCREQ_F_REPLACE_SEMANTICS`. -/
def make_error (K : Headers) (inst : Option lcb_INSTANCE) (resp : lcb_RESPBASE)
    (response : MemcachedResponse) (imm : lcb_STATUS) (req : mc_PACKET) : lcb_RESPBASE :=
  let resp1 := make_error_kind K inst resp response imm
  if resp1.rc = LCB_ERR_DOCUMENT_EXISTS ∧ (req.flags &&& K.REQ_F.REPLACE_SEMANTICS) ≠ 0 then
    { resp1 with rc := LCB_ERR_CAS_MISMATCH }
  else resp1

/-! ## Mutation-token extractor -/

/-- The zero-filled table `new lcb_MUTATION_TOKEN[nvb]` followed by `memset(.., 0, ..)`. -/
def dcpinfo_alloc (nvb : Nat) : List lcb_MUTATION_TOKEN :=
  List.replicate nvb { uuid_ := 0, seqno_ := 0, vbid_ := 0 }

/-- Lines 342-348 of `handle_mutation_token`: the token table of an attached
instance is allocated on first use, when the vbucket count is not zero. -/
def ensure_dcpinfo (inst : Option lcb_INSTANCE) : Option lcb_INSTANCE :=
  match inst with
  | none => none
  | some i =>
    if i.dcpinfo.isNone then
      if i.nvb ≠ 0 then some { i with dcpinfo := some (dcpinfo_alloc i.nvb) } else some i
    else some i

/-- `handle_mutation_token` (handler.cc:333).  The result is the instance (with
its token table) and the token `*stok` after the call. -/
def handle_mutation_token (host : Endian) (inst : Option lcb_INSTANCE)
    (mc_resp : MemcachedResponse) (req : mc_PACKET) (stok : lcb_MUTATION_TOKEN) :
    Except Fault (Option lcb_INSTANCE × lcb_MUTATION_TOKEN) :=
  if mc_resp.extlen = 0 then Except.ok (inst, stok)
  else
    let inst1 := ensure_dcpinfo inst
    let vbid := req.vbucket
    match readBytes mc_resp.ext 0 8, readBytes mc_resp.ext 8 8 with
    | Except.error f, _ => Except.error f
    | Except.ok _, Except.error f => Except.error f
    | Except.ok u, Except.ok s =>
      let stok1 : lcb_MUTATION_TOKEN :=
        { vbid_ := vbid,
          uuid_ := lcb_ntohll host (memcpy_uint host u),
          seqno_ := lcb_ntohll host (memcpy_uint host s) }
      match inst1 with
      | none => Except.ok (none, stok1)
      | some i =>
        match i.dcpinfo with
        | none => Except.ok (some i, stok1)
        | some table =>
          if vbid < table.length then
            Except.ok (some { i with dcpinfo := some (table.set vbid stok1) }, stok1)
          else Except.error (Fault.oob_write vbid)

/-! ## Sub-document result parser -/

/-- `lcb_SDENTRY`: `value` is the offset of the entry's first value byte inside
the response's value slice (`none` is the null pointer). -/
structure lcb_SDENTRY where
  value : Option Nat
  nvalue : Nat
  status : lcb_STATUS
  index : Nat
  deriving DecidableEq, Repr

/-- The zero-filled entry that `std::vector::resize` and `calloc` produce. -/
def lcb_SDENTRY.zero : lcb_SDENTRY :=
  { value := none, nvalue := 0, status := LCB_SUCCESS, index := 0 }

/-- `lcb_RESPSUBDOC`: the common fields, the envelope `responses` being parsed, the
entry array `res` (`none` is the null pointer) and its declared length `nres`. -/
structure lcb_RESPSUBDOC extends lcb_RESPBASE where
  responses : Option MemcachedResponse
  res : Option (List lcb_SDENTRY)
  nres : Nat
  deriving DecidableEq, Repr

/-- The sum `6 + vlen` of `sdlookup_next`, computed in 32-bit unsigned arithmetic. -/
def uint32_add (a b : Nat) : Nat := (a + b) % 2 ^ 32

/-- The update `*iter += sz` of a `size_t` cursor (64 bits). -/
def size_t_add (a b : Nat) : Nat := (a + b) % 2 ^ 64

/-- `sdlookup_next` (handler.cc:597).  `none` is the return value 0; `some (ent, iter)`
is the return value 1 with the entry and cursor it leaves. -/
def sdlookup_next (K : Headers) (host : Endian) (response : MemcachedResponse)
    (ent : lcb_SDENTRY) (iter : Nat) : Except Fault (Option (lcb_SDENTRY × Nat)) :=
  if iter = response.vallen then Except.ok none
  else
    match readBytes response.value iter 2, readBytes response.value (iter + 2) 4 with
    | Except.error f, _ => Except.error f
    | Except.ok _, Except.error f => Except.error f
    | Except.ok b2, Except.ok b4 =>
      let rc := ntohs host (memcpy_uint host b2)
      let vlen := ntohl host (memcpy_uint host b4)
      let ent1 := { ent with status := lcb_map_error K none rc, nvalue := vlen }
      let ent2 :=
        if ent1.status = LCB_SUCCESS then { ent1 with value := some (iter + 6) }
        else { ent1 with value := none, nvalue := 0 }
      Except.ok (some (ent2, size_t_add iter (uint32_add 6 vlen)))

/-- The macro `ADVANCE_BUF(sz)` of `sdmutate_next`: both the pointer and the cursor
move by `sz`, then `lcb_assert(buf <= buf_end)` checks that the cursor has not
passed the declared value length. -/
def ADVANCE_BUF (response : MemcachedResponse) (iter sz : Nat) : Except Fault Nat :=
  let iter1 := size_t_add iter sz
  if iter1 ≤ response.vallen then Except.ok iter1 else Except.error Fault.assertion

/-- `sdmutate_next` (handler.cc:630). -/
def sdmutate_next (K : Headers) (host : Endian) (response : MemcachedResponse)
    (ent : lcb_SDENTRY) (iter : Nat) : Except Fault (Option (lcb_SDENTRY × Nat)) :=
  if iter = response.vallen then Except.ok none
  else do
    let b1 ← readBytes response.value iter 1
    let ent1 := { ent with index := decodeBE b1 }
    let iter1 ← ADVANCE_BUF response iter 1
    let b2 ← readBytes response.value iter1 2
    let iter2 ← ADVANCE_BUF response iter1 2
    let rc := ntohs host (memcpy_uint host b2)
    let ent2 := { ent1 with status := lcb_map_error K none rc }
    if rc = K.RESPONSE.SUCCESS then do
      let b4 ← readBytes response.value iter2 4
      let iter3 ← ADVANCE_BUF response iter2 4
      let vlen := ntohl host (memcpy_uint host b4)
      let ent3 := { ent2 with nvalue := vlen, value := some iter3 }
      let iter4 ← ADVANCE_BUF response iter3 vlen
      pure (some (ent3, iter4))
    else
      pure (some ({ ent2 with value := none, nvalue := 0 }, iter2))

/-- `lcb_sdresult_next` (handler.cc:678).  Its only caller, `lcb_sdresult_parse`,
always passes a cursor, so the cursor is a plain number here. -/
def lcb_sdresult_next (K : Headers) (host : Endian) (resp : lcb_RESPSUBDOC)
    (ent : lcb_SDENTRY) (iter : Nat) : Except Fault (Option (lcb_SDENTRY × Nat)) :=
  match resp.responses with
  | none => Except.ok none
  | some response =>
    if response.opcode = K.CMD.SUBDOC_MULTI_LOOKUP then sdlookup_next K host response ent iter
    else if response.opcode = K.CMD.SUBDOC_MULTI_MUTATION then
      sdmutate_next K host response ent iter
    else if iter ≠ 0 then Except.ok none
    else
      Except.ok (some ({ ent with status := lcb_map_error K none response.status,
                                  value := some 0,
                                  nvalue := response.vallen,
                                  index := 0 }, 1))

/-- The `while` loop of `lcb_sdresult_parse` (handler.cc:534-540), run for at most
`fuel` calls of `lcb_sdresult_next`; `none` means the loop was still running when
the fuel ran out.  `results[index] = ent` outside the vector is a fault. -/
def lcb_sdresult_loop (K : Headers) (host : Endian) (resp : lcb_RESPSUBDOC)
    (type : lcb_CALLBACK_TYPE) :
    Nat → List lcb_SDENTRY → lcb_SDENTRY → Nat → Nat → Option (Except Fault (List lcb_SDENTRY))
  | 0, _, _, _, _ => none
  | fuel + 1, results, ent, iter, oix =>
    match lcb_sdresult_next K host resp ent iter with
    | Except.error f => some (Except.error f)
    | Except.ok none => some (Except.ok results)
    | Except.ok (some (ent1, iter1)) =>
      let index := if type = LCB_CALLBACK_SDMUTATE then ent1.index else oix
      if index < results.length then
        lcb_sdresult_loop K host resp type fuel (results.set index ent1) ent1 iter1 (oix + 1)
      else some (Except.error (Fault.oob_write index))

/-- `lcb_sdresult_parse` (handler.cc:527).  `ent0` is the content of the
uninitialised local `ent` before the first call of `lcb_sdresult_next`. -/
def lcb_sdresult_parse (K : Headers) (host : Endian) (fuel : Nat) (ent0 : lcb_SDENTRY)
    (resp : lcb_RESPSUBDOC) (type : lcb_CALLBACK_TYPE) : Option (Except Fault lcb_RESPSUBDOC) :=
  match lcb_sdresult_loop K host resp type fuel (List.replicate resp.nres lcb_SDENTRY.zero) ent0 0 0 with
  | none => none
  | some (Except.error f) => some (Except.error f)
  | some (Except.ok results) =>
    if resp.nres ≠ 0 then some (Except.ok { resp with res := some results })
    else some (Except.ok resp)

/-- Repeated calls of a `..._next` function from cursor `iter` until it returns 0:
the entries it produced, in call order, and the cursor it stopped at (`none` when
`fuel` calls were not enough). -/
def sd_iterate (next : lcb_SDENTRY → Nat → Except Fault (Option (lcb_SDENTRY × Nat))) :
    Nat → lcb_SDENTRY → Nat → Option (Except Fault (List lcb_SDENTRY × Nat))
  | 0, _, _ => none
  | fuel + 1, ent, iter =>
    match next ent iter with
    | Except.error f => some (Except.error f)
    | Except.ok none => some (Except.ok ([], iter))
    | Except.ok (some (ent1, iter1)) =>
      match sd_iterate next fuel ent1 iter1 with
      | none => none
      | some (Except.error f) => some (Except.error f)
      | some (Except.ok (es, last)) => some (Except.ok (ent1 :: es, last))

/-! ## Results, pipelines and what is declared outside `src/` -/

/-- `lcb_STORE_OPERATION` -/
inductive lcb_STORE_OPERATION where
  | LCB_STORE_UPSERT
  | LCB_STORE_INSERT
  | LCB_STORE_REPLACE
  | LCB_STORE_APPEND
  | LCB_STORE_PREPEND
  deriving DecidableEq, Repr

open lcb_STORE_OPERATION

/-- A `const char *` field of a result together with its length field (`scope` with
`scope_len`, `collection` with `collection_len`): a null pointer with length 0; the
characters of storage that is alive while the result is handed on; the characters
of a `std::string` that is local to a block which is still open; or a pointer into
the buffer of a `std::string` that has been destroyed, of which only the length
field still says something (reading through the pointer is undefined). -/
inductive StrPtr where
  | null
  | live (s : List Char)
  | in_block (s : List Char)
  | dangling (len : Nat)
  deriving DecidableEq, Repr

/-- What the pointer is worth once the block that owns the `std::string` is left:
the string is destroyed at the closing brace, so a pointer into its buffer dangles
from there on; the length field keeps its value. -/
def StrPtr.block_closed : StrPtr → StrPtr
  | StrPtr.in_block s => StrPtr.dangling s.length
  | p => p

/-- The result types `lcb_RESPGET`, `lcb_RESPSTORE`, ... of the builders, as one
record: the fields of their common prefix (`ctx`, `cookie`, `rflags`; a string with
its length field is a list, `key` keeps `key_len` apart, `scope` and `collection`
are pointers with their length, see `StrPtr`) and the fields that a
builder of `handler.cc` assigns; the sub-document fields are those of
`lcb_RESPSUBDOC`.  A builder leaves the fields of the other result types as
value-initialisation made them (`op = none` is the zero of `lcb_STORE_OPERATION`). -/
structure lcb_RESP extends lcb_RESPSUBDOC where
  cookie : Option Nat := none
  status_code : Nat := 0
  cas : Nat := 0
  key : Option (List Byte) := none
  key_len : Nat := 0
  bucket : Option (List Char) := none
  endpoint : List Char := []
  endpoint_len : Nat := 0
  scope : StrPtr := StrPtr.null
  collection : StrPtr := StrPtr.null
  value : Option (List Byte) := none
  nvalue : Nat := 0
  datatype : Nat := 0
  itmflags : Nat := 0
  deleted : Nat := 0
  flags : Nat := 0
  expiry : Nat := 0
  seqno : Nat := 0
  counter : Nat := 0
  op : Option lcb_STORE_OPERATION := none
  status : Nat := 0
  ismaster : Bool := false
  ttp : Nat := 0
  ttr : Nat := 0
  server_index : Int := 0
  vbid : Nat := 0
  cur_uuid : Nat := 0
  persisted_seqno : Nat := 0
  mem_seqno : Nat := 0
  old_uuid : Nat := 0
  old_seqno : Nat := 0
  manifest_id : Nat := 0
  collection_id : Nat := 0
  deriving DecidableEq, Repr

/-- A value-initialised result (`T resp{}`). -/
def lcb_RESP.zero : lcb_RESP :=
  { rc := LCB_SUCCESS, rflags := 0, responses := none, res := none, nres := 0 }

/-- `ResponsePack<T>` (handler.cc:36): the result, the mutation token and the
payload and strings of the enhanced error info. -/
structure ResponsePack where
  resp : lcb_RESP
  mt : lcb_MUTATION_TOKEN
  value : Option (List Byte)
  nvalue : Nat
  err_ref : Option String
  err_ctx : Option String
  deriving DecidableEq, Repr

/-- A value-initialised pack (`ResponsePack<T> w{}`). -/
def ResponsePack.zero : ResponsePack :=
  { resp := lcb_RESP.zero, mt := { uuid_ := 0, seqno_ := 0, vbid_ := 0 },
    value := none, nvalue := 0, err_ref := none, err_ctx := none }

/-- The object behind the result pointer that a builder hands out: a plain result,
or a result that is the first member of a `ResponsePack` (whose token and error
info the queries reach through the same pointer). -/
inductive Result where
  | plain (resp : lcb_RESP)
  | packed (w : ResponsePack)
  deriving DecidableEq, Repr

/-- The result itself. -/
def Result.resp : Result → lcb_RESP
  | Result.plain r => r
  | Result.packed w => w.resp

/-- An assignment to fields of the result, the rest of the object staying as it is. -/
def Result.update (f : lcb_RESP → lcb_RESP) : Result → Result
  | Result.plain r => Result.plain (f r)
  | Result.packed w => Result.packed { w with resp := f w.resp }

/-- Functions and macros that `handler.cc` calls and that are declared outside
`src/`, as parameters: the request accessors `MCREQ_PKT_COOKIE`, `mcreq_get_key`,
`mcreq_get_cid`, the opcode that `mcreq_read_hdr` reads, the pointer
`request->u_rdata.exdata` (`none` is null, a number identifies the
`procs->handler` behind it); `MemcachedResponse::key()`; the codec
`mcreq_inflate_value` (`none`: nothing is assigned); `leb128_decode` (the number of
bytes of the collection-id prefix); the macro `LCB_ERROR_IS_SUBDOC`; and
`MemcachedResponse::parse_enhanced_error`, from the payload, its length and the
two strings before the call to the returned status and the two strings after. -/
structure Externals where
  MCREQ_PKT_COOKIE : mc_PACKET → Nat
  mcreq_get_key : Option lcb_INSTANCE → mc_PACKET → List Byte
  mcreq_get_cid : Option lcb_INSTANCE → mc_PACKET → Nat
  mcreq_read_hdr : mc_PACKET → Nat
  exdata : mc_PACKET → Option Nat
  key : MemcachedResponse → List Byte
  mcreq_inflate_value : List Byte → Option (List Byte)
  leb128_decode : List Byte → Nat
  LCB_ERROR_IS_SUBDOC : lcb_STATUS → Bool
  parse_enhanced_error :
    Option (List Byte) → Nat → Option String → Option String →
      lcb_STATUS × Option String × Option String

/-- `lcb_host_t`: host and port strings and the IPv6 mark. -/
structure lcb_host_t where
  host : List Char
  port : List Char
  ipv6 : Bool
  deriving DecidableEq, Repr

/-- The command queue a pipeline belongs to: `cqdata` (the owning instance, `none`
is null) and `config`, read only through `lcbvb_vbmaster(config, vb)`. -/
structure mc_CMDQUEUE where
  cqdata : Option lcb_INSTANCE
  vbmaster : Nat → Int

/-- `mc_PIPELINE` seen as the `lcb::Server` it is cast to: `parent` (`none` is
null), `index`, `curhost` and the instance that `lcb::Server::get_instance()`
returns. -/
structure mc_PIPELINE where
  parent : Option mc_CMDQUEUE
  index : Int
  curhost : Option lcb_host_t
  server_instance : Option lcb_INSTANCE

/-- The last argument of a `procs->handler` call: a null pointer, a result, or the
response packet itself. -/
inductive HandlerArg where
  | null
  | resp (r : Result)
  | packet (r : MemcachedResponse)
  deriving DecidableEq, Repr

/-- One call that hands a result to the caller's code: the callback `fn` found by
`find_callback`, the callback stored behind the request's cookie, the
`procs->handler` of the extended request data, or `callbacks.pktfwd`; each with
the arguments of the call. -/
inductive Delivery where
  | callback (fn : Nat) (inst : lcb_INSTANCE) (cbtype : lcb_CALLBACK_TYPE) (resp : Result)
  | cookie_callback (cookie : Nat) (inst : Option lcb_INSTANCE) (cbtype : lcb_CALLBACK_TYPE)
      (resp : Result)
  | handler (exdata : Nat) (rc : lcb_STATUS) (arg : HandlerArg)
  | pktfwd (inst : lcb_INSTANCE) (cookie : Nat) (immerr : lcb_STATUS) (version : Nat)

/-- What a builder leaves behind: the instance (with its token table) and the
deliveries it made, in order. -/
structure Outcome where
  inst : Option lcb_INSTANCE
  deliveries : List Delivery

/-! ## Callback lookup and delivery -/

/-- `find_callback` (handler.cc:223) -/
def find_callback (inst : lcb_INSTANCE) (type : lcb_CALLBACK_TYPE) : Nat :=
  match inst.v3callbacks type with
  | some cb => cb
  | none => inst.lcb_find_callback type

/-- `get_instance` (handler.cc:364) -/
def get_instance (pipeline : mc_PIPELINE) : Option lcb_INSTANCE :=
  match pipeline.parent with
  | none => none
  | some cq => cq.cqdata

/-- `std::string::find(c)`: the position of the first `c`, `none` for `npos`. -/
def str_find (c : Char) : List Char → Option Nat
  | [] => none
  | x :: xs => if x = c then some 0 else (str_find c xs).map (· + 1)

/-- Lines 377-386 of `invoke_callback`, inside the block
`if (instance != nullptr) { ... }`: scope and collection of the result are pointed
into the buffer of the block-local `std::string collection_path`, split at its
first `'.'`. -/
def set_collection_path (X : Externals) (pkt : mc_PACKET) (inst : Option lcb_INSTANCE)
    (resp : lcb_RESP) : lcb_RESP :=
  match inst with
  | none => resp
  | some i =>
    let collection_path := i.id_to_name (X.mcreq_get_cid inst pkt)
    if collection_path ≠ [] then
      match str_find '.' collection_path with
      | some dot =>
        { resp with scope := StrPtr.in_block (collection_path.take dot),
                    collection := StrPtr.in_block (collection_path.drop (dot + 1)) }
      | none => resp
    else resp

/-- Lines 376-387 of `invoke_callback`, the block `if (instance != nullptr) { ... }`
as a whole: what `set_collection_path` assigned, and then the closing brace at line
387, where `collection_path` is destroyed while the result still points into it. -/
def collection_path_block (X : Externals) (pkt : mc_PACKET) (inst : Option lcb_INSTANCE)
    (resp : lcb_RESP) : lcb_RESP :=
  match inst with
  | none => resp
  | some _ =>
    let resp1 := set_collection_path X pkt inst resp
    { resp1 with scope := resp1.scope.block_closed,
                 collection := resp1.collection.block_closed }

/-- `invoke_callback` (handler.cc:373): the calls it makes, each with the result as
it is when the call is made, that is after the block of lines 376-387 is left. -/
def invoke_callback (K : Headers) (X : Externals) (pkt : mc_PACKET)
    (inst : Option lcb_INSTANCE) (resp : Result) (cbtype : lcb_CALLBACK_TYPE) :
    List Delivery :=
  let resp1 := resp.update (collection_path_block X pkt inst)
  if (pkt.flags &&& K.REQ_F.INVOKED) = 0 then
    let resp2 := resp1.update (fun r => { r with cookie := some (X.MCREQ_PKT_COOKIE pkt) })
    if (pkt.flags &&& K.REQ_F.PRIVCALLBACK) = 0 then
      match inst with
      | some i => [Delivery.callback (find_callback i cbtype) i cbtype resp2]
      | none => []
    else [Delivery.cookie_callback (X.MCREQ_PKT_COOKIE pkt) inst cbtype resp2]
  else []

/-- A call `rd->procs->handler(pipeline, request, rc, arg)` through the extended
request data of the request. -/
def call_handler (X : Externals) (request : mc_PACKET) (rc : lcb_STATUS) (arg : HandlerArg) :
    Except Fault (List Delivery) :=
  match X.exdata request with
  | some rd => Except.ok [Delivery.handler rd rc arg]
  | none => Except.error Fault.null_deref

/-! ## Enhanced error info and the token query -/

/-- `handle_error_info` (handler.cc:277) -/
def handle_error_info (K : Headers) (mc_resp : MemcachedResponse) (rp : ResponsePack) :
    ResponsePack :=
  if mc_resp.status ≠ K.RESPONSE.SUCCESS ∧ (mc_resp.datatype &&& K.DATATYPE.JSON) ≠ 0 ∧
      mc_resp.vallen > 0 then
    { rp with resp := { rp.resp with rflags := rp.resp.rflags ||| K.RESP_F.ERRINFO },
              value := some mc_resp.value,
              nvalue := mc_resp.vallen }
  else rp

/-- The update `flags &= ~mask`. -/
def clear_flag (flags mask : Nat) : Nat := flags ^^^ (flags &&& mask)

/-- `ResponsePack::parse_enhanced_error` (handler.cc:88) -/
def ResponsePack.parse_enhanced_error (K : Headers) (X : Externals) (rp : ResponsePack) :
    ResponsePack :=
  let out := X.parse_enhanced_error rp.value rp.nvalue rp.err_ref rp.err_ctx
  let mrp := { rp with err_ref := out.2.1, err_ctx := out.2.2 }
  if out.1 ≠ LCB_SUCCESS then
    { mrp with resp := { mrp.resp with rflags := clear_flag mrp.resp.rflags K.RESP_F.ERRINFO } }
  else mrp

/-- `ResponsePack::get_err_ctx` (handler.cc:59): the returned string, the pack
after the call and the number of calls of the parser. -/
def ResponsePack.get_err_ctx (K : Headers) (X : Externals) (rp : ResponsePack) :
    Option String × ResponsePack × Nat :=
  if (rp.resp.rflags &&& K.RESP_F.ERRINFO) ≠ 0 then
    if rp.err_ctx.isSome then (rp.err_ctx, rp, 0)
    else
      let rp1 := rp.parse_enhanced_error K X
      (rp1.err_ctx, rp1, 1)
  else (none, rp, 0)

/-- `ResponsePack::get_err_ref` (handler.cc:73): the returned string, the pack
after the call and the number of calls of the parser. -/
def ResponsePack.get_err_ref (K : Headers) (X : Externals) (rp : ResponsePack) :
    Option String × ResponsePack × Nat :=
  if (rp.resp.rflags &&& K.RESP_F.ERRINFO) ≠ 0 then
    if rp.err_ref.isSome then (rp.err_ref, rp, 0)
    else
      let rp1 := rp.parse_enhanced_error K X
      (rp1.err_ref, rp1, 1)
  else (none, rp, 0)

/-- The callback types of the list `ERRINFO_CALLBACKS` (handler.cc:1186). -/
def ERRINFO_CALLBACKS : List lcb_CALLBACK_TYPE :=
  [LCB_CALLBACK_GET, LCB_CALLBACK_STORE, LCB_CALLBACK_COUNTER, LCB_CALLBACK_TOUCH,
   LCB_CALLBACK_REMOVE, LCB_CALLBACK_UNLOCK, LCB_CALLBACK_SDLOOKUP, LCB_CALLBACK_SDMUTATE]

/-- `lcb_resp_get_error_context` (handler.cc:1197) -/
def lcb_resp_get_error_context (K : Headers) (X : Externals) (cbtype : lcb_CALLBACK_TYPE)
    (rb : ResponsePack) : Option String × ResponsePack × Nat :=
  if (rb.resp.rflags &&& K.RESP_F.ERRINFO) = 0 then (none, rb, 0)
  else if cbtype ∈ ERRINFO_CALLBACKS then rb.get_err_ctx K X
  else (none, rb, 0)

/-- `lcb_resp_get_error_ref` (handler.cc:1213) -/
def lcb_resp_get_error_ref (K : Headers) (X : Externals) (cbtype : lcb_CALLBACK_TYPE)
    (rb : ResponsePack) : Option String × ResponsePack × Nat :=
  if (rb.resp.rflags &&& K.RESP_F.ERRINFO) = 0 then (none, rb, 0)
  else if cbtype ∈ ERRINFO_CALLBACKS then rb.get_err_ref K X
  else (none, rb, 0)

/-- `lcb_resp_get_mutation_token` (handler.cc:1152); `none` is the null pointer. -/
def lcb_resp_get_mutation_token (K : Headers) (cbtype : lcb_CALLBACK_TYPE) (rb : ResponsePack) :
    Option lcb_MUTATION_TOKEN :=
  if (rb.resp.rflags &&& K.RESP_F.EXTDATA) = 0 then none
  else if cbtype = LCB_CALLBACK_STORE ∨ cbtype = LCB_CALLBACK_COUNTER ∨
      cbtype = LCB_CALLBACK_REMOVE ∨ cbtype = LCB_CALLBACK_SDMUTATE then
    if rb.mt.uuid_ = 0 ∧ rb.mt.seqno_ = 0 then none else some rb.mt
  else none

/-! ## Response builders -/

/-- The endpoint string that `init_resp` writes for the current host
(handler.cc:306-321). -/
def format_endpoint (remote : lcb_host_t) : List Char :=
  (if remote.ipv6 then ['['] else []) ++ remote.host ++ (if remote.ipv6 then [']'] else []) ++
    [':'] ++ remote.port

/-- `init_resp` (handler.cc:288).  `ctx.opaque` is copied through and not kept
here.  `endpoint_len` is `ptr - resp->ctx.endpoint - 1`, `ptr` standing one past
the terminating NUL. -/
def init_resp (K : Headers) (X : Externals) (inst : Option lcb_INSTANCE)
    (pipeline : mc_PIPELINE) (mc_resp : MemcachedResponse) (req : mc_PACKET)
    (immerr : lcb_STATUS) (resp : lcb_RESP) : lcb_RESP :=
  let base := make_error K inst resp.tolcb_RESPBASE mc_resp immerr req
  let resp1 := { resp with rc := base.rc, rflags := base.rflags,
                           status_code := mc_resp.status, cas := mc_resp.cas }
  let resp2 :=
    match inst with
    | some i => { resp1 with bucket := some i.bname }
    | none => resp1
  let resp3 := { resp2 with cookie := some (X.MCREQ_PKT_COOKIE req),
                            key := some (X.mcreq_get_key inst req),
                            key_len := (X.mcreq_get_key inst req).length }
  match pipeline.curhost with
  | some remote =>
    { resp3 with endpoint := format_endpoint remote,
                 endpoint_len := ((format_endpoint remote).length + 1) - 1 }
  | none => resp3

/-- `maybe_decompress` (handler.cc:417).  `LCBT_SETTING(o, compressopts)` reads
through the instance pointer. -/
def maybe_decompress (K : Headers) (X : Externals) (o : Option lcb_INSTANCE)
    (respkt : MemcachedResponse) (rescmd : lcb_RESP) : Except Fault lcb_RESP :=
  if respkt.vallen = 0 then Except.ok rescmd
  else
    let dtype := if (respkt.datatype &&& K.DATATYPE.JSON) ≠ 0 then K.VALUE_F.JSON else 0
    if (respkt.datatype &&& K.DATATYPE.COMPRESSED) ≠ 0 then
      match o with
      | none => Except.error Fault.null_deref
      | some i =>
        if (i.compressopts &&& K.COMPRESS_IN) ≠ 0 then
          match X.mcreq_inflate_value respkt.value with
          | some v => Except.ok { rescmd with value := some v, nvalue := v.length, datatype := dtype }
          | none => Except.ok { rescmd with datatype := dtype }
        else Except.ok { rescmd with datatype := dtype ||| K.VALUE_F.SNAPPYCOMP }
    else Except.ok { rescmd with datatype := dtype }

/-- Lines 451-460 of `H_get` (the same in `H_getreplica`): on success the value,
datatype and, when the extras are exactly 4 bytes, the item flags; the buffer
handle `bufh` is copied through and not kept here. -/
def get_payload (host : Endian) (response : MemcachedResponse) (resp : lcb_RESP) : lcb_RESP :=
  if resp.rc = LCB_SUCCESS then
    let r := { resp with datatype := response.datatype, value := some response.value,
                         nvalue := response.vallen }
    if response.extlen = 4 then { r with itmflags := ntohl host (memcpy_uint host response.ext) }
    else r
  else resp

/-- `H_get` (handler.cc:441) -/
def H_get (K : Headers) (X : Externals) (host : Endian) (pipeline : mc_PIPELINE)
    (request : mc_PACKET) (response : MemcachedResponse) (immerr : lcb_STATUS) :
    Except Fault Outcome :=
  let o := get_instance pipeline
  let w := { ResponsePack.zero with
    resp := init_resp K X o pipeline response request immerr ResponsePack.zero.resp }
  let w := handle_error_info K response w
  let resp := { w.resp with rflags := w.resp.rflags ||| K.RESP_F.FINAL }
  let resp := get_payload host response resp
  match maybe_decompress K X o response resp with
  | Except.error f => Except.error f
  | Except.ok resp =>
    Except.ok { inst := o,
                deliveries := invoke_callback K X request o
                  (Result.packed { w with resp := resp }) LCB_CALLBACK_GET }

/-- `H_exists` (handler.cc:470) -/
def H_exists (K : Headers) (X : Externals) (host : Endian) (pipeline : mc_PIPELINE)
    (request : mc_PACKET) (response : MemcachedResponse) (immerr : lcb_STATUS) :
    Except Fault Outcome :=
  let root := get_instance pipeline
  let resp := init_resp K X root pipeline response request immerr lcb_RESP.zero
  let resp := { resp with cookie := some (X.MCREQ_PKT_COOKIE request),
                          rflags := resp.rflags ||| K.RESP_F.FINAL }
  let resp :=
    if resp.rc = LCB_SUCCESS ∧ response.extlen = 4 * 3 + 8 then
      { resp with
        deleted := ntohl host (memcpy_uint host ((response.ext.drop 0).take 4)),
        flags := ntohl host (memcpy_uint host ((response.ext.drop 4).take 4)),
        expiry := ntohl host (memcpy_uint host ((response.ext.drop 8).take 4)),
        seqno := lcb_ntohll host (memcpy_uint host ((response.ext.drop 12).take 8)) }
    else resp
  Except.ok { inst := root,
              deliveries := invoke_callback K X request root (Result.plain resp)
                LCB_CALLBACK_EXISTS }

/-- `H_getreplica` (handler.cc:498) -/
def H_getreplica (K : Headers) (X : Externals) (host : Endian) (pipeline : mc_PIPELINE)
    (request : mc_PACKET) (response : MemcachedResponse) (immerr : lcb_STATUS) :
    Except Fault Outcome :=
  let inst := get_instance pipeline
  let w := { ResponsePack.zero with
    resp := init_resp K X inst pipeline response request immerr ResponsePack.zero.resp }
  let w := handle_error_info K response w
  let resp := get_payload host response w.resp
  match maybe_decompress K X inst response resp with
  | Except.error f => Except.error f
  | Except.ok resp =>
    match call_handler X request resp.rc
        (HandlerArg.resp (Result.packed { w with resp := resp })) with
    | Except.error f => Except.error f
    | Except.ok ds => Except.ok { inst := inst, deliveries := ds }

/-- The call `lcb_sdresult_parse(&w.resp, cbtype)` on the result of a pack. -/
def ResponsePack.sdresult_parse (K : Headers) (host : Endian) (fuel : Nat) (ent0 : lcb_SDENTRY)
    (w : ResponsePack) (cbtype : lcb_CALLBACK_TYPE) : Option (Except Fault ResponsePack) :=
  match lcb_sdresult_parse K host fuel ent0 w.resp.tolcb_RESPSUBDOC cbtype with
  | none => none
  | some (Except.error f) => some (Except.error f)
  | some (Except.ok sd) => some (Except.ok { w with resp := { w.resp with tolcb_RESPSUBDOC := sd } })

/-- Lines 558-573 of `H_subdoc`: the `switch` that picks the callback type and, for
mutations, adds the mutation token and the flag `LCB_RESP_F_EXTDATA`. -/
def H_subdoc_token (K : Headers) (host : Endian) (o : Option lcb_INSTANCE)
    (response : MemcachedResponse) (request : mc_PACKET) (w : ResponsePack) :
    Except Fault (Option lcb_INSTANCE × ResponsePack × lcb_CALLBACK_TYPE) :=
  if response.opcode = K.CMD.SUBDOC_GET ∨ response.opcode = K.CMD.SUBDOC_EXISTS ∨
      response.opcode = K.CMD.SUBDOC_GET_COUNT ∨
      response.opcode = K.CMD.SUBDOC_MULTI_LOOKUP then
    Except.ok (o, w, LCB_CALLBACK_SDLOOKUP)
  else
    match handle_mutation_token host o response request w.mt with
    | Except.error f => Except.error f
    | Except.ok (o1, mt) =>
      Except.ok (o1,
        { w with mt := mt,
                 resp := { w.resp with rflags := w.resp.rflags ||| K.RESP_F.EXTDATA } },
        LCB_CALLBACK_SDMUTATE)

/-- Lines 575-592 of `H_subdoc`: the entries (or the error info) of a multi-path and
of a single-path response. -/
def H_subdoc_entries (K : Headers) (X : Externals) (host : Endian) (fuel : Nat)
    (ent0 : lcb_SDENTRY) (request : mc_PACKET) (response : MemcachedResponse)
    (w : ResponsePack) (cbtype : lcb_CALLBACK_TYPE) : Option (Except Fault ResponsePack) :=
  if response.opcode = K.CMD.SUBDOC_MULTI_LOOKUP ∨
      response.opcode = K.CMD.SUBDOC_MULTI_MUTATION then
    if w.resp.rc = LCB_SUCCESS then
      ResponsePack.sdresult_parse K host fuel ent0
        { w with resp := { w.resp with responses := some response,
                                       nres := request.nsubreq } } cbtype
    else some (Except.ok (handle_error_info K response w))
  else
    let w := { w with resp := { w.resp with rflags := w.resp.rflags ||| K.RESP_F.SDSINGLE } }
    if w.resp.rc = LCB_SUCCESS ∨ X.LCB_ERROR_IS_SUBDOC w.resp.rc = true then
      ResponsePack.sdresult_parse K host fuel ent0
        { w with resp := { w.resp with responses := some response } } cbtype
    else some (Except.ok (handle_error_info K response w))

/-- `H_subdoc` (handler.cc:549).  `fuel` and `ent0` are those of
`lcb_sdresult_parse`. -/
def H_subdoc (K : Headers) (X : Externals) (host : Endian) (fuel : Nat) (ent0 : lcb_SDENTRY)
    (pipeline : mc_PIPELINE) (request : mc_PACKET) (response : MemcachedResponse)
    (immerr : lcb_STATUS) : Option (Except Fault Outcome) :=
  let o := get_instance pipeline
  let w := { ResponsePack.zero with
    resp := init_resp K X o pipeline response request immerr ResponsePack.zero.resp }
  let w := { w with resp := { w.resp with rflags := w.resp.rflags ||| K.RESP_F.FINAL,
                                          res := none } }
  match H_subdoc_token K host o response request w with
  | Except.error f => some (Except.error f)
  | Except.ok (o1, w, cbtype) =>
    match H_subdoc_entries K X host fuel ent0 request response w cbtype with
    | none => none
    | some (Except.error f) => some (Except.error f)
    | some (Except.ok w) =>
      some (Except.ok { inst := o1,
                        deliveries := invoke_callback K X request o1 (Result.packed w) cbtype })

/-- `H_delete` (handler.cc:711) -/
def H_delete (K : Headers) (X : Externals) (host : Endian) (pipeline : mc_PIPELINE)
    (packet : mc_PACKET) (response : MemcachedResponse) (immerr : lcb_STATUS) :
    Except Fault Outcome :=
  let root := get_instance pipeline
  let w := { ResponsePack.zero with
    resp := { ResponsePack.zero.resp with
      rflags := ResponsePack.zero.resp.rflags ||| (K.RESP_F.EXTDATA ||| K.RESP_F.FINAL) } }
  let w := { w with resp := init_resp K X root pipeline response packet immerr w.resp }
  let w := handle_error_info K response w
  match handle_mutation_token host root response packet w.mt with
  | Except.error f => Except.error f
  | Except.ok (root1, mt) =>
    Except.ok { inst := root1,
                deliveries := invoke_callback K X packet root1
                  (Result.packed { w with mt := mt }) LCB_CALLBACK_REMOVE }

/-- The bytes of a `w`-byte unsigned integer `x` as they lie in the host's memory. -/
def mem_bytes (host : Endian) (w x : Nat) : List Byte :=
  match host with
  | Endian.little => encodeLE w x
  | Endian.big => encodeBE w x

/-- `lcb_htonll`: the same byte swap as `lcb_ntohll`. -/
def lcb_htonll (host : Endian) (x : Nat) : Nat := ntoh host 8 x

/-- The `for` loop of `H_observe` (handler.cc:758-794), for at most `fuel`
records, from offset `ptr` of the value; `none` means the fuel ran out. -/
def H_observe_loop (K : Headers) (X : Externals) (host : Endian) (pipeline : mc_PIPELINE)
    (request : mc_PACKET) (response : MemcachedResponse) (root : Option lcb_INSTANCE)
    (config : mc_CMDQUEUE) (ttp ttr : Nat) :
    Nat → Nat → lcb_RESP → Option (Except Fault (List Delivery))
  | 0, _, _ => none
  | fuel + 1, ptr, resp =>
    if ptr < response.vallen then
      match readBytes response.value ptr 2, readBytes response.value (ptr + 2) 2 with
      | Except.error f, _ => some (Except.error f)
      | Except.ok _, Except.error f => some (Except.error f)
      | Except.ok bvb, Except.ok bnkey =>
        let vb := ntohs host (memcpy_uint host bvb)
        let nkey := ntohs host (memcpy_uint host bnkey)
        let key := (response.value.drop (ptr + 4)).take nkey
        match readBytes response.value (ptr + 4 + nkey) 1,
            readBytes response.value (ptr + 4 + nkey + 1) 8 with
        | Except.error f, _ => some (Except.error f)
        | Except.ok _, Except.error f => some (Except.error f)
        | Except.ok bobs, Except.ok bcas =>
          let obs := decodeBE bobs
          let cas := memcpy_uint host bcas
          match root with
          | none => some (Except.error Fault.null_deref)
          | some r =>
            let ncid := if r.use_collections then X.leb128_decode key else 0
            let resp1 :=
              { resp with key := some (key.drop ncid),
                          key_len := (((nkey : Int) - (ncid : Int)) % 2 ^ 64).toNat,
                          cas := lcb_ntohll host cas,
                          status := obs,
                          ismaster := decide (pipeline.index = config.vbmaster vb),
                          ttp := ttp,
                          ttr := ttr }
            let call : Except Fault (List Delivery) :=
              if (request.flags &&& K.REQ_F.INVOKED) = 0 then
                call_handler X request resp1.rc (HandlerArg.resp (Result.plain resp1))
              else Except.ok []
            match call with
            | Except.error f => some (Except.error f)
            | Except.ok ds =>
              match H_observe_loop K X host pipeline request response root config ttp ttr
                  fuel (ptr + 4 + nkey + 1 + 8) resp1 with
              | none => none
              | some (Except.error f) => some (Except.error f)
              | some (Except.ok rest) => some (Except.ok (ds ++ rest))
    else some (Except.ok [])

/-- `H_observe` (handler.cc:724) -/
def H_observe (K : Headers) (X : Externals) (host : Endian) (fuel : Nat)
    (pipeline : mc_PIPELINE) (request : mc_PACKET) (response : MemcachedResponse)
    (immerr : lcb_STATUS) : Option (Except Fault Outcome) :=
  let root := get_instance pipeline
  let base := make_error K root lcb_RESP.zero.tolcb_RESPBASE response immerr request
  let resp : lcb_RESP := { lcb_RESP.zero with rc := base.rc, rflags := base.rflags }
  if resp.rc ≠ LCB_SUCCESS then
    if (request.flags &&& K.REQ_F.INVOKED) = 0 then
      match call_handler X request resp.rc HandlerArg.null with
      | Except.error f => some (Except.error f)
      | Except.ok ds => some (Except.ok { inst := root, deliveries := ds })
    else some (Except.ok { inst := root, deliveries := [] })
  else
    let tmpcas := mem_bytes host 8 (lcb_htonll host response.cas)
    let ttp := ntohl host (memcpy_uint host (tmpcas.take 4))
    let ttr := ntohl host (memcpy_uint host ((tmpcas.drop 4).take 4))
    match pipeline.parent with
    | none => some (Except.error Fault.null_deref)
    | some config =>
      match H_observe_loop K X host pipeline request response root config ttp ttr fuel 0
          resp with
      | none => none
      | some (Except.error f) => some (Except.error f)
      | some (Except.ok ds) => some (Except.ok { inst := root, deliveries := ds })

/-- Lines 805-827 of `H_observe_seqno`: the fixed record of a successful response. -/
def observe_seqno_payload (host : Endian) (response : MemcachedResponse) (resp : lcb_RESP) :
    Except Fault lcb_RESP := do
  let b0 ← readBytes response.value 0 1
  let is_failover := decodeBE b0 ≠ 0
  let bvbid ← readBytes response.value 1 2
  let bcur ← readBytes response.value 3 8
  let bpers ← readBytes response.value 11 8
  let bmem ← readBytes response.value 19 8
  let resp1 :=
    { resp with vbid := ntohs host (memcpy_uint host bvbid),
                cur_uuid := lcb_ntohll host (memcpy_uint host bcur),
                persisted_seqno := lcb_ntohll host (memcpy_uint host bpers),
                mem_seqno := lcb_ntohll host (memcpy_uint host bmem) }
  if is_failover then do
    let bou ← readBytes response.value 27 8
    let bos ← readBytes response.value 35 8
    pure { resp1 with old_uuid := lcb_ntohll host (memcpy_uint host bou),
                      old_seqno := lcb_ntohll host (memcpy_uint host bos) }
  else pure resp1

/-- `H_observe_seqno` (handler.cc:797) -/
def H_observe_seqno (K : Headers) (X : Externals) (host : Endian) (pipeline : mc_PIPELINE)
    (request : mc_PACKET) (response : MemcachedResponse) (immerr : lcb_STATUS) :
    Except Fault Outcome :=
  let root := get_instance pipeline
  let resp := init_resp K X root pipeline response request immerr lcb_RESP.zero
  let resp := { resp with server_index := pipeline.index }
  let decoded : Except Fault lcb_RESP :=
    if resp.rc = LCB_SUCCESS then observe_seqno_payload host response resp else Except.ok resp
  match decoded with
  | Except.error f => Except.error f
  | Except.ok resp =>
    Except.ok { inst := root,
                deliveries := invoke_callback K X request root (Result.plain resp)
                  LCB_CALLBACK_OBSEQNO }

/-- Lines 846-856 of `H_store`: the store operation named by the opcode; `op` is
left as it was for any other opcode. -/
def store_op (K : Headers) (opcode : Nat) (op : Option lcb_STORE_OPERATION) :
    Option lcb_STORE_OPERATION :=
  if opcode = K.CMD.ADD then some LCB_STORE_INSERT
  else if opcode = K.CMD.REPLACE then some LCB_STORE_REPLACE
  else if opcode = K.CMD.APPEND then some LCB_STORE_APPEND
  else if opcode = K.CMD.PREPEND then some LCB_STORE_PREPEND
  else if opcode = K.CMD.SET then some LCB_STORE_UPSERT
  else op

/-- `H_store` (handler.cc:832) -/
def H_store (K : Headers) (X : Externals) (host : Endian) (pipeline : mc_PIPELINE)
    (request : mc_PACKET) (response : MemcachedResponse) (immerr : lcb_STATUS) :
    Except Fault Outcome :=
  let root := get_instance pipeline
  let w := { ResponsePack.zero with
    resp := init_resp K X root pipeline response request immerr ResponsePack.zero.resp }
  let w := handle_error_info K response w
  let opcode := if immerr = LCB_SUCCESS then response.opcode else X.mcreq_read_hdr request
  let w := { w with resp := { w.resp with
    op := store_op K opcode w.resp.op,
    rflags := w.resp.rflags ||| (K.RESP_F.EXTDATA ||| K.RESP_F.FINAL) } }
  match handle_mutation_token host root response request w.mt with
  | Except.error f => Except.error f
  | Except.ok (root1, mt) =>
    let w := { w with mt := mt }
    if (request.flags &&& K.REQ_F.REQEXT) ≠ 0 then
      match call_handler X request immerr (HandlerArg.resp (Result.packed w)) with
      | Except.error f => Except.error f
      | Except.ok ds => Except.ok { inst := root1, deliveries := ds }
    else
      Except.ok { inst := root1,
                  deliveries := invoke_callback K X request root1 (Result.packed w)
                    LCB_CALLBACK_STORE }

/-- `H_arithmetic` (handler.cc:869) -/
def H_arithmetic (K : Headers) (X : Externals) (host : Endian) (pipeline : mc_PIPELINE)
    (request : mc_PACKET) (response : MemcachedResponse) (immerr : lcb_STATUS) :
    Except Fault Outcome :=
  let root := get_instance pipeline
  let w := { ResponsePack.zero with
    resp := init_resp K X root pipeline response request immerr ResponsePack.zero.resp }
  let step : Except Fault (Option lcb_INSTANCE × ResponsePack) :=
    if w.resp.rc = LCB_SUCCESS then
      match readBytes response.value 0 8 with
      | Except.error f => Except.error f
      | Except.ok b =>
        let w := { w with resp := { w.resp with
          counter := lcb_ntohll host (memcpy_uint host b),
          rflags := w.resp.rflags ||| K.RESP_F.EXTDATA } }
        match handle_mutation_token host root response request w.mt with
        | Except.error f => Except.error f
        | Except.ok (root1, mt) => Except.ok (root1, { w with mt := mt })
    else Except.ok (root, handle_error_info K response w)
  match step with
  | Except.error f => Except.error f
  | Except.ok (root1, w) =>
    let w := { w with resp := { w.resp with rflags := w.resp.rflags ||| K.RESP_F.FINAL,
                                            cas := response.cas } }
    Except.ok { inst := root1,
                deliveries := invoke_callback K X request root1 (Result.packed w)
                  LCB_CALLBACK_COUNTER }

/-- `H_stats` (handler.cc:890) -/
def H_stats (K : Headers) (X : Externals) (pipeline : mc_PIPELINE)
    (request : mc_PACKET) (response : MemcachedResponse) (immerr : lcb_STATUS) :
    Except Fault Outcome :=
  let root := get_instance pipeline
  let base := make_error K root lcb_RESP.zero.tolcb_RESPBASE response immerr request
  let resp : lcb_RESP := { lcb_RESP.zero with rc := base.rc, rflags := base.rflags }
  let call : Except Fault (List Delivery) :=
    if resp.rc ≠ LCB_SUCCESS ∨ (X.key response).length = 0 then
      call_handler X request resp.rc HandlerArg.null
    else
      let resp := { resp with key_len := (X.key response).length,
                              key := some (X.key response),
                              value := some response.value,
                              nvalue := response.vallen }
      call_handler X request resp.rc (HandlerArg.resp (Result.plain resp))
  match call with
  | Except.error f => Except.error f
  | Except.ok ds => Except.ok { inst := root, deliveries := ds }

/-- `H_collections_get_manifest` (handler.cc:916) -/
def H_collections_get_manifest (K : Headers) (X : Externals) (pipeline : mc_PIPELINE)
    (request : mc_PACKET) (response : MemcachedResponse) (immerr : lcb_STATUS) :
    Except Fault Outcome :=
  let root := get_instance pipeline
  let w := { ResponsePack.zero with
    resp := init_resp K X root pipeline response request immerr ResponsePack.zero.resp }
  let w := handle_error_info K response w
  let w := { w with resp := { w.resp with rflags := w.resp.rflags ||| K.RESP_F.FINAL,
                                          value := some response.value,
                                          nvalue := response.vallen } }
  Except.ok { inst := root,
              deliveries := invoke_callback K X request root (Result.packed w)
                LCB_CALLBACK_COLLECTIONS_GET_MANIFEST }

/-- Modelled from the spec: `MemcachedResponse::ext()`, whose class is declared
outside `src/`; the pointer is null when the envelope has no extras. -/
def MemcachedResponse.ext_ptr (r : MemcachedResponse) : Option (List Byte) :=
  if r.ext = [] then none else some r.ext

/-- `strchr(key, '.')` on the key of a result: the position of the first `'.'`,
`none` when a NUL comes first; the scan leaves the key when it holds neither. -/
def strchr_dot : List Byte → Nat → Except Fault (Option Nat)
  | [], pos => Except.error (Fault.oob_read pos)
  | b :: bs, pos =>
    if b.val = 46 then Except.ok (some pos)
    else if b.val = 0 then Except.ok none
    else strchr_dot bs (pos + 1)

/-- The characters of a byte string. -/
def chars_of (bs : List Byte) : List Char := bs.map (fun b => Char.ofNat b.val)

/-- Lines 940-953 of `H_collections_get_cid`: manifest id and collection id of a
successful response; without extras the kind becomes
`LCB_ERR_UNSUPPORTED_OPERATION`. -/
def get_cid_payload (host : Endian) (response : MemcachedResponse) (resp : lcb_RESP) :
    Except Fault lcb_RESP :=
  if resp.rc = LCB_SUCCESS then
    match response.ext_ptr with
    | some ext =>
      match readBytes ext 0 8, readBytes ext 8 4 with
      | Except.error f, _ => Except.error f
      | Except.ok _, Except.error f => Except.error f
      | Except.ok bm, Except.ok bc =>
        Except.ok { resp with manifest_id := lcb_ntohll host (memcpy_uint host bm),
                              collection_id := ntohl host (memcpy_uint host bc) }
    | none =>
      Except.ok { resp with manifest_id := 0, collection_id := 0,
                            rc := LCB_ERR_UNSUPPORTED_OPERATION }
  else Except.ok resp

/-- Lines 956-964 of `H_collections_get_cid`: scope and collection split from the
key at its first `'.'`. -/
def get_cid_scope (resp : lcb_RESP) : Except Fault lcb_RESP :=
  match resp.key with
  | none => Except.ok resp
  | some key =>
    if resp.key_len ≠ 0 then
      match strchr_dot key 0 with
      | Except.error f => Except.error f
      | Except.ok none => Except.ok resp
      | Except.ok (some dot) =>
        Except.ok { resp with scope := StrPtr.live (chars_of (key.take dot)),
                              collection := StrPtr.live (chars_of (key.drop (dot + 1))) }
    else Except.ok resp

/-- `H_collections_get_cid` (handler.cc:930) -/
def H_collections_get_cid (K : Headers) (X : Externals) (host : Endian)
    (pipeline : mc_PIPELINE) (request : mc_PACKET) (response : MemcachedResponse)
    (immerr : lcb_STATUS) : Except Fault Outcome :=
  let root := get_instance pipeline
  let w := { ResponsePack.zero with
    resp := init_resp K X root pipeline response request immerr ResponsePack.zero.resp }
  let w := handle_error_info K response w
  let w := { w with resp := { w.resp with rflags := w.resp.rflags ||| K.RESP_F.FINAL } }
  match get_cid_payload host response w.resp with
  | Except.error f => Except.error f
  | Except.ok resp =>
    if (request.flags &&& K.REQ_F.REQEXT) ≠ 0 then
      match get_cid_scope resp with
      | Except.error f => Except.error f
      | Except.ok resp =>
        match call_handler X request resp.rc
            (HandlerArg.resp (Result.packed { w with resp := resp })) with
        | Except.error f => Except.error f
        | Except.ok ds => Except.ok { inst := root, deliveries := ds }
    else
      Except.ok { inst := root,
                  deliveries := invoke_callback K X request root
                    (Result.packed { w with resp := resp }) LCB_CALLBACK_GETCID }

/-- `H_noop` (handler.cc:971) -/
def H_noop (K : Headers) (X : Externals) (pipeline : mc_PIPELINE)
    (request : mc_PACKET) (response : MemcachedResponse) (immerr : lcb_STATUS) :
    Except Fault Outcome :=
  let root := get_instance pipeline
  let base := make_error K root lcb_RESP.zero.tolcb_RESPBASE response immerr request
  let resp : lcb_RESP := { lcb_RESP.zero with rc := base.rc, rflags := base.rflags }
  match call_handler X request resp.rc (HandlerArg.resp (Result.plain resp)) with
  | Except.error f => Except.error f
  | Except.ok ds => Except.ok { inst := root, deliveries := ds }

/-- `H_touch` (handler.cc:982) -/
def H_touch (K : Headers) (X : Externals) (pipeline : mc_PIPELINE)
    (request : mc_PACKET) (response : MemcachedResponse) (immerr : lcb_STATUS) :
    Except Fault Outcome :=
  let root := get_instance pipeline
  let w := { ResponsePack.zero with
    resp := init_resp K X root pipeline response request immerr ResponsePack.zero.resp }
  let w := handle_error_info K response w
  let w := { w with resp := { w.resp with rflags := w.resp.rflags ||| K.RESP_F.FINAL } }
  Except.ok { inst := root,
              deliveries := invoke_callback K X request root (Result.packed w)
                LCB_CALLBACK_TOUCH }

/-- `H_unlock` (handler.cc:995) -/
def H_unlock (K : Headers) (X : Externals) (pipeline : mc_PIPELINE)
    (request : mc_PACKET) (response : MemcachedResponse) (immerr : lcb_STATUS) :
    Except Fault Outcome :=
  let root := get_instance pipeline
  let w := { ResponsePack.zero with
    resp := init_resp K X root pipeline response request immerr ResponsePack.zero.resp }
  let w := handle_error_info K response w
  let w := { w with resp := { w.resp with rflags := w.resp.rflags ||| K.RESP_F.FINAL } }
  Except.ok { inst := root,
              deliveries := invoke_callback K X request root (Result.packed w)
                LCB_CALLBACK_UNLOCK }

/-- `H_config` (handler.cc:1008) -/
def H_config (K : Headers) (X : Externals) (pipeline : mc_PIPELINE)
    (request : mc_PACKET) (response : MemcachedResponse) (immerr : lcb_STATUS) :
    Except Fault Outcome :=
  match pipeline.parent with
  | none => Except.ok { inst := get_instance pipeline, deliveries := [] }
  | some _ =>
    let dummy := make_error K (get_instance pipeline) lcb_RESP.zero.tolcb_RESPBASE response
      immerr request
    match call_handler X request dummy.rc (HandlerArg.packet response) with
    | Except.error f => Except.error f
    | Except.ok ds => Except.ok { inst := get_instance pipeline, deliveries := ds }

/-- `H_select_bucket` (handler.cc:1021) -/
def H_select_bucket (K : Headers) (X : Externals) (pipeline : mc_PIPELINE)
    (request : mc_PACKET) (response : MemcachedResponse) (immerr : lcb_STATUS) :
    Except Fault Outcome :=
  match X.exdata request with
  | some rd =>
    let dummy := make_error K (get_instance pipeline) lcb_RESP.zero.tolcb_RESPBASE response
      immerr request
    Except.ok { inst := get_instance pipeline,
                deliveries := [Delivery.handler rd dummy.rc (HandlerArg.packet response)] }
  | none => Except.ok { inst := get_instance pipeline, deliveries := [] }

/-! ## Dispatch -/

/-- `dispatch_ufwd_error` (handler.cc:1051): the call of `callbacks.pktfwd`, after
`lcb_assert(immerr != LCB_SUCCESS)`; the instance is the one of
`lcb::Server::get_instance()`. -/
def dispatch_ufwd_error (X : Externals) (pipeline : mc_PIPELINE) (req : mc_PACKET)
    (immerr : lcb_STATUS) : Except Fault (List Delivery) :=
  if immerr = LCB_SUCCESS then Except.error Fault.assertion
  else
    match pipeline.server_instance with
    | none => Except.error Fault.null_deref
    | some i => Except.ok [Delivery.pktfwd i (X.MCREQ_PKT_COOKIE req) immerr 0]

/-- The response builders of `handler.cc`. -/
inductive Builder where
  | H_get
  | H_store
  | H_arithmetic
  | H_subdoc
  | H_observe
  | H_getreplica
  | H_unlock
  | H_delete
  | H_touch
  | H_observe_seqno
  | H_stats
  | H_noop
  | H_config
  | H_select_bucket
  | H_collections_get_manifest
  | H_collections_get_cid
  | H_exists
  deriving DecidableEq, Repr

/-- The `case` labels of the `switch` in `mcreq_dispatch_response`
(handler.cc:1074-1144), in source order, each with the builder that its
`INVOKE_OP` names. -/
def dispatch_cases (K : Headers) : List (Nat × Builder) :=
  [ (K.CMD.GET, Builder.H_get),
    (K.CMD.GAT, Builder.H_get),
    (K.CMD.GET_LOCKED, Builder.H_get),
    (K.CMD.ADD, Builder.H_store),
    (K.CMD.REPLACE, Builder.H_store),
    (K.CMD.SET, Builder.H_store),
    (K.CMD.APPEND, Builder.H_store),
    (K.CMD.PREPEND, Builder.H_store),
    (K.CMD.INCREMENT, Builder.H_arithmetic),
    (K.CMD.DECREMENT, Builder.H_arithmetic),
    (K.CMD.SUBDOC_GET, Builder.H_subdoc),
    (K.CMD.SUBDOC_EXISTS, Builder.H_subdoc),
    (K.CMD.SUBDOC_ARRAY_ADD_UNIQUE, Builder.H_subdoc),
    (K.CMD.SUBDOC_ARRAY_PUSH_FIRST, Builder.H_subdoc),
    (K.CMD.SUBDOC_ARRAY_PUSH_LAST, Builder.H_subdoc),
    (K.CMD.SUBDOC_ARRAY_INSERT, Builder.H_subdoc),
    (K.CMD.SUBDOC_DICT_ADD, Builder.H_subdoc),
    (K.CMD.SUBDOC_DICT_UPSERT, Builder.H_subdoc),
    (K.CMD.SUBDOC_REPLACE, Builder.H_subdoc),
    (K.CMD.SUBDOC_DELETE, Builder.H_subdoc),
    (K.CMD.SUBDOC_COUNTER, Builder.H_subdoc),
    (K.CMD.SUBDOC_GET_COUNT, Builder.H_subdoc),
    (K.CMD.SUBDOC_MULTI_LOOKUP, Builder.H_subdoc),
    (K.CMD.SUBDOC_MULTI_MUTATION, Builder.H_subdoc),
    (K.CMD.OBSERVE, Builder.H_observe),
    (K.CMD.GET_REPLICA, Builder.H_getreplica),
    (K.CMD.UNLOCK_KEY, Builder.H_unlock),
    (K.CMD.DELETE, Builder.H_delete),
    (K.CMD.TOUCH, Builder.H_touch),
    (K.CMD.OBSERVE_SEQNO, Builder.H_observe_seqno),
    (K.CMD.STAT, Builder.H_stats),
    (K.CMD.NOOP, Builder.H_noop),
    (K.CMD.GET_CLUSTER_CONFIG, Builder.H_config),
    (K.CMD.SELECT_BUCKET, Builder.H_select_bucket),
    (K.CMD.COLLECTIONS_GET_MANIFEST, Builder.H_collections_get_manifest),
    (K.CMD.COLLECTIONS_GET_CID, Builder.H_collections_get_cid),
    (K.CMD.GET_META, Builder.H_exists) ]

/-- The call `handler(pipeline, req, res, immerr)` of `INVOKE_OP` for each builder;
`fuel` and `ent0` are passed to the builders with a loop. -/
def run_builder (K : Headers) (X : Externals) (host : Endian) (fuel : Nat) (ent0 : lcb_SDENTRY)
    (pipeline : mc_PIPELINE) (req : mc_PACKET) (res : MemcachedResponse) (immerr : lcb_STATUS) :
    Builder → Option (Except Fault Outcome)
  | Builder.H_get => some (H_get K X host pipeline req res immerr)
  | Builder.H_store => some (H_store K X host pipeline req res immerr)
  | Builder.H_arithmetic => some (H_arithmetic K X host pipeline req res immerr)
  | Builder.H_subdoc => H_subdoc K X host fuel ent0 pipeline req res immerr
  | Builder.H_observe => H_observe K X host fuel pipeline req res immerr
  | Builder.H_getreplica => some (H_getreplica K X host pipeline req res immerr)
  | Builder.H_unlock => some (H_unlock K X pipeline req res immerr)
  | Builder.H_delete => some (H_delete K X host pipeline req res immerr)
  | Builder.H_touch => some (H_touch K X pipeline req res immerr)
  | Builder.H_observe_seqno => some (H_observe_seqno K X host pipeline req res immerr)
  | Builder.H_stats => some (H_stats K X pipeline req res immerr)
  | Builder.H_noop => some (H_noop K X pipeline req res immerr)
  | Builder.H_config => some (H_config K X pipeline req res immerr)
  | Builder.H_select_bucket => some (H_select_bucket K X pipeline req res immerr)
  | Builder.H_collections_get_manifest =>
    some (H_collections_get_manifest K X pipeline req res immerr)
  | Builder.H_collections_get_cid => some (H_collections_get_cid K X host pipeline req res immerr)
  | Builder.H_exists => some (H_exists K X host pipeline req res immerr)

/-- `mcreq_dispatch_response` (handler.cc:1060): the returned `int` and what the
call left behind.  `record_metrics` only takes timings and is left out. -/
def mcreq_dispatch_response (K : Headers) (X : Externals) (host : Endian) (fuel : Nat)
    (ent0 : lcb_SDENTRY) (pipeline : mc_PIPELINE) (req : mc_PACKET) (res : MemcachedResponse)
    (immerr : lcb_STATUS) : Option (Except Fault (Int × Outcome)) :=
  if (req.flags &&& K.REQ_F.UFWD) ≠ 0 then
    match dispatch_ufwd_error X pipeline req immerr with
    | Except.error f => some (Except.error f)
    | Except.ok ds => some (Except.ok (0, { inst := get_instance pipeline, deliveries := ds }))
  else
    match (dispatch_cases K).find? (fun p => p.1 = res.opcode) with
    | some p =>
      match run_builder K X host fuel ent0 pipeline req res immerr p.2 with
      | none => none
      | some (Except.error f) => some (Except.error f)
      | some (Except.ok out) => some (Except.ok (0, out))
    | none => some (Except.ok (-1, { inst := get_instance pipeline, deliveries := [] }))

/-- The `case` labels of the dispatch `switch` are pairwise distinct constants. -/
def Headers.opcodes_distinct (K : Headers) : Prop :=
  ((dispatch_cases K).map Prod.fst).Nodup

instance (K : Headers) : Decidable K.opcodes_distinct := by
  unfold Headers.opcodes_distinct; infer_instance

/-! ## Record streams, as the wire format words them -/

/-- One record of a multi-path lookup stream: 2-byte big-endian status, 4-byte
big-endian length, then that many value bytes. -/
structure LookupRecord where
  status : Nat
  value : List Byte
  deriving DecidableEq, Repr

/-- Wire image of a lookup record. -/
def LookupRecord.encode (r : LookupRecord) : List Byte :=
  encodeBE 2 r.status ++ encodeBE 4 r.value.length ++ r.value

/-- A lookup record is complete when its status fits 16 bits and its length
field (32 bits) is the number of value bytes. -/
def LookupRecord.complete (r : LookupRecord) : Prop :=
  r.status < 2 ^ 16 ∧ r.value.length < 2 ^ 32

instance (r : LookupRecord) : Decidable r.complete := by
  unfold LookupRecord.complete; infer_instance

/-- One record of a multi-path mutation stream: 1-byte path index, 2-byte
big-endian status and, only when the status is success, a 4-byte big-endian length
with that many value bytes. -/
structure MutateRecord where
  index : Byte
  status : Nat
  value : List Byte
  deriving DecidableEq, Repr

/-- Wire image of a mutation record. -/
def MutateRecord.encode (K : Headers) (r : MutateRecord) : List Byte :=
  [r.index] ++ encodeBE 2 r.status ++
    (if r.status = K.RESPONSE.SUCCESS then encodeBE 4 r.value.length ++ r.value else [])

/-- A mutation record is complete when its status fits 16 bits and its length
field (32 bits) is the number of value bytes. -/
def MutateRecord.complete (r : MutateRecord) : Prop :=
  r.status < 2 ^ 16 ∧ r.value.length < 2 ^ 32

instance (r : MutateRecord) : Decidable r.complete := by
  unfold MutateRecord.complete; infer_instance

/-- The bytes an entry points at: `nvalue` bytes of the value slice from the
entry's offset; nothing for a null pointer. -/
def lcb_SDENTRY.bytes (e : lcb_SDENTRY) (payload : List Byte) : Option (List Byte) :=
  e.value.map (fun off => (payload.drop off).take e.nvalue)

/-! ## A concrete assignment of the constants -/

/-- The status codes of the KV binary protocol, used to evaluate the definitions
on concrete inputs. -/
def kv_status : PROTOCOL_BINARY_RESPONSE :=
  { SUCCESS := 0x00, KEY_ENOENT := 0x01, KEY_EEXISTS := 0x02, E2BIG := 0x03, EINVAL := 0x04,
    NOT_STORED := 0x05, DELTA_BADVAL := 0x06, NOT_MY_VBUCKET := 0x07, NO_BUCKET := 0x08,
    LOCKED := 0x09, AUTH_STALE := 0x1f, AUTH_ERROR := 0x20, AUTH_CONTINUE := 0x21,
    ERANGE := 0x22, EACCESS := 0x24, NOT_INITIALIZED := 0x25, UNKNOWN_COMMAND := 0x81,
    ENOMEM := 0x82, EINTERNAL := 0x84, EBUSY := 0x85, ETMPFAIL := 0x86,
    UNKNOWN_COLLECTION := 0x88, NO_COLLECTIONS_MANIFEST := 0x89,
    CANNOT_APPLY_COLLECTIONS_MANIFEST := 0x8a, COLLECTIONS_MANIFEST_IS_AHEAD := 0x8b,
    UNKNOWN_SCOPE := 0x8c, DURABILITY_INVALID_LEVEL := 0xa0, DURABILITY_IMPOSSIBLE := 0xa1,
    SYNC_WRITE_IN_PROGRESS := 0xa2, SYNC_WRITE_AMBIGUOUS := 0xa3,
    SYNC_WRITE_RE_COMMIT_IN_PROGRESS := 0xa4, SUBDOC_PATH_ENOENT := 0xc0,
    SUBDOC_PATH_MISMATCH := 0xc1, SUBDOC_PATH_EINVAL := 0xc2, SUBDOC_PATH_E2BIG := 0xc3,
    SUBDOC_DOC_E2DEEP := 0xc4, SUBDOC_VALUE_CANTINSERT := 0xc5, SUBDOC_DOC_NOTJSON := 0xc6,
    SUBDOC_NUM_ERANGE := 0xc7, SUBDOC_DELTA_ERANGE := 0xc8, SUBDOC_PATH_EEXISTS := 0xc9,
    SUBDOC_VALUE_ETOODEEP := 0xca, SUBDOC_INVALID_COMBO := 0xcb,
    SUBDOC_MULTI_PATH_FAILURE := 0xcc, SUBDOC_SUCCESS_DELETED := 0xcd,
    SUBDOC_XATTR_INVALID_FLAG_COMBO := 0xce, SUBDOC_XATTR_INVALID_KEY_COMBO := 0xcf,
    SUBDOC_XATTR_UNKNOWN_MACRO := 0xd0, SUBDOC_XATTR_UNKNOWN_VATTR := 0xd1,
    SUBDOC_XATTR_CANT_MODIFY_VATTR := 0xd2, SUBDOC_MULTI_PATH_FAILURE_DELETED := 0xd3,
    SUBDOC_INVALID_XATTR_ORDER := 0xd4 }

/-- The opcodes of the KV binary protocol. -/
def kv_cmd : PROTOCOL_BINARY_CMD :=
  { SUBDOC_GET := 0xc5, SUBDOC_EXISTS := 0xc6, SUBDOC_MULTI_LOOKUP := 0xd0,
    SUBDOC_MULTI_MUTATION := 0xd1, SUBDOC_GET_COUNT := 0xd2,
    GET := 0x00, SET := 0x01, ADD := 0x02, REPLACE := 0x03, DELETE := 0x04,
    INCREMENT := 0x05, DECREMENT := 0x06, NOOP := 0x0a, APPEND := 0x0e, PREPEND := 0x0f,
    STAT := 0x10, TOUCH := 0x1c, GAT := 0x1d, GET_REPLICA := 0x83, SELECT_BUCKET := 0x89,
    OBSERVE_SEQNO := 0x91, OBSERVE := 0x92, GET_LOCKED := 0x94, UNLOCK_KEY := 0x95,
    GET_META := 0xa0, GET_CLUSTER_CONFIG := 0xb5, COLLECTIONS_GET_MANIFEST := 0xba,
    COLLECTIONS_GET_CID := 0xbb, SUBDOC_DICT_ADD := 0xc7, SUBDOC_DICT_UPSERT := 0xc8,
    SUBDOC_DELETE := 0xc9, SUBDOC_REPLACE := 0xca, SUBDOC_ARRAY_PUSH_LAST := 0xcb,
    SUBDOC_ARRAY_PUSH_FIRST := 0xcc, SUBDOC_ARRAY_INSERT := 0xcd,
    SUBDOC_ARRAY_ADD_UNIQUE := 0xce, SUBDOC_COUNTER := 0xcf }

/-- One assignment of the constants, each flag mask a distinct single bit; the
closed statements below evaluate the definitions at it. -/
def kv : Headers :=
  { RESPONSE := kv_status,
    CMD := kv_cmd,
    RESP_F := { FINAL := 0x01, CLIENTGEN := 0x02, EXTDATA := 0x08, SDSINGLE := 0x10,
                ERRINFO := 0x20 },
    REQ_F := { REQEXT := 0x10, UFWD := 0x20, INVOKED := 0x80, PRIVCALLBACK := 0x200,
               REPLACE_SEMANTICS := 0x800 },
    DATATYPE := { JSON := 0x01, COMPRESSED := 0x02 },
    VALUE_F := { JSON := 0x01, SNAPPYCOMP := 0x02 },
    COMPRESS_IN := 0x01 }

/-- One assignment of the external functions, used to evaluate the definitions on
concrete inputs: cookie 7, empty keys, collection id 0, extended request data (with
handler 1) exactly on requests that carry `MCREQ_F_REQEXT`, no inflation, no
collection-id prefix, a parser that rejects every payload, and the sub-document
kinds named in `handler.cc` as the range of `LCB_ERROR_IS_SUBDOC`. -/
def kx : Externals :=
  { MCREQ_PKT_COOKIE := fun _ => 7,
    mcreq_get_key := fun _ _ => [],
    mcreq_get_cid := fun _ _ => 0,
    mcreq_read_hdr := fun _ => 0,
    exdata := fun p => if (p.flags &&& 0x10) ≠ 0 then some 1 else none,
    key := fun _ => [],
    mcreq_inflate_value := fun _ => none,
    leb128_decode := fun _ => 0,
    LCB_ERROR_IS_SUBDOC := fun rc =>
      decide (rc ∈ [LCB_ERR_SUBDOC_PATH_NOT_FOUND, LCB_ERR_SUBDOC_PATH_MISMATCH,
        LCB_ERR_SUBDOC_PATH_INVALID, LCB_ERR_SUBDOC_PATH_TOO_BIG, LCB_ERR_SUBDOC_PATH_TOO_DEEP,
        LCB_ERR_SUBDOC_VALUE_TOO_DEEP, LCB_ERR_SUBDOC_VALUE_INVALID,
        LCB_ERR_SUBDOC_DOCUMENT_NOT_JSON, LCB_ERR_SUBDOC_NUMBER_TOO_BIG,
        LCB_ERR_SUBDOC_DELTA_INVALID, LCB_ERR_SUBDOC_PATH_EXISTS,
        LCB_ERR_SUBDOC_XATTR_INVALID_FLAG_COMBO, LCB_ERR_SUBDOC_XATTR_INVALID_KEY_COMBO,
        LCB_ERR_SUBDOC_XATTR_UNKNOWN_MACRO, LCB_ERR_SUBDOC_XATTR_UNKNOWN_VIRTUAL_ATTRIBUTE,
        LCB_ERR_SUBDOC_XATTR_CANNOT_MODIFY_VIRTUAL_ATTRIBUTE,
        LCB_ERR_SUBDOC_XATTR_INVALID_ORDER]),
    parse_enhanced_error := fun _ _ r c => (LCB_ERR_INVALID_ARGUMENT, r, c) }

/-- A pipeline without parent, host and instance. -/
def detached_pipeline : mc_PIPELINE :=
  { parent := none, index := 0, curhost := none, server_instance := none }

/-- An instance with the default error map, two vbuckets and no token table. -/
def plain_instance : lcb_INSTANCE :=
  { errmap := fun _ => LCB_ERR_KVENGINE_UNKNOWN_ERROR, nvb := 2, dcpinfo := none }

/-- A pipeline of `plain_instance`. -/
def attached_pipeline : mc_PIPELINE :=
  { parent := some { cqdata := some plain_instance, vbmaster := fun _ => 0 },
    index := 0, curhost := none, server_instance := some plain_instance }

/-- What an entry holds, apart from where its value lies: path index, status,
value length and value bytes. -/
def lcb_SDENTRY.content (e : lcb_SDENTRY) (payload : List Byte) :
    Nat × lcb_STATUS × Nat × Option (List Byte) :=
  (e.index, e.status, e.nvalue, e.bytes payload)

/-! ## Definitions used to state the results -/

/-- The token that `handle_mutation_token` decodes from extras of at least 16
bytes, for vbucket `v`. -/
def decoded_token (ext : List Byte) (v : Nat) : lcb_MUTATION_TOKEN :=
  { vbid_ := v, uuid_ := decodeBE (ext.take 8), seqno_ := decodeBE ((ext.drop 8).take 8) }

/-- The instance after `instance->dcpinfo[vbid] = *stok`, when a table is attached. -/
def store_token (inst : Option lcb_INSTANCE) (v : Nat) (tok : lcb_MUTATION_TOKEN) :
    Option lcb_INSTANCE :=
  match inst with
  | none => none
  | some i =>
    match i.dcpinfo with
    | none => some i
    | some table => some { i with dcpinfo := some (table.set v tok) }

/-- The entry `sdlookup_next` leaves for the lookup record `r` found at offset `off`
of the value slice; `idx` is the index field the entry had before (the function
does not assign it). -/
def lookup_entry (K : Headers) (idx off : Nat) (r : LookupRecord) : lcb_SDENTRY :=
  if lcb_map_error K none r.status = LCB_SUCCESS then
    { value := some (off + 6), nvalue := r.value.length,
      status := lcb_map_error K none r.status, index := idx }
  else
    { value := none, nvalue := 0, status := lcb_map_error K none r.status, index := idx }

/-- The entry `sdmutate_next` leaves for the mutation record `r` found at offset
`off` of the value slice. -/
def mutate_entry (K : Headers) (off : Nat) (r : MutateRecord) : lcb_SDENTRY :=
  if r.status = K.RESPONSE.SUCCESS then
    { value := some (off + 7), nvalue := r.value.length,
      status := lcb_map_error K none r.status, index := r.index.val }
  else
    { value := none, nvalue := 0, status := lcb_map_error K none r.status,
      index := r.index.val }

/-- The wire image of a lookup stream: the records' images one after the other. -/
def lookup_stream : List LookupRecord → List Byte
  | [] => []
  | r :: rs => r.encode ++ lookup_stream rs

/-- The wire image of a mutation stream: the records' images one after the other. -/
def mutate_stream (K : Headers) : List MutateRecord → List Byte
  | [] => []
  | r :: rs => r.encode K ++ mutate_stream K rs

/-- The entries `sdlookup_next` produces, call after call, for the records `recs`
of a stream that starts at offset `off`. -/
def lookup_entries (K : Headers) (idx : Nat) : Nat → List LookupRecord → List lcb_SDENTRY
  | _, [] => []
  | off, r :: rs => lookup_entry K idx off r :: lookup_entries K idx (off + r.encode.length) rs

/-- The vector after `results[oix++] = ent` for each entry of `es` in turn. -/
def store_seq : List lcb_SDENTRY → Nat → List lcb_SDENTRY → List lcb_SDENTRY
  | res, _, [] => res
  | res, oix, e :: es => store_seq (res.set oix e) (oix + 1) es

/-- The vector after `results[ent.index] = ent` for the entry of each record of
`recs` in turn, the stream starting at offset `off`. -/
def store_indexed (K : Headers) : List lcb_SDENTRY → Nat → List MutateRecord → List lcb_SDENTRY
  | res, _, [] => res
  | res, off, r :: rs =>
    store_indexed K (res.set r.index.val (mutate_entry K off r)) (off + (r.encode K).length) rs

/-- The entry `e` is the one of the lookup record `r` in `payload`: it has the
mapped status, and it carries the record's value slice when that status is success
and no value otherwise. -/
def LookupRecord.is_entry (K : Headers) (payload : List Byte) (r : LookupRecord)
    (e : lcb_SDENTRY) : Prop :=
  e.status = lcb_map_error K none r.status ∧
  (e.status = LCB_SUCCESS → e.bytes payload = some r.value ∧ e.nvalue = r.value.length) ∧
  (e.status ≠ LCB_SUCCESS → e.value = none ∧ e.nvalue = 0)

/-- The entry `e` is the one of the mutation record `r` in `payload`: it has the
record's path index and mapped status, and it carries the record's value slice when
the wire status is success and no value otherwise. -/
def MutateRecord.is_entry (K : Headers) (payload : List Byte) (r : MutateRecord)
    (e : lcb_SDENTRY) : Prop :=
  e.index = r.index.val ∧ e.status = lcb_map_error K none r.status ∧
  (r.status = K.RESPONSE.SUCCESS →
    e.bytes payload = some r.value ∧ e.nvalue = r.value.length) ∧
  (r.status ≠ K.RESPONSE.SUCCESS → e.value = none ∧ e.nvalue = 0)

/-- The number of calls `invoke_callback` has a target for: one when the request
carries `MCREQ_F_PRIVCALLBACK` or an instance is attached to the pipeline. -/
def callback_targets (K : Headers) (pipeline : mc_PIPELINE) (req : mc_PACKET) : Nat :=
  if (req.flags &&& K.REQ_F.PRIVCALLBACK) ≠ 0 ∨ (get_instance pipeline).isSome then 1 else 0

/-- The builder calls `procs->handler` through the extended request data of the
request without testing the pointer: always in `H_observe`, `H_getreplica`,
`H_stats` and `H_noop`, in `H_config` when the pipeline has a parent queue, in
`H_store` and `H_collections_get_cid` when the request carries `MCREQ_F_REQEXT`. -/
def Builder.calls_handler (K : Headers) (pipeline : mc_PIPELINE) (req : mc_PACKET) :
    Builder → Bool
  | Builder.H_observe => true
  | Builder.H_getreplica => true
  | Builder.H_stats => true
  | Builder.H_noop => true
  | Builder.H_config => pipeline.parent.isSome
  | Builder.H_store => decide ((req.flags &&& K.REQ_F.REQEXT) ≠ 0)
  | Builder.H_collections_get_cid => decide ((req.flags &&& K.REQ_F.REQEXT) ≠ 0)
  | _ => false

/-- The number of terminal deliveries that a builder has a target for, on a
request not marked invoked that failed with an immediate error: `H_config` needs a
parent queue, `H_select_bucket` extended request data, the builders that go
through `invoke_callback` a private callback or an instance; the other handler
calls are made unconditionally. -/
def expected_deliveries (K : Headers) (X : Externals) (pipeline : mc_PIPELINE)
    (req : mc_PACKET) (b : Builder) : Nat :=
  match b with
  | Builder.H_config => if pipeline.parent.isSome then 1 else 0
  | Builder.H_select_bucket => if (X.exdata req).isSome then 1 else 0
  | b => if b.calls_handler K pipeline req then 1 else callback_targets K pipeline req

/-- The two enhanced-error queries of the public interface. -/
inductive ErrQuery where
  | context
  | reference
  deriving DecidableEq, Repr

/-- One query on a result: `lcb_resp_get_error_context` or `lcb_resp_get_error_ref`;
the returned string, the pack after the call and the number of parser calls. -/
def ErrQuery.run (K : Headers) (X : Externals) (q : ErrQuery) (cbtype : lcb_CALLBACK_TYPE)
    (rb : ResponsePack) : Option String × ResponsePack × Nat :=
  match q with
  | ErrQuery.context => lcb_resp_get_error_context K X cbtype rb
  | ErrQuery.reference => lcb_resp_get_error_ref K X cbtype rb

/-- A sequence of queries on one result, each on the pack the one before left
behind: the strings returned, in order, the pack after the last query and the total
number of parser calls. -/
def run_queries (K : Headers) (X : Externals) :
    List (ErrQuery × lcb_CALLBACK_TYPE) → ResponsePack → List (Option String) × ResponsePack × Nat
  | [], rb => ([], rb, 0)
  | (q, t) :: qs, rb =>
    let r := q.run K X t rb
    let rest := run_queries K X qs r.2.1
    (r.1 :: rest.1, rest.2.1, r.2.2 + rest.2.2)

/-- The externals `kx` with a parser that accepts every payload and finds a
reference in it, but no context. -/
def kx_reference_only : Externals :=
  { kx with parse_enhanced_error := fun _ _ _ c => (LCB_SUCCESS, some "ref", c) }

/-- One record of an observe payload: 2-byte big-endian vbucket, 2-byte big-endian
key length, the key bytes, the 1-byte persistence flag and the 8-byte big-endian
CAS. -/
structure ObserveRecord where
  vb : Nat
  key : List Byte
  obs : Byte
  cas : Nat
  deriving DecidableEq, Repr

/-- Wire image of an observe record. -/
def ObserveRecord.encode (r : ObserveRecord) : List Byte :=
  encodeBE 2 r.vb ++ encodeBE 2 r.key.length ++ r.key ++ [r.obs] ++ encodeBE 8 r.cas

/-- An observe record is complete when its vbucket and key length fit 16 bits and
its CAS fits 64 bits. -/
def ObserveRecord.complete (r : ObserveRecord) : Prop :=
  r.vb < 2 ^ 16 ∧ r.key.length < 2 ^ 16 ∧ r.cas < 2 ^ 64

instance (r : ObserveRecord) : Decidable r.complete := by
  unfold ObserveRecord.complete; infer_instance

/-- The wire image of an observe payload: the records' images one after the other. -/
def observe_stream : List ObserveRecord → List Byte
  | [] => []
  | r :: rs => r.encode ++ observe_stream rs

/-- The result that describes the observe record `r`: its key, CAS and persistence
flag, whether this pipeline is the master of its vbucket, and the two time values
of the envelope. -/
def observe_resp (pipeline : mc_PIPELINE) (config : mc_CMDQUEUE) (ttp ttr : Nat)
    (resp : lcb_RESP) (r : ObserveRecord) : lcb_RESP :=
  { resp with key := some r.key,
              key_len := r.key.length,
              cas := r.cas,
              status := r.obs.val,
              ismaster := decide (pipeline.index = config.vbmaster r.vb),
              ttp := ttp,
              ttr := ttr }

/-- The entries `sdmutate_next` produces, call after call, for the records `recs`
of a stream that starts at offset `off`. -/
def mutate_entries (K : Headers) : Nat → List MutateRecord → List lcb_SDENTRY
  | _, [] => []
  | off, r :: rs => mutate_entry K off r :: mutate_entries K (off + (r.encode K).length) rs

/-- The cursors that the calls of `sdmutate_next` leave, one per record of `recs`,
the stream starting at offset `off`. -/
def mutate_cursors (K : Headers) : Nat → List MutateRecord → List Nat
  | _, [] => []
  | off, r :: rs => (off + (r.encode K).length) :: mutate_cursors K (off + (r.encode K).length) rs

/-- The result of `make_error` as the refinement words it, for a dispatch without
immediate error: the replace-semantics override applied to what `lcb_map_error`
answers for the wire status, without a test for the success status. -/
def make_error_by_mapper (K : Headers) (inst : Option lcb_INSTANCE) (resp : lcb_RESPBASE)
    (response : MemcachedResponse) (req : mc_PACKET) : lcb_RESPBASE :=
  let resp1 := { resp with rc := lcb_map_error K inst response.status }
  if resp1.rc = LCB_ERR_DOCUMENT_EXISTS ∧ (req.flags &&& K.REQ_F.REPLACE_SEMANTICS) ≠ 0 then
    { resp1 with rc := LCB_ERR_CAS_MISMATCH }
  else resp1

/-- What a collection-id lookup reports: `H_collections_get_cid` ends without fault
and hands on one result whose kind is `rc`, manifest id `m` and collection id `c`:
through `invoke_callback` for a request without `MCREQ_F_REQEXT`; else, the
extended request data being `rd` and the scan of the key for a `'.'` ending inside
the key, as one call of the handler with the kind `rc`. -/
def get_cid_reports (K : Headers) (X : Externals) (host : Endian) (pipeline : mc_PIPELINE)
    (request : mc_PACKET) (response : MemcachedResponse) (immerr : lcb_STATUS)
    (rc : lcb_STATUS) (m c : Nat) : Prop :=
  ((request.flags &&& K.REQ_F.REQEXT) = 0 →
    ∃ w : ResponsePack,
      H_collections_get_cid K X host pipeline request response immerr =
        Except.ok { inst := get_instance pipeline,
                    deliveries := invoke_callback K X request (get_instance pipeline)
                      (Result.packed w) LCB_CALLBACK_GETCID } ∧
      w.resp.rc = rc ∧ w.resp.manifest_id = m ∧ w.resp.collection_id = c) ∧
  ((request.flags &&& K.REQ_F.REQEXT) ≠ 0 →
    ∀ rd, X.exdata request = some rd →
      (X.mcreq_get_key (get_instance pipeline) request = [] ∨
        ∃ r, strchr_dot (X.mcreq_get_key (get_instance pipeline) request) 0 = Except.ok r) →
      ∃ w : ResponsePack,
        H_collections_get_cid K X host pipeline request response immerr =
          Except.ok { inst := get_instance pipeline,
                      deliveries := [Delivery.handler rd rc
                        (HandlerArg.resp (Result.packed w))] } ∧
        w.resp.rc = rc ∧ w.resp.manifest_id = m ∧ w.resp.collection_id = c)

/-- A result with its collection path fields (scope and collection, each with its
length) put aside: two results with the same image differ in these fields at most. -/
def Result.sans_path (r : Result) : Result :=
  r.update (fun x => { x with scope := StrPtr.null, collection := StrPtr.null })

/-- The instance `plain_instance` with a collection cache that names every
collection id `app.users`. -/
def named_instance : lcb_INSTANCE :=
  { plain_instance with id_to_name := fun _ => "app.users".toList }

/-! ## Byte order -/

theorem encodeLE_decodeLE (bs : List Byte) : encodeLE bs.length (decodeLE bs) = bs := by
  induction bs with
  | nil => rfl
  | cons b bs ih =>
    have hb := b.isLt
    have h1 : (b.val + 256 * decodeLE bs) % 256 = b.val := by omega
    have h2 : (b.val + 256 * decodeLE bs) / 256 = decodeLE bs := by omega
    simp only [List.length_cons, decodeLE, encodeLE, h1, h2, ih]

theorem ntoh_memcpy (host : Endian) (w : Nat) (bs : List Byte) (h : bs.length = w) :
    ntoh host w (memcpy_uint host bs) = decodeBE bs := by
  subst h
  cases host with
  | little => simp only [ntoh, memcpy_uint, encodeLE_decodeLE]
  | big => rfl

/-! ## Status mapper: theorems -/

theorem find?_of_nodup_keys {β : Type} (l : List (Nat × β))
    (h : (l.map Prod.fst).Nodup) (k : Nat) (v : β) (hp : (k, v) ∈ l) :
    l.find? (fun q => ((q.1 : Int) = (k : Int))) = some (k, v) := by
  induction l with
  | nil => cases hp
  | cons q l ih =>
    rw [List.map_cons, List.nodup_cons] at h
    rcases List.mem_cons.mp hp with rfl | hmem
    · simp
    · have hne : q.1 ≠ k := by
        intro he
        apply h.1
        rw [he]
        exact List.mem_map.mpr ⟨(k, v), hmem, rfl⟩
      have : ¬ ((q.1 : Int) = (k : Int)) := by exact_mod_cast hne
      rw [List.find?_cons_of_neg _ (by simpa using this)]
      exact ih h.2 hmem

theorem lcb_map_error_of_case (K : Headers) (hd : K.labels_distinct) (inst : Option lcb_INSTANCE)
    (k : Nat) (v : lcb_STATUS) (hp : (k, v) ∈ lcb_map_error_cases K) :
    lcb_map_error K inst (k : Int) = v := by
  unfold lcb_map_error
  rw [find?_of_nodup_keys _ hd k v hp]

/-- C4: for every wire status code that has a `case` in `lcb_map_error`, whatever the
instance argument, `lcb_map_error` returns the kind of that case: SUCCESS gives
`LCB_SUCCESS`, KEY_ENOENT gives document-not-found, E2BIG value-too-large, KEY_EEXISTS
document-exists, LOCKED document-locked, the sub-document codes their
`LCB_ERR_SUBDOC_*` kinds, the durability, collection, authentication and bucket
codes their kinds, and the two multi-path partial-failure codes `LCB_SUCCESS`. -/
theorem lcb_map_error_table (K : Headers) (hd : K.labels_distinct) (inst : Option lcb_INSTANCE) :
    lcb_map_error K inst K.RESPONSE.SUCCESS = LCB_SUCCESS ∧
    lcb_map_error K inst K.RESPONSE.KEY_ENOENT = LCB_ERR_DOCUMENT_NOT_FOUND ∧
    lcb_map_error K inst K.RESPONSE.E2BIG = LCB_ERR_VALUE_TOO_LARGE ∧
    lcb_map_error K inst K.RESPONSE.ENOMEM = LCB_ERR_TEMPORARY_FAILURE ∧
    lcb_map_error K inst K.RESPONSE.KEY_EEXISTS = LCB_ERR_DOCUMENT_EXISTS ∧
    lcb_map_error K inst K.RESPONSE.SUBDOC_PATH_ENOENT = LCB_ERR_SUBDOC_PATH_NOT_FOUND ∧
    lcb_map_error K inst K.RESPONSE.SUBDOC_PATH_MISMATCH = LCB_ERR_SUBDOC_PATH_MISMATCH ∧
    lcb_map_error K inst K.RESPONSE.SUBDOC_PATH_EINVAL = LCB_ERR_SUBDOC_PATH_INVALID ∧
    lcb_map_error K inst K.RESPONSE.SUBDOC_PATH_E2BIG = LCB_ERR_SUBDOC_PATH_TOO_BIG ∧
    lcb_map_error K inst K.RESPONSE.SUBDOC_DOC_E2DEEP = LCB_ERR_SUBDOC_PATH_TOO_DEEP ∧
    lcb_map_error K inst K.RESPONSE.SUBDOC_VALUE_ETOODEEP = LCB_ERR_SUBDOC_VALUE_TOO_DEEP ∧
    lcb_map_error K inst K.RESPONSE.SUBDOC_VALUE_CANTINSERT = LCB_ERR_SUBDOC_VALUE_INVALID ∧
    lcb_map_error K inst K.RESPONSE.SUBDOC_DOC_NOTJSON = LCB_ERR_SUBDOC_DOCUMENT_NOT_JSON ∧
    lcb_map_error K inst K.RESPONSE.SUBDOC_NUM_ERANGE = LCB_ERR_SUBDOC_NUMBER_TOO_BIG ∧
    lcb_map_error K inst K.RESPONSE.SUBDOC_DELTA_ERANGE = LCB_ERR_SUBDOC_DELTA_INVALID ∧
    lcb_map_error K inst K.RESPONSE.SUBDOC_PATH_EEXISTS = LCB_ERR_SUBDOC_PATH_EXISTS ∧
    lcb_map_error K inst K.RESPONSE.SUBDOC_MULTI_PATH_FAILURE = LCB_SUCCESS ∧
    lcb_map_error K inst K.RESPONSE.SUBDOC_MULTI_PATH_FAILURE_DELETED = LCB_SUCCESS ∧
    lcb_map_error K inst K.RESPONSE.SUBDOC_INVALID_COMBO = LCB_ERR_INVALID_ARGUMENT ∧
    lcb_map_error K inst K.RESPONSE.SUBDOC_SUCCESS_DELETED = LCB_SUCCESS ∧
    lcb_map_error K inst K.RESPONSE.SUBDOC_XATTR_INVALID_FLAG_COMBO = LCB_ERR_SUBDOC_XATTR_INVALID_FLAG_COMBO ∧
    lcb_map_error K inst K.RESPONSE.SUBDOC_XATTR_INVALID_KEY_COMBO = LCB_ERR_SUBDOC_XATTR_INVALID_KEY_COMBO ∧
    lcb_map_error K inst K.RESPONSE.SUBDOC_XATTR_UNKNOWN_MACRO = LCB_ERR_SUBDOC_XATTR_UNKNOWN_MACRO ∧
    lcb_map_error K inst K.RESPONSE.SUBDOC_XATTR_UNKNOWN_VATTR = LCB_ERR_SUBDOC_XATTR_UNKNOWN_VIRTUAL_ATTRIBUTE ∧
    lcb_map_error K inst K.RESPONSE.SUBDOC_XATTR_CANT_MODIFY_VATTR = LCB_ERR_SUBDOC_XATTR_CANNOT_MODIFY_VIRTUAL_ATTRIBUTE ∧
    lcb_map_error K inst K.RESPONSE.SUBDOC_INVALID_XATTR_ORDER = LCB_ERR_SUBDOC_XATTR_INVALID_ORDER ∧
    lcb_map_error K inst K.RESPONSE.EINVAL = LCB_ERR_KVENGINE_INVALID_PACKET ∧
    lcb_map_error K inst K.RESPONSE.NOT_STORED = LCB_ERR_NOT_STORED ∧
    lcb_map_error K inst K.RESPONSE.DELTA_BADVAL = LCB_ERR_INVALID_DELTA ∧
    lcb_map_error K inst K.RESPONSE.ERANGE = LCB_ERR_INVALID_RANGE ∧
    lcb_map_error K inst K.RESPONSE.UNKNOWN_COMMAND = LCB_ERR_UNSUPPORTED_OPERATION ∧
    lcb_map_error K inst K.RESPONSE.EACCESS = LCB_ERR_AUTHENTICATION_FAILURE ∧
    lcb_map_error K inst K.RESPONSE.AUTH_ERROR = LCB_ERR_AUTHENTICATION_FAILURE ∧
    lcb_map_error K inst K.RESPONSE.AUTH_STALE = LCB_ERR_AUTHENTICATION_FAILURE ∧
    lcb_map_error K inst K.RESPONSE.NO_BUCKET = LCB_ERR_BUCKET_NOT_FOUND ∧
    lcb_map_error K inst K.RESPONSE.NOT_INITIALIZED = LCB_ERR_BUCKET_NOT_FOUND ∧
    lcb_map_error K inst K.RESPONSE.UNKNOWN_COLLECTION = LCB_ERR_COLLECTION_NOT_FOUND ∧
    lcb_map_error K inst K.RESPONSE.UNKNOWN_SCOPE = LCB_ERR_SCOPE_NOT_FOUND ∧
    lcb_map_error K inst K.RESPONSE.NO_COLLECTIONS_MANIFEST = LCB_ERR_COLLECTION_NO_MANIFEST ∧
    lcb_map_error K inst K.RESPONSE.CANNOT_APPLY_COLLECTIONS_MANIFEST = LCB_ERR_COLLECTION_CANNOT_APPLY_MANIFEST ∧
    lcb_map_error K inst K.RESPONSE.COLLECTIONS_MANIFEST_IS_AHEAD = LCB_ERR_COLLECTION_MANIFEST_IS_AHEAD ∧
    lcb_map_error K inst K.RESPONSE.DURABILITY_INVALID_LEVEL = LCB_ERR_DURABILITY_LEVEL_NOT_AVAILABLE ∧
    lcb_map_error K inst K.RESPONSE.DURABILITY_IMPOSSIBLE = LCB_ERR_DURABILITY_IMPOSSIBLE ∧
    lcb_map_error K inst K.RESPONSE.SYNC_WRITE_IN_PROGRESS = LCB_ERR_DURABLE_WRITE_IN_PROGRESS ∧
    lcb_map_error K inst K.RESPONSE.SYNC_WRITE_RE_COMMIT_IN_PROGRESS = LCB_ERR_DURABLE_WRITE_RE_COMMIT_IN_PROGRESS ∧
    lcb_map_error K inst K.RESPONSE.SYNC_WRITE_AMBIGUOUS = LCB_ERR_DURABILITY_AMBIGUOUS ∧
    lcb_map_error K inst K.RESPONSE.LOCKED = LCB_ERR_DOCUMENT_LOCKED := by
  refine ⟨?_, ?_, ?_, ?_, ?_, ?_, ?_, ?_, ?_, ?_, ?_, ?_, ?_, ?_, ?_, ?_, ?_, ?_, ?_, ?_, ?_, ?_, ?_, ?_, ?_, ?_, ?_, ?_, ?_, ?_, ?_, ?_, ?_, ?_, ?_, ?_, ?_, ?_, ?_, ?_, ?_, ?_, ?_, ?_, ?_, ?_, ?_⟩ <;>
    exact lcb_map_error_of_case K hd inst _ _ (by simp [lcb_map_error_cases])

/-- Witness for C4: the statement at the KV protocol's status codes, whose case
labels are pairwise distinct. -/
theorem lcb_map_error_table_witness :
    kv.labels_distinct ∧
    lcb_map_error kv none kv.RESPONSE.KEY_ENOENT = LCB_ERR_DOCUMENT_NOT_FOUND ∧
    lcb_map_error kv none kv.RESPONSE.SUBDOC_MULTI_PATH_FAILURE = LCB_SUCCESS :=
  ⟨by decide, (lcb_map_error_table kv (by decide) none).2.1,
    (lcb_map_error_table kv (by decide) none).2.2.2.2.2.2.2.2.2.2.2.2.2.2.2.2.2.1⟩

theorem lcb_map_error_of_no_case (K : Headers) (inst : Option lcb_INSTANCE) (inp : Int)
    (hno : ∀ p ∈ lcb_map_error_cases K, (p.1 : Int) ≠ inp) :
    lcb_map_error K inst inp =
      match inst with
      | some i => i.errmap (to_uint16 inp)
      | none => lcb_errmap_default K none (to_uint16 inp) := by
  unfold lcb_map_error
  have : (lcb_map_error_cases K).find? (fun p => ((p.1 : Int) = inp)) = none := by
    rw [List.find?_eq_none]
    intro p hp
    simpa using hno p hp
  rw [this]

/-- C5 (counterexample): NOT_MY_VBUCKET has no `case` in `lcb_map_error`, yet with no
instance attached it is mapped to `LCB_ERR_TIMEOUT` by `lcb_errmap_default`, not
to the generic fallback. -/
theorem lcb_map_error_fallback_counterexample :
    (∀ p ∈ lcb_map_error_cases kv, (p.1 : Int) ≠ (kv.RESPONSE.NOT_MY_VBUCKET : Int)) ∧
    lcb_map_error kv none kv.RESPONSE.NOT_MY_VBUCKET = LCB_ERR_TIMEOUT ∧
    lcb_map_error kv none kv.RESPONSE.NOT_MY_VBUCKET ≠ LCB_ERR_KVENGINE_UNKNOWN_ERROR := by
  decide

/-- C5 (amended): for every status code that has no `case` in `lcb_map_error`,
with no instance attached: the result is the one of `lcb_errmap_default` on the
16-bit value of the code (the mapper is a total function); when that value is none
of NOT_MY_VBUCKET, AUTH_CONTINUE, EBUSY, ETMPFAIL the result is
`LCB_ERR_KVENGINE_UNKNOWN_ERROR`; and, these four `case` labels of
`lcb_errmap_default` being pairwise distinct, NOT_MY_VBUCKET gives
`LCB_ERR_TIMEOUT`, AUTH_CONTINUE gives `LCB_ERR_AUTH_CONTINUE`, EBUSY and ETMPFAIL
give `LCB_ERR_TEMPORARY_FAILURE`. -/
theorem lcb_map_error_fallback (K : Headers) (inp : Int)
    (hno : ∀ p ∈ lcb_map_error_cases K, (p.1 : Int) ≠ inp) :
    lcb_map_error K none inp = lcb_errmap_default K none (to_uint16 inp) ∧
    (to_uint16 inp ≠ K.RESPONSE.NOT_MY_VBUCKET → to_uint16 inp ≠ K.RESPONSE.AUTH_CONTINUE →
      to_uint16 inp ≠ K.RESPONSE.EBUSY → to_uint16 inp ≠ K.RESPONSE.ETMPFAIL →
      lcb_map_error K none inp = LCB_ERR_KVENGINE_UNKNOWN_ERROR) ∧
    ([K.RESPONSE.NOT_MY_VBUCKET, K.RESPONSE.AUTH_CONTINUE, K.RESPONSE.EBUSY,
        K.RESPONSE.ETMPFAIL].Nodup →
      (to_uint16 inp = K.RESPONSE.NOT_MY_VBUCKET →
        lcb_map_error K none inp = LCB_ERR_TIMEOUT) ∧
      (to_uint16 inp = K.RESPONSE.AUTH_CONTINUE →
        lcb_map_error K none inp = LCB_ERR_AUTH_CONTINUE) ∧
      (to_uint16 inp = K.RESPONSE.EBUSY →
        lcb_map_error K none inp = LCB_ERR_TEMPORARY_FAILURE) ∧
      (to_uint16 inp = K.RESPONSE.ETMPFAIL →
        lcb_map_error K none inp = LCB_ERR_TEMPORARY_FAILURE)) := by
  have h := lcb_map_error_of_no_case K none inp hno
  refine ⟨h, ?_, ?_⟩
  · intro h1 h2 h3 h4
    rw [h]
    simp [lcb_errmap_default, h1, h2, h3, h4]
  · intro hd
    simp only [List.nodup_cons, List.mem_cons, List.mem_singleton, not_or, List.not_mem_nil,
      not_false_eq_true, List.nodup_nil, and_true] at hd
    obtain ⟨⟨h12, h13, h14⟩, ⟨h23, h24⟩, _⟩ := hd
    rw [h]
    unfold lcb_errmap_default
    refine ⟨fun e => ?_, fun e => ?_, fun e => ?_, fun e => ?_⟩
    · rw [if_pos e]
    · rw [if_neg (by rw [e]; exact fun c => h12 c.symm), if_pos e]
    · rw [if_neg (by rw [e]; exact fun c => h13 c.symm),
        if_neg (by rw [e]; exact fun c => h23 c.symm), if_pos (Or.inl e)]
    · rw [if_neg (by rw [e]; exact fun c => h14 c.symm),
        if_neg (by rw [e]; exact fun c => h24 c.symm), if_pos (Or.inr e)]

/-- Witness for C5 (amended): the reserved code 0x7f has no case and is none of the
four codes of the default error map; AUTH_CONTINUE, EBUSY and ETMPFAIL have no case
either and get the kinds that `lcb_errmap_default` names for them. -/
theorem lcb_map_error_fallback_witness :
    (∀ p ∈ lcb_map_error_cases kv, (p.1 : Int) ≠ (0x7f : Int)) ∧
    lcb_map_error kv none 0x7f = LCB_ERR_KVENGINE_UNKNOWN_ERROR ∧
    lcb_map_error kv none kv.RESPONSE.AUTH_CONTINUE = LCB_ERR_AUTH_CONTINUE ∧
    lcb_map_error kv none kv.RESPONSE.EBUSY = LCB_ERR_TEMPORARY_FAILURE ∧
    lcb_map_error kv none kv.RESPONSE.ETMPFAIL = LCB_ERR_TEMPORARY_FAILURE :=
  ⟨by decide, (lcb_map_error_fallback kv 0x7f (by decide)).2.1 (by decide) (by decide) (by decide)
    (by decide),
   ((lcb_map_error_fallback kv kv.RESPONSE.AUTH_CONTINUE (by decide)).2.2 (by decide)).2.1
     (by decide),
   ((lcb_map_error_fallback kv kv.RESPONSE.EBUSY (by decide)).2.2 (by decide)).2.2.1
     (by decide),
   ((lcb_map_error_fallback kv kv.RESPONSE.ETMPFAIL (by decide)).2.2 (by decide)).2.2.2
     (by decide)⟩

/-! ## Error assembly: theorems -/

theorem lor_land_self (a b : Nat) : (a ||| b) &&& b = b := by
  apply Nat.eq_of_testBit_eq
  intro i
  simp only [Nat.testBit_and, Nat.testBit_or]
  cases a.testBit i <;> cases b.testBit i <;> rfl

theorem lcb_map_error_cases_success (K : Headers) :
    ∀ p ∈ lcb_map_error_cases K, p.2 = LCB_SUCCESS →
      p.1 = K.RESPONSE.SUCCESS ∨ p.1 = K.RESPONSE.SUBDOC_MULTI_PATH_FAILURE ∨
      p.1 = K.RESPONSE.SUBDOC_MULTI_PATH_FAILURE_DELETED ∨
      p.1 = K.RESPONSE.SUBDOC_SUCCESS_DELETED := by
  simp [lcb_map_error_cases]

theorem lcb_errmap_default_ne_success (K : Headers) (inst : Option lcb_INSTANCE) (inp : Nat) :
    lcb_errmap_default K inst inp ≠ LCB_SUCCESS := by
  unfold lcb_errmap_default
  split_ifs <;> simp

theorem lcb_map_error_eq_success (K : Headers) (inst : Option lcb_INSTANCE)
    (hmap : ∀ i, inst = some i → ∀ c, i.errmap c ≠ LCB_SUCCESS) (n : Nat)
    (h : lcb_map_error K inst (n : Int) = LCB_SUCCESS) :
    n = K.RESPONSE.SUCCESS ∨ n = K.RESPONSE.SUBDOC_MULTI_PATH_FAILURE ∨
      n = K.RESPONSE.SUBDOC_MULTI_PATH_FAILURE_DELETED ∨
      n = K.RESPONSE.SUBDOC_SUCCESS_DELETED := by
  unfold lcb_map_error at h
  split at h
  · rename_i p heq
    have hk := List.find?_some heq
    have hm := List.mem_of_find?_eq_some heq
    have hkn : p.1 = n := by
      have : (p.1 : Int) = (n : Int) := by simpa using hk
      exact_mod_cast this
    rw [← hkn]
    exact lcb_map_error_cases_success K p hm h
  · cases inst with
    | none => exact absurd h (lcb_errmap_default_ne_success K none _)
    | some i => exact absurd h (hmap i rfl _)

/-- C6: if the request carries `MCREQ_F_REPLACE_SEMANTICS` and the kind computed
before the override is `LCB_ERR_DOCUMENT_EXISTS`, the exposed kind is
`LCB_ERR_CAS_MISMATCH`; if the request does not carry the flag, the exposed kind is
the kind computed before the override. -/
theorem make_error_replace_override (K : Headers) (inst : Option lcb_INSTANCE)
    (resp : lcb_RESPBASE) (response : MemcachedResponse) (imm : lcb_STATUS) (req : mc_PACKET) :
    ((req.flags &&& K.REQ_F.REPLACE_SEMANTICS) ≠ 0 →
      (make_error_kind K inst resp response imm).rc = LCB_ERR_DOCUMENT_EXISTS →
      (make_error K inst resp response imm req).rc = LCB_ERR_CAS_MISMATCH) ∧
    ((req.flags &&& K.REQ_F.REPLACE_SEMANTICS) = 0 →
      (make_error K inst resp response imm req).rc =
        (make_error_kind K inst resp response imm).rc) := by
  constructor
  · intro hf hk
    simp [make_error, hf, hk]
  · intro hf
    simp [make_error, hf]

/-- Witness for C6: a KEY_EEXISTS envelope, once for a request with replace
semantics and once for a request without. -/
theorem make_error_replace_override_witness :
    (make_error kv none ⟨LCB_SUCCESS, 0⟩ ⟨0, 2, 0, 0, [], []⟩ LCB_SUCCESS ⟨0x800, 0, 0⟩).rc
      = LCB_ERR_CAS_MISMATCH ∧
    (make_error kv none ⟨LCB_SUCCESS, 0⟩ ⟨0, 2, 0, 0, [], []⟩ LCB_SUCCESS ⟨0, 0, 0⟩).rc
      = (make_error_kind kv none ⟨LCB_SUCCESS, 0⟩ ⟨0, 2, 0, 0, [], []⟩ LCB_SUCCESS).rc ∧
    (make_error_kind kv none ⟨LCB_SUCCESS, 0⟩ ⟨0, 2, 0, 0, [], []⟩ LCB_SUCCESS).rc
      = LCB_ERR_DOCUMENT_EXISTS :=
  ⟨(make_error_replace_override kv none ⟨LCB_SUCCESS, 0⟩ ⟨0, 2, 0, 0, [], []⟩ LCB_SUCCESS
      ⟨0x800, 0, 0⟩).1 (by decide) (by decide),
   (make_error_replace_override kv none ⟨LCB_SUCCESS, 0⟩ ⟨0, 2, 0, 0, [], []⟩ LCB_SUCCESS
      ⟨0, 0, 0⟩).2 (by decide),
   by decide⟩

/-- C7 (counterexample): the immediate error `LCB_ERR_DOCUMENT_EXISTS` on a request
with replace semantics is not left verbatim: the result's kind is
`LCB_ERR_CAS_MISMATCH`. -/
theorem make_error_immediate_counterexample :
    LCB_ERR_DOCUMENT_EXISTS ≠ LCB_SUCCESS ∧
    (make_error kv none ⟨LCB_SUCCESS, 0⟩ ⟨0, 0, 0, 0, [], []⟩ LCB_ERR_DOCUMENT_EXISTS
      ⟨0x800, 0, 0⟩).rc = LCB_ERR_CAS_MISMATCH ∧
    (make_error kv none ⟨LCB_SUCCESS, 0⟩ ⟨0, 0, 0, 0, [], []⟩ LCB_ERR_DOCUMENT_EXISTS
      ⟨0x800, 0, 0⟩).rc ≠ LCB_ERR_DOCUMENT_EXISTS := by
  decide

/-- C7 (amended): for every non-success immediate error `imm`, every envelope and
every request, the kind left by `make_error` is `imm` verbatim, except that
`LCB_ERR_DOCUMENT_EXISTS` on a request with replace semantics becomes
`LCB_ERR_CAS_MISMATCH`; the result carries `LCB_RESP_F_CLIENTGEN`.  When `imm` is
success `make_error` leaves the result's flags as they were. -/
theorem make_error_immediate (K : Headers) (inst : Option lcb_INSTANCE)
    (resp : lcb_RESPBASE) (response : MemcachedResponse) (imm : lcb_STATUS) (req : mc_PACKET) :
    (imm ≠ LCB_SUCCESS →
      (make_error K inst resp response imm req).rc =
        (if imm = LCB_ERR_DOCUMENT_EXISTS ∧ (req.flags &&& K.REQ_F.REPLACE_SEMANTICS) ≠ 0
          then LCB_ERR_CAS_MISMATCH else imm) ∧
      (make_error K inst resp response imm req).rflags = resp.rflags ||| K.RESP_F.CLIENTGEN ∧
      (make_error K inst resp response imm req).rflags &&& K.RESP_F.CLIENTGEN
        = K.RESP_F.CLIENTGEN) ∧
    (make_error K inst resp response LCB_SUCCESS req).rflags = resp.rflags := by
  constructor
  · intro himm
    have hk : make_error_kind K inst resp response imm =
        { resp with rc := imm, rflags := resp.rflags ||| K.RESP_F.CLIENTGEN } := by
      simp [make_error_kind, himm]
    refine ⟨?_, ?_, ?_⟩
    · simp only [make_error, hk]
      split_ifs <;> rfl
    · simp only [make_error, hk]
      split_ifs <;> rfl
    · have : (make_error K inst resp response imm req).rflags
          = resp.rflags ||| K.RESP_F.CLIENTGEN := by
        simp only [make_error, hk]
        split_ifs <;> rfl
      rw [this, lor_land_self]
  · simp only [make_error, make_error_kind]
    split_ifs <;> first | rfl | simp_all

/-- Witness for C7 (amended): a timeout injected for a request without replace
semantics, whatever the envelope says. -/
theorem make_error_immediate_witness :
    (make_error kv none ⟨LCB_SUCCESS, 0⟩ ⟨0, 2, 0, 0, [], []⟩ LCB_ERR_TIMEOUT ⟨0, 0, 0⟩).rc
      = LCB_ERR_TIMEOUT ∧
    (make_error kv none ⟨LCB_SUCCESS, 0⟩ ⟨0, 2, 0, 0, [], []⟩ LCB_ERR_TIMEOUT ⟨0, 0, 0⟩).rflags
      = 2 :=
  ⟨((make_error_immediate kv none ⟨LCB_SUCCESS, 0⟩ ⟨0, 2, 0, 0, [], []⟩ LCB_ERR_TIMEOUT
      ⟨0, 0, 0⟩).1 (by decide)).1,
   ((make_error_immediate kv none ⟨LCB_SUCCESS, 0⟩ ⟨0, 2, 0, 0, [], []⟩ LCB_ERR_TIMEOUT
      ⟨0, 0, 0⟩).1 (by decide)).2.1⟩

/-- C8 (counterexample): the wire status SUBDOC_MULTI_PATH_FAILURE is not the success
status, yet without an immediate error `make_error` computes `LCB_SUCCESS` for it. -/
theorem make_error_success_counterexample :
    kv.RESPONSE.SUBDOC_MULTI_PATH_FAILURE ≠ kv.RESPONSE.SUCCESS ∧
    (make_error kv none ⟨LCB_ERR_TIMEOUT, 0⟩ ⟨0, kv.RESPONSE.SUBDOC_MULTI_PATH_FAILURE, 0, 0, [], []⟩
      LCB_SUCCESS ⟨0, 0, 0⟩).rc = LCB_SUCCESS := by
  decide

/-- C8 (amended): with no immediate error, and an error map that never answers
success for a code without a case (the default one does not), the kind computed by
`make_error` is `LCB_SUCCESS` exactly when the wire status is SUCCESS,
SUBDOC_MULTI_PATH_FAILURE, SUBDOC_MULTI_PATH_FAILURE_DELETED or SUBDOC_SUCCESS_DELETED;
for every other wire status the kind is not success. -/
theorem make_error_success_iff (K : Headers) (hd : K.labels_distinct)
    (inst : Option lcb_INSTANCE)
    (hmap : ∀ i, inst = some i → ∀ c, i.errmap c ≠ LCB_SUCCESS)
    (resp : lcb_RESPBASE) (response : MemcachedResponse) (req : mc_PACKET) :
    (make_error K inst resp response LCB_SUCCESS req).rc = LCB_SUCCESS ↔
      (response.status = K.RESPONSE.SUCCESS ∨
       response.status = K.RESPONSE.SUBDOC_MULTI_PATH_FAILURE ∨
       response.status = K.RESPONSE.SUBDOC_MULTI_PATH_FAILURE_DELETED ∨
       response.status = K.RESPONSE.SUBDOC_SUCCESS_DELETED) := by
  have hkind : (make_error_kind K inst resp response LCB_SUCCESS).rc =
      if response.status = K.RESPONSE.SUCCESS then LCB_SUCCESS
      else lcb_map_error K inst response.status := by
    simp only [make_error_kind]
    split_ifs <;> first | rfl | simp_all
  have hrc : (make_error K inst resp response LCB_SUCCESS req).rc = LCB_SUCCESS ↔
      (make_error_kind K inst resp response LCB_SUCCESS).rc = LCB_SUCCESS := by
    simp only [make_error]
    split_ifs with h
    · simp [h.1]
    · rfl
  rw [hrc, hkind]
  constructor
  · intro h
    split_ifs at h with hs
    · exact Or.inl hs
    · exact lcb_map_error_eq_success K inst hmap _ h
  · intro h
    split_ifs with hs
    · rfl
    · rcases h with h | h | h | h
      · exact absurd h hs
      · rw [h]; exact lcb_map_error_of_case K hd inst _ _ (by simp [lcb_map_error_cases])
      · rw [h]; exact lcb_map_error_of_case K hd inst _ _ (by simp [lcb_map_error_cases])
      · rw [h]; exact lcb_map_error_of_case K hd inst _ _ (by simp [lcb_map_error_cases])

/-- Witness for C8 (amended): KEY_ENOENT with the default error map is not success. -/
theorem make_error_success_iff_witness :
    kv.labels_distinct ∧
    ¬ (make_error kv none ⟨LCB_SUCCESS, 0⟩ ⟨0, kv.RESPONSE.KEY_ENOENT, 0, 0, [], []⟩
        LCB_SUCCESS ⟨0, 0, 0⟩).rc = LCB_SUCCESS :=
  ⟨by decide,
   fun h => absurd
    ((make_error_success_iff kv (by decide) none (fun _ hi => by cases hi) ⟨LCB_SUCCESS, 0⟩
      ⟨0, kv.RESPONSE.KEY_ENOENT, 0, 0, [], []⟩ ⟨0, 0, 0⟩).mp h) (by decide)⟩

/-! ## Mutation-token extractor: theorems -/

theorem readBytes_ok (buf : List Byte) (off n : Nat) (h : off + n ≤ buf.length) :
    readBytes buf off n = Except.ok ((buf.drop off).take n) := by
  simp [readBytes, h]

theorem decodeBE_eight (b0 b1 b2 b3 b4 b5 b6 b7 : Byte) :
    decodeBE [b0, b1, b2, b3, b4, b5, b6, b7] =
      b0.val * 256 ^ 7 + b1.val * 256 ^ 6 + b2.val * 256 ^ 5 + b3.val * 256 ^ 4 +
      b4.val * 256 ^ 3 + b5.val * 256 ^ 2 + b6.val * 256 + b7.val := by
  simp only [decodeBE, List.foldl_cons, List.foldl_nil]
  ring

theorem handle_mutation_token_ok (host : Endian) (inst : Option lcb_INSTANCE)
    (mc_resp : MemcachedResponse) (req : mc_PACKET) (stok : lcb_MUTATION_TOKEN)
    (hlen : 16 ≤ mc_resp.ext.length)
    (hv : ∀ i t, ensure_dcpinfo inst = some i → i.dcpinfo = some t → req.vbucket < t.length) :
    handle_mutation_token host inst mc_resp req stok =
      Except.ok (store_token (ensure_dcpinfo inst) req.vbucket
        (decoded_token mc_resp.ext req.vbucket), decoded_token mc_resp.ext req.vbucket) := by
  have hne : mc_resp.extlen ≠ 0 := by unfold MemcachedResponse.extlen; omega
  have hu : readBytes mc_resp.ext 0 8 = Except.ok (mc_resp.ext.take 8) := by
    rw [readBytes_ok _ _ _ (by omega)]; simp
  have hs : readBytes mc_resp.ext 8 8 = Except.ok ((mc_resp.ext.drop 8).take 8) :=
    readBytes_ok _ _ _ (by omega)
  have hU : lcb_ntohll host (memcpy_uint host (mc_resp.ext.take 8))
      = decodeBE (mc_resp.ext.take 8) :=
    ntoh_memcpy host 8 _ (by simp; omega)
  have hS : lcb_ntohll host (memcpy_uint host ((mc_resp.ext.drop 8).take 8))
      = decodeBE ((mc_resp.ext.drop 8).take 8) :=
    ntoh_memcpy host 8 _ (by simp; omega)
  unfold handle_mutation_token
  rw [if_neg hne]
  simp only [hu, hs, hU, hS]
  cases hE : ensure_dcpinfo inst with
  | none => rfl
  | some i =>
    cases hd : i.dcpinfo with
    | none => simp [store_token, hd, decoded_token]
    | some table =>
      have hlt : req.vbucket < table.length := hv i table hE hd
      simp [store_token, hd, hlt, decoded_token]

theorem ensure_dcpinfo_of_table (i : lcb_INSTANCE) (t : List lcb_MUTATION_TOKEN)
    (ht : i.dcpinfo = some t) : ensure_dcpinfo (some i) = some i := by
  simp [ensure_dcpinfo, ht]

/-- C9: for a response whose extras are exactly the 16 bytes `b0 .. b15` and a
request for vbucket `v`, on a host of either byte order, `handle_mutation_token`
produces the token with `vbid = v`, `uuid` the big-endian value of `b0 .. b7` and
`seqno` the big-endian value of `b8 .. b15`; when an instance with a token table
is attached (`v` being one of the table's indices) that token is stored in the
table at index `v`. -/
theorem handle_mutation_token_decodes (host : Endian) (inst : Option lcb_INSTANCE)
    (mc_resp : MemcachedResponse) (req : mc_PACKET) (stok : lcb_MUTATION_TOKEN)
    (b0 b1 b2 b3 b4 b5 b6 b7 b8 b9 b10 b11 b12 b13 b14 b15 : Byte)
    (hext : mc_resp.ext = [b0, b1, b2, b3, b4, b5, b6, b7, b8, b9, b10, b11, b12, b13, b14, b15])
    (hv : ∀ i t, ensure_dcpinfo inst = some i → i.dcpinfo = some t → req.vbucket < t.length) :
    ∃ inst1 tok,
      handle_mutation_token host inst mc_resp req stok = Except.ok (inst1, tok) ∧
      tok.vbid_ = req.vbucket ∧
      tok.uuid_ = b0.val * 256 ^ 7 + b1.val * 256 ^ 6 + b2.val * 256 ^ 5 + b3.val * 256 ^ 4 +
        b4.val * 256 ^ 3 + b5.val * 256 ^ 2 + b6.val * 256 + b7.val ∧
      tok.seqno_ = b8.val * 256 ^ 7 + b9.val * 256 ^ 6 + b10.val * 256 ^ 5 +
        b11.val * 256 ^ 4 + b12.val * 256 ^ 3 + b13.val * 256 ^ 2 + b14.val * 256 + b15.val ∧
      (inst = none → inst1 = none) ∧
      (∀ i t, inst = some i → i.dcpinfo = some t →
        inst1 = some { i with dcpinfo := some (t.set req.vbucket tok) } ∧
        (t.set req.vbucket tok)[req.vbucket]? = some tok) := by
  refine ⟨store_token (ensure_dcpinfo inst) req.vbucket (decoded_token mc_resp.ext req.vbucket),
    decoded_token mc_resp.ext req.vbucket,
    handle_mutation_token_ok host inst mc_resp req stok (by simp [hext]) hv, rfl, ?_, ?_, ?_, ?_⟩
  · rw [hext]
    simp only [decoded_token, List.take, decodeBE_eight]
  · rw [hext]
    simp only [decoded_token, List.take, List.drop, decodeBE_eight]
  · intro h
    rw [h]
    rfl
  · intro i t hi ht
    have hE : ensure_dcpinfo inst = some i := by rw [hi]; exact ensure_dcpinfo_of_table i t ht
    refine ⟨?_, ?_⟩
    · rw [hE]
      simp [store_token, ht]
    · have := hv i t hE ht
      simp [this]

/-- Witness for C9: sixteen extras bytes, vbucket 1, an instance whose table has
two entries, on a little-endian host. -/
theorem handle_mutation_token_decodes_witness :
    ∃ inst1 tok,
      handle_mutation_token Endian.little
          (some { errmap := fun _ => LCB_ERR_KVENGINE_UNKNOWN_ERROR, nvb := 2,
                  dcpinfo := some (dcpinfo_alloc 2) })
          ⟨0, 0, 0, 0, [0, 0, 0, 0, 0, 0, 1, 2, 0, 0, 0, 0, 0, 0, 0, 3], []⟩ ⟨0, 1, 0⟩ ⟨0, 0, 0⟩
        = Except.ok (inst1, tok) ∧
      tok = { vbid_ := 1, uuid_ := 258, seqno_ := 3 } ∧
      (inst1.bind fun i => i.dcpinfo) =
        some [⟨0, 0, 0⟩, { vbid_ := 1, uuid_ := 258, seqno_ := 3 }] := by
  obtain ⟨inst1, tok, h, h1, h2, h3, _, h5⟩ :=
    handle_mutation_token_decodes Endian.little
      (some { errmap := fun _ => LCB_ERR_KVENGINE_UNKNOWN_ERROR, nvb := 2,
              dcpinfo := some (dcpinfo_alloc 2) })
      ⟨0, 0, 0, 0, [0, 0, 0, 0, 0, 0, 1, 2, 0, 0, 0, 0, 0, 0, 0, 3], []⟩ ⟨0, 1, 0⟩ ⟨0, 0, 0⟩
      0 0 0 0 0 0 1 2 0 0 0 0 0 0 0 3 rfl
      (by
        intro i t hi ht
        simp [ensure_dcpinfo] at hi
        subst hi
        simp at ht
        subst ht
        decide)
  have htok : tok = { vbid_ := 1, uuid_ := 258, seqno_ := 3 } := by
    cases tok
    cases h1
    cases h2
    cases h3
    rfl
  refine ⟨inst1, tok, h, htok, ?_⟩
  rw [(h5 _ _ rfl rfl).1, htok]
  rfl

theorem length_encodeLE (w x : Nat) : (encodeLE w x).length = w := by
  induction w generalizing x with
  | zero => rfl
  | succ w ih => simp [encodeLE, ih]

theorem length_encodeBE (w x : Nat) : (encodeBE w x).length = w := by
  simp [encodeBE, length_encodeLE]

theorem decodeLE_encodeLE (w x : Nat) (h : x < 256 ^ w) : decodeLE (encodeLE w x) = x := by
  induction w generalizing x with
  | zero =>
    have : x = 0 := by simpa using h
    subst this
    rfl
  | succ w ih =>
    have h1 : x / 256 < 256 ^ w := by
      rw [Nat.div_lt_iff_lt_mul (by decide)]
      rw [pow_succ] at h
      exact h
    simp only [encodeLE, decodeLE, ih _ h1]
    omega

theorem decodeBE_append_single (l : List Byte) (b : Byte) :
    decodeBE (l ++ [b]) = decodeBE l * 256 + b.val := by
  simp [decodeBE, List.foldl_append]

theorem decodeBE_reverse (l : List Byte) : decodeBE l.reverse = decodeLE l := by
  induction l with
  | nil => rfl
  | cons b l ih =>
    rw [List.reverse_cons, decodeBE_append_single, ih, decodeLE]
    omega

theorem decodeBE_encodeBE (w x : Nat) (h : x < 256 ^ w) : decodeBE (encodeBE w x) = x := by
  rw [encodeBE, decodeBE_reverse, decodeLE_encodeLE w x h]

theorem readBytes_mid (pre bs rest : List Byte) (off n : Nat) (hoff : off = pre.length)
    (hn : n = bs.length) : readBytes (pre ++ bs ++ rest) off n = Except.ok bs := by
  subst hoff hn
  rw [readBytes_ok _ _ _ (by simp)]
  simp

theorem ntohs_wire (host : Endian) (x : Nat) (h : x < 2 ^ 16) :
    ntohs host (memcpy_uint host (encodeBE 2 x)) = x := by
  rw [ntohs, ntoh_memcpy host 2 _ (length_encodeBE 2 x), decodeBE_encodeBE 2 x (by simpa using h)]

theorem ntohl_wire (host : Endian) (x : Nat) (h : x < 2 ^ 32) :
    ntohl host (memcpy_uint host (encodeBE 4 x)) = x := by
  rw [ntohl, ntoh_memcpy host 4 _ (length_encodeBE 4 x), decodeBE_encodeBE 4 x (by simpa using h)]

theorem length_lookup_encode (r : LookupRecord) : r.encode.length = 6 + r.value.length := by
  simp [LookupRecord.encode, length_encodeBE]
  omega

theorem sdlookup_next_record (K : Headers) (host : Endian) (response : MemcachedResponse)
    (ent : lcb_SDENTRY) (pre rest : List Byte) (r : LookupRecord)
    (hval : response.value = pre ++ r.encode ++ rest) (hc : r.complete)
    (hlen : response.vallen < 2 ^ 32) :
    sdlookup_next K host response ent pre.length =
      Except.ok (some (lookup_entry K ent.index pre.length r, pre.length + r.encode.length)) := by
  have hL : response.vallen = pre.length + r.encode.length + rest.length := by
    simp [MemcachedResponse.vallen, hval]
    omega
  have hE := length_lookup_encode r
  have hne : pre.length ≠ response.vallen := by omega
  have h2 : readBytes response.value pre.length 2 = Except.ok (encodeBE 2 r.status) := by
    rw [hval, LookupRecord.encode]
    have : pre ++ (encodeBE 2 r.status ++ encodeBE 4 r.value.length ++ r.value) ++ rest
        = pre ++ encodeBE 2 r.status ++ (encodeBE 4 r.value.length ++ r.value ++ rest) := by
      simp
    rw [this]
    exact readBytes_mid _ _ _ _ _ rfl (length_encodeBE _ _).symm
  have h4 : readBytes response.value (pre.length + 2) 4
      = Except.ok (encodeBE 4 r.value.length) := by
    rw [hval, LookupRecord.encode]
    have : pre ++ (encodeBE 2 r.status ++ encodeBE 4 r.value.length ++ r.value) ++ rest
        = (pre ++ encodeBE 2 r.status) ++ encodeBE 4 r.value.length ++ (r.value ++ rest) := by
      simp
    rw [this]
    exact readBytes_mid _ _ _ _ _ (by simp [length_encodeBE]) (length_encodeBE _ _).symm
  have hadv : size_t_add pre.length (uint32_add 6 r.value.length)
      = pre.length + r.encode.length := by
    unfold size_t_add uint32_add
    rw [Nat.mod_eq_of_lt (by omega), Nat.mod_eq_of_lt (by omega)]
    omega
  unfold sdlookup_next
  rw [if_neg hne]
  simp only [h2, h4, ntohs_wire host _ hc.1, ntohl_wire host _ hc.2, hadv]
  unfold lookup_entry
  split_ifs <;> rfl

theorem length_mutate_encode (K : Headers) (r : MutateRecord) :
    (r.encode K).length =
      if r.status = K.RESPONSE.SUCCESS then 7 + r.value.length else 3 := by
  unfold MutateRecord.encode
  split_ifs
  · simp [length_encodeBE]
    omega
  · simp [length_encodeBE]

theorem ADVANCE_BUF_ok (response : MemcachedResponse) (iter sz : Nat)
    (h : iter + sz ≤ response.vallen) (hlen : response.vallen < 2 ^ 32) :
    ADVANCE_BUF response iter sz = Except.ok (iter + sz) := by
  unfold ADVANCE_BUF size_t_add
  rw [Nat.mod_eq_of_lt (by omega)]
  simp [h]

theorem sdmutate_next_record (K : Headers) (host : Endian) (response : MemcachedResponse)
    (ent : lcb_SDENTRY) (pre rest : List Byte) (r : MutateRecord)
    (hval : response.value = pre ++ r.encode K ++ rest) (hc : r.complete)
    (hlen : response.vallen < 2 ^ 32) :
    sdmutate_next K host response ent pre.length =
      Except.ok (some (mutate_entry K pre.length r, pre.length + (r.encode K).length)) := by
  have hL : response.vallen = pre.length + (r.encode K).length + rest.length := by
    simp [MemcachedResponse.vallen, hval]
    omega
  have hE := length_mutate_encode K r
  have hne : pre.length ≠ response.vallen := by split_ifs at hE <;> omega
  have h1 : readBytes response.value pre.length 1 = Except.ok [r.index] := by
    rw [hval, MutateRecord.encode]
    have : ∀ t : List Byte, pre ++ ([r.index] ++ encodeBE 2 r.status ++ t) ++ rest
        = pre ++ [r.index] ++ (encodeBE 2 r.status ++ t ++ rest) := by
      intro t; simp
    rw [this]
    exact readBytes_mid _ _ _ _ _ rfl rfl
  have h2 : readBytes response.value (pre.length + 1) 2 = Except.ok (encodeBE 2 r.status) := by
    rw [hval, MutateRecord.encode]
    have : ∀ t : List Byte, pre ++ ([r.index] ++ encodeBE 2 r.status ++ t) ++ rest
        = (pre ++ [r.index]) ++ encodeBE 2 r.status ++ (t ++ rest) := by
      intro t; simp
    rw [this]
    exact readBytes_mid _ _ _ _ _ (by simp) (length_encodeBE _ _).symm
  have hidx : decodeBE [r.index] = r.index.val := by simp [decodeBE]
  unfold sdmutate_next
  rw [if_neg hne]
  by_cases hs : r.status = K.RESPONSE.SUCCESS
  · rw [if_pos hs] at hE
    have h4 : readBytes response.value (pre.length + 1 + 2) 4
        = Except.ok (encodeBE 4 r.value.length) := by
      rw [hval, MutateRecord.encode, if_pos hs]
      have : pre ++ ([r.index] ++ encodeBE 2 r.status ++
            (encodeBE 4 r.value.length ++ r.value)) ++ rest
          = (pre ++ [r.index] ++ encodeBE 2 r.status) ++ encodeBE 4 r.value.length ++
            (r.value ++ rest) := by
        simp
      rw [this]
      exact readBytes_mid _ _ _ _ _ (by simp [length_encodeBE]) (length_encodeBE _ _).symm
    simp only [bind, Except.bind, pure, Except.pure, h1, h2, h4,
      ADVANCE_BUF_ok response pre.length 1 (by omega) hlen,
      ADVANCE_BUF_ok response (pre.length + 1) 2 (by omega) hlen,
      ADVANCE_BUF_ok response (pre.length + 1 + 2) 4 (by omega) hlen,
      ADVANCE_BUF_ok response (pre.length + 1 + 2 + 4) r.value.length (by omega) hlen,
      ntohs_wire host _ hc.1, ntohl_wire host _ hc.2, hidx, if_pos hs, hE, mutate_entry]
    simp only [Except.ok.injEq, Option.some.injEq, Prod.mk.injEq]
    constructor <;> first | trivial | rfl | omega
  · rw [if_neg hs] at hE
    simp only [bind, Except.bind, pure, Except.pure, h1, h2,
      ADVANCE_BUF_ok response pre.length 1 (by omega) hlen,
      ADVANCE_BUF_ok response (pre.length + 1) 2 (by omega) hlen,
      ntohs_wire host _ hc.1, hidx, if_neg hs, hE, mutate_entry]


theorem slice_mid (a b c : List Byte) (off n : Nat) (hoff : off = a.length)
    (hn : n = b.length) : ((a ++ b ++ c).drop off).take n = b := by
  subst hoff hn
  simp

theorem lookup_entry_index (K : Headers) (idx off : Nat) (r : LookupRecord) :
    (lookup_entry K idx off r).index = idx := by
  unfold lookup_entry
  split_ifs <;> rfl

theorem lookup_entry_is_entry (K : Headers) (idx : Nat) (pre rest : List Byte)
    (r : LookupRecord) :
    r.is_entry K (pre ++ r.encode ++ rest) (lookup_entry K idx pre.length r) := by
  unfold LookupRecord.is_entry lookup_entry
  split_ifs with h
  · refine ⟨rfl, fun _ => ⟨?_, rfl⟩, fun hne => absurd h hne⟩
    simp only [lcb_SDENTRY.bytes, Option.map_some', Option.some.injEq, LookupRecord.encode]
    have : pre ++ (encodeBE 2 r.status ++ encodeBE 4 r.value.length ++ r.value) ++ rest
        = (pre ++ encodeBE 2 r.status ++ encodeBE 4 r.value.length) ++ r.value ++ rest := by
      simp
    rw [this]
    exact slice_mid _ _ _ _ _ (by simp [length_encodeBE]) rfl
  · exact ⟨rfl, fun he => absurd he h, fun _ => ⟨rfl, rfl⟩⟩

theorem mutate_entry_is_entry (K : Headers) (pre rest : List Byte) (r : MutateRecord) :
    r.is_entry K (pre ++ r.encode K ++ rest) (mutate_entry K pre.length r) := by
  unfold MutateRecord.is_entry mutate_entry
  split_ifs with h
  · refine ⟨rfl, rfl, fun _ => ⟨?_, rfl⟩, fun hne => absurd h hne⟩
    simp only [lcb_SDENTRY.bytes, Option.map_some', Option.some.injEq, MutateRecord.encode,
      if_pos h]
    have : pre ++ ([r.index] ++ encodeBE 2 r.status ++
          (encodeBE 4 r.value.length ++ r.value)) ++ rest
        = (pre ++ [r.index] ++ encodeBE 2 r.status ++ encodeBE 4 r.value.length) ++
          r.value ++ rest := by
      simp
    rw [this]
    exact slice_mid _ _ _ _ _ (by simp [length_encodeBE]) rfl
  · exact ⟨rfl, rfl, fun he => absurd he h, fun _ => ⟨rfl, rfl⟩⟩

theorem lcb_sdresult_next_lookup (K : Headers) (host : Endian) (resp : lcb_RESPSUBDOC)
    (response : MemcachedResponse) (hresp : resp.responses = some response)
    (hop : response.opcode = K.CMD.SUBDOC_MULTI_LOOKUP) (ent : lcb_SDENTRY) (iter : Nat) :
    lcb_sdresult_next K host resp ent iter = sdlookup_next K host response ent iter := by
  simp [lcb_sdresult_next, hresp, hop]

theorem lcb_sdresult_next_mutate (K : Headers) (host : Endian) (resp : lcb_RESPSUBDOC)
    (response : MemcachedResponse) (hresp : resp.responses = some response)
    (hcmd : K.CMD.SUBDOC_MULTI_MUTATION ≠ K.CMD.SUBDOC_MULTI_LOOKUP)
    (hop : response.opcode = K.CMD.SUBDOC_MULTI_MUTATION) (ent : lcb_SDENTRY) (iter : Nat) :
    lcb_sdresult_next K host resp ent iter = sdmutate_next K host response ent iter := by
  simp [lcb_sdresult_next, hresp, hop, hcmd]

theorem sdlookup_next_end (K : Headers) (host : Endian) (response : MemcachedResponse)
    (ent : lcb_SDENTRY) (iter : Nat) (h : iter = response.vallen) :
    sdlookup_next K host response ent iter = Except.ok none := by
  simp [sdlookup_next, h]

theorem sdmutate_next_end (K : Headers) (host : Endian) (response : MemcachedResponse)
    (ent : lcb_SDENTRY) (iter : Nat) (h : iter = response.vallen) :
    sdmutate_next K host response ent iter = Except.ok none := by
  simp [sdmutate_next, h]

theorem sd_iterate_lookup (K : Headers) (host : Endian) (response : MemcachedResponse)
    (hlen : response.vallen < 2 ^ 32) :
    ∀ (recs : List LookupRecord) (pre : List Byte) (ent : lcb_SDENTRY) (fuel : Nat),
      response.value = pre ++ lookup_stream recs → (∀ r ∈ recs, r.complete) →
      recs.length < fuel →
      sd_iterate (sdlookup_next K host response) fuel ent pre.length =
        some (Except.ok (lookup_entries K ent.index pre.length recs, response.vallen)) := by
  intro recs
  induction recs with
  | nil =>
    intro pre ent fuel hval _ hfuel
    obtain ⟨fuel, rfl⟩ : ∃ f, fuel = f + 1 := ⟨fuel - 1, by omega⟩
    have hend : pre.length = response.vallen := by
      simp [MemcachedResponse.vallen, hval, lookup_stream]
    rw [hend]
    simp [sd_iterate, sdlookup_next_end K host response ent _ rfl, lookup_entries]
  | cons r rs ih =>
    intro pre ent fuel hval hc hfuel
    obtain ⟨fuel, rfl⟩ : ∃ f, fuel = f + 1 := ⟨fuel - 1, by omega⟩
    have hval1 : response.value = pre ++ r.encode ++ lookup_stream rs := by
      rw [hval, lookup_stream, List.append_assoc]
    have hstep := sdlookup_next_record K host response ent pre (lookup_stream rs) r hval1
      (hc r (List.mem_cons_self _ _)) hlen
    have hrec := ih (pre ++ r.encode) (lookup_entry K ent.index pre.length r) fuel hval1
      (fun q hq => hc q (List.mem_cons_of_mem _ hq)) (by simpa using hfuel)
    rw [List.length_append, lookup_entry_index] at hrec
    simp [sd_iterate, hstep, hrec, lookup_entries]

theorem lcb_sdresult_loop_lookup (K : Headers) (host : Endian) (resp : lcb_RESPSUBDOC)
    (response : MemcachedResponse) (hresp : resp.responses = some response)
    (hop : response.opcode = K.CMD.SUBDOC_MULTI_LOOKUP) (hlen : response.vallen < 2 ^ 32) :
    ∀ (recs : List LookupRecord) (pre : List Byte) (ent : lcb_SDENTRY)
      (results : List lcb_SDENTRY) (oix fuel : Nat),
      response.value = pre ++ lookup_stream recs → (∀ r ∈ recs, r.complete) →
      oix + recs.length ≤ results.length → recs.length < fuel →
      lcb_sdresult_loop K host resp LCB_CALLBACK_SDLOOKUP fuel results ent pre.length oix =
        some (Except.ok (store_seq results oix (lookup_entries K ent.index pre.length recs))) := by
  intro recs
  induction recs with
  | nil =>
    intro pre ent results oix fuel hval _ _ hfuel
    obtain ⟨fuel, rfl⟩ : ∃ f, fuel = f + 1 := ⟨fuel - 1, by omega⟩
    have hend : pre.length = response.vallen := by
      simp [MemcachedResponse.vallen, hval, lookup_stream]
    rw [hend]
    simp [lcb_sdresult_loop, lcb_sdresult_next_lookup K host resp response hresp hop,
      sdlookup_next_end K host response ent _ rfl, lookup_entries, store_seq]
  | cons r rs ih =>
    intro pre ent results oix fuel hval hc hcap hfuel
    obtain ⟨fuel, rfl⟩ : ∃ f, fuel = f + 1 := ⟨fuel - 1, by omega⟩
    have hval1 : response.value = pre ++ r.encode ++ lookup_stream rs := by
      rw [hval, lookup_stream, List.append_assoc]
    have hstep := sdlookup_next_record K host response ent pre (lookup_stream rs) r hval1
      (hc r (List.mem_cons_self _ _)) hlen
    have hoix : oix < results.length := by
      simp only [List.length_cons] at hcap; omega
    have hrec := ih (pre ++ r.encode) (lookup_entry K ent.index pre.length r)
      (results.set oix (lookup_entry K ent.index pre.length r)) (oix + 1) fuel hval1
      (fun q hq => hc q (List.mem_cons_of_mem _ hq))
      (by simp only [List.length_cons] at hcap; simp only [List.length_set]; omega)
      (by simpa using hfuel)
    rw [List.length_append, lookup_entry_index] at hrec
    simp [lcb_sdresult_loop, lcb_sdresult_next_lookup K host resp response hresp hop, hstep,
      hoix, hrec, lookup_entries, store_seq]

theorem lcb_sdresult_loop_mutate (K : Headers) (host : Endian) (resp : lcb_RESPSUBDOC)
    (response : MemcachedResponse) (hresp : resp.responses = some response)
    (hcmd : K.CMD.SUBDOC_MULTI_MUTATION ≠ K.CMD.SUBDOC_MULTI_LOOKUP)
    (hop : response.opcode = K.CMD.SUBDOC_MULTI_MUTATION) (hlen : response.vallen < 2 ^ 32) :
    ∀ (recs : List MutateRecord) (pre : List Byte) (ent : lcb_SDENTRY)
      (results : List lcb_SDENTRY) (oix fuel : Nat),
      response.value = pre ++ mutate_stream K recs → (∀ r ∈ recs, r.complete) →
      (∀ r ∈ recs, r.index.val < results.length) → recs.length < fuel →
      lcb_sdresult_loop K host resp LCB_CALLBACK_SDMUTATE fuel results ent pre.length oix =
        some (Except.ok (store_indexed K results pre.length recs)) := by
  intro recs
  induction recs with
  | nil =>
    intro pre ent results oix fuel hval _ _ hfuel
    obtain ⟨fuel, rfl⟩ : ∃ f, fuel = f + 1 := ⟨fuel - 1, by omega⟩
    have hend : pre.length = response.vallen := by
      simp [MemcachedResponse.vallen, hval, mutate_stream]
    rw [hend]
    simp [lcb_sdresult_loop, lcb_sdresult_next_mutate K host resp response hresp hcmd hop,
      sdmutate_next_end K host response ent _ rfl, store_indexed]
  | cons r rs ih =>
    intro pre ent results oix fuel hval hc hidx hfuel
    obtain ⟨fuel, rfl⟩ : ∃ f, fuel = f + 1 := ⟨fuel - 1, by omega⟩
    have hval1 : response.value = pre ++ r.encode K ++ mutate_stream K rs := by
      rw [hval, mutate_stream, List.append_assoc]
    have hstep := sdmutate_next_record K host response ent pre (mutate_stream K rs) r hval1
      (hc r (List.mem_cons_self _ _)) hlen
    have hi : r.index.val < results.length := hidx r (List.mem_cons_self _ _)
    have hei : (mutate_entry K pre.length r).index = r.index.val := by
      unfold mutate_entry; split_ifs <;> rfl
    have hrec := ih (pre ++ r.encode K) (mutate_entry K pre.length r)
      (results.set r.index.val (mutate_entry K pre.length r)) (oix + 1) fuel hval1
      (fun q hq => hc q (List.mem_cons_of_mem _ hq))
      (fun q hq => by
        simp only [List.length_set]; exact hidx q (List.mem_cons_of_mem _ hq))
      (by simpa using hfuel)
    rw [List.length_append] at hrec
    simp [lcb_sdresult_loop, lcb_sdresult_next_mutate K host resp response hresp hcmd hop,
      hstep, hei, hi, hrec, store_indexed]

theorem length_store_seq (es : List lcb_SDENTRY) :
    ∀ (res : List lcb_SDENTRY) (oix : Nat), (store_seq res oix es).length = res.length := by
  induction es with
  | nil => intro res oix; rfl
  | cons e es ih => intro res oix; simp [store_seq, ih]

theorem store_seq_outside (es : List lcb_SDENTRY) :
    ∀ (res : List lcb_SDENTRY) (oix j : Nat), (j < oix ∨ oix + es.length ≤ j) →
      (store_seq res oix es)[j]? = res[j]? := by
  induction es with
  | nil => intro res oix j _; rfl
  | cons e es ih =>
    intro res oix j hj
    simp only [store_seq]
    rw [ih _ _ _ (by simp only [List.length_cons] at hj; omega),
      List.getElem?_set_ne (by simp only [List.length_cons] at hj; omega)]

theorem store_seq_inside (es : List lcb_SDENTRY) :
    ∀ (res : List lcb_SDENTRY) (oix k : Nat), oix + es.length ≤ res.length → k < es.length →
      (store_seq res oix es)[oix + k]? = es[k]? := by
  induction es with
  | nil => intro res oix k _ hk; cases hk
  | cons e es ih =>
    intro res oix k hcap hk
    simp only [List.length_cons] at hcap hk
    simp only [store_seq]
    cases k with
    | zero =>
      have h1 := store_seq_outside es (res.set oix e) (oix + 1) oix (Or.inl (by omega))
      show (store_seq (res.set oix e) (oix + 1) es)[oix]? = _
      rw [h1, List.getElem?_set_self (by omega)]
      simp
    | succ k =>
      have := ih (res.set oix e) (oix + 1) k (by simp only [List.length_set]; omega) (by omega)
      rw [show oix + (k + 1) = oix + 1 + k by omega, this]
      simp

theorem lookup_entries_is_entry (K : Headers) (idx : Nat) :
    ∀ (recs : List LookupRecord) (pre : List Byte) (k : Nat) (r : LookupRecord),
      recs[k]? = some r →
      ∃ e, (lookup_entries K idx pre.length recs)[k]? = some e ∧
        r.is_entry K (pre ++ lookup_stream recs) e := by
  intro recs
  induction recs with
  | nil => intro pre k r h; simp at h
  | cons q qs ih =>
    intro pre k r h
    cases k with
    | zero =>
      simp only [List.getElem?_cons_zero, Option.some.injEq] at h
      subst h
      refine ⟨lookup_entry K idx pre.length q, by simp [lookup_entries], ?_⟩
      have := lookup_entry_is_entry K idx pre (lookup_stream qs) q
      simpa [lookup_stream] using this
    | succ k =>
      simp only [List.getElem?_cons_succ] at h
      obtain ⟨e, he, hent⟩ := ih (pre ++ q.encode) k r h
      refine ⟨e, ?_, ?_⟩
      · simpa [lookup_entries] using he
      · simpa [lookup_stream] using hent

theorem length_lookup_entries (K : Headers) (idx : Nat) :
    ∀ (recs : List LookupRecord) (off : Nat),
      (lookup_entries K idx off recs).length = recs.length := by
  intro recs
  induction recs with
  | nil => intro off; rfl
  | cons q qs ih => intro off; simp [lookup_entries, ih]

theorem length_store_indexed (K : Headers) :
    ∀ (recs : List MutateRecord) (res : List lcb_SDENTRY) (off : Nat),
      (store_indexed K res off recs).length = res.length := by
  intro recs
  induction recs with
  | nil => intro res off; rfl
  | cons q qs ih => intro res off; simp [store_indexed, ih]

theorem store_indexed_untouched (K : Headers) :
    ∀ (recs : List MutateRecord) (res : List lcb_SDENTRY) (off i : Nat),
      (∀ r ∈ recs, r.index.val ≠ i) → (store_indexed K res off recs)[i]? = res[i]? := by
  intro recs
  induction recs with
  | nil => intro res off i _; rfl
  | cons q qs ih =>
    intro res off i h
    simp only [store_indexed]
    rw [ih _ _ _ (fun r hr => h r (List.mem_cons_of_mem _ hr)),
      List.getElem?_set_ne (h q (List.mem_cons_self _ _))]

theorem store_indexed_is_entry (K : Headers) :
    ∀ (recs : List MutateRecord) (res : List lcb_SDENTRY) (pre : List Byte),
      (∀ r ∈ recs, r.index.val < res.length) →
      recs.Pairwise (fun a b => a.index ≠ b.index) →
      ∀ r ∈ recs, ∃ e, (store_indexed K res pre.length recs)[r.index.val]? = some e ∧
        r.is_entry K (pre ++ mutate_stream K recs) e := by
  intro recs
  induction recs with
  | nil => intro res pre _ _ r hr; cases hr
  | cons q qs ih =>
    intro res pre hidx hpw r hr
    rw [List.pairwise_cons] at hpw
    simp only [store_indexed]
    rcases List.mem_cons.mp hr with rfl | hmem
    · refine ⟨mutate_entry K pre.length r, ?_, ?_⟩
      · rw [store_indexed_untouched K qs _ _ _
            (fun s hs he => hpw.1 s hs (Fin.ext he.symm)),
          List.getElem?_set_self (hidx r (List.mem_cons_self _ _))]
      · have := mutate_entry_is_entry K pre (mutate_stream K qs) r
        simpa [mutate_stream] using this
    · obtain ⟨e, he, hent⟩ := ih (res.set q.index.val (mutate_entry K pre.length q))
        (pre ++ q.encode K)
        (fun s hs => by
          simp only [List.length_set]; exact hidx s (List.mem_cons_of_mem _ hs))
        hpw.2 r hmem
      refine ⟨e, ?_, ?_⟩
      · simpa using he
      · simpa [mutate_stream] using hent


/-- C1: for every `n` and every multi-path mutation payload that is a concatenation
of complete records with pairwise distinct path indices all below `n`,
`lcb_sdresult_parse` with `nres = n` and type SDMUTATE returns (given fuel for one
call per record and the final one) a collection of exactly `n` entries in which
the position named by a record's index byte holds that record's index, mapped
status and value slice, and every position named by no record is the zero entry
(status 0, no value, length 0). -/
theorem lcb_sdresult_parse_mutate (K : Headers) (host : Endian) (fuel : Nat)
    (ent0 : lcb_SDENTRY) (resp : lcb_RESPSUBDOC) (response : MemcachedResponse)
    (recs : List MutateRecord) (n : Nat)
    (hcmd : K.CMD.SUBDOC_MULTI_MUTATION ≠ K.CMD.SUBDOC_MULTI_LOOKUP)
    (hresp : resp.responses = some response)
    (hop : response.opcode = K.CMD.SUBDOC_MULTI_MUTATION)
    (hval : response.value = mutate_stream K recs)
    (hc : ∀ r ∈ recs, r.complete)
    (hlen : response.vallen < 2 ^ 32)
    (hn : resp.nres = n)
    (hidx : ∀ r ∈ recs, r.index.val < n)
    (hpw : recs.Pairwise (fun a b => a.index ≠ b.index))
    (hfuel : recs.length < fuel) :
    ∃ results : List lcb_SDENTRY,
      lcb_sdresult_parse K host fuel ent0 resp LCB_CALLBACK_SDMUTATE =
        some (Except.ok (if n ≠ 0 then { resp with res := some results } else resp)) ∧
      results.length = n ∧
      (∀ r ∈ recs, ∃ e, results[r.index.val]? = some e ∧ r.is_entry K response.value e) ∧
      (∀ i, i < n → (∀ r ∈ recs, r.index.val ≠ i) → results[i]? = some lcb_SDENTRY.zero) := by
  subst hn
  have hloop := lcb_sdresult_loop_mutate K host resp response hresp hcmd hop hlen recs []
    ent0 (List.replicate resp.nres lcb_SDENTRY.zero) 0 fuel (by simpa using hval) hc
    (by simpa using hidx) hfuel
  simp only [List.length_nil] at hloop
  refine ⟨store_indexed K (List.replicate resp.nres lcb_SDENTRY.zero) 0 recs, ?_, ?_, ?_, ?_⟩
  · unfold lcb_sdresult_parse
    rw [hloop]
    simp only []
    split_ifs <;> rfl
  · rw [length_store_indexed, List.length_replicate]
  · have := store_indexed_is_entry K recs (List.replicate resp.nres lcb_SDENTRY.zero) []
      (by simpa using hidx) hpw
    simpa [hval] using this
  · intro i hi hno
    rw [store_indexed_untouched K recs _ _ _ hno, List.getElem?_replicate, if_pos hi]

/-- Witness for C1: records for the paths 0 (success, two value bytes) and 2 (path
not found) of a request of 4 paths: positions 0 and 2 are populated, 1 and 3 are
left zero. -/
theorem lcb_sdresult_parse_mutate_witness :
    ∃ results : List lcb_SDENTRY,
      lcb_sdresult_parse kv Endian.little 3 lcb_SDENTRY.zero
          { rc := LCB_SUCCESS, rflags := 0,
            responses := some ⟨0xd1, 0, 0, 0, [], [0, 0, 0, 0, 0, 0, 2, 7, 8, 2, 0, 0xc0]⟩,
            res := none, nres := 4 } LCB_CALLBACK_SDMUTATE =
        some (Except.ok
          { rc := LCB_SUCCESS, rflags := 0,
            responses := some ⟨0xd1, 0, 0, 0, [], [0, 0, 0, 0, 0, 0, 2, 7, 8, 2, 0, 0xc0]⟩,
            res := some results, nres := 4 }) ∧
      results.length = 4 ∧
      results[1]? = some lcb_SDENTRY.zero ∧ results[3]? = some lcb_SDENTRY.zero := by
  obtain ⟨results, h1, h2, _, h4⟩ :=
    lcb_sdresult_parse_mutate kv Endian.little 3 lcb_SDENTRY.zero
      { rc := LCB_SUCCESS, rflags := 0,
        responses := some ⟨0xd1, 0, 0, 0, [], [0, 0, 0, 0, 0, 0, 2, 7, 8, 2, 0, 0xc0]⟩,
        res := none, nres := 4 }
      ⟨0xd1, 0, 0, 0, [], [0, 0, 0, 0, 0, 0, 2, 7, 8, 2, 0, 0xc0]⟩
      [⟨0, 0, [7, 8]⟩, ⟨2, 0xc0, []⟩] 4
      (by decide) rfl rfl (by decide) (by decide) (by decide) rfl (by decide) (by decide)
      (by decide)
  exact ⟨results, h1, h2, h4 1 (by decide) (by decide), h4 3 (by decide) (by decide)⟩

/-- C2: for every multi-path lookup payload that is a concatenation of `N` complete
records, `N` not above `nres`, repeated `sdlookup_next` calls from cursor 0 return
exactly `N` entries and then stop with the cursor equal to the declared value
length; the `k`-th entry has the mapped status of the `k`-th record and carries its
value slice when that status is success; `lcb_sdresult_parse` stores the `k`-th
entry at position `k` and leaves the positions from `N` on zero. -/
theorem lcb_sdresult_parse_lookup (K : Headers) (host : Endian) (fuel : Nat)
    (ent0 : lcb_SDENTRY) (resp : lcb_RESPSUBDOC) (response : MemcachedResponse)
    (recs : List LookupRecord)
    (hresp : resp.responses = some response)
    (hop : response.opcode = K.CMD.SUBDOC_MULTI_LOOKUP)
    (hval : response.value = lookup_stream recs)
    (hc : ∀ r ∈ recs, r.complete)
    (hlen : response.vallen < 2 ^ 32)
    (hN : recs.length ≤ resp.nres)
    (hfuel : recs.length < fuel) :
    ∃ entries results : List lcb_SDENTRY,
      sd_iterate (sdlookup_next K host response) fuel ent0 0 =
        some (Except.ok (entries, response.vallen)) ∧
      entries.length = recs.length ∧
      (∀ (k : Nat) (r : LookupRecord), recs[k]? = some r →
        ∃ e, entries[k]? = some e ∧ r.is_entry K response.value e) ∧
      lcb_sdresult_parse K host fuel ent0 resp LCB_CALLBACK_SDLOOKUP =
        some (Except.ok (if resp.nres ≠ 0 then { resp with res := some results } else resp)) ∧
      results.length = resp.nres ∧
      (∀ k, k < recs.length → results[k]? = entries[k]?) ∧
      (∀ k, recs.length ≤ k → k < resp.nres → results[k]? = some lcb_SDENTRY.zero) := by
  have hval0 : response.value = [] ++ lookup_stream recs := by simpa using hval
  have hiter := sd_iterate_lookup K host response hlen recs [] ent0 fuel hval0 hc hfuel
  have hloop := lcb_sdresult_loop_lookup K host resp response hresp hop hlen recs [] ent0
    (List.replicate resp.nres lcb_SDENTRY.zero) 0 fuel hval0 hc (by simpa using hN) hfuel
  simp only [List.length_nil] at hiter hloop
  refine ⟨lookup_entries K ent0.index 0 recs,
    store_seq (List.replicate resp.nres lcb_SDENTRY.zero) 0 (lookup_entries K ent0.index 0 recs),
    hiter, length_lookup_entries K _ recs 0, ?_, ?_, ?_, ?_, ?_⟩
  · intro k r hk
    have := lookup_entries_is_entry K ent0.index recs [] k r hk
    simpa [hval] using this
  · unfold lcb_sdresult_parse
    rw [hloop]
    simp only []
    split_ifs <;> rfl
  · rw [length_store_seq, List.length_replicate]
  · intro k hk
    have := store_seq_inside (lookup_entries K ent0.index 0 recs)
      (List.replicate resp.nres lcb_SDENTRY.zero) 0 k
      (by simp [length_lookup_entries]; exact hN) (by rw [length_lookup_entries]; exact hk)
    simpa using this
  · intro k hk hlt
    rw [store_seq_outside _ _ _ _ (Or.inr (by rw [length_lookup_entries]; omega)),
      List.getElem?_replicate, if_pos hlt]

/-- Witness for C2: two records whose length field is 0, a payload of 12 bytes, a
request of two paths. -/
theorem lcb_sdresult_parse_lookup_witness :
    ∃ entries results : List lcb_SDENTRY,
      sd_iterate (sdlookup_next kv Endian.big
          ⟨0xd0, 0, 0, 0, [], [0, 0, 0, 0, 0, 0, 0, 0xc0, 0, 0, 0, 0]⟩) 3 lcb_SDENTRY.zero 0 =
        some (Except.ok (entries, 12)) ∧
      entries.length = 2 ∧
      lcb_sdresult_parse kv Endian.big 3 lcb_SDENTRY.zero
          { rc := LCB_SUCCESS, rflags := 0,
            responses := some ⟨0xd0, 0, 0, 0, [], [0, 0, 0, 0, 0, 0, 0, 0xc0, 0, 0, 0, 0]⟩,
            res := none, nres := 2 } LCB_CALLBACK_SDLOOKUP =
        some (Except.ok
          { rc := LCB_SUCCESS, rflags := 0,
            responses := some ⟨0xd0, 0, 0, 0, [], [0, 0, 0, 0, 0, 0, 0, 0xc0, 0, 0, 0, 0]⟩,
            res := some results, nres := 2 }) ∧
      results[0]? = entries[0]? ∧ results[1]? = entries[1]? := by
  obtain ⟨entries, results, h1, h2, _, h4, _, h6, _⟩ :=
    lcb_sdresult_parse_lookup kv Endian.big 3 lcb_SDENTRY.zero
      { rc := LCB_SUCCESS, rflags := 0,
        responses := some ⟨0xd0, 0, 0, 0, [], [0, 0, 0, 0, 0, 0, 0, 0xc0, 0, 0, 0, 0]⟩,
        res := none, nres := 2 }
      ⟨0xd0, 0, 0, 0, [], [0, 0, 0, 0, 0, 0, 0, 0xc0, 0, 0, 0, 0]⟩
      [⟨0, []⟩, ⟨0xc0, []⟩]
      rfl rfl (by decide) (by decide) (by decide) (by decide) (by decide)
  exact ⟨entries, results, h1, h2, h4, h6 0 (by decide), h6 1 (by decide)⟩

/-- C3 (the code at the failing inputs): on a 6-byte lookup record whose length
field is 9, `sdlookup_next` returns an entry and leaves the cursor at 15, past the
declared value length 6, and the loop of `lcb_sdresult_parse` goes on to read at
offset 15; on a lookup payload truncated to 3 bytes `sdlookup_next` reads at offset
3, the declared value length; on a mutation payload truncated to 2 bytes
`sdmutate_next` reads at offset 2.  On a mutation record whose length field is 9
with no byte left, `lcb_assert(buf <= buf_end)` of `sdmutate_next` fails. -/
theorem sd_next_reads_past_value :
    sdlookup_next kv Endian.little ⟨0xd0, 0, 0, 0, [], [0, 0, 0, 0, 0, 9]⟩ lcb_SDENTRY.zero 0
      = Except.ok (some ({ value := some 6, nvalue := 9, status := LCB_SUCCESS, index := 0 }, 15)) ∧
    lcb_sdresult_parse kv Endian.little 5 lcb_SDENTRY.zero
        { rc := LCB_SUCCESS, rflags := 0,
          responses := some ⟨0xd0, 0, 0, 0, [], [0, 0, 0, 0, 0, 9]⟩, res := none, nres := 4 }
        LCB_CALLBACK_SDLOOKUP
      = some (Except.error (Fault.oob_read 15)) ∧
    sdlookup_next kv Endian.little ⟨0xd0, 0, 0, 0, [], [0, 0, 0]⟩ lcb_SDENTRY.zero 0
      = Except.error (Fault.oob_read 3) ∧
    sdmutate_next kv Endian.little ⟨0xd1, 0, 0, 0, [], [0, 0]⟩ lcb_SDENTRY.zero 0
      = Except.error (Fault.oob_read 2) ∧
    sdmutate_next kv Endian.little ⟨0xd1, 0, 0, 0, [], [0, 0, 0, 0, 0, 0, 9]⟩ lcb_SDENTRY.zero 0
      = Except.error Fault.assertion :=
  ⟨rfl, rfl, rfl, rfl, rfl⟩

/-! ## Token query, entries of a lookup record: theorems -/

theorem decodeBE_replicate_zero (n : Nat) : decodeBE (List.replicate n (0 : Byte)) = 0 := by
  induction n with
  | zero => rfl
  | succ n ih =>
    rw [List.replicate_succ', decodeBE_append_single, ih]
    rfl

/-- C11: a token that `handle_mutation_token` decodes from 16 all-zero extras
bytes has `uuid = 0` and `seqno = 0` whatever the vbucket id, and
`lcb_resp_get_mutation_token` returns null for every result that carries it,
under every callback type (store, counter, remove, sub-document mutation
included) and whatever the result's flags. -/
theorem mutation_token_zero_roundtrip (K : Headers) (host : Endian)
    (inst : Option lcb_INSTANCE) (mc_resp : MemcachedResponse) (req : mc_PACKET)
    (stok : lcb_MUTATION_TOKEN)
    (hext : mc_resp.ext = List.replicate 16 0)
    (hv : ∀ i t, ensure_dcpinfo inst = some i → i.dcpinfo = some t → req.vbucket < t.length) :
    ∃ inst1 tok,
      handle_mutation_token host inst mc_resp req stok = Except.ok (inst1, tok) ∧
      tok.vbid_ = req.vbucket ∧ tok.uuid_ = 0 ∧ tok.seqno_ = 0 ∧
      ∀ (cbtype : lcb_CALLBACK_TYPE) (rb : ResponsePack), rb.mt = tok →
        lcb_resp_get_mutation_token K cbtype rb = none := by
  have hu : decodeBE (mc_resp.ext.take 8) = 0 := by
    rw [hext]
    exact decodeBE_replicate_zero 8
  have hs : decodeBE ((mc_resp.ext.drop 8).take 8) = 0 := by
    rw [hext]
    exact decodeBE_replicate_zero 8
  refine ⟨_, _, handle_mutation_token_ok host inst mc_resp req stok (by simp [hext]) hv,
    rfl, hu, hs, ?_⟩
  intro cbtype rb hrb
  unfold lcb_resp_get_mutation_token
  simp [hrb, decoded_token, hu, hs]

/-- Witness for C11: sixteen zero bytes for vbucket 3 on a store result flagged
`LCB_RESP_F_EXTDATA`. -/
theorem mutation_token_zero_roundtrip_witness :
    ∃ inst1 tok,
      handle_mutation_token Endian.little none
          ⟨0, 0, 0, 0, List.replicate 16 0, []⟩ ⟨0, 3, 0⟩ ⟨5, 6, 7⟩ = Except.ok (inst1, tok) ∧
      lcb_resp_get_mutation_token kv LCB_CALLBACK_STORE
          { ResponsePack.zero with
              resp := { lcb_RESP.zero with rflags := kv.RESP_F.EXTDATA }, mt := tok } = none := by
  obtain ⟨inst1, tok, h, _, _, _, hq⟩ :=
    mutation_token_zero_roundtrip kv Endian.little none
      ⟨0, 0, 0, 0, List.replicate 16 0, []⟩ ⟨0, 3, 0⟩ ⟨5, 6, 7⟩ rfl
      (fun i t hi _ => by simp [ensure_dcpinfo] at hi)
  exact ⟨inst1, tok, h, hq _ _ rfl⟩

/-- C14: for a complete record of a multi-path lookup stream (after the bytes
`pre`, before the bytes `rest`), `sdlookup_next` returns an entry with the mapped
status and moves the cursor by 6 plus the length field; when the mapped status is
success the entry carries the record's value slice (the bytes right after the
6-byte prefix, as many as the length field says), for every other status it
carries no value and length 0. -/
theorem sdlookup_next_entry (K : Headers) (host : Endian) (response : MemcachedResponse)
    (ent : lcb_SDENTRY) (pre rest : List Byte) (r : LookupRecord)
    (hval : response.value = pre ++ r.encode ++ rest) (hc : r.complete)
    (hlen : response.vallen < 2 ^ 32) :
    ∃ e, sdlookup_next K host response ent pre.length =
        Except.ok (some (e, pre.length + (6 + r.value.length))) ∧
      e.status = lcb_map_error K none r.status ∧
      (e.status = LCB_SUCCESS →
        e.value = some (pre.length + 6) ∧ e.nvalue = r.value.length ∧
        e.bytes response.value = some r.value) ∧
      (e.status ≠ LCB_SUCCESS → e.value = none ∧ e.nvalue = 0 ∧ e.bytes response.value = none) := by
  have hstep := sdlookup_next_record K host response ent pre rest r hval hc hlen
  rw [length_lookup_encode] at hstep
  have hent := lookup_entry_is_entry K ent.index pre rest r
  rw [← hval] at hent
  refine ⟨_, hstep, hent.1, ?_, ?_⟩
  · intro hs
    refine ⟨?_, (hent.2.1 hs).2, (hent.2.1 hs).1⟩
    unfold lookup_entry at hs ⊢
    split_ifs at hs ⊢ with h
    · rfl
    · exact absurd hs h
  · intro hs
    refine ⟨(hent.2.2 hs).1, (hent.2.2 hs).2, ?_⟩
    simp [lcb_SDENTRY.bytes, (hent.2.2 hs).1]

/-- Witness for C14: a record with status PATH_ENOENT and two value bytes, after a
first record of 6 bytes. -/
theorem sdlookup_next_entry_witness :
    ∃ e, sdlookup_next kv Endian.big
          ⟨0xd0, 0, 0, 0, [], [0, 0, 0, 0, 0, 0, 0, 0xc0, 0, 0, 0, 2, 8, 9]⟩ lcb_SDENTRY.zero 6 =
        Except.ok (some (e, 14)) ∧
      e.status = LCB_ERR_SUBDOC_PATH_NOT_FOUND ∧ e.value = none ∧ e.nvalue = 0 := by
  obtain ⟨e, h, hs, _, hne⟩ :=
    sdlookup_next_entry kv Endian.big
      ⟨0xd0, 0, 0, 0, [], [0, 0, 0, 0, 0, 0, 0, 0xc0, 0, 0, 0, 2, 8, 9]⟩ lcb_SDENTRY.zero
      [0, 0, 0, 0, 0, 0] [] ⟨0xc0, [8, 9]⟩ (by decide) (by decide) (by decide)
  have hst : e.status = LCB_ERR_SUBDOC_PATH_NOT_FOUND := by rw [hs]; decide
  have hne' := hne (by rw [hst]; decide)
  exact ⟨e, h, hst, hne'.1, hne'.2.1⟩

/-! ## Callback delivery and enhanced error info: theorems -/

/-- C17: for a request whose flags include `MCREQ_F_INVOKED`, `invoke_callback`
makes no call at all, whatever the instance, the result and the callback type:
neither the registered callback of the instance nor the private callback behind
the cookie is invoked. -/
theorem invoke_callback_invoked (K : Headers) (X : Externals) (pkt : mc_PACKET)
    (inst : Option lcb_INSTANCE) (resp : Result) (cbtype : lcb_CALLBACK_TYPE)
    (hinv : (pkt.flags &&& K.REQ_F.INVOKED) ≠ 0) :
    invoke_callback K X pkt inst resp cbtype = [] := by
  unfold invoke_callback
  simp [hinv]

/-- Witness for C17: flags `INVOKED | PRIVCALLBACK` on an attached instance. -/
theorem invoke_callback_invoked_witness :
    (((⟨0x280, 0, 0⟩ : mc_PACKET).flags &&& kv.REQ_F.INVOKED) ≠ 0) ∧
    invoke_callback kv kx ⟨0x280, 0, 0⟩ (some plain_instance) (Result.plain lcb_RESP.zero)
      LCB_CALLBACK_GET = [] :=
  ⟨by decide, invoke_callback_invoked kv kx ⟨0x280, 0, 0⟩ (some plain_instance)
    (Result.plain lcb_RESP.zero) LCB_CALLBACK_GET (by decide)⟩

/-- Counterexample for C18: a request that is not marked invoked and carries no
`MCREQ_F_PRIVCALLBACK`, on a null instance: `invoke_callback` delivers nothing. -/
theorem invoke_callback_null_instance_counterexample :
    ((⟨0, 0, 0⟩ : mc_PACKET).flags &&& kv.REQ_F.INVOKED) = 0 ∧
    invoke_callback kv kx ⟨0, 0, 0⟩ none (Result.plain lcb_RESP.zero) LCB_CALLBACK_GET = [] :=
  ⟨by decide, rfl⟩

theorem collection_path_block_sans_path (X : Externals) (pkt : mc_PACKET)
    (inst : Option lcb_INSTANCE) (resp : Result) (f : lcb_RESP → lcb_RESP)
    (hf : ∀ r r2 : lcb_RESP,
      { r with scope := StrPtr.null, collection := StrPtr.null } =
        { r2 with scope := StrPtr.null, collection := StrPtr.null } →
      { f r with scope := StrPtr.null, collection := StrPtr.null } =
        { f r2 with scope := StrPtr.null, collection := StrPtr.null }) :
    ((resp.update (collection_path_block X pkt inst)).update f).sans_path =
      (resp.update f).sans_path := by
  have hblock : ∀ r : lcb_RESP,
      { collection_path_block X pkt inst r with
          scope := StrPtr.null, collection := StrPtr.null } =
        { r with scope := StrPtr.null, collection := StrPtr.null } := by
    intro r
    unfold collection_path_block set_collection_path
    cases inst with
    | none => rfl
    | some i =>
      simp only
      split_ifs
      · split <;> rfl
      · rfl
  cases resp with
  | plain r =>
    simp only [Result.sans_path, Result.update]
    rw [hf _ _ (hblock r)]
  | packed w =>
    simp only [Result.sans_path, Result.update]
    rw [hf _ _ (hblock w.resp)]

/-- C18 (amended): for a request not marked invoked, with `result` a result that
is the given one with the cookie of the request stored in it, its scope and
collection fields left aside: with `MCREQ_F_PRIVCALLBACK` the only call is the
callback behind the cookie, with arguments (instance, callback type, result);
without it and with an instance attached the only call is the callback that
`find_callback` returns for the callback type (the one registered in
`v3callbacks`, else what `lcb_find_callback` gives), with the same arguments;
without it and with a null instance there is no call. -/
theorem invoke_callback_delivers (K : Headers) (X : Externals) (pkt : mc_PACKET)
    (inst : Option lcb_INSTANCE) (resp : Result) (cbtype : lcb_CALLBACK_TYPE)
    (hinv : (pkt.flags &&& K.REQ_F.INVOKED) = 0) :
    ((pkt.flags &&& K.REQ_F.PRIVCALLBACK) ≠ 0 →
      ∃ result : Result,
        invoke_callback K X pkt inst resp cbtype =
          [Delivery.cookie_callback (X.MCREQ_PKT_COOKIE pkt) inst cbtype result] ∧
        result.sans_path =
          (resp.update (fun r => { r with cookie := some (X.MCREQ_PKT_COOKIE pkt) })).sans_path) ∧
    ((pkt.flags &&& K.REQ_F.PRIVCALLBACK) = 0 → ∀ i, inst = some i →
      (∃ result : Result,
        invoke_callback K X pkt inst resp cbtype =
          [Delivery.callback (find_callback i cbtype) i cbtype result] ∧
        result.sans_path =
          (resp.update (fun r => { r with cookie := some (X.MCREQ_PKT_COOKIE pkt) })).sans_path) ∧
      (∀ cb, i.v3callbacks cbtype = some cb → find_callback i cbtype = cb) ∧
      (i.v3callbacks cbtype = none → find_callback i cbtype = i.lcb_find_callback cbtype)) ∧
    ((pkt.flags &&& K.REQ_F.PRIVCALLBACK) = 0 → inst = none →
      invoke_callback K X pkt inst resp cbtype = []) := by
  have hsans := collection_path_block_sans_path X pkt inst resp
    (fun r => { r with cookie := some (X.MCREQ_PKT_COOKIE pkt) })
    (fun r r2 h => by
      have h2 := congrArg (fun x : lcb_RESP => { x with cookie := some (X.MCREQ_PKT_COOKIE pkt) }) h
      exact h2)
  refine ⟨?_, ?_, ?_⟩
  · intro hp
    refine ⟨_, ?_, hsans⟩
    unfold invoke_callback
    simp [hinv, hp]
  · intro hp i hi
    subst hi
    refine ⟨⟨_, ?_, hsans⟩, ?_, ?_⟩
    · unfold invoke_callback
      simp [hinv, hp]
    · intro cb hcb
      simp [find_callback, hcb]
    · intro hcb
      simp [find_callback, hcb]
  · intro hp hi
    subst hi
    unfold invoke_callback
    simp [hinv, hp]

/-- Witness for C18: a request with `MCREQ_F_PRIVCALLBACK` and one without, both on
an attached instance whose table has no entry for the callback type. -/
theorem invoke_callback_delivers_witness :
    (∃ result : Result,
      invoke_callback kv kx ⟨0x200, 0, 0⟩ (some plain_instance) (Result.plain lcb_RESP.zero)
          LCB_CALLBACK_GET =
        [Delivery.cookie_callback 7 (some plain_instance) LCB_CALLBACK_GET result] ∧
      result.sans_path = Result.plain { lcb_RESP.zero with cookie := some 7 }) ∧
    (∃ result : Result,
      invoke_callback kv kx ⟨0, 0, 0⟩ (some plain_instance) (Result.plain lcb_RESP.zero)
          LCB_CALLBACK_GET =
        [Delivery.callback 0 plain_instance LCB_CALLBACK_GET result] ∧
      result.sans_path = Result.plain { lcb_RESP.zero with cookie := some 7 }) :=
  ⟨(invoke_callback_delivers kv kx ⟨0x200, 0, 0⟩ (some plain_instance)
      (Result.plain lcb_RESP.zero) LCB_CALLBACK_GET (by decide)).1 (by decide),
   ((invoke_callback_delivers kv kx ⟨0, 0, 0⟩ (some plain_instance)
      (Result.plain lcb_RESP.zero) LCB_CALLBACK_GET (by decide)).2.1 (by decide)
      plain_instance rfl).1⟩

/-- C19: for a request flagged `MCREQ_F_UFWD`, dispatched with an immediate error
(the `lcb_assert` of `dispatch_ufwd_error`) on a server with an instance,
`mcreq_dispatch_response` returns 0 and its only call is one call of
`callbacks.pktfwd` with the instance, the cookie of the request, the immediate
error and a version-0 response; this holds for every envelope, whatever its
opcode, so no response builder runs. -/
theorem mcreq_dispatch_response_ufwd (K : Headers) (X : Externals) (host : Endian)
    (fuel : Nat) (ent0 : lcb_SDENTRY) (pipeline : mc_PIPELINE) (req : mc_PACKET)
    (res : MemcachedResponse) (immerr : lcb_STATUS) (i : lcb_INSTANCE)
    (hufwd : (req.flags &&& K.REQ_F.UFWD) ≠ 0)
    (himm : immerr ≠ LCB_SUCCESS)
    (hi : pipeline.server_instance = some i) :
    mcreq_dispatch_response K X host fuel ent0 pipeline req res immerr =
      some (Except.ok (0, { inst := get_instance pipeline,
                            deliveries := [Delivery.pktfwd i (X.MCREQ_PKT_COOKIE req) immerr 0] })) := by
  unfold mcreq_dispatch_response dispatch_ufwd_error
  simp [hufwd, himm, hi]

/-- Witness for C19: a forwarded request that timed out, with an envelope whose
opcode 0xff is outside the dispatch table. -/
theorem mcreq_dispatch_response_ufwd_witness :
    mcreq_dispatch_response kv kx Endian.little 0 lcb_SDENTRY.zero attached_pipeline ⟨0x20, 0, 0⟩
        ⟨0xff, 0, 0, 0, [], []⟩ LCB_ERR_TIMEOUT =
      some (Except.ok (0, { inst := some plain_instance,
                            deliveries := [Delivery.pktfwd plain_instance 7 LCB_ERR_TIMEOUT 0] })) :=
  mcreq_dispatch_response_ufwd kv kx Endian.little 0 lcb_SDENTRY.zero attached_pipeline
    ⟨0x20, 0, 0⟩ ⟨0xff, 0, 0, 0, [], []⟩ LCB_ERR_TIMEOUT plain_instance (by decide) (by decide) rfl

/-- C20: when the wire status is not success, the datatype has the JSON bit and
the value is not empty, `handle_error_info` ors `LCB_RESP_F_ERRINFO` into the flags
of the result and records the value of the envelope and its length, and changes
nothing else; in every other case it returns the pack as it was. On a pack whose
flags lack the marker (every builder passes such a pack) the marker is set
afterwards exactly under that condition, and when it is not, both
`lcb_resp_get_error_context` and `lcb_resp_get_error_ref` return null for every
callback type, without calling the parser. -/
theorem handle_error_info_iff (K : Headers) (X : Externals) (mc_resp : MemcachedResponse)
    (rp : ResponsePack) :
    let c := mc_resp.status ≠ K.RESPONSE.SUCCESS ∧ (mc_resp.datatype &&& K.DATATYPE.JSON) ≠ 0 ∧
      mc_resp.vallen > 0
    (c → handle_error_info K mc_resp rp =
        { rp with resp := { rp.resp with rflags := rp.resp.rflags ||| K.RESP_F.ERRINFO },
                  value := some mc_resp.value, nvalue := mc_resp.vallen } ∧
      ((handle_error_info K mc_resp rp).resp.rflags &&& K.RESP_F.ERRINFO) = K.RESP_F.ERRINFO) ∧
    (¬ c → handle_error_info K mc_resp rp = rp) ∧
    ((rp.resp.rflags &&& K.RESP_F.ERRINFO) = 0 → K.RESP_F.ERRINFO ≠ 0 →
      (((handle_error_info K mc_resp rp).resp.rflags &&& K.RESP_F.ERRINFO) ≠ 0 ↔ c)) ∧
    ((rp.resp.rflags &&& K.RESP_F.ERRINFO) = 0 → ¬ c → ∀ cbtype,
      lcb_resp_get_error_context K X cbtype (handle_error_info K mc_resp rp) = (none, rp, 0) ∧
      lcb_resp_get_error_ref K X cbtype (handle_error_info K mc_resp rp) = (none, rp, 0)) := by
  intro c
  have h1 : c → handle_error_info K mc_resp rp =
      { rp with resp := { rp.resp with rflags := rp.resp.rflags ||| K.RESP_F.ERRINFO },
                value := some mc_resp.value, nvalue := mc_resp.vallen } := by
    intro hc
    unfold handle_error_info
    rw [if_pos hc]
  have h2 : ¬ c → handle_error_info K mc_resp rp = rp := by
    intro hc
    unfold handle_error_info
    rw [if_neg hc]
  refine ⟨fun hc => ⟨h1 hc, ?_⟩, h2, ?_, ?_⟩
  · rw [h1 hc]
    exact lor_land_self _ _
  · intro hfresh hbit
    constructor
    · intro hset
      by_contra hc
      rw [h2 hc] at hset
      exact hset hfresh
    · intro hc
      rw [h1 hc]
      show (rp.resp.rflags ||| K.RESP_F.ERRINFO) &&& K.RESP_F.ERRINFO ≠ 0
      rw [lor_land_self]
      exact hbit
  · intro hfresh hc cbtype
    rw [h2 hc]
    simp [lcb_resp_get_error_context, lcb_resp_get_error_ref, hfresh]

/-- Witness for C20: a NOT_FOUND response with a JSON value of two bytes, and the
same response without the JSON bit, on a value-initialised pack. -/
theorem handle_error_info_iff_witness :
    handle_error_info kv ⟨0, 0x01, 0, 0x01, [], [123, 125]⟩ ResponsePack.zero =
      { ResponsePack.zero with
          resp := { lcb_RESP.zero with rflags := kv.RESP_F.ERRINFO },
          value := some [123, 125], nvalue := 2 } ∧
    lcb_resp_get_error_context kv kx LCB_CALLBACK_GET
        (handle_error_info kv ⟨0, 0x01, 0, 0x00, [], [123, 125]⟩ ResponsePack.zero) =
      (none, ResponsePack.zero, 0) :=
  ⟨((handle_error_info_iff kv kx ⟨0, 0x01, 0, 0x01, [], [123, 125]⟩ ResponsePack.zero).1
      (by decide)).1,
   ((handle_error_info_iff kv kx ⟨0, 0x01, 0, 0x00, [], [123, 125]⟩ ResponsePack.zero).2.2.2
      (by decide) (by decide) LCB_CALLBACK_GET).1⟩

/-! ## Termination of the loops -/

theorem lcb_sdresult_loop_total_of_order (K : Headers) (host : Endian) (resp : lcb_RESPSUBDOC)
    (type : lcb_CALLBACK_TYPE) (ht : type ≠ LCB_CALLBACK_SDMUTATE) :
    ∀ (fuel : Nat) (results : List lcb_SDENTRY) (ent : lcb_SDENTRY) (iter oix : Nat),
      oix ≤ results.length → results.length < fuel + oix →
      lcb_sdresult_loop K host resp type fuel results ent iter oix ≠ none := by
  intro fuel
  induction fuel with
  | zero => intro results ent iter oix h1 h2; omega
  | succ fuel ih =>
    intro results ent iter oix h1 h2
    unfold lcb_sdresult_loop
    cases hn : lcb_sdresult_next K host resp ent iter with
    | error f => simp
    | ok r =>
      cases r with
      | none => simp
      | some p =>
        obtain ⟨ent1, iter1⟩ := p
        simp only [if_neg ht]
        by_cases hlt : oix < results.length
        · rw [if_pos hlt]
          apply ih
          · rw [List.length_set]; omega
          · rw [List.length_set]; omega
        · rw [if_neg hlt]
          simp

theorem lcb_sdresult_loop_total_of_empty (K : Headers) (host : Endian) (resp : lcb_RESPSUBDOC)
    (type : lcb_CALLBACK_TYPE) (fuel : Nat) (ent : lcb_SDENTRY) (iter oix : Nat) :
    lcb_sdresult_loop K host resp type (fuel + 1) [] ent iter oix ≠ none := by
  unfold lcb_sdresult_loop
  cases hn : lcb_sdresult_next K host resp ent iter with
  | error f => simp
  | ok r =>
    cases r with
    | none => simp
    | some p => simp

theorem decodeBE_foldl_lt (bs : List Byte) : ∀ acc : Nat,
    bs.foldl (fun acc b => acc * 256 + b.val) acc < (acc + 1) * 256 ^ bs.length := by
  induction bs with
  | nil => intro acc; simp
  | cons b bs ih =>
    intro acc
    rw [List.foldl_cons, List.length_cons]
    have hb := b.isLt
    calc bs.foldl (fun acc b => acc * 256 + b.val) (acc * 256 + b.val)
        < (acc * 256 + b.val + 1) * 256 ^ bs.length := ih _
      _ ≤ ((acc + 1) * 256) * 256 ^ bs.length := Nat.mul_le_mul_right _ (by omega)
      _ = (acc + 1) * 256 ^ (bs.length + 1) := by ring

theorem decodeBE_lt (bs : List Byte) : decodeBE bs < 256 ^ bs.length := by
  have h := decodeBE_foldl_lt bs 0
  simpa [decodeBE] using h

theorem length_of_readBytes (buf : List Byte) (off n : Nat) (bs : List Byte)
    (h : readBytes buf off n = Except.ok bs) : bs.length = n ∧ off + n ≤ buf.length := by
  unfold readBytes at h
  split_ifs at h with hle
  cases h
  refine ⟨?_, hle⟩
  rw [List.length_take, List.length_drop]
  omega

theorem ADVANCE_BUF_bound (response : MemcachedResponse) (iter sz i1 : Nat)
    (h : ADVANCE_BUF response iter sz = Except.ok i1) :
    i1 = size_t_add iter sz ∧ i1 ≤ response.vallen := by
  unfold ADVANCE_BUF at h
  simp only at h
  split_ifs at h with hle
  cases h
  exact ⟨rfl, hle⟩

theorem sdmutate_next_progress (K : Headers) (host : Endian) (response : MemcachedResponse)
    (ent e : lcb_SDENTRY) (iter i1 : Nat)
    (h : sdmutate_next K host response ent iter = Except.ok (some (e, i1)))
    (hlen : response.vallen < 2 ^ 32) (hle : iter ≤ response.vallen) :
    iter < i1 ∧ i1 ≤ response.vallen := by
  unfold sdmutate_next at h
  split_ifs at h with h0
  · simp at h
  cases hb1 : readBytes response.value iter 1 with
  | error f => rw [hb1] at h; cases h
  | ok b1 =>
    rw [hb1] at h
    cases ha1 : ADVANCE_BUF response iter 1 with
    | error f => simp [bind, Except.bind, ha1] at h
    | ok it1 =>
      obtain ⟨e1, l1⟩ := ADVANCE_BUF_bound _ _ _ _ ha1
      have hit1 : it1 = iter + 1 := by
        rw [e1]; unfold size_t_add; apply Nat.mod_eq_of_lt; omega
      cases hb2 : readBytes response.value it1 2 with
      | error f => simp [bind, Except.bind, ha1, hb2] at h
      | ok b2 =>
        cases ha2 : ADVANCE_BUF response it1 2 with
        | error f => simp [bind, Except.bind, ha1, hb2, ha2] at h
        | ok it2 =>
          obtain ⟨e2, l2⟩ := ADVANCE_BUF_bound _ _ _ _ ha2
          have hit2 : it2 = iter + 3 := by
            rw [e2]; unfold size_t_add; rw [Nat.mod_eq_of_lt (by omega)]; omega
          by_cases hrc : ntohs host (memcpy_uint host b2) = K.RESPONSE.SUCCESS
          · cases hb4 : readBytes response.value it2 4 with
            | error f => simp [bind, Except.bind, ha1, hb2, ha2, hrc, hb4] at h
            | ok b4 =>
              cases ha3 : ADVANCE_BUF response it2 4 with
              | error f => simp [bind, Except.bind, ha1, hb2, ha2, hrc, hb4, ha3] at h
              | ok it3 =>
                obtain ⟨e3, l3⟩ := ADVANCE_BUF_bound _ _ _ _ ha3
                have hit3 : it3 = iter + 7 := by
                  rw [e3]; unfold size_t_add; rw [Nat.mod_eq_of_lt (by omega)]; omega
                cases ha4 : ADVANCE_BUF response it3 (ntohl host (memcpy_uint host b4)) with
                | error f => simp [bind, Except.bind, ha1, hb2, ha2, hrc, hb4, ha3, ha4] at h
                | ok it4 =>
                  obtain ⟨e4, l4⟩ := ADVANCE_BUF_bound _ _ _ _ ha4
                  simp [bind, Except.bind, ha1, hb2, ha2, hrc, hb4, ha3, ha4, pure, Except.pure] at h
                  obtain ⟨-, rfl⟩ := h
                  refine ⟨?_, l4⟩
                  rw [e4]
                  unfold size_t_add
                  have hv : ntohl host (memcpy_uint host b4) < 2 ^ 32 := by
                    have hl := (length_of_readBytes _ _ _ _ hb4).1
                    unfold ntohl
                    rw [ntoh_memcpy host 4 b4 hl]
                    have := decodeBE_lt b4
                    rw [hl] at this
                    exact this
                  rw [Nat.mod_eq_of_lt (by omega)]
                  omega
          · simp [bind, Except.bind, ha1, hb2, ha2, hrc, pure, Except.pure] at h
            obtain ⟨-, rfl⟩ := h
            omega

theorem lcb_sdresult_loop_total_of_mutate (K : Headers) (host : Endian) (resp : lcb_RESPSUBDOC)
    (type : lcb_CALLBACK_TYPE) (response : MemcachedResponse)
    (hr : resp.responses = some response)
    (hl : response.opcode ≠ K.CMD.SUBDOC_MULTI_LOOKUP)
    (hm : response.opcode = K.CMD.SUBDOC_MULTI_MUTATION)
    (hlen : response.vallen < 2 ^ 32) :
    ∀ (fuel : Nat) (results : List lcb_SDENTRY) (ent : lcb_SDENTRY) (iter oix : Nat),
      iter ≤ response.vallen → response.vallen < fuel + iter →
      lcb_sdresult_loop K host resp type fuel results ent iter oix ≠ none := by
  intro fuel
  induction fuel with
  | zero => intro results ent iter oix h1 h2; omega
  | succ fuel ih =>
    intro results ent iter oix h1 h2
    have hnext : lcb_sdresult_next K host resp ent iter = sdmutate_next K host response ent iter := by
      unfold lcb_sdresult_next
      rw [hr]
      simp only [if_neg hl, if_pos hm]
    unfold lcb_sdresult_loop
    rw [hnext]
    cases hn : sdmutate_next K host response ent iter with
    | error f => simp
    | ok r =>
      cases r with
      | none => simp
      | some p =>
        obtain ⟨ent1, iter1⟩ := p
        obtain ⟨p1, p2⟩ := sdmutate_next_progress K host response ent ent1 iter iter1 hn hlen h1
        simp only
        split_ifs
        · exact ih _ _ _ _ p2 (by omega)
        · simp
        · exact ih _ _ _ _ p2 (by omega)
        · simp

theorem lcb_sdresult_parse_total (K : Headers) (host : Endian) (fuel : Nat) (ent0 : lcb_SDENTRY)
    (resp : lcb_RESPSUBDOC) (type : lcb_CALLBACK_TYPE)
    (h : lcb_sdresult_loop K host resp type fuel (List.replicate resp.nres lcb_SDENTRY.zero)
      ent0 0 0 ≠ none) :
    lcb_sdresult_parse K host fuel ent0 resp type ≠ none := by
  unfold lcb_sdresult_parse
  cases hl : lcb_sdresult_loop K host resp type fuel (List.replicate resp.nres lcb_SDENTRY.zero)
      ent0 0 0 with
  | none => exact absurd hl h
  | some r =>
    cases r with
    | error f => simp
    | ok results =>
      simp only
      split_ifs <;> simp

theorem init_resp_nres (K : Headers) (X : Externals) (inst : Option lcb_INSTANCE)
    (pipeline : mc_PIPELINE) (mc_resp : MemcachedResponse) (req : mc_PACKET)
    (immerr : lcb_STATUS) (resp : lcb_RESP) :
    (init_resp K X inst pipeline mc_resp req immerr resp).nres = resp.nres := by
  unfold init_resp
  cases inst <;> cases pipeline.curhost <;> rfl

theorem init_resp_rc (K : Headers) (X : Externals) (inst : Option lcb_INSTANCE)
    (pipeline : mc_PIPELINE) (mc_resp : MemcachedResponse) (req : mc_PACKET)
    (immerr : lcb_STATUS) (resp : lcb_RESP) :
    (init_resp K X inst pipeline mc_resp req immerr resp).rc =
      (make_error K inst resp.tolcb_RESPBASE mc_resp immerr req).rc := by
  unfold init_resp
  cases inst <;> cases pipeline.curhost <;> rfl

theorem H_subdoc_token_ok (K : Headers) (host : Endian) (o o1 : Option lcb_INSTANCE)
    (response : MemcachedResponse) (request : mc_PACKET) (w w1 : ResponsePack)
    (cbtype : lcb_CALLBACK_TYPE)
    (h : H_subdoc_token K host o response request w = Except.ok (o1, w1, cbtype)) :
    w1.resp.rc = w.resp.rc ∧ w1.resp.nres = w.resp.nres ∧
    (cbtype = LCB_CALLBACK_SDMUTATE → response.opcode ≠ K.CMD.SUBDOC_MULTI_LOOKUP) := by
  unfold H_subdoc_token at h
  split_ifs at h with hop
  · cases h
    exact ⟨rfl, rfl, fun hc => by cases hc⟩
  · cases ht : handle_mutation_token host o response request w.mt with
    | error f => rw [ht] at h; cases h
    | ok p =>
      rw [ht] at h
      cases h
      exact ⟨rfl, rfl, fun _ hl => hop (Or.inr (Or.inr (Or.inr hl)))⟩

theorem sdresult_parse_total (K : Headers) (host : Endian) (fuel : Nat) (ent0 : lcb_SDENTRY)
    (w : ResponsePack) (cbtype : lcb_CALLBACK_TYPE)
    (h : lcb_sdresult_loop K host w.resp.tolcb_RESPSUBDOC cbtype fuel
      (List.replicate w.resp.nres lcb_SDENTRY.zero) ent0 0 0 ≠ none) :
    ResponsePack.sdresult_parse K host fuel ent0 w cbtype ≠ none := by
  unfold ResponsePack.sdresult_parse
  have := lcb_sdresult_parse_total K host fuel ent0 w.resp.tolcb_RESPSUBDOC cbtype h
  cases hp : lcb_sdresult_parse K host fuel ent0 w.resp.tolcb_RESPSUBDOC cbtype with
  | none => exact absurd hp this
  | some r => cases r <;> simp

theorem H_subdoc_entries_total (K : Headers) (X : Externals) (host : Endian) (fuel : Nat)
    (ent0 : lcb_SDENTRY) (request : mc_PACKET) (response : MemcachedResponse)
    (w : ResponsePack) (cbtype : lcb_CALLBACK_TYPE)
    (hn : w.resp.nres = 0)
    (hc : cbtype = LCB_CALLBACK_SDMUTATE → response.opcode ≠ K.CMD.SUBDOC_MULTI_LOOKUP)
    (hlen : response.vallen < 2 ^ 32) (hfuel : request.nsubreq + response.vallen < fuel) :
    H_subdoc_entries K X host fuel ent0 request response w cbtype ≠ none := by
  unfold H_subdoc_entries
  by_cases hmulti : response.opcode = K.CMD.SUBDOC_MULTI_LOOKUP ∨
      response.opcode = K.CMD.SUBDOC_MULTI_MUTATION
  · rw [if_pos hmulti]
    by_cases hrc : w.resp.rc = LCB_SUCCESS
    · rw [if_pos hrc]
      apply sdresult_parse_total
      by_cases ht : cbtype = LCB_CALLBACK_SDMUTATE
      · have hl := hc ht
        have hm : response.opcode = K.CMD.SUBDOC_MULTI_MUTATION := by
          rcases hmulti with h | h
          · exact absurd h hl
          · exact h
        exact lcb_sdresult_loop_total_of_mutate K host _ cbtype response rfl hl hm hlen fuel _ _ 0 0
          (Nat.zero_le _) (by omega)
      · apply lcb_sdresult_loop_total_of_order K host _ cbtype ht
        · exact Nat.zero_le _
        · rw [List.length_replicate]
          show request.nsubreq < fuel + 0
          omega
    · rw [if_neg hrc]
      simp
  · rw [if_neg hmulti]
    simp only []
    split_ifs with hrc
    · apply sdresult_parse_total
      obtain ⟨f, rfl⟩ : ∃ f, fuel = f + 1 := ⟨fuel - 1, by omega⟩
      show lcb_sdresult_loop K host _ cbtype (f + 1) (List.replicate w.resp.nres lcb_SDENTRY.zero)
        ent0 0 0 ≠ none
      rw [hn]
      exact lcb_sdresult_loop_total_of_empty K host _ cbtype f ent0 0 0
    · simp

theorem H_subdoc_total (K : Headers) (X : Externals) (host : Endian) (fuel : Nat)
    (ent0 : lcb_SDENTRY) (pipeline : mc_PIPELINE) (request : mc_PACKET)
    (response : MemcachedResponse) (immerr : lcb_STATUS)
    (hlen : response.vallen < 2 ^ 32) (hfuel : request.nsubreq + response.vallen < fuel) :
    H_subdoc K X host fuel ent0 pipeline request response immerr ≠ none := by
  unfold H_subdoc
  simp only
  split
  · simp
  · rename_i o1 w cbtype htok
    obtain ⟨-, hn, hc⟩ := H_subdoc_token_ok _ _ _ _ _ _ _ _ _ htok
    have hn0 : w.resp.nres = 0 := by
      rw [hn]
      exact init_resp_nres _ _ _ _ _ _ _ _
    have := H_subdoc_entries_total K X host fuel ent0 request response w cbtype hn0 hc hlen hfuel
    split
    · rename_i hp
      exact absurd hp this
    · simp
    · simp

theorem H_observe_loop_total (K : Headers) (X : Externals) (host : Endian)
    (pipeline : mc_PIPELINE) (request : mc_PACKET) (response : MemcachedResponse)
    (root : Option lcb_INSTANCE) (config : mc_CMDQUEUE) (ttp ttr : Nat) :
    ∀ (fuel ptr : Nat) (resp : lcb_RESP), ptr ≤ response.vallen → response.vallen < fuel + ptr →
      H_observe_loop K X host pipeline request response root config ttp ttr fuel ptr resp ≠ none := by
  intro fuel
  induction fuel with
  | zero => intro ptr resp h1 h2; omega
  | succ fuel ih =>
    intro ptr resp h1 h2
    unfold H_observe_loop
    by_cases hlt : ptr < response.vallen
    · rw [if_pos hlt]
      cases h2a : readBytes response.value ptr 2 with
      | error f => simp
      | ok bvb =>
        cases h2b : readBytes response.value (ptr + 2) 2 with
        | error f => simp
        | ok bnkey =>
          simp only
          cases h2c : readBytes response.value (ptr + 4 + ntohs host (memcpy_uint host bnkey)) 1 with
          | error f => simp
          | ok bobs =>
            cases h2d : readBytes response.value
                (ptr + 4 + ntohs host (memcpy_uint host bnkey) + 1) 8 with
            | error f => simp
            | ok bcas =>
              have hb := (length_of_readBytes _ _ _ _ h2d).2
              have hrec := fun r => ih (ptr + 4 + ntohs host (memcpy_uint host bnkey) + 1 + 8) r
                (by unfold MemcachedResponse.vallen; omega) (by omega)
              cases root with
              | none => simp
              | some r =>
                simp only
                by_cases hinv : (request.flags &&& K.REQ_F.INVOKED) = 0
                · simp only [if_pos hinv]
                  unfold call_handler
                  cases X.exdata request with
                  | none => simp
                  | some rd =>
                    simp only
                    split
                    · rename_i hh
                      exact absurd hh (hrec _)
                    · simp
                    · simp
                · simp only [if_neg hinv]
                  split
                  · rename_i hh
                    exact absurd hh (hrec _)
                  · simp
                  · simp
    · rw [if_neg hlt]
      simp

theorem H_observe_total (K : Headers) (X : Externals) (host : Endian) (fuel : Nat)
    (pipeline : mc_PIPELINE) (request : mc_PACKET) (response : MemcachedResponse)
    (immerr : lcb_STATUS) (hfuel : response.vallen < fuel) :
    H_observe K X host fuel pipeline request response immerr ≠ none := by
  unfold H_observe
  simp only
  split_ifs
  · split <;> simp
  · simp
  · cases pipeline.parent with
    | none => simp
    | some config =>
      simp only
      split
      · rename_i hh
        exact absurd hh (H_observe_loop_total K X host pipeline request response _ config _ _
          fuel 0 _ (Nat.zero_le _) (by omega))
      · simp
      · simp

theorem run_builder_total (K : Headers) (X : Externals) (host : Endian) (fuel : Nat)
    (ent0 : lcb_SDENTRY) (pipeline : mc_PIPELINE) (req : mc_PACKET) (res : MemcachedResponse)
    (immerr : lcb_STATUS) (b : Builder)
    (hlen : res.vallen < 2 ^ 32) (hfuel : req.nsubreq + res.vallen < fuel) :
    run_builder K X host fuel ent0 pipeline req res immerr b ≠ none := by
  cases b <;> unfold run_builder <;> simp only [ne_eq, reduceCtorEq, not_false_eq_true]
  · exact H_subdoc_total K X host fuel ent0 pipeline req res immerr hlen hfuel
  · exact H_observe_total K X host fuel pipeline req res immerr (by omega)

/-! ## Dispatch: theorems -/

theorem find?_fst_of_nodup {β : Type} (l : List (Nat × β))
    (h : (l.map Prod.fst).Nodup) (k : Nat) (v : β) (hp : (k, v) ∈ l) :
    l.find? (fun q => decide (q.1 = k)) = some (k, v) := by
  induction l with
  | nil => cases hp
  | cons q l ih =>
    rw [List.map_cons, List.nodup_cons] at h
    rcases List.mem_cons.mp hp with rfl | hmem
    · simp
    · have hne : q.1 ≠ k := by
        intro he
        apply h.1
        rw [he]
        exact List.mem_map.mpr ⟨(k, v), hmem, rfl⟩
      rw [List.find?_cons_of_neg _ (by simpa using hne)]
      exact ih h.2 hmem

theorem mcreq_dispatch_response_of_case (K : Headers) (X : Externals) (host : Endian)
    (fuel : Nat) (ent0 : lcb_SDENTRY) (pipeline : mc_PIPELINE) (req : mc_PACKET)
    (res : MemcachedResponse) (immerr : lcb_STATUS)
    (hd : K.opcodes_distinct) (hufwd : (req.flags &&& K.REQ_F.UFWD) = 0)
    (op : Nat) (b : Builder) (hp : (op, b) ∈ dispatch_cases K) (hop : res.opcode = op) :
    mcreq_dispatch_response K X host fuel ent0 pipeline req res immerr =
      (run_builder K X host fuel ent0 pipeline req res immerr b).map
        (Except.map (fun out => ((0 : Int), out))) := by
  unfold mcreq_dispatch_response
  rw [hop]
  simp only [hufwd, ne_eq, not_true_eq_false, if_false]
  rw [find?_fst_of_nodup _ hd op b hp]
  simp only
  cases run_builder K X host fuel ent0 pipeline req res immerr b with
  | none => rfl
  | some r => cases r <;> rfl

theorem dispatch_cases_labels (K : Headers) :
    (dispatch_cases K).map Prod.fst =
      [K.CMD.GET, K.CMD.GAT, K.CMD.GET_LOCKED, K.CMD.ADD, K.CMD.REPLACE, K.CMD.SET,
       K.CMD.APPEND, K.CMD.PREPEND, K.CMD.INCREMENT, K.CMD.DECREMENT, K.CMD.SUBDOC_GET,
       K.CMD.SUBDOC_EXISTS, K.CMD.SUBDOC_ARRAY_ADD_UNIQUE, K.CMD.SUBDOC_ARRAY_PUSH_FIRST,
       K.CMD.SUBDOC_ARRAY_PUSH_LAST, K.CMD.SUBDOC_ARRAY_INSERT, K.CMD.SUBDOC_DICT_ADD,
       K.CMD.SUBDOC_DICT_UPSERT, K.CMD.SUBDOC_REPLACE, K.CMD.SUBDOC_DELETE,
       K.CMD.SUBDOC_COUNTER, K.CMD.SUBDOC_GET_COUNT, K.CMD.SUBDOC_MULTI_LOOKUP,
       K.CMD.SUBDOC_MULTI_MUTATION, K.CMD.OBSERVE, K.CMD.GET_REPLICA, K.CMD.UNLOCK_KEY,
       K.CMD.DELETE, K.CMD.TOUCH, K.CMD.OBSERVE_SEQNO, K.CMD.STAT, K.CMD.NOOP,
       K.CMD.GET_CLUSTER_CONFIG, K.CMD.SELECT_BUCKET, K.CMD.COLLECTIONS_GET_MANIFEST,
       K.CMD.COLLECTIONS_GET_CID, K.CMD.GET_META] := rfl

/-- C15: for a request not flagged `MCREQ_F_UFWD`, with the `case` labels of the
dispatch `switch` pairwise distinct: `mcreq_dispatch_response` returns -1, with no
call made and the instance untouched, exactly when the opcode of the envelope is
none of the 37 opcodes GET, GAT, GET_LOCKED, ADD, REPLACE, SET, APPEND, PREPEND,
INCREMENT, DECREMENT, the 14 sub-document opcodes, OBSERVE, GET_REPLICA, UNLOCK_KEY,
DELETE, TOUCH, OBSERVE_SEQNO, STAT, NOOP, GET_CLUSTER_CONFIG, SELECT_BUCKET,
COLLECTIONS_GET_MANIFEST, COLLECTIONS_GET_CID, GET_META; for each of these opcodes
the call is the call of one builder, the one named here per group of opcodes
(`H_get`, `H_store`, `H_arithmetic`, `H_subdoc`, `H_observe`, `H_getreplica`,
`H_unlock`, `H_delete`, `H_touch`, `H_observe_seqno`, `H_stats`, `H_noop`,
`H_config`, `H_select_bucket`, `H_collections_get_manifest`,
`H_collections_get_cid`, `H_exists`), and the returned value is 0 (a fault of the
builder stays a fault); and with fuel above the number of paths plus the value
length (itself within the 32-bit wire field) the dispatch is never cut short. -/
theorem mcreq_dispatch_response_table (K : Headers) (X : Externals) (host : Endian)
    (fuel : Nat) (ent0 : lcb_SDENTRY) (pipeline : mc_PIPELINE) (req : mc_PACKET)
    (res : MemcachedResponse) (immerr : lcb_STATUS)
    (hd : K.opcodes_distinct) (hufwd : (req.flags &&& K.REQ_F.UFWD) = 0) :
    (res.opcode ∉
        [K.CMD.GET, K.CMD.GAT, K.CMD.GET_LOCKED, K.CMD.ADD, K.CMD.REPLACE, K.CMD.SET,
         K.CMD.APPEND, K.CMD.PREPEND, K.CMD.INCREMENT, K.CMD.DECREMENT, K.CMD.SUBDOC_GET,
         K.CMD.SUBDOC_EXISTS, K.CMD.SUBDOC_ARRAY_ADD_UNIQUE, K.CMD.SUBDOC_ARRAY_PUSH_FIRST,
         K.CMD.SUBDOC_ARRAY_PUSH_LAST, K.CMD.SUBDOC_ARRAY_INSERT, K.CMD.SUBDOC_DICT_ADD,
         K.CMD.SUBDOC_DICT_UPSERT, K.CMD.SUBDOC_REPLACE, K.CMD.SUBDOC_DELETE,
         K.CMD.SUBDOC_COUNTER, K.CMD.SUBDOC_GET_COUNT, K.CMD.SUBDOC_MULTI_LOOKUP,
         K.CMD.SUBDOC_MULTI_MUTATION, K.CMD.OBSERVE, K.CMD.GET_REPLICA, K.CMD.UNLOCK_KEY,
         K.CMD.DELETE, K.CMD.TOUCH, K.CMD.OBSERVE_SEQNO, K.CMD.STAT, K.CMD.NOOP,
         K.CMD.GET_CLUSTER_CONFIG, K.CMD.SELECT_BUCKET, K.CMD.COLLECTIONS_GET_MANIFEST,
         K.CMD.COLLECTIONS_GET_CID, K.CMD.GET_META] ↔
      mcreq_dispatch_response K X host fuel ent0 pipeline req res immerr =
        some (Except.ok (-1, { inst := get_instance pipeline, deliveries := [] }))) ∧
    ((res.opcode ∈ [K.CMD.GET, K.CMD.GAT, K.CMD.GET_LOCKED] →
        mcreq_dispatch_response K X host fuel ent0 pipeline req res immerr =
          some (Except.map (fun out => ((0 : Int), out))
            (H_get K X host pipeline req res immerr))) ∧
      (res.opcode ∈ [K.CMD.ADD, K.CMD.REPLACE, K.CMD.SET, K.CMD.APPEND, K.CMD.PREPEND] →
        mcreq_dispatch_response K X host fuel ent0 pipeline req res immerr =
          some (Except.map (fun out => ((0 : Int), out))
            (H_store K X host pipeline req res immerr))) ∧
      (res.opcode ∈ [K.CMD.INCREMENT, K.CMD.DECREMENT] →
        mcreq_dispatch_response K X host fuel ent0 pipeline req res immerr =
          some (Except.map (fun out => ((0 : Int), out))
            (H_arithmetic K X host pipeline req res immerr))) ∧
      (res.opcode ∈
          [K.CMD.SUBDOC_GET, K.CMD.SUBDOC_EXISTS, K.CMD.SUBDOC_ARRAY_ADD_UNIQUE,
           K.CMD.SUBDOC_ARRAY_PUSH_FIRST, K.CMD.SUBDOC_ARRAY_PUSH_LAST,
           K.CMD.SUBDOC_ARRAY_INSERT, K.CMD.SUBDOC_DICT_ADD, K.CMD.SUBDOC_DICT_UPSERT,
           K.CMD.SUBDOC_REPLACE, K.CMD.SUBDOC_DELETE, K.CMD.SUBDOC_COUNTER,
           K.CMD.SUBDOC_GET_COUNT, K.CMD.SUBDOC_MULTI_LOOKUP, K.CMD.SUBDOC_MULTI_MUTATION] →
        mcreq_dispatch_response K X host fuel ent0 pipeline req res immerr =
          (H_subdoc K X host fuel ent0 pipeline req res immerr).map
            (Except.map (fun out => ((0 : Int), out)))) ∧
      (res.opcode = K.CMD.OBSERVE →
        mcreq_dispatch_response K X host fuel ent0 pipeline req res immerr =
          (H_observe K X host fuel pipeline req res immerr).map
            (Except.map (fun out => ((0 : Int), out)))) ∧
      (res.opcode = K.CMD.GET_REPLICA →
        mcreq_dispatch_response K X host fuel ent0 pipeline req res immerr =
          some (Except.map (fun out => ((0 : Int), out))
            (H_getreplica K X host pipeline req res immerr))) ∧
      (res.opcode = K.CMD.UNLOCK_KEY →
        mcreq_dispatch_response K X host fuel ent0 pipeline req res immerr =
          some (Except.map (fun out => ((0 : Int), out))
            (H_unlock K X pipeline req res immerr))) ∧
      (res.opcode = K.CMD.DELETE →
        mcreq_dispatch_response K X host fuel ent0 pipeline req res immerr =
          some (Except.map (fun out => ((0 : Int), out))
            (H_delete K X host pipeline req res immerr))) ∧
      (res.opcode = K.CMD.TOUCH →
        mcreq_dispatch_response K X host fuel ent0 pipeline req res immerr =
          some (Except.map (fun out => ((0 : Int), out))
            (H_touch K X pipeline req res immerr))) ∧
      (res.opcode = K.CMD.OBSERVE_SEQNO →
        mcreq_dispatch_response K X host fuel ent0 pipeline req res immerr =
          some (Except.map (fun out => ((0 : Int), out))
            (H_observe_seqno K X host pipeline req res immerr))) ∧
      (res.opcode = K.CMD.STAT →
        mcreq_dispatch_response K X host fuel ent0 pipeline req res immerr =
          some (Except.map (fun out => ((0 : Int), out))
            (H_stats K X pipeline req res immerr))) ∧
      (res.opcode = K.CMD.NOOP →
        mcreq_dispatch_response K X host fuel ent0 pipeline req res immerr =
          some (Except.map (fun out => ((0 : Int), out))
            (H_noop K X pipeline req res immerr))) ∧
      (res.opcode = K.CMD.GET_CLUSTER_CONFIG →
        mcreq_dispatch_response K X host fuel ent0 pipeline req res immerr =
          some (Except.map (fun out => ((0 : Int), out))
            (H_config K X pipeline req res immerr))) ∧
      (res.opcode = K.CMD.SELECT_BUCKET →
        mcreq_dispatch_response K X host fuel ent0 pipeline req res immerr =
          some (Except.map (fun out => ((0 : Int), out))
            (H_select_bucket K X pipeline req res immerr))) ∧
      (res.opcode = K.CMD.COLLECTIONS_GET_MANIFEST →
        mcreq_dispatch_response K X host fuel ent0 pipeline req res immerr =
          some (Except.map (fun out => ((0 : Int), out))
            (H_collections_get_manifest K X pipeline req res immerr))) ∧
      (res.opcode = K.CMD.COLLECTIONS_GET_CID →
        mcreq_dispatch_response K X host fuel ent0 pipeline req res immerr =
          some (Except.map (fun out => ((0 : Int), out))
            (H_collections_get_cid K X host pipeline req res immerr))) ∧
      (res.opcode = K.CMD.GET_META →
        mcreq_dispatch_response K X host fuel ent0 pipeline req res immerr =
          some (Except.map (fun out => ((0 : Int), out))
            (H_exists K X host pipeline req res immerr)))) ∧
    (res.vallen < 2 ^ 32 → req.nsubreq + res.vallen < fuel →
      mcreq_dispatch_response K X host fuel ent0 pipeline req res immerr ≠ none) := by
  have hcase := mcreq_dispatch_response_of_case K X host fuel ent0 pipeline req res immerr
    hd hufwd
  have hiff : (∀ p ∈ dispatch_cases K, p.1 ≠ res.opcode) ↔
      res.opcode ∉ (dispatch_cases K).map Prod.fst := by
    simp only [List.mem_map, not_exists, not_and]
  rw [dispatch_cases_labels] at hiff
  have hnone : (∀ p ∈ dispatch_cases K, p.1 ≠ res.opcode) →
      mcreq_dispatch_response K X host fuel ent0 pipeline req res immerr =
        some (Except.ok (-1, { inst := get_instance pipeline, deliveries := [] })) := by
    intro h
    have hf : (dispatch_cases K).find? (fun p => decide (p.1 = res.opcode)) = none := by
      rw [List.find?_eq_none]
      intro p hp
      simpa using h p hp
    unfold mcreq_dispatch_response
    simp only [hufwd, ne_eq, not_true_eq_false, if_false]
    rw [hf]
  have hgrp : ∀ (b : Builder) (ops : List Nat), (∀ o ∈ ops, (o, b) ∈ dispatch_cases K) →
      res.opcode ∈ ops →
      mcreq_dispatch_response K X host fuel ent0 pipeline req res immerr =
        (run_builder K X host fuel ent0 pipeline req res immerr b).map
          (Except.map (fun out => ((0 : Int), out))) :=
    fun b ops h hop => hcase res.opcode b (h _ hop) rfl
  refine ⟨⟨fun h => hnone (hiff.mpr h), fun h => hiff.mp ?_⟩, ?_, ?_⟩
  · intro p hp hop
    have hc := hcase p.1 p.2 hp hop.symm
    rw [h] at hc
    cases hr : run_builder K X host fuel ent0 pipeline req res immerr p.2 with
    | none => rw [hr] at hc; cases hc
    | some r =>
      rw [hr] at hc
      cases r with
      | error f => simp [Except.map] at hc
      | ok out =>
        simp only [Option.map_some', Except.map, Option.some.injEq, Except.ok.injEq,
          Prod.mk.injEq] at hc
        exact absurd hc.1 (by decide)
  · refine ⟨fun h => hgrp Builder.H_get _ (by simp [dispatch_cases]) h,
      fun h => hgrp Builder.H_store _ (by simp [dispatch_cases]) h,
      fun h => hgrp Builder.H_arithmetic _ (by simp [dispatch_cases]) h,
      fun h => hgrp Builder.H_subdoc _ (by simp [dispatch_cases]) h,
      fun h => hcase _ Builder.H_observe (by simp [dispatch_cases]) h,
      fun h => hcase _ Builder.H_getreplica (by simp [dispatch_cases]) h,
      fun h => hcase _ Builder.H_unlock (by simp [dispatch_cases]) h,
      fun h => hcase _ Builder.H_delete (by simp [dispatch_cases]) h,
      fun h => hcase _ Builder.H_touch (by simp [dispatch_cases]) h,
      fun h => hcase _ Builder.H_observe_seqno (by simp [dispatch_cases]) h,
      fun h => hcase _ Builder.H_stats (by simp [dispatch_cases]) h,
      fun h => hcase _ Builder.H_noop (by simp [dispatch_cases]) h,
      fun h => hcase _ Builder.H_config (by simp [dispatch_cases]) h,
      fun h => hcase _ Builder.H_select_bucket (by simp [dispatch_cases]) h,
      fun h => hcase _ Builder.H_collections_get_manifest (by simp [dispatch_cases]) h,
      fun h => hcase _ Builder.H_collections_get_cid (by simp [dispatch_cases]) h,
      fun h => hcase _ Builder.H_exists (by simp [dispatch_cases]) h⟩
  · intro hlen hfuel
    by_cases h : ∀ p ∈ dispatch_cases K, p.1 ≠ res.opcode
    · rw [hnone h]
      simp
    · push_neg at h
      obtain ⟨p, hp, hop⟩ := h
      rw [hcase p.1 p.2 hp hop.symm]
      have := run_builder_total K X host fuel ent0 pipeline req res immerr p.2 hlen hfuel
      cases hr : run_builder K X host fuel ent0 pipeline req res immerr p.2 with
      | none => exact absurd hr this
      | some r => simp

/-- Witness for C15: opcode 0xff is outside the table and gives -1; opcode 0x00
(GET) runs `H_get`, opcode 0x01 (SET) runs `H_store` and opcode 0xbb
(COLLECTIONS_GET_CID) runs `H_collections_get_cid`, each giving 0. -/
theorem mcreq_dispatch_response_table_witness :
    mcreq_dispatch_response kv kx Endian.little 1 lcb_SDENTRY.zero attached_pipeline ⟨0, 0, 0⟩
        ⟨0xff, 0, 0, 0, [], []⟩ LCB_SUCCESS =
      some (Except.ok (-1, { inst := some plain_instance, deliveries := [] })) ∧
    mcreq_dispatch_response kv kx Endian.little 1 lcb_SDENTRY.zero attached_pipeline ⟨0, 0, 0⟩
        ⟨0x00, 0, 0, 0, [], []⟩ LCB_SUCCESS =
      some (Except.map (fun out => ((0 : Int), out))
        (H_get kv kx Endian.little attached_pipeline ⟨0, 0, 0⟩ ⟨0x00, 0, 0, 0, [], []⟩
          LCB_SUCCESS)) ∧
    mcreq_dispatch_response kv kx Endian.little 1 lcb_SDENTRY.zero attached_pipeline ⟨0, 0, 0⟩
        ⟨0x01, 0, 0, 0, [], []⟩ LCB_SUCCESS =
      some (Except.map (fun out => ((0 : Int), out))
        (H_store kv kx Endian.little attached_pipeline ⟨0, 0, 0⟩ ⟨0x01, 0, 0, 0, [], []⟩
          LCB_SUCCESS)) ∧
    mcreq_dispatch_response kv kx Endian.little 1 lcb_SDENTRY.zero attached_pipeline ⟨0, 0, 0⟩
        ⟨0xbb, 0, 0, 0, [], []⟩ LCB_SUCCESS =
      some (Except.map (fun out => ((0 : Int), out))
        (H_collections_get_cid kv kx Endian.little attached_pipeline ⟨0, 0, 0⟩
          ⟨0xbb, 0, 0, 0, [], []⟩ LCB_SUCCESS)) :=
  ⟨(mcreq_dispatch_response_table kv kx Endian.little 1 lcb_SDENTRY.zero attached_pipeline
      ⟨0, 0, 0⟩ ⟨0xff, 0, 0, 0, [], []⟩ LCB_SUCCESS (by decide) (by decide)).1.mp (by decide),
   (mcreq_dispatch_response_table kv kx Endian.little 1 lcb_SDENTRY.zero attached_pipeline
      ⟨0, 0, 0⟩ ⟨0x00, 0, 0, 0, [], []⟩ LCB_SUCCESS (by decide) (by decide)).2.1.1 (by decide),
   (mcreq_dispatch_response_table kv kx Endian.little 1 lcb_SDENTRY.zero attached_pipeline
      ⟨0, 0, 0⟩ ⟨0x01, 0, 0, 0, [], []⟩ LCB_SUCCESS (by decide) (by decide)).2.1.2.1
      (by decide),
   (mcreq_dispatch_response_table kv kx Endian.little 1 lcb_SDENTRY.zero attached_pipeline
      ⟨0, 0, 0⟩ ⟨0xbb, 0, 0, 0, [], []⟩ LCB_SUCCESS (by decide) (by decide)).2.1.2.2.2.2.2.2.2.2.2.2.2.2.2.2.2.1
      rfl⟩

/-! ## Single-path sub-document responses -/

theorem lcb_sdresult_loop_single_empty (K : Headers) (host : Endian) (resp : lcb_RESPSUBDOC)
    (type : lcb_CALLBACK_TYPE) (response : MemcachedResponse)
    (hr : resp.responses = some response)
    (hl : response.opcode ≠ K.CMD.SUBDOC_MULTI_LOOKUP)
    (hm : response.opcode ≠ K.CMD.SUBDOC_MULTI_MUTATION)
    (fuel : Nat) (ent : lcb_SDENTRY) (oix : Nat) :
    lcb_sdresult_loop K host resp type (fuel + 1) [] ent 0 oix =
      some (Except.error (Fault.oob_write (if type = LCB_CALLBACK_SDMUTATE then 0 else oix))) := by
  unfold lcb_sdresult_loop
  have hnext : lcb_sdresult_next K host resp ent 0 =
      Except.ok (some ({ ent with status := lcb_map_error K none response.status,
                                  value := some 0, nvalue := response.vallen, index := 0 }, 1)) := by
    unfold lcb_sdresult_next
    rw [hr]
    simp [hl, hm]
  rw [hnext]
  simp

theorem H_subdoc_entries_single (K : Headers) (X : Externals) (host : Endian) (fuel : Nat)
    (ent0 : lcb_SDENTRY) (request : mc_PACKET) (response : MemcachedResponse)
    (w : ResponsePack) (cbtype : lcb_CALLBACK_TYPE)
    (hn : w.resp.nres = 0)
    (hl : response.opcode ≠ K.CMD.SUBDOC_MULTI_LOOKUP)
    (hm : response.opcode ≠ K.CMD.SUBDOC_MULTI_MUTATION)
    (hrc : w.resp.rc = LCB_SUCCESS ∨ X.LCB_ERROR_IS_SUBDOC w.resp.rc = true) :
    H_subdoc_entries K X host (fuel + 1) ent0 request response w cbtype =
      some (Except.error (Fault.oob_write 0)) := by
  unfold H_subdoc_entries
  rw [if_neg (by rintro (h | h); exact hl h; exact hm h)]
  simp only []
  rw [if_pos hrc]
  unfold ResponsePack.sdresult_parse lcb_sdresult_parse
  simp only [hn, List.replicate_zero]
  rw [lcb_sdresult_loop_single_empty K host _ cbtype response rfl hl hm]
  simp

theorem H_subdoc_single_path_fault (K : Headers) (X : Externals) (host : Endian) (fuel : Nat)
    (ent0 : lcb_SDENTRY) (pipeline : mc_PIPELINE) (request : mc_PACKET)
    (response : MemcachedResponse) (immerr : lcb_STATUS)
    (hl : response.opcode ≠ K.CMD.SUBDOC_MULTI_LOOKUP)
    (hm : response.opcode ≠ K.CMD.SUBDOC_MULTI_MUTATION)
    (hrc : (make_error K (get_instance pipeline) lcb_RESP.zero.tolcb_RESPBASE response immerr
        request).rc = LCB_SUCCESS ∨
      X.LCB_ERROR_IS_SUBDOC (make_error K (get_instance pipeline) lcb_RESP.zero.tolcb_RESPBASE
        response immerr request).rc = true) :
    ∃ f, H_subdoc K X host (fuel + 1) ent0 pipeline request response immerr =
      some (Except.error f) := by
  unfold H_subdoc
  simp only
  split
  · exact ⟨_, rfl⟩
  · rename_i o1 w cbtype htok
    obtain ⟨hrc1, hn, -⟩ := H_subdoc_token_ok _ _ _ _ _ _ _ _ _ htok
    have hn0 : w.resp.nres = 0 := by
      rw [hn]
      exact init_resp_nres _ _ _ _ _ _ _ _
    have hrc2 : w.resp.rc = (make_error K (get_instance pipeline) lcb_RESP.zero.tolcb_RESPBASE
        response immerr request).rc := by
      rw [hrc1]
      exact init_resp_rc _ _ _ _ _ _ _ _
    rw [H_subdoc_entries_single K X host fuel ent0 request response w cbtype hn0 hl hm
      (by rw [hrc2]; exact hrc)]
    exact ⟨_, rfl⟩

/-- C13 (the code at the failing inputs): for a single-path response `H_subdoc`
leaves `nres` at 0, so `lcb_sdresult_parse` sizes its vector to 0 and the one entry
that `lcb_sdresult_next` produces is written at `results[0]`, outside the vector:
on a successful SUBDOC_GET with a one-byte value, on a SUBDOC_GET answered with
SUBDOC_PATH_ENOENT, and on a successful SUBDOC_DICT_UPSERT with a 16-byte token. -/
theorem H_subdoc_single_path_writes_outside :
    H_subdoc kv kx Endian.little 2 lcb_SDENTRY.zero attached_pipeline ⟨0, 0, 0⟩
        ⟨kv.CMD.SUBDOC_GET, kv.RESPONSE.SUCCESS, 0, 0, [], [0x31]⟩ LCB_SUCCESS =
      some (Except.error (Fault.oob_write 0)) ∧
    H_subdoc kv kx Endian.little 2 lcb_SDENTRY.zero attached_pipeline ⟨0, 0, 0⟩
        ⟨kv.CMD.SUBDOC_GET, kv.RESPONSE.SUBDOC_PATH_ENOENT, 0, 0, [], []⟩ LCB_SUCCESS =
      some (Except.error (Fault.oob_write 0)) ∧
    H_subdoc kv kx Endian.little 2 lcb_SDENTRY.zero attached_pipeline ⟨0, 0, 0⟩
        ⟨kv.CMD.SUBDOC_DICT_UPSERT, kv.RESPONSE.SUCCESS, 0, 0,
          [0, 0, 0, 0, 0, 0, 0, 1, 0, 0, 0, 0, 0, 0, 0, 2], []⟩ LCB_SUCCESS =
      some (Except.error (Fault.oob_write 0)) :=
  ⟨rfl, rfl, rfl⟩

/-! ## Order of the records of a mutation stream -/

theorem sdmutate_parse_stored (K : Headers) (host : Endian) (fuel : Nat)
    (ent0 : lcb_SDENTRY) (resp : lcb_RESPSUBDOC) (response : MemcachedResponse)
    (recs : List MutateRecord)
    (hcmd : K.CMD.SUBDOC_MULTI_MUTATION ≠ K.CMD.SUBDOC_MULTI_LOOKUP)
    (hresp : resp.responses = some response)
    (hop : response.opcode = K.CMD.SUBDOC_MULTI_MUTATION)
    (hval : response.value = mutate_stream K recs)
    (hc : ∀ r ∈ recs, r.complete)
    (hlen : response.vallen < 2 ^ 32)
    (hidx : ∀ r ∈ recs, r.index.val < resp.nres)
    (hfuel : recs.length < fuel) :
    lcb_sdresult_parse K host fuel ent0 resp LCB_CALLBACK_SDMUTATE =
      some (Except.ok (if resp.nres ≠ 0 then
        { resp with res := some (store_indexed K (List.replicate resp.nres lcb_SDENTRY.zero) 0 recs) }
        else resp)) := by
  have hloop := lcb_sdresult_loop_mutate K host resp response hresp hcmd hop hlen recs []
    ent0 (List.replicate resp.nres lcb_SDENTRY.zero) 0 fuel (by simpa using hval) hc
    (by simpa using hidx) hfuel
  simp only [List.length_nil] at hloop
  unfold lcb_sdresult_parse
  rw [hloop]
  simp only []
  split_ifs <;> rfl

theorem length_mutate_stream (K : Headers) (recs : List MutateRecord) :
    (mutate_stream K recs).length = (recs.map (fun r => (r.encode K).length)).sum := by
  induction recs with
  | nil => rfl
  | cons r rs ih => simp [mutate_stream, ih]

theorem mutate_is_entry_content (K : Headers) (p1 p2 : List Byte) (r : MutateRecord)
    (e1 e2 : lcb_SDENTRY) (h1 : r.is_entry K p1 e1) (h2 : r.is_entry K p2 e2) :
    e1.content p1 = e2.content p2 := by
  obtain ⟨i1, s1, a1, b1⟩ := h1
  obtain ⟨i2, s2, a2, b2⟩ := h2
  unfold lcb_SDENTRY.content
  rw [i1, i2, s1, s2]
  by_cases hs : r.status = K.RESPONSE.SUCCESS
  · rw [(a1 hs).1, (a1 hs).2, (a2 hs).1, (a2 hs).2]
  · rw [(b1 hs).2, (b2 hs).2]
    simp [lcb_SDENTRY.bytes, (b1 hs).1, (b2 hs).1]

/-- C12: for every `n` and every two multi-path mutation payloads made of the same
complete records (pairwise distinct path indices below `n`) in different orders,
`lcb_sdresult_parse` with `nres = n` and type SDMUTATE returns for both a
collection of `n` entries, and the two collections agree position by position in
path index, status, value length and value bytes (the value pointers differ, as the
payloads do); the position named by a record's index byte holds the entry with
that index. -/
theorem sdmutate_parse_order_independent (K : Headers) (host : Endian) (fuel : Nat)
    (ent1 ent2 : lcb_SDENTRY) (resp1 resp2 : lcb_RESPSUBDOC)
    (response1 response2 : MemcachedResponse) (recs1 recs2 : List MutateRecord) (n : Nat)
    (hcmd : K.CMD.SUBDOC_MULTI_MUTATION ≠ K.CMD.SUBDOC_MULTI_LOOKUP)
    (hresp1 : resp1.responses = some response1) (hresp2 : resp2.responses = some response2)
    (hop1 : response1.opcode = K.CMD.SUBDOC_MULTI_MUTATION)
    (hop2 : response2.opcode = K.CMD.SUBDOC_MULTI_MUTATION)
    (hval1 : response1.value = mutate_stream K recs1)
    (hval2 : response2.value = mutate_stream K recs2)
    (hperm : recs1.Perm recs2)
    (hc : ∀ r ∈ recs1, r.complete)
    (hlen : response1.vallen < 2 ^ 32)
    (hn1 : resp1.nres = n) (hn2 : resp2.nres = n)
    (hidx : ∀ r ∈ recs1, r.index.val < n)
    (hpw : recs1.Pairwise (fun a b => a.index ≠ b.index))
    (hfuel : recs1.length < fuel) :
    ∃ results1 results2 : List lcb_SDENTRY,
      lcb_sdresult_parse K host fuel ent1 resp1 LCB_CALLBACK_SDMUTATE =
        some (Except.ok (if n ≠ 0 then { resp1 with res := some results1 } else resp1)) ∧
      lcb_sdresult_parse K host fuel ent2 resp2 LCB_CALLBACK_SDMUTATE =
        some (Except.ok (if n ≠ 0 then { resp2 with res := some results2 } else resp2)) ∧
      results1.length = n ∧ results2.length = n ∧
      (∀ i, i < n → ∃ e1 e2, results1[i]? = some e1 ∧ results2[i]? = some e2 ∧
        e1.content response1.value = e2.content response2.value) ∧
      (∀ r ∈ recs1, ∃ e1 e2, results1[r.index.val]? = some e1 ∧
        results2[r.index.val]? = some e2 ∧ e1.index = r.index.val ∧ e2.index = r.index.val) := by
  subst hn1
  have hlen2 : response2.vallen < 2 ^ 32 := by
    have : response2.vallen = response1.vallen := by
      unfold MemcachedResponse.vallen
      rw [hval1, hval2, length_mutate_stream, length_mutate_stream]
      exact ((hperm.map _).sum_eq).symm
    rw [this]
    exact hlen
  have hc2 : ∀ r ∈ recs2, r.complete := fun r hr => hc r (hperm.mem_iff.mpr hr)
  have hidx2 : ∀ r ∈ recs2, r.index.val < resp2.nres := fun r hr => by
    rw [hn2]; exact hidx r (hperm.mem_iff.mpr hr)
  have hpw2 : recs2.Pairwise (fun a b => a.index ≠ b.index) :=
    (hperm.pairwise_iff (fun {a b} (h : a.index ≠ b.index) => h.symm)).mp hpw
  have hfuel2 : recs2.length < fuel := by rw [← hperm.length_eq]; exact hfuel
  have hp1 := sdmutate_parse_stored K host fuel ent1 resp1 response1 recs1 hcmd
    hresp1 hop1 hval1 hc hlen hidx hfuel
  have hp2 := sdmutate_parse_stored K host fuel ent2 resp2 response2 recs2 hcmd
    hresp2 hop2 hval2 hc2 hlen2 hidx2 hfuel2
  have hp2n : lcb_sdresult_parse K host fuel ent2 resp2 LCB_CALLBACK_SDMUTATE =
      some (Except.ok (if resp1.nres ≠ 0 then
        { resp2 with res := some (store_indexed K
            (List.replicate resp1.nres lcb_SDENTRY.zero) 0 recs2) }
        else resp2)) := by
    rw [hp2]
    simp only [hn2]
  have he1 := store_indexed_is_entry K recs1 (List.replicate resp1.nres lcb_SDENTRY.zero) []
    (by simpa using hidx) hpw
  have he2 := store_indexed_is_entry K recs2 (List.replicate resp1.nres lcb_SDENTRY.zero) []
    (by simpa [hn2] using hidx2) hpw2
  simp only [List.length_nil, List.nil_append] at he1 he2
  rw [← hval1] at he1
  rw [← hval2] at he2
  refine ⟨_, _, hp1, hp2n, ?_, ?_, ?_, ?_⟩
  · rw [length_store_indexed, List.length_replicate]
  · rw [length_store_indexed, List.length_replicate]
  · intro i hi
    by_cases hex : ∃ r ∈ recs1, r.index.val = i
    · obtain ⟨r, hr, rfl⟩ := hex
      obtain ⟨e1, hg1, hi1⟩ := he1 r hr
      obtain ⟨e2, hg2, hi2⟩ := he2 r (hperm.mem_iff.mp hr)
      exact ⟨e1, e2, hg1, hg2, mutate_is_entry_content K _ _ r e1 e2 hi1 hi2⟩
    · push_neg at hex
      refine ⟨lcb_SDENTRY.zero, lcb_SDENTRY.zero, ?_, ?_, rfl⟩
      · rw [store_indexed_untouched K recs1 _ _ _ hex, List.getElem?_replicate, if_pos hi]
      · rw [store_indexed_untouched K recs2 _ _ _ (fun r hr => hex r (hperm.mem_iff.mpr hr)),
          List.getElem?_replicate, if_pos hi]
  · intro r hr
    obtain ⟨e1, hg1, hi1⟩ := he1 r hr
    obtain ⟨e2, hg2, hi2⟩ := he2 r (hperm.mem_iff.mp hr)
    exact ⟨e1, e2, hg1, hg2, hi1.1, hi2.1⟩

/-- Witness for C12: the records for the paths 0 (success, two value bytes) and 2
(path not found) of a request of 4 paths, in both orders. -/
theorem sdmutate_parse_order_independent_witness :
    ∃ results1 results2 : List lcb_SDENTRY,
      lcb_sdresult_parse kv Endian.little 3 lcb_SDENTRY.zero
          { rc := LCB_SUCCESS, rflags := 0,
            responses := some ⟨0xd1, 0, 0, 0, [], [0, 0, 0, 0, 0, 0, 2, 7, 8, 2, 0, 0xc0]⟩,
            res := none, nres := 4 } LCB_CALLBACK_SDMUTATE =
        some (Except.ok
          { rc := LCB_SUCCESS, rflags := 0,
            responses := some ⟨0xd1, 0, 0, 0, [], [0, 0, 0, 0, 0, 0, 2, 7, 8, 2, 0, 0xc0]⟩,
            res := some results1, nres := 4 }) ∧
      lcb_sdresult_parse kv Endian.little 3 lcb_SDENTRY.zero
          { rc := LCB_SUCCESS, rflags := 0,
            responses := some ⟨0xd1, 0, 0, 0, [], [2, 0, 0xc0, 0, 0, 0, 0, 0, 0, 2, 7, 8]⟩,
            res := none, nres := 4 } LCB_CALLBACK_SDMUTATE =
        some (Except.ok
          { rc := LCB_SUCCESS, rflags := 0,
            responses := some ⟨0xd1, 0, 0, 0, [], [2, 0, 0xc0, 0, 0, 0, 0, 0, 0, 2, 7, 8]⟩,
            res := some results2, nres := 4 }) ∧
      ∀ i, i < 4 → ∃ e1 e2, results1[i]? = some e1 ∧ results2[i]? = some e2 ∧
        e1.content [0, 0, 0, 0, 0, 0, 2, 7, 8, 2, 0, 0xc0] =
          e2.content [2, 0, 0xc0, 0, 0, 0, 0, 0, 0, 2, 7, 8] := by
  obtain ⟨results1, results2, h1, h2, _, _, h5, _⟩ :=
    sdmutate_parse_order_independent kv Endian.little 3 lcb_SDENTRY.zero lcb_SDENTRY.zero
      { rc := LCB_SUCCESS, rflags := 0,
        responses := some ⟨0xd1, 0, 0, 0, [], [0, 0, 0, 0, 0, 0, 2, 7, 8, 2, 0, 0xc0]⟩,
        res := none, nres := 4 }
      { rc := LCB_SUCCESS, rflags := 0,
        responses := some ⟨0xd1, 0, 0, 0, [], [2, 0, 0xc0, 0, 0, 0, 0, 0, 0, 2, 7, 8]⟩,
        res := none, nres := 4 }
      ⟨0xd1, 0, 0, 0, [], [0, 0, 0, 0, 0, 0, 2, 7, 8, 2, 0, 0xc0]⟩
      ⟨0xd1, 0, 0, 0, [], [2, 0, 0xc0, 0, 0, 0, 0, 0, 0, 2, 7, 8]⟩
      [⟨0, 0, [7, 8]⟩, ⟨2, 0xc0, []⟩] [⟨2, 0xc0, []⟩, ⟨0, 0, [7, 8]⟩] 4
      (by decide) rfl rfl rfl rfl (by decide) (by decide) (List.Perm.swap _ _ _)
      (by decide) (by decide) rfl rfl (by decide) (by decide) (by decide)
  exact ⟨results1, results2, h1, h2, h5⟩

/-! ## Deliveries of an immediate failure -/

theorem make_error_rc_ne_success (K : Headers) (inst : Option lcb_INSTANCE)
    (resp : lcb_RESPBASE) (response : MemcachedResponse) (imm : lcb_STATUS) (req : mc_PACKET)
    (himm : imm ≠ LCB_SUCCESS) :
    (make_error K inst resp response imm req).rc ≠ LCB_SUCCESS := by
  have hk : make_error_kind K inst resp response imm =
      { resp with rc := imm, rflags := resp.rflags ||| K.RESP_F.CLIENTGEN } := by
    simp [make_error_kind, himm]
  simp only [make_error, hk]
  split_ifs
  · simp
  · exact himm

theorem make_error_rc_base (K : Headers) (inst : Option lcb_INSTANCE)
    (resp1 resp2 : lcb_RESPBASE) (response : MemcachedResponse) (imm : lcb_STATUS)
    (req : mc_PACKET) (himm : imm ≠ LCB_SUCCESS) :
    (make_error K inst resp1 response imm req).rc = (make_error K inst resp2 response imm req).rc := by
  simp only [make_error, make_error_kind, if_pos himm]
  split_ifs <;> rfl

theorem invoke_callback_length (K : Headers) (X : Externals) (pkt : mc_PACKET)
    (inst : Option lcb_INSTANCE) (resp : Result) (cbtype : lcb_CALLBACK_TYPE)
    (hinv : (pkt.flags &&& K.REQ_F.INVOKED) = 0) :
    (invoke_callback K X pkt inst resp cbtype).length =
      if (pkt.flags &&& K.REQ_F.PRIVCALLBACK) ≠ 0 ∨ inst.isSome then 1 else 0 := by
  unfold invoke_callback
  simp only [if_pos hinv]
  by_cases hp : (pkt.flags &&& K.REQ_F.PRIVCALLBACK) = 0
  · cases inst <;> simp [hp]
  · simp [hp]

theorem call_handler_length (X : Externals) (request : mc_PACKET) (rc : lcb_STATUS)
    (arg : HandlerArg) (ds : List Delivery) (h : call_handler X request rc arg = Except.ok ds) :
    ds.length = 1 := by
  unfold call_handler at h
  cases hx : X.exdata request with
  | none => rw [hx] at h; cases h
  | some rd => rw [hx] at h; cases h; rfl

theorem call_handler_ok (X : Externals) (request : mc_PACKET) (rc : lcb_STATUS)
    (arg : HandlerArg) (hx : (X.exdata request).isSome) :
    ∃ ds, call_handler X request rc arg = Except.ok ds := by
  unfold call_handler
  cases h : X.exdata request with
  | none => rw [h] at hx; cases hx
  | some rd => exact ⟨_, rfl⟩

theorem ensure_dcpinfo_isSome (inst : Option lcb_INSTANCE) :
    (ensure_dcpinfo inst).isSome = inst.isSome := by
  unfold ensure_dcpinfo
  cases inst with
  | none => rfl
  | some i =>
    simp only
    split_ifs <;> rfl

theorem handle_mutation_token_isSome (host : Endian) (inst o1 : Option lcb_INSTANCE)
    (mc_resp : MemcachedResponse) (req : mc_PACKET) (stok t : lcb_MUTATION_TOKEN)
    (h : handle_mutation_token host inst mc_resp req stok = Except.ok (o1, t)) :
    o1.isSome = inst.isSome := by
  unfold handle_mutation_token at h
  split_ifs at h with h0
  · cases h; rfl
  · simp only at h
    have hs := ensure_dcpinfo_isSome inst
    split at h
    · cases h
    · cases h
    · split at h
      · rename_i hn
        cases h
        rw [← hs, hn]
      · rename_i i hi
        split at h
        · cases h
          rw [← hs, hi]
        · split_ifs at h
          cases h
          rw [← hs, hi]
          rfl

theorem handle_mutation_token_nil (host : Endian) (inst : Option lcb_INSTANCE)
    (mc_resp : MemcachedResponse) (req : mc_PACKET) (stok : lcb_MUTATION_TOKEN)
    (h : mc_resp.ext = []) :
    handle_mutation_token host inst mc_resp req stok = Except.ok (inst, stok) := by
  unfold handle_mutation_token
  simp [MemcachedResponse.extlen, h]

theorem callback_targets_eq (K : Headers) (pipeline : mc_PIPELINE) (req : mc_PACKET)
    (o1 : Option lcb_INSTANCE) (h : o1.isSome = (get_instance pipeline).isSome) :
    (if (req.flags &&& K.REQ_F.PRIVCALLBACK) ≠ 0 ∨ o1.isSome then 1 else 0) =
      callback_targets K pipeline req := by
  unfold callback_targets
  rw [h]

theorem maybe_decompress_nil (K : Headers) (X : Externals) (o : Option lcb_INSTANCE)
    (respkt : MemcachedResponse) (rescmd : lcb_RESP) (h : respkt.value = []) :
    maybe_decompress K X o respkt rescmd = Except.ok rescmd := by
  unfold maybe_decompress
  simp [MemcachedResponse.vallen, h]

theorem H_get_deliveries (K : Headers) (X : Externals) (host : Endian) (pipeline : mc_PIPELINE)
    (req : mc_PACKET) (res : MemcachedResponse) (immerr : lcb_STATUS)
    (hinv : (req.flags &&& K.REQ_F.INVOKED) = 0) :
    (∀ out, H_get K X host pipeline req res immerr = Except.ok out →
      out.deliveries.length = callback_targets K pipeline req) ∧
    (res.value = [] → ∃ out, H_get K X host pipeline req res immerr = Except.ok out) := by
  unfold H_get
  simp only
  constructor
  · intro out h
    split at h
    · cases h
    · cases h
      rw [invoke_callback_length _ _ _ _ _ _ hinv]
      exact callback_targets_eq K pipeline req _ rfl
  · intro hv
    rw [maybe_decompress_nil _ _ _ _ _ hv]
    exact ⟨_, rfl⟩

theorem handle_error_info_rc (K : Headers) (mc_resp : MemcachedResponse) (rp : ResponsePack) :
    (handle_error_info K mc_resp rp).resp.rc = rp.resp.rc := by
  unfold handle_error_info
  split_ifs <;> rfl

theorem init_resp_rc_ne_success (K : Headers) (X : Externals) (inst : Option lcb_INSTANCE)
    (pipeline : mc_PIPELINE) (mc_resp : MemcachedResponse) (req : mc_PACKET)
    (immerr : lcb_STATUS) (resp : lcb_RESP) (himm : immerr ≠ LCB_SUCCESS) :
    (init_resp K X inst pipeline mc_resp req immerr resp).rc ≠ LCB_SUCCESS := by
  rw [init_resp_rc]
  exact make_error_rc_ne_success K inst _ mc_resp immerr req himm

theorem H_exists_deliveries (K : Headers) (X : Externals) (host : Endian)
    (pipeline : mc_PIPELINE) (req : mc_PACKET) (res : MemcachedResponse) (immerr : lcb_STATUS)
    (hinv : (req.flags &&& K.REQ_F.INVOKED) = 0) :
    ∃ out, H_exists K X host pipeline req res immerr = Except.ok out ∧
      out.deliveries.length = callback_targets K pipeline req := by
  unfold H_exists
  refine ⟨_, rfl, ?_⟩
  simp only
  rw [invoke_callback_length _ _ _ _ _ _ hinv]
  exact callback_targets_eq K pipeline req _ rfl

theorem H_getreplica_deliveries (K : Headers) (X : Externals) (host : Endian)
    (pipeline : mc_PIPELINE) (req : mc_PACKET) (res : MemcachedResponse) (immerr : lcb_STATUS) :
    (∀ out, H_getreplica K X host pipeline req res immerr = Except.ok out →
      out.deliveries.length = 1) ∧
    (res.value = [] → (X.exdata req).isSome →
      ∃ out, H_getreplica K X host pipeline req res immerr = Except.ok out) := by
  unfold H_getreplica
  simp only
  constructor
  · intro out h
    split at h
    · cases h
    · split at h
      · cases h
      · rename_i ds hds
        cases h
        exact call_handler_length _ _ _ _ _ hds
  · intro hv hx
    rw [maybe_decompress_nil _ _ _ _ _ hv]
    simp only
    obtain ⟨ds, hds⟩ := call_handler_ok X req
      (get_payload host res (handle_error_info K res
        { ResponsePack.zero with
          resp := init_resp K X (get_instance pipeline) pipeline res req immerr
            ResponsePack.zero.resp }).resp).rc
      (HandlerArg.resp (Result.packed
        { handle_error_info K res
            { ResponsePack.zero with
              resp := init_resp K X (get_instance pipeline) pipeline res req immerr
                ResponsePack.zero.resp } with
          resp := get_payload host res (handle_error_info K res
            { ResponsePack.zero with
              resp := init_resp K X (get_instance pipeline) pipeline res req immerr
                ResponsePack.zero.resp }).resp })) hx
    rw [hds]
    exact ⟨_, rfl⟩

theorem H_delete_deliveries (K : Headers) (X : Externals) (host : Endian)
    (pipeline : mc_PIPELINE) (req : mc_PACKET) (res : MemcachedResponse) (immerr : lcb_STATUS)
    (hinv : (req.flags &&& K.REQ_F.INVOKED) = 0) :
    (∀ out, H_delete K X host pipeline req res immerr = Except.ok out →
      out.deliveries.length = callback_targets K pipeline req) ∧
    (res.ext = [] → ∃ out, H_delete K X host pipeline req res immerr = Except.ok out) := by
  unfold H_delete
  simp only
  constructor
  · intro out h
    split at h
    · cases h
    · rename_i root1 mt hm
      cases h
      rw [invoke_callback_length _ _ _ _ _ _ hinv]
      exact callback_targets_eq K pipeline req _
        (handle_mutation_token_isSome _ _ _ _ _ _ _ hm)
  · intro he
    rw [handle_mutation_token_nil _ _ _ _ _ he]
    exact ⟨_, rfl⟩

theorem H_store_deliveries (K : Headers) (X : Externals) (host : Endian)
    (pipeline : mc_PIPELINE) (req : mc_PACKET) (res : MemcachedResponse) (immerr : lcb_STATUS)
    (hinv : (req.flags &&& K.REQ_F.INVOKED) = 0) :
    (∀ out, H_store K X host pipeline req res immerr = Except.ok out →
      out.deliveries.length =
        if (req.flags &&& K.REQ_F.REQEXT) ≠ 0 then 1 else callback_targets K pipeline req) ∧
    (res.ext = [] → ((req.flags &&& K.REQ_F.REQEXT) ≠ 0 → (X.exdata req).isSome) →
      ∃ out, H_store K X host pipeline req res immerr = Except.ok out) := by
  unfold H_store
  simp only
  constructor
  · intro out h
    split at h
    · cases h
    · rename_i root1 mt hm
      by_cases hr : (req.flags &&& K.REQ_F.REQEXT) ≠ 0
      · rw [if_pos hr] at h ⊢
        split at h
        · cases h
        · rename_i ds hds
          cases h
          exact call_handler_length _ _ _ _ _ hds
      · rw [if_neg hr] at h ⊢
        cases h
        rw [invoke_callback_length _ _ _ _ _ _ hinv]
        exact callback_targets_eq K pipeline req _
          (handle_mutation_token_isSome _ _ _ _ _ _ _ hm)
  · intro he hx
    rw [handle_mutation_token_nil _ _ _ _ _ he]
    simp only
    by_cases hr : (req.flags &&& K.REQ_F.REQEXT) ≠ 0
    · rw [if_pos hr]
      unfold call_handler
      cases h : X.exdata req with
      | none => have := hx hr; rw [h] at this; cases this
      | some rd => exact ⟨_, rfl⟩
    · rw [if_neg hr]
      exact ⟨_, rfl⟩

theorem H_arithmetic_deliveries (K : Headers) (X : Externals) (host : Endian)
    (pipeline : mc_PIPELINE) (req : mc_PACKET) (res : MemcachedResponse) (immerr : lcb_STATUS)
    (hinv : (req.flags &&& K.REQ_F.INVOKED) = 0) (himm : immerr ≠ LCB_SUCCESS) :
    ∃ out, H_arithmetic K X host pipeline req res immerr = Except.ok out ∧
      out.deliveries.length = callback_targets K pipeline req := by
  unfold H_arithmetic
  simp only
  rw [if_neg (init_resp_rc_ne_success K X _ pipeline res req immerr _ himm)]
  refine ⟨_, rfl, ?_⟩
  simp only
  rw [invoke_callback_length _ _ _ _ _ _ hinv]
  exact callback_targets_eq K pipeline req _ rfl

theorem H_observe_seqno_deliveries (K : Headers) (X : Externals) (host : Endian)
    (pipeline : mc_PIPELINE) (req : mc_PACKET) (res : MemcachedResponse) (immerr : lcb_STATUS)
    (hinv : (req.flags &&& K.REQ_F.INVOKED) = 0) (himm : immerr ≠ LCB_SUCCESS) :
    ∃ out, H_observe_seqno K X host pipeline req res immerr = Except.ok out ∧
      out.deliveries.length = callback_targets K pipeline req := by
  unfold H_observe_seqno
  simp only
  have hrc : (init_resp K X (get_instance pipeline) pipeline res req immerr lcb_RESP.zero).rc ≠
      LCB_SUCCESS := init_resp_rc_ne_success K X _ pipeline res req immerr _ himm
  rw [if_neg hrc]
  refine ⟨_, rfl, ?_⟩
  simp only
  rw [invoke_callback_length _ _ _ _ _ _ hinv]
  exact callback_targets_eq K pipeline req _ rfl

theorem H_stats_deliveries (K : Headers) (X : Externals)
    (pipeline : mc_PIPELINE) (req : mc_PACKET) (res : MemcachedResponse) (immerr : lcb_STATUS) :
    (∀ out, H_stats K X pipeline req res immerr = Except.ok out → out.deliveries.length = 1) ∧
    ((X.exdata req).isSome → ∃ out, H_stats K X pipeline req res immerr = Except.ok out) := by
  unfold H_stats
  simp only
  constructor
  · intro out h
    split at h
    · cases h
    · rename_i ds hds
      cases h
      split_ifs at hds
      · exact call_handler_length _ _ _ _ _ hds
      · exact call_handler_length _ _ _ _ _ hds
  · intro hx
    unfold call_handler
    cases h : X.exdata req with
    | none => rw [h] at hx; cases hx
    | some rd =>
      simp only
      split_ifs <;> exact ⟨_, rfl⟩

theorem H_collections_get_manifest_deliveries (K : Headers) (X : Externals)
    (pipeline : mc_PIPELINE) (req : mc_PACKET) (res : MemcachedResponse) (immerr : lcb_STATUS)
    (hinv : (req.flags &&& K.REQ_F.INVOKED) = 0) :
    ∃ out, H_collections_get_manifest K X pipeline req res immerr = Except.ok out ∧
      out.deliveries.length = callback_targets K pipeline req := by
  unfold H_collections_get_manifest
  refine ⟨_, rfl, ?_⟩
  simp only
  rw [invoke_callback_length _ _ _ _ _ _ hinv]
  exact callback_targets_eq K pipeline req _ rfl

theorem H_touch_deliveries (K : Headers) (X : Externals)
    (pipeline : mc_PIPELINE) (req : mc_PACKET) (res : MemcachedResponse) (immerr : lcb_STATUS)
    (hinv : (req.flags &&& K.REQ_F.INVOKED) = 0) :
    ∃ out, H_touch K X pipeline req res immerr = Except.ok out ∧
      out.deliveries.length = callback_targets K pipeline req := by
  unfold H_touch
  refine ⟨_, rfl, ?_⟩
  simp only
  rw [invoke_callback_length _ _ _ _ _ _ hinv]
  exact callback_targets_eq K pipeline req _ rfl

theorem H_unlock_deliveries (K : Headers) (X : Externals)
    (pipeline : mc_PIPELINE) (req : mc_PACKET) (res : MemcachedResponse) (immerr : lcb_STATUS)
    (hinv : (req.flags &&& K.REQ_F.INVOKED) = 0) :
    ∃ out, H_unlock K X pipeline req res immerr = Except.ok out ∧
      out.deliveries.length = callback_targets K pipeline req := by
  unfold H_unlock
  refine ⟨_, rfl, ?_⟩
  simp only
  rw [invoke_callback_length _ _ _ _ _ _ hinv]
  exact callback_targets_eq K pipeline req _ rfl

theorem H_noop_deliveries (K : Headers) (X : Externals)
    (pipeline : mc_PIPELINE) (req : mc_PACKET) (res : MemcachedResponse) (immerr : lcb_STATUS) :
    (∀ out, H_noop K X pipeline req res immerr = Except.ok out → out.deliveries.length = 1) ∧
    ((X.exdata req).isSome → ∃ out, H_noop K X pipeline req res immerr = Except.ok out) := by
  unfold H_noop
  simp only
  constructor
  · intro out h
    split at h
    · cases h
    · rename_i ds hds
      cases h
      exact call_handler_length _ _ _ _ _ hds
  · intro hx
    unfold call_handler
    cases h : X.exdata req with
    | none => rw [h] at hx; cases hx
    | some rd => exact ⟨_, rfl⟩

theorem H_config_deliveries (K : Headers) (X : Externals)
    (pipeline : mc_PIPELINE) (req : mc_PACKET) (res : MemcachedResponse) (immerr : lcb_STATUS) :
    (∀ out, H_config K X pipeline req res immerr = Except.ok out →
      out.deliveries.length = if pipeline.parent.isSome then 1 else 0) ∧
    ((pipeline.parent.isSome → (X.exdata req).isSome) →
      ∃ out, H_config K X pipeline req res immerr = Except.ok out) := by
  unfold H_config
  cases hp : pipeline.parent with
  | none =>
    simp only
    exact ⟨fun out h => by cases h; rfl, fun _ => ⟨_, rfl⟩⟩
  | some cq =>
    simp only
    constructor
    · intro out h
      split at h
      · cases h
      · rename_i ds hds
        cases h
        exact call_handler_length _ _ _ _ _ hds
    · intro hx
      unfold call_handler
      cases h : X.exdata req with
      | none => have := hx rfl; rw [h] at this; cases this
      | some rd => exact ⟨_, rfl⟩

theorem H_select_bucket_deliveries (K : Headers) (X : Externals)
    (pipeline : mc_PIPELINE) (req : mc_PACKET) (res : MemcachedResponse) (immerr : lcb_STATUS) :
    ∃ out, H_select_bucket K X pipeline req res immerr = Except.ok out ∧
      out.deliveries.length = if (X.exdata req).isSome then 1 else 0 := by
  unfold H_select_bucket
  cases h : X.exdata req with
  | none => exact ⟨_, rfl, rfl⟩
  | some rd => exact ⟨_, rfl, rfl⟩

theorem get_cid_payload_of_error (host : Endian) (response : MemcachedResponse) (resp : lcb_RESP)
    (h : resp.rc ≠ LCB_SUCCESS) : get_cid_payload host response resp = Except.ok resp := by
  unfold get_cid_payload
  rw [if_neg h]

theorem init_resp_key (K : Headers) (X : Externals) (inst : Option lcb_INSTANCE)
    (pipeline : mc_PIPELINE) (mc_resp : MemcachedResponse) (req : mc_PACKET)
    (immerr : lcb_STATUS) (resp : lcb_RESP) :
    (init_resp K X inst pipeline mc_resp req immerr resp).key = some (X.mcreq_get_key inst req) ∧
    (init_resp K X inst pipeline mc_resp req immerr resp).key_len =
      (X.mcreq_get_key inst req).length := by
  unfold init_resp
  cases inst <;> cases pipeline.curhost <;> exact ⟨rfl, rfl⟩

theorem handle_error_info_key (K : Headers) (mc_resp : MemcachedResponse) (rp : ResponsePack) :
    (handle_error_info K mc_resp rp).resp.key = rp.resp.key ∧
    (handle_error_info K mc_resp rp).resp.key_len = rp.resp.key_len := by
  unfold handle_error_info
  split_ifs <;> exact ⟨rfl, rfl⟩

theorem get_cid_scope_ok (resp : lcb_RESP) (key : List Byte) (hk : resp.key = some key)
    (hl : resp.key_len = key.length)
    (h : key = [] ∨ ∃ r, strchr_dot key 0 = Except.ok r) :
    ∃ r, get_cid_scope resp = Except.ok r := by
  unfold get_cid_scope
  rw [hk]
  simp only
  by_cases h0 : resp.key_len ≠ 0
  · rw [if_pos h0]
    rcases h with h | ⟨r, hr⟩
    · rw [hl, h] at h0
      exact absurd rfl h0
    · rw [hr]
      cases r <;> exact ⟨_, rfl⟩
  · rw [if_neg h0]
    exact ⟨_, rfl⟩

theorem H_collections_get_cid_deliveries (K : Headers) (X : Externals) (host : Endian)
    (pipeline : mc_PIPELINE) (req : mc_PACKET) (res : MemcachedResponse) (immerr : lcb_STATUS)
    (hinv : (req.flags &&& K.REQ_F.INVOKED) = 0) (himm : immerr ≠ LCB_SUCCESS) :
    (∀ out, H_collections_get_cid K X host pipeline req res immerr = Except.ok out →
      out.deliveries.length =
        if (req.flags &&& K.REQ_F.REQEXT) ≠ 0 then 1 else callback_targets K pipeline req) ∧
    (((req.flags &&& K.REQ_F.REQEXT) ≠ 0 → (X.exdata req).isSome ∧
        (X.mcreq_get_key (get_instance pipeline) req = [] ∨
          ∃ r, strchr_dot (X.mcreq_get_key (get_instance pipeline) req) 0 = Except.ok r)) →
      ∃ out, H_collections_get_cid K X host pipeline req res immerr = Except.ok out) := by
  unfold H_collections_get_cid
  simp only
  have hkey := init_resp_key K X (get_instance pipeline) pipeline res req immerr
    ResponsePack.zero.resp
  have hrc0 := init_resp_rc_ne_success K X (get_instance pipeline) pipeline res req immerr
    ResponsePack.zero.resp himm
  have hkey2 := handle_error_info_key K res
    { ResponsePack.zero with
      resp := init_resp K X (get_instance pipeline) pipeline res req immerr
        ResponsePack.zero.resp }
  have hrc2 := handle_error_info_rc K res
    { ResponsePack.zero with
      resp := init_resp K X (get_instance pipeline) pipeline res req immerr
        ResponsePack.zero.resp }
  generalize handle_error_info K res _ = w at hkey2 hrc2 ⊢
  have hrc : w.resp.rc ≠ LCB_SUCCESS := by rw [hrc2]; exact hrc0
  rw [get_cid_payload_of_error host res
    { w.resp with rflags := w.resp.rflags ||| K.RESP_F.FINAL } hrc]
  simp only
  by_cases hr : (req.flags &&& K.REQ_F.REQEXT) ≠ 0
  · simp only [if_pos hr]
    constructor
    · intro out h
      split at h
      · cases h
      · split at h
        · cases h
        · rename_i ds hds
          cases h
          exact call_handler_length _ _ _ _ _ hds
    · intro hx
      obtain ⟨hx1, hx2⟩ := hx hr
      obtain ⟨r, hr2⟩ := get_cid_scope_ok
        { w.resp with rflags := w.resp.rflags ||| K.RESP_F.FINAL }
        (X.mcreq_get_key (get_instance pipeline) req)
        (by show w.resp.key = _
            rw [hkey2.1]; exact hkey.1)
        (by show w.resp.key_len = _
            rw [hkey2.2]; exact hkey.2)
        hx2
      rw [hr2]
      simp only
      unfold call_handler
      cases h : X.exdata req with
      | none => rw [h] at hx1; cases hx1
      | some rd => exact ⟨_, rfl⟩
  · simp only [if_neg hr]
    constructor
    · intro out h
      cases h
      rw [invoke_callback_length _ _ _ _ _ _ hinv]
      exact callback_targets_eq K pipeline req _ rfl
    · intro _
      exact ⟨_, rfl⟩

theorem H_observe_deliveries (K : Headers) (X : Externals) (host : Endian) (fuel : Nat)
    (pipeline : mc_PIPELINE) (req : mc_PACKET) (res : MemcachedResponse) (immerr : lcb_STATUS)
    (hinv : (req.flags &&& K.REQ_F.INVOKED) = 0) (himm : immerr ≠ LCB_SUCCESS) :
    (∀ out, H_observe K X host fuel pipeline req res immerr = some (Except.ok out) →
      out.deliveries.length = 1) ∧
    ((X.exdata req).isSome →
      ∃ out, H_observe K X host fuel pipeline req res immerr = some (Except.ok out)) := by
  unfold H_observe
  simp only
  have hrc := make_error_rc_ne_success K (get_instance pipeline) lcb_RESP.zero.tolcb_RESPBASE
    res immerr req himm
  rw [if_pos hrc, if_pos hinv]
  constructor
  · intro out h
    split at h
    · cases h
    · rename_i ds hds
      cases h
      exact call_handler_length _ _ _ _ _ hds
  · intro hx
    unfold call_handler
    cases h : X.exdata req with
    | none => rw [h] at hx; cases hx
    | some rd => exact ⟨_, rfl⟩

theorem H_subdoc_entries_of_error (K : Headers) (X : Externals) (host : Endian) (fuel : Nat)
    (ent0 : lcb_SDENTRY) (request : mc_PACKET) (response : MemcachedResponse)
    (w : ResponsePack) (cbtype : lcb_CALLBACK_TYPE)
    (hrc : w.resp.rc ≠ LCB_SUCCESS)
    (hsub : (response.opcode = K.CMD.SUBDOC_MULTI_LOOKUP ∨
        response.opcode = K.CMD.SUBDOC_MULTI_MUTATION) ∨
      X.LCB_ERROR_IS_SUBDOC w.resp.rc = false) :
    ∃ w1, H_subdoc_entries K X host fuel ent0 request response w cbtype = some (Except.ok w1) := by
  unfold H_subdoc_entries
  by_cases hmulti : response.opcode = K.CMD.SUBDOC_MULTI_LOOKUP ∨
      response.opcode = K.CMD.SUBDOC_MULTI_MUTATION
  · rw [if_pos hmulti, if_neg hrc]
    exact ⟨_, rfl⟩
  · rw [if_neg hmulti]
    simp only []
    have hs : X.LCB_ERROR_IS_SUBDOC w.resp.rc = false := by
      rcases hsub with h | h
      · exact absurd h hmulti
      · exact h
    rw [if_neg (by rintro (h | h); exact hrc h; rw [hs] at h; cases h)]
    exact ⟨_, rfl⟩

theorem H_subdoc_deliveries (K : Headers) (X : Externals) (host : Endian) (fuel : Nat)
    (ent0 : lcb_SDENTRY) (pipeline : mc_PIPELINE) (req : mc_PACKET) (res : MemcachedResponse)
    (immerr : lcb_STATUS)
    (hinv : (req.flags &&& K.REQ_F.INVOKED) = 0) (himm : immerr ≠ LCB_SUCCESS) :
    (∀ out, H_subdoc K X host fuel ent0 pipeline req res immerr = some (Except.ok out) →
      out.deliveries.length = callback_targets K pipeline req) ∧
    (res.ext = [] →
      ((res.opcode = K.CMD.SUBDOC_MULTI_LOOKUP ∨ res.opcode = K.CMD.SUBDOC_MULTI_MUTATION) ∨
        X.LCB_ERROR_IS_SUBDOC (make_error K (get_instance pipeline)
          lcb_RESP.zero.tolcb_RESPBASE res immerr req).rc = false) →
      ∃ out, H_subdoc K X host fuel ent0 pipeline req res immerr = some (Except.ok out)) := by
  unfold H_subdoc
  simp only
  constructor
  · intro out h
    split at h
    · cases h
    · rename_i o1 w cbtype htok
      split at h
      · cases h
      · cases h
      · cases h
        rw [invoke_callback_length _ _ _ _ _ _ hinv]
        apply callback_targets_eq
        unfold H_subdoc_token at htok
        split_ifs at htok
        · cases htok; rfl
        · split at htok
          · cases htok
          · rename_i o2 mt hm
            cases htok
            exact handle_mutation_token_isSome _ _ _ _ _ _ _ hm
  · intro he hsub
    cases htok : H_subdoc_token K host (get_instance pipeline) res req
        { ResponsePack.zero with
          resp := { init_resp K X (get_instance pipeline) pipeline res req immerr
                      ResponsePack.zero.resp with
            rflags := (init_resp K X (get_instance pipeline) pipeline res req immerr
                      ResponsePack.zero.resp).rflags ||| K.RESP_F.FINAL,
            res := none } } with
    | error f =>
      exfalso
      unfold H_subdoc_token at htok
      rw [handle_mutation_token_nil _ _ _ _ _ he] at htok
      split_ifs at htok
    | ok p =>
      obtain ⟨o1, w, cbtype⟩ := p
      obtain ⟨hrc1, -, -⟩ := H_subdoc_token_ok _ _ _ _ _ _ _ _ _ htok
      have hrc2 : w.resp.rc = (make_error K (get_instance pipeline) lcb_RESP.zero.tolcb_RESPBASE
          res immerr req).rc := by
        rw [hrc1]
        exact init_resp_rc _ _ _ _ _ _ _ _
      obtain ⟨w1, hw1⟩ := H_subdoc_entries_of_error K X host fuel ent0 req res w cbtype
        (by rw [hrc2]; exact make_error_rc_ne_success K _ _ res immerr req himm)
        (by rw [hrc2]; exact hsub)
      simp only
      rw [hw1]
      exact ⟨_, rfl⟩

theorem run_builder_deliveries (K : Headers) (X : Externals) (host : Endian) (fuel : Nat)
    (ent0 : lcb_SDENTRY) (pipeline : mc_PIPELINE) (req : mc_PACKET) (res : MemcachedResponse)
    (immerr : lcb_STATUS) (b : Builder)
    (hinv : (req.flags &&& K.REQ_F.INVOKED) = 0) (himm : immerr ≠ LCB_SUCCESS) :
    (∀ out, run_builder K X host fuel ent0 pipeline req res immerr b = some (Except.ok out) →
      out.deliveries.length = expected_deliveries K X pipeline req b) ∧
    (res.ext = [] → res.value = [] →
      (b.calls_handler K pipeline req = true → (X.exdata req).isSome) →
      (b = Builder.H_subdoc →
        (res.opcode = K.CMD.SUBDOC_MULTI_LOOKUP ∨ res.opcode = K.CMD.SUBDOC_MULTI_MUTATION) ∨
        X.LCB_ERROR_IS_SUBDOC (make_error K (get_instance pipeline)
          lcb_RESP.zero.tolcb_RESPBASE res immerr req).rc = false) →
      (b = Builder.H_collections_get_cid → (req.flags &&& K.REQ_F.REQEXT) ≠ 0 →
        X.mcreq_get_key (get_instance pipeline) req = [] ∨
        ∃ r, strchr_dot (X.mcreq_get_key (get_instance pipeline) req) 0 = Except.ok r) →
      ∃ out, run_builder K X host fuel ent0 pipeline req res immerr b = some (Except.ok out)) := by
  cases b
  case H_get =>
    obtain ⟨hA, hB⟩ := H_get_deliveries K X host pipeline req res immerr hinv
    refine ⟨fun out h => ?_, fun _ hv _ _ _ => ?_⟩
    · simp only [run_builder, Option.some.injEq] at h
      simpa [expected_deliveries, Builder.calls_handler] using hA out h
    · obtain ⟨out, ho⟩ := hB hv
      exact ⟨out, by simp only [run_builder, ho]⟩
  case H_store =>
    obtain ⟨hA, hB⟩ := H_store_deliveries K X host pipeline req res immerr hinv
    refine ⟨fun out h => ?_, fun he _ hx _ _ => ?_⟩
    · simp only [run_builder, Option.some.injEq] at h
      simpa [expected_deliveries, Builder.calls_handler] using hA out h
    · obtain ⟨out, ho⟩ := hB he (fun hr => hx (by simpa [Builder.calls_handler] using hr))
      exact ⟨out, by simp only [run_builder, ho]⟩
  case H_arithmetic =>
    obtain ⟨out, ho, hl⟩ := H_arithmetic_deliveries K X host pipeline req res immerr hinv himm
    refine ⟨fun out1 h => ?_, fun _ _ _ _ _ => ⟨out, by simp only [run_builder, ho]⟩⟩
    simp only [run_builder, ho, Option.some.injEq, Except.ok.injEq] at h
    subst h
    simpa [expected_deliveries, Builder.calls_handler] using hl
  case H_subdoc =>
    obtain ⟨hA, hB⟩ := H_subdoc_deliveries K X host fuel ent0 pipeline req res immerr hinv himm
    refine ⟨fun out h => ?_, fun he _ _ hs _ => ?_⟩
    · simp only [run_builder] at h
      simpa [expected_deliveries, Builder.calls_handler] using hA out h
    · obtain ⟨out, ho⟩ := hB he (hs rfl)
      exact ⟨out, by simp only [run_builder, ho]⟩
  case H_observe =>
    obtain ⟨hA, hB⟩ := H_observe_deliveries K X host fuel pipeline req res immerr hinv himm
    refine ⟨fun out h => ?_, fun _ _ hx _ _ => ?_⟩
    · simp only [run_builder] at h
      simpa [expected_deliveries, Builder.calls_handler] using hA out h
    · obtain ⟨out, ho⟩ := hB (hx rfl)
      exact ⟨out, by simp only [run_builder, ho]⟩
  case H_getreplica =>
    obtain ⟨hA, hB⟩ := H_getreplica_deliveries K X host pipeline req res immerr
    refine ⟨fun out h => ?_, fun _ hv hx _ _ => ?_⟩
    · simp only [run_builder, Option.some.injEq] at h
      simpa [expected_deliveries, Builder.calls_handler] using hA out h
    · obtain ⟨out, ho⟩ := hB hv (hx rfl)
      exact ⟨out, by simp only [run_builder, ho]⟩
  case H_unlock =>
    obtain ⟨out, ho, hl⟩ := H_unlock_deliveries K X pipeline req res immerr hinv
    refine ⟨fun out1 h => ?_, fun _ _ _ _ _ => ⟨out, by simp only [run_builder, ho]⟩⟩
    simp only [run_builder, ho, Option.some.injEq, Except.ok.injEq] at h
    subst h
    simpa [expected_deliveries, Builder.calls_handler] using hl
  case H_delete =>
    obtain ⟨hA, hB⟩ := H_delete_deliveries K X host pipeline req res immerr hinv
    refine ⟨fun out h => ?_, fun he _ _ _ _ => ?_⟩
    · simp only [run_builder, Option.some.injEq] at h
      simpa [expected_deliveries, Builder.calls_handler] using hA out h
    · obtain ⟨out, ho⟩ := hB he
      exact ⟨out, by simp only [run_builder, ho]⟩
  case H_touch =>
    obtain ⟨out, ho, hl⟩ := H_touch_deliveries K X pipeline req res immerr hinv
    refine ⟨fun out1 h => ?_, fun _ _ _ _ _ => ⟨out, by simp only [run_builder, ho]⟩⟩
    simp only [run_builder, ho, Option.some.injEq, Except.ok.injEq] at h
    subst h
    simpa [expected_deliveries, Builder.calls_handler] using hl
  case H_observe_seqno =>
    obtain ⟨out, ho, hl⟩ := H_observe_seqno_deliveries K X host pipeline req res immerr hinv himm
    refine ⟨fun out1 h => ?_, fun _ _ _ _ _ => ⟨out, by simp only [run_builder, ho]⟩⟩
    simp only [run_builder, ho, Option.some.injEq, Except.ok.injEq] at h
    subst h
    simpa [expected_deliveries, Builder.calls_handler] using hl
  case H_stats =>
    obtain ⟨hA, hB⟩ := H_stats_deliveries K X pipeline req res immerr
    refine ⟨fun out h => ?_, fun _ _ hx _ _ => ?_⟩
    · simp only [run_builder, Option.some.injEq] at h
      simpa [expected_deliveries, Builder.calls_handler] using hA out h
    · obtain ⟨out, ho⟩ := hB (hx rfl)
      exact ⟨out, by simp only [run_builder, ho]⟩
  case H_noop =>
    obtain ⟨hA, hB⟩ := H_noop_deliveries K X pipeline req res immerr
    refine ⟨fun out h => ?_, fun _ _ hx _ _ => ?_⟩
    · simp only [run_builder, Option.some.injEq] at h
      simpa [expected_deliveries, Builder.calls_handler] using hA out h
    · obtain ⟨out, ho⟩ := hB (hx rfl)
      exact ⟨out, by simp only [run_builder, ho]⟩
  case H_config =>
    obtain ⟨hA, hB⟩ := H_config_deliveries K X pipeline req res immerr
    refine ⟨fun out h => ?_, fun _ _ hx _ _ => ?_⟩
    · simp only [run_builder, Option.some.injEq] at h
      simpa [expected_deliveries] using hA out h
    · obtain ⟨out, ho⟩ := hB (fun hp => hx (by simpa [Builder.calls_handler] using hp))
      exact ⟨out, by simp only [run_builder, ho]⟩
  case H_select_bucket =>
    obtain ⟨out, ho, hl⟩ := H_select_bucket_deliveries K X pipeline req res immerr
    refine ⟨fun out1 h => ?_, fun _ _ _ _ _ => ⟨out, by simp only [run_builder, ho]⟩⟩
    simp only [run_builder, ho, Option.some.injEq, Except.ok.injEq] at h
    subst h
    simpa [expected_deliveries] using hl
  case H_collections_get_manifest =>
    obtain ⟨out, ho, hl⟩ := H_collections_get_manifest_deliveries K X pipeline req res immerr hinv
    refine ⟨fun out1 h => ?_, fun _ _ _ _ _ => ⟨out, by simp only [run_builder, ho]⟩⟩
    simp only [run_builder, ho, Option.some.injEq, Except.ok.injEq] at h
    subst h
    simpa [expected_deliveries, Builder.calls_handler] using hl
  case H_collections_get_cid =>
    obtain ⟨hA, hB⟩ := H_collections_get_cid_deliveries K X host pipeline req res immerr hinv himm
    refine ⟨fun out h => ?_, fun _ _ hx _ hk => ?_⟩
    · simp only [run_builder, Option.some.injEq] at h
      simpa [expected_deliveries, Builder.calls_handler] using hA out h
    · obtain ⟨out, ho⟩ := hB (fun hr =>
        ⟨hx (by simpa [Builder.calls_handler] using hr), hk rfl hr⟩)
      exact ⟨out, by simp only [run_builder, ho]⟩
  case H_exists =>
    obtain ⟨out, ho, hl⟩ := H_exists_deliveries K X host pipeline req res immerr hinv
    refine ⟨fun out1 h => ?_, fun _ _ _ _ _ => ⟨out, by simp only [run_builder, ho]⟩⟩
    simp only [run_builder, ho, Option.some.injEq, Except.ok.injEq] at h
    subst h
    simpa [expected_deliveries, Builder.calls_handler] using hl

/-- C16 (counterexample): three requests that are neither marked invoked nor
flagged user-forward, failed with the immediate error `LCB_ERR_TIMEOUT`, for which
`mcreq_dispatch_response` returns 0 without any delivery: a GET without private
callback on a pipeline without instance, a GET_CLUSTER_CONFIG on a pipeline without
parent queue, and a SELECT_BUCKET without extended request data. -/
theorem mcreq_dispatch_response_immediate_counterexample :
    mcreq_dispatch_response kv kx Endian.little 1 lcb_SDENTRY.zero detached_pipeline ⟨0, 0, 0⟩
        ⟨kv.CMD.GET, 0, 0, 0, [], []⟩ LCB_ERR_TIMEOUT =
      some (Except.ok (0, { inst := none, deliveries := [] })) ∧
    mcreq_dispatch_response kv kx Endian.little 1 lcb_SDENTRY.zero detached_pipeline
        ⟨0x10, 0, 0⟩ ⟨kv.CMD.GET_CLUSTER_CONFIG, 0, 0, 0, [], []⟩ LCB_ERR_TIMEOUT =
      some (Except.ok (0, { inst := none, deliveries := [] })) ∧
    mcreq_dispatch_response kv kx Endian.little 1 lcb_SDENTRY.zero attached_pipeline ⟨0, 0, 0⟩
        ⟨kv.CMD.SELECT_BUCKET, 0, 0, 0, [], []⟩ LCB_ERR_TIMEOUT =
      some (Except.ok (0, { inst := some plain_instance, deliveries := [] })) :=
  ⟨rfl, rfl, rfl⟩

/-- C16 (amended): for a request neither marked invoked nor flagged user-forward,
an opcode of the dispatch table (labels pairwise distinct) and a non-success
immediate error: whenever `mcreq_dispatch_response` returns, it returns 0 and has
made as many deliveries as the builder has a target for, which is one, except none
when the builder goes through `invoke_callback` and the request has neither a
private callback nor an instance, when the opcode is GET_CLUSTER_CONFIG and the
pipeline has no parent queue, and when the opcode is SELECT_BUCKET and the request
has no extended request data.  It does return, for every fuel, when the envelope
has neither extras nor value, the builders that call the handler find extended
request data, the kind of a single-path sub-document response is not a
sub-document error, and the key of a GET_CID request with extended data is empty or
holds a `'.'` or a NUL. -/
theorem mcreq_dispatch_response_immediate (K : Headers) (X : Externals) (host : Endian)
    (fuel : Nat) (ent0 : lcb_SDENTRY) (pipeline : mc_PIPELINE) (req : mc_PACKET)
    (res : MemcachedResponse) (immerr : lcb_STATUS) (op : Nat) (b : Builder)
    (hd : K.opcodes_distinct) (hp : (op, b) ∈ dispatch_cases K) (hop : res.opcode = op)
    (hufwd : (req.flags &&& K.REQ_F.UFWD) = 0)
    (hinv : (req.flags &&& K.REQ_F.INVOKED) = 0)
    (himm : immerr ≠ LCB_SUCCESS) :
    (∀ ret out,
      mcreq_dispatch_response K X host fuel ent0 pipeline req res immerr =
        some (Except.ok (ret, out)) →
      ret = 0 ∧ out.deliveries.length = expected_deliveries K X pipeline req b) ∧
    (res.ext = [] → res.value = [] →
      (b.calls_handler K pipeline req = true → (X.exdata req).isSome) →
      (b = Builder.H_subdoc →
        (res.opcode = K.CMD.SUBDOC_MULTI_LOOKUP ∨ res.opcode = K.CMD.SUBDOC_MULTI_MUTATION) ∨
        X.LCB_ERROR_IS_SUBDOC (make_error K (get_instance pipeline)
          lcb_RESP.zero.tolcb_RESPBASE res immerr req).rc = false) →
      (b = Builder.H_collections_get_cid → (req.flags &&& K.REQ_F.REQEXT) ≠ 0 →
        X.mcreq_get_key (get_instance pipeline) req = [] ∨
        ∃ r, strchr_dot (X.mcreq_get_key (get_instance pipeline) req) 0 = Except.ok r) →
      ∃ out, mcreq_dispatch_response K X host fuel ent0 pipeline req res immerr =
          some (Except.ok (0, out)) ∧
        out.deliveries.length = expected_deliveries K X pipeline req b) := by
  have hcase := mcreq_dispatch_response_of_case K X host fuel ent0 pipeline req res immerr
    hd hufwd op b hp hop
  obtain ⟨hA, hB⟩ := run_builder_deliveries K X host fuel ent0 pipeline req res immerr b hinv himm
  constructor
  · intro ret out h
    rw [hcase] at h
    cases hr : run_builder K X host fuel ent0 pipeline req res immerr b with
    | none => rw [hr] at h; cases h
    | some r =>
      rw [hr] at h
      cases r with
      | error f => simp [Except.map] at h
      | ok out1 =>
        simp only [Option.map_some', Except.map, Option.some.injEq, Except.ok.injEq,
          Prod.mk.injEq] at h
        obtain ⟨h1, h2⟩ := h
        subst h2
        exact ⟨h1.symm, hA out1 hr⟩
  · intro he hv hx hs hk
    obtain ⟨out, ho⟩ := hB he hv hx hs hk
    refine ⟨out, ?_, hA out ho⟩
    rw [hcase, ho]
    rfl

/-- Witness for C16 (amended): a timed-out GET with a private callback on a
pipeline without instance is delivered once. -/
theorem mcreq_dispatch_response_immediate_witness :
    ∃ out, mcreq_dispatch_response kv kx Endian.little 0 lcb_SDENTRY.zero detached_pipeline
        ⟨0x200, 0, 0⟩ ⟨kv.CMD.GET, 0, 0, 0, [], []⟩ LCB_ERR_TIMEOUT = some (Except.ok (0, out)) ∧
      out.deliveries.length = 1 :=
  (mcreq_dispatch_response_immediate kv kx Endian.little 0 lcb_SDENTRY.zero detached_pipeline
    ⟨0x200, 0, 0⟩ ⟨kv.CMD.GET, 0, 0, 0, [], []⟩ LCB_ERR_TIMEOUT kv.CMD.GET Builder.H_get
    (by decide) (by decide) rfl (by decide) (by decide) (by decide)).2 rfl rfl
    (fun h => by cases h) (fun h => by cases h) (fun h => by cases h)

/-! ## Token query, endpoint, collection path, token table: theorems -/

/-- C30: `lcb_resp_get_mutation_token` returns the token stored in the result
pack, unchanged, exactly when the result has `LCB_RESP_F_EXTDATA`, the callback
type is STORE, COUNTER, REMOVE or SDMUTATE, and uuid and seqno of the token are not
both 0; in every other case it returns null. -/
theorem lcb_resp_get_mutation_token_iff (K : Headers) (cbtype : lcb_CALLBACK_TYPE)
    (rb : ResponsePack) :
    let c := (rb.resp.rflags &&& K.RESP_F.EXTDATA) ≠ 0 ∧
      (cbtype = LCB_CALLBACK_STORE ∨ cbtype = LCB_CALLBACK_COUNTER ∨
        cbtype = LCB_CALLBACK_REMOVE ∨ cbtype = LCB_CALLBACK_SDMUTATE) ∧
      ¬ (rb.mt.uuid_ = 0 ∧ rb.mt.seqno_ = 0)
    (c → lcb_resp_get_mutation_token K cbtype rb = some rb.mt) ∧
    (¬ c → lcb_resp_get_mutation_token K cbtype rb = none) ∧
    (∀ t, lcb_resp_get_mutation_token K cbtype rb = some t → t = rb.mt ∧ c) := by
  intro c
  have h1 : c → lcb_resp_get_mutation_token K cbtype rb = some rb.mt := by
    rintro ⟨hf, ht, hz⟩
    unfold lcb_resp_get_mutation_token
    rw [if_neg hf, if_pos ht, if_neg hz]
  have h2 : ¬ c → lcb_resp_get_mutation_token K cbtype rb = none := by
    intro hc
    unfold lcb_resp_get_mutation_token
    by_cases hf : (rb.resp.rflags &&& K.RESP_F.EXTDATA) = 0
    · rw [if_pos hf]
    · rw [if_neg hf]
      by_cases ht : cbtype = LCB_CALLBACK_STORE ∨ cbtype = LCB_CALLBACK_COUNTER ∨
          cbtype = LCB_CALLBACK_REMOVE ∨ cbtype = LCB_CALLBACK_SDMUTATE
      · rw [if_pos ht]
        by_cases hz : rb.mt.uuid_ = 0 ∧ rb.mt.seqno_ = 0
        · rw [if_pos hz]
        · exact absurd ⟨hf, ht, hz⟩ hc
      · rw [if_neg ht]
  refine ⟨h1, h2, ?_⟩
  intro t ht
  by_cases hc : c
  · rw [h1 hc] at ht
    exact ⟨(Option.some.inj ht).symm, hc⟩
  · rw [h2 hc] at ht
    cases ht

/-- Witness for C30: a store result with the flag and the token (5, 6) for vbucket
7 gives the token back; the same pack queried as a GET result gives null. -/
theorem lcb_resp_get_mutation_token_iff_witness :
    lcb_resp_get_mutation_token kv LCB_CALLBACK_STORE
        { ResponsePack.zero with
            resp := { lcb_RESP.zero with rflags := kv.RESP_F.EXTDATA }, mt := ⟨5, 6, 7⟩ } =
      some ⟨5, 6, 7⟩ ∧
    lcb_resp_get_mutation_token kv LCB_CALLBACK_GET
        { ResponsePack.zero with
            resp := { lcb_RESP.zero with rflags := kv.RESP_F.EXTDATA }, mt := ⟨5, 6, 7⟩ } =
      none :=
  ⟨(lcb_resp_get_mutation_token_iff kv LCB_CALLBACK_STORE
      { ResponsePack.zero with
          resp := { lcb_RESP.zero with rflags := kv.RESP_F.EXTDATA }, mt := ⟨5, 6, 7⟩ }).1
      (by decide),
   (lcb_resp_get_mutation_token_iff kv LCB_CALLBACK_GET
      { ResponsePack.zero with
          resp := { lcb_RESP.zero with rflags := kv.RESP_F.EXTDATA }, mt := ⟨5, 6, 7⟩ }).2.1
      (by decide)⟩

/-- C23: when the pipeline has a current host with host string `h` and port string
`p`, `init_resp` writes the endpoint `h ++ ":" ++ p`, or `"[" ++ h ++ "]:" ++ p`
for an IPv6 host, and sets `endpoint_len` to the length of that string
(`len h + len p + 1`, plus 2 for IPv6), the terminating NUL not counted; when the
pipeline has no current host it leaves endpoint and length as they were, empty and
0 in the value-initialised result that every builder passes. -/
theorem init_resp_endpoint (K : Headers) (X : Externals) (inst : Option lcb_INSTANCE)
    (pipeline : mc_PIPELINE) (mc_resp : MemcachedResponse) (req : mc_PACKET)
    (immerr : lcb_STATUS) (resp : lcb_RESP) :
    (∀ remote, pipeline.curhost = some remote →
      (init_resp K X inst pipeline mc_resp req immerr resp).endpoint =
        (if remote.ipv6 then ['['] ++ remote.host ++ [']', ':'] ++ remote.port
         else remote.host ++ [':'] ++ remote.port) ∧
      (init_resp K X inst pipeline mc_resp req immerr resp).endpoint_len =
        remote.host.length + remote.port.length + 1 + (if remote.ipv6 then 2 else 0) ∧
      (init_resp K X inst pipeline mc_resp req immerr resp).endpoint_len =
        (init_resp K X inst pipeline mc_resp req immerr resp).endpoint.length) ∧
    (pipeline.curhost = none →
      (init_resp K X inst pipeline mc_resp req immerr resp).endpoint = resp.endpoint ∧
      (init_resp K X inst pipeline mc_resp req immerr resp).endpoint_len = resp.endpoint_len) ∧
    (pipeline.curhost = none →
      (init_resp K X inst pipeline mc_resp req immerr lcb_RESP.zero).endpoint = [] ∧
      (init_resp K X inst pipeline mc_resp req immerr lcb_RESP.zero).endpoint_len = 0) := by
  refine ⟨?_, ?_, ?_⟩
  · intro remote hr
    have he : (init_resp K X inst pipeline mc_resp req immerr resp).endpoint =
        format_endpoint remote := by
      unfold init_resp
      rw [hr]
    have hl : (init_resp K X inst pipeline mc_resp req immerr resp).endpoint_len =
        (format_endpoint remote).length + 1 - 1 := by
      unfold init_resp
      rw [hr]
    rw [he, hl]
    unfold format_endpoint
    cases remote.ipv6
    · simp
      omega
    · simp
      omega
  · intro hn
    unfold init_resp
    rw [hn]
    cases inst <;> exact ⟨rfl, rfl⟩
  · intro hn
    unfold init_resp
    rw [hn]
    cases inst <;> exact ⟨rfl, rfl⟩

/-- Witness for C23: the IPv6 host `::1` with port `11210`. -/
theorem init_resp_endpoint_witness :
    (init_resp kv kx none
        { parent := none, index := 0, server_instance := none,
          curhost := some { host := "::1".toList, port := "11210".toList, ipv6 := true } }
        ⟨0, 0, 0, 0, [], []⟩ ⟨0, 0, 0⟩ LCB_SUCCESS lcb_RESP.zero).endpoint = "[::1]:11210".toList ∧
    (init_resp kv kx none
        { parent := none, index := 0, server_instance := none,
          curhost := some { host := "::1".toList, port := "11210".toList, ipv6 := true } }
        ⟨0, 0, 0, 0, [], []⟩ ⟨0, 0, 0⟩ LCB_SUCCESS lcb_RESP.zero).endpoint_len = 11 :=
  ⟨((init_resp_endpoint kv kx none
        { parent := none, index := 0, server_instance := none,
          curhost := some { host := "::1".toList, port := "11210".toList, ipv6 := true } }
        ⟨0, 0, 0, 0, [], []⟩ ⟨0, 0, 0⟩ LCB_SUCCESS lcb_RESP.zero).1 _ rfl).1,
   ((init_resp_endpoint kv kx none
        { parent := none, index := 0, server_instance := none,
          curhost := some { host := "::1".toList, port := "11210".toList, ipv6 := true } }
        ⟨0, 0, 0, 0, [], []⟩ ⟨0, 0, 0⟩ LCB_SUCCESS lcb_RESP.zero).1 _ rfl).2.1⟩

theorem str_find_some (c : Char) : ∀ (l : List Char) (n : Nat), str_find c l = some n →
    l.take n ++ [c] ++ l.drop (n + 1) = l ∧ c ∉ l.take n ∧ n < l.length := by
  intro l
  induction l with
  | nil => intro n h; cases h
  | cons x xs ih =>
    intro n h
    unfold str_find at h
    by_cases hx : x = c
    · rw [if_pos hx] at h
      cases h
      subst hx
      simp
    · rw [if_neg hx] at h
      cases hs : str_find c xs with
      | none => rw [hs] at h; cases h
      | some m =>
        rw [hs] at h
        cases h
        obtain ⟨h1, h2, h3⟩ := ih m hs
        refine ⟨?_, ?_, ?_⟩
        · simp only [List.take_succ_cons, List.drop_succ_cons, List.cons_append]
          rw [h1]
        · simp only [List.take_succ_cons, List.mem_cons, not_or]
          exact ⟨fun h => hx h.symm, h2⟩
        · simp only [List.length_cons]
          omega

theorem str_find_of_mem (c : Char) : ∀ (l : List Char), c ∈ l → ∃ n, str_find c l = some n := by
  intro l
  induction l with
  | nil => intro h; cases h
  | cons x xs ih =>
    intro h
    unfold str_find
    by_cases hx : x = c
    · exact ⟨0, by rw [if_pos hx]⟩
    · rw [if_neg hx]
      have : c ∈ xs := by
        rcases List.mem_cons.mp h with h | h
        · exact absurd h.symm hx
        · exact h
      obtain ⟨n, hn⟩ := ih this
      exact ⟨n + 1, by rw [hn]; rfl⟩

theorem str_find_of_not_mem (c : Char) : ∀ (l : List Char), c ∉ l → str_find c l = none := by
  intro l
  induction l with
  | nil => intro _; rfl
  | cons x xs ih =>
    intro h
    simp only [List.mem_cons, not_or] at h
    unfold str_find
    rw [if_neg (fun hx => h.1 hx.symm), ih h.2]
    rfl

theorem set_collection_path_split (X : Externals) (pkt : mc_PACKET) (i : lcb_INSTANCE)
    (resp : lcb_RESP) :
    let path := i.id_to_name (X.mcreq_get_cid (some i) pkt)
    ('.' ∈ path → ∃ scope collection,
      (set_collection_path X pkt (some i) resp).scope = StrPtr.in_block scope ∧
      (set_collection_path X pkt (some i) resp).collection = StrPtr.in_block collection ∧
      scope ++ ['.'] ++ collection = path ∧ '.' ∉ scope ∧
      scope.length + collection.length + 1 = path.length) ∧
    ('.' ∉ path → set_collection_path X pkt (some i) resp = resp) := by
  intro path
  refine ⟨?_, ?_⟩
  · intro hmem
    obtain ⟨dot, hdot⟩ := str_find_of_mem '.' path hmem
    obtain ⟨h1, h2, h3⟩ := str_find_some '.' path dot hdot
    have hne : path ≠ [] := by
      intro h
      rw [h] at hmem
      cases hmem
    have hset : set_collection_path X pkt (some i) resp =
        { resp with scope := StrPtr.in_block (path.take dot),
                    collection := StrPtr.in_block (path.drop (dot + 1)) } := by
      unfold set_collection_path
      simp only
      rw [if_pos hne, hdot]
    refine ⟨path.take dot, path.drop (dot + 1), ?_, ?_, h1, h2, ?_⟩
    · rw [hset]
    · rw [hset]
    · rw [List.length_take, List.length_drop]
      omega
  · intro hno
    unfold set_collection_path
    simp only
    rw [str_find_of_not_mem '.' _ hno]
    split_ifs <;> rfl

theorem collection_path_block_dangling (X : Externals) (pkt : mc_PACKET) (i : lcb_INSTANCE)
    (resp : lcb_RESP) (h : '.' ∈ i.id_to_name (X.mcreq_get_cid (some i) pkt)) :
    ∃ n m : Nat,
      (collection_path_block X pkt (some i) resp).scope = StrPtr.dangling n ∧
      (collection_path_block X pkt (some i) resp).collection = StrPtr.dangling m ∧
      n + m + 1 = (i.id_to_name (X.mcreq_get_cid (some i) pkt)).length := by
  obtain ⟨scope, collection, h1, h2, -, -, h5⟩ := (set_collection_path_split X pkt i resp).1 h
  refine ⟨scope.length, collection.length, ?_, ?_, h5⟩
  · show (set_collection_path X pkt (some i) resp).scope.block_closed = _
    rw [h1]
    rfl
  · show (set_collection_path X pkt (some i) resp).collection.block_closed = _
    rw [h2]
    rfl

/-- C24 (the code at the failing input): on an instance whose collection cache
names the collection of the request `app.users`, the block of `invoke_callback`
points scope at the 3 characters `app` and collection at the 5 characters `users`
of its local string `collection_path`, as the claim says; the string is destroyed
at the closing brace of the block, before either callback is called, so the result
that the registered callback (and likewise the callback behind the cookie)
receives holds two dangling pointers, with the lengths 3 and 5. -/
theorem invoke_callback_collection_path_dangles :
    set_collection_path kx ⟨0, 0, 0⟩ (some named_instance) lcb_RESP.zero =
      { lcb_RESP.zero with scope := StrPtr.in_block "app".toList,
                           collection := StrPtr.in_block "users".toList } ∧
    invoke_callback kv kx ⟨0, 0, 0⟩ (some named_instance) (Result.plain lcb_RESP.zero)
        LCB_CALLBACK_GET =
      [Delivery.callback 0 named_instance LCB_CALLBACK_GET
        (Result.plain { lcb_RESP.zero with cookie := some 7,
                                           scope := StrPtr.dangling 3,
                                           collection := StrPtr.dangling 5 })] ∧
    invoke_callback kv kx ⟨0x200, 0, 0⟩ (some named_instance) (Result.plain lcb_RESP.zero)
        LCB_CALLBACK_GET =
      [Delivery.cookie_callback 7 (some named_instance) LCB_CALLBACK_GET
        (Result.plain { lcb_RESP.zero with cookie := some 7,
                                           scope := StrPtr.dangling 3,
                                           collection := StrPtr.dangling 5 })] :=
  ⟨by decide, rfl, rfl⟩


/-- C26: with an instance attached and extras of at least 16 bytes, for the vbucket
`v` of the request: a token table that exists keeps its length, gets the decoded
token at entry `v` and keeps every other entry; a table that does not exist yet is
allocated with exactly `nvb` entries, after which entry `v` is the decoded token
and every other entry is zero; nothing else of the instance changes.  `v` is taken
to lie inside the table, the write `dcpinfo[vbid]` being unchecked. -/
theorem handle_mutation_token_frame (host : Endian) (i : lcb_INSTANCE)
    (mc_resp : MemcachedResponse) (req : mc_PACKET) (stok : lcb_MUTATION_TOKEN)
    (hlen : 16 ≤ mc_resp.ext.length) :
    (∀ t, i.dcpinfo = some t → req.vbucket < t.length →
      ∃ t1, handle_mutation_token host (some i) mc_resp req stok =
          Except.ok (some { i with dcpinfo := some t1 }, decoded_token mc_resp.ext req.vbucket) ∧
        t1.length = t.length ∧
        t1[req.vbucket]? = some (decoded_token mc_resp.ext req.vbucket) ∧
        ∀ j, j ≠ req.vbucket → t1[j]? = t[j]?) ∧
    (i.dcpinfo = none → req.vbucket < i.nvb →
      ∃ t1, handle_mutation_token host (some i) mc_resp req stok =
          Except.ok (some { i with dcpinfo := some t1 }, decoded_token mc_resp.ext req.vbucket) ∧
        t1.length = i.nvb ∧
        t1[req.vbucket]? = some (decoded_token mc_resp.ext req.vbucket) ∧
        ∀ j, j ≠ req.vbucket → j < i.nvb →
          t1[j]? = some { uuid_ := 0, seqno_ := 0, vbid_ := 0 }) := by
  constructor
  · intro t ht hv
    have hE : ensure_dcpinfo (some i) = some i := ensure_dcpinfo_of_table i t ht
    have hok := handle_mutation_token_ok host (some i) mc_resp req stok hlen (by
      intro i1 t1 h1 h2
      rw [hE] at h1
      cases h1
      rw [ht] at h2
      cases h2
      exact hv)
    refine ⟨t.set req.vbucket (decoded_token mc_resp.ext req.vbucket), ?_, ?_, ?_, ?_⟩
    · rw [hok, hE]
      simp [store_token, ht]
    · rw [List.length_set]
    · rw [List.getElem?_set_self hv]
    · intro j hj
      rw [List.getElem?_set_ne (Ne.symm hj)]
  · intro hn hv
    have hnz : i.nvb ≠ 0 := by omega
    have hE : ensure_dcpinfo (some i) = some { i with dcpinfo := some (dcpinfo_alloc i.nvb) } := by
      simp [ensure_dcpinfo, hn, hnz]
    have hok := handle_mutation_token_ok host (some i) mc_resp req stok hlen (by
      intro i1 t1 h1 h2
      rw [hE] at h1
      cases h1
      cases h2
      simp [dcpinfo_alloc]
      exact hv)
    refine ⟨(dcpinfo_alloc i.nvb).set req.vbucket (decoded_token mc_resp.ext req.vbucket),
      ?_, ?_, ?_, ?_⟩
    · rw [hok, hE]
      simp [store_token]
    · simp [dcpinfo_alloc]
    · rw [List.getElem?_set_self (by simp [dcpinfo_alloc]; exact hv)]
    · intro j hj hjn
      rw [List.getElem?_set_ne (Ne.symm hj)]
      simp [dcpinfo_alloc, hjn]

/-- Witness for C26: the first token of an instance with 3 vbuckets and no table,
for vbucket 1. -/
theorem handle_mutation_token_frame_witness :
    ∃ t1, handle_mutation_token Endian.little
          (some { plain_instance with nvb := 3 })
          ⟨0, 0, 0, 0, [0, 0, 0, 0, 0, 0, 0, 5, 0, 0, 0, 0, 0, 0, 0, 6], []⟩ ⟨0, 1, 0⟩ ⟨0, 0, 0⟩ =
        Except.ok (some { plain_instance with nvb := 3, dcpinfo := some t1 }, ⟨5, 6, 1⟩) ∧
      t1.length = 3 ∧ t1[1]? = some ⟨5, 6, 1⟩ ∧
      t1[0]? = some ⟨0, 0, 0⟩ ∧ t1[2]? = some ⟨0, 0, 0⟩ :=
  match (handle_mutation_token_frame Endian.little { plain_instance with nvb := 3 }
      ⟨0, 0, 0, 0, [0, 0, 0, 0, 0, 0, 0, 5, 0, 0, 0, 0, 0, 0, 0, 6], []⟩ ⟨0, 1, 0⟩ ⟨0, 0, 0⟩
      (by decide)).2 rfl (by decide) with
  | ⟨t1, h1, h2, h3, h4⟩ => ⟨t1, h1, h2, h3, h4 0 (by decide) (by decide), h4 2 (by decide) (by decide)⟩

/-! ## Enhanced-error queries: theorems -/

theorem clear_flag_land (f m : Nat) : clear_flag f m &&& m = 0 := by
  unfold clear_flag
  apply Nat.eq_of_testBit_eq
  intro i
  simp only [Nat.testBit_and, Nat.testBit_xor, Nat.zero_testBit]
  cases f.testBit i <;> cases m.testBit i <;> rfl

theorem ErrQuery.run_unmarked (K : Headers) (X : Externals) (q : ErrQuery)
    (cbtype : lcb_CALLBACK_TYPE) (rb : ResponsePack)
    (h : (rb.resp.rflags &&& K.RESP_F.ERRINFO) = 0) :
    q.run K X cbtype rb = (none, rb, 0) := by
  cases q
  · simp [ErrQuery.run, lcb_resp_get_error_context, h]
  · simp [ErrQuery.run, lcb_resp_get_error_ref, h]

theorem ErrQuery.run_other_type (K : Headers) (X : Externals) (q : ErrQuery)
    (cbtype : lcb_CALLBACK_TYPE) (rb : ResponsePack) (h : cbtype ∉ ERRINFO_CALLBACKS) :
    q.run K X cbtype rb = (none, rb, 0) := by
  cases q
  · unfold ErrQuery.run lcb_resp_get_error_context
    simp only
    split_ifs <;> rfl
  · unfold ErrQuery.run lcb_resp_get_error_ref
    simp only
    split_ifs <;> rfl

theorem run_queries_unmarked (K : Headers) (X : Externals) (rb : ResponsePack)
    (h : (rb.resp.rflags &&& K.RESP_F.ERRINFO) = 0) :
    ∀ qs, run_queries K X qs rb = (qs.map (fun _ => none), rb, 0) := by
  intro qs
  induction qs with
  | nil => rfl
  | cons p qs ih =>
    obtain ⟨q, t⟩ := p
    simp only [run_queries, ErrQuery.run_unmarked K X q t rb h, ih, List.map_cons, Nat.add_zero]

theorem parse_enhanced_error_rejected (K : Headers) (X : Externals) (rb : ResponsePack)
    (rc : lcb_STATUS) (hrc : rc ≠ LCB_SUCCESS)
    (href : rb.err_ref = none) (hctx : rb.err_ctx = none)
    (hp : X.parse_enhanced_error rb.value rb.nvalue none none = (rc, none, none)) :
    rb.parse_enhanced_error K X =
      { rb with resp := { rb.resp with
          rflags := clear_flag rb.resp.rflags K.RESP_F.ERRINFO } } := by
  obtain ⟨resp, mt, value, nvalue, err_ref, err_ctx⟩ := rb
  simp only at href hctx hp
  subst href hctx
  unfold ResponsePack.parse_enhanced_error
  simp only [hp, ne_eq, hrc, not_false_eq_true, if_true]

/-- C21 (counterexample): the result of a GET_CID response with the ERRINFO marker
and a payload that the parser rejects, queried under its own callback type
`LCB_CALLBACK_GETCID`: the query returns null, but the parser is not called and the
marker stays set. -/
theorem lcb_resp_get_error_rejected_counterexample :
    ((handle_error_info kv ⟨kv.CMD.COLLECTIONS_GET_CID, kv.RESPONSE.KEY_ENOENT, 0, kv.DATATYPE.JSON, [], [123, 125]⟩
        ResponsePack.zero).resp.rflags &&& kv.RESP_F.ERRINFO) ≠ 0 ∧
    (kx.parse_enhanced_error (some [123, 125]) 2 none none).1 ≠ LCB_SUCCESS ∧
    lcb_resp_get_error_context kv kx LCB_CALLBACK_GETCID
        (handle_error_info kv ⟨kv.CMD.COLLECTIONS_GET_CID, kv.RESPONSE.KEY_ENOENT, 0, kv.DATATYPE.JSON, [], [123, 125]⟩ ResponsePack.zero) =
      (none, handle_error_info kv ⟨kv.CMD.COLLECTIONS_GET_CID, kv.RESPONSE.KEY_ENOENT, 0, kv.DATATYPE.JSON, [], [123, 125]⟩ ResponsePack.zero, 0) := by
  decide

/-- C21 (amended): for a result with the ERRINFO marker set, no string parsed yet,
and a payload that the parser rejects (leaving both strings null): under one of the
eight callback types of `ERRINFO_CALLBACKS` (GET, STORE, COUNTER, TOUCH, REMOVE,
UNLOCK, SDLOOKUP, SDMUTATE) the first call of either query calls
the parser once, clears `LCB_RESP_F_ERRINFO` and returns null, and every later
sequence of queries, of either kind and under any callback type, returns null each
time without calling the parser; under any other callback type the query returns
null without calling the parser and leaves the marker set. -/
theorem lcb_resp_get_error_rejected (K : Headers) (X : Externals) (q : ErrQuery)
    (cbtype : lcb_CALLBACK_TYPE) (rb : ResponsePack) (rc : lcb_STATUS)
    (hmark : (rb.resp.rflags &&& K.RESP_F.ERRINFO) ≠ 0)
    (href : rb.err_ref = none) (hctx : rb.err_ctx = none)
    (hrc : rc ≠ LCB_SUCCESS)
    (hp : X.parse_enhanced_error rb.value rb.nvalue none none = (rc, none, none)) :
    let rb1 : ResponsePack :=
      { rb with resp := { rb.resp with rflags := clear_flag rb.resp.rflags K.RESP_F.ERRINFO } }
    (cbtype ∈ [LCB_CALLBACK_GET, LCB_CALLBACK_STORE, LCB_CALLBACK_COUNTER,
        LCB_CALLBACK_TOUCH, LCB_CALLBACK_REMOVE, LCB_CALLBACK_UNLOCK, LCB_CALLBACK_SDLOOKUP,
        LCB_CALLBACK_SDMUTATE] →
      q.run K X cbtype rb = (none, rb1, 1) ∧
      (rb1.resp.rflags &&& K.RESP_F.ERRINFO) = 0 ∧
      ∀ qs, run_queries K X qs rb1 = (qs.map (fun _ => none), rb1, 0)) ∧
    (cbtype ∉ [LCB_CALLBACK_GET, LCB_CALLBACK_STORE, LCB_CALLBACK_COUNTER,
        LCB_CALLBACK_TOUCH, LCB_CALLBACK_REMOVE, LCB_CALLBACK_UNLOCK, LCB_CALLBACK_SDLOOKUP,
        LCB_CALLBACK_SDMUTATE] → q.run K X cbtype rb = (none, rb, 0)) := by
  intro rb1
  have hpe := parse_enhanced_error_rejected K X rb rc hrc href hctx hp
  have hclear : (rb1.resp.rflags &&& K.RESP_F.ERRINFO) = 0 := clear_flag_land _ _
  refine ⟨fun hin0 => ⟨?_, hclear, run_queries_unmarked K X rb1 hclear⟩,
    fun hout => ErrQuery.run_other_type K X q cbtype rb hout⟩
  have hin : cbtype ∈ ERRINFO_CALLBACKS := hin0
  cases q
  · unfold ErrQuery.run lcb_resp_get_error_context
    simp only
    rw [if_neg hmark, if_pos hin]
    unfold ResponsePack.get_err_ctx
    rw [if_pos hmark]
    simp only [hctx, Option.isSome_none, Bool.false_eq_true, if_false]
    rw [hpe]
    show (rb.err_ctx, rb1, 1) = (none, rb1, 1)
    rw [hctx]
  · unfold ErrQuery.run lcb_resp_get_error_ref
    simp only
    rw [if_neg hmark, if_pos hin]
    unfold ResponsePack.get_err_ref
    rw [if_pos hmark]
    simp only [href, Option.isSome_none, Bool.false_eq_true, if_false]
    rw [hpe]
    show (rb.err_ref, rb1, 1) = (none, rb1, 1)
    rw [href]

/-- Witness for C21 (amended): the result of a GET response with status KEY_ENOENT
and the JSON payload `{}`, which the parser of `kx` rejects, queried for its
context as a GET result and then three more times. -/
theorem lcb_resp_get_error_rejected_witness :
    lcb_resp_get_error_context kv kx LCB_CALLBACK_GET
        { ResponsePack.zero with
            resp := { lcb_RESP.zero with rflags := kv.RESP_F.ERRINFO },
            value := some [123, 125], nvalue := 2 } =
      (none, { ResponsePack.zero with value := some [123, 125], nvalue := 2 }, 1) ∧
    run_queries kv kx
        [(ErrQuery.reference, LCB_CALLBACK_GET), (ErrQuery.context, LCB_CALLBACK_GET),
         (ErrQuery.context, LCB_CALLBACK_STORE)]
        { ResponsePack.zero with value := some [123, 125], nvalue := 2 } =
      ([none, none, none], { ResponsePack.zero with value := some [123, 125], nvalue := 2 }, 0) :=
  ⟨((lcb_resp_get_error_rejected kv kx ErrQuery.context LCB_CALLBACK_GET
      { ResponsePack.zero with
          resp := { lcb_RESP.zero with rflags := kv.RESP_F.ERRINFO },
          value := some [123, 125], nvalue := 2 }
      LCB_ERR_INVALID_ARGUMENT (by decide) rfl rfl (by decide) rfl).1 (by decide)).1,
   ((lcb_resp_get_error_rejected kv kx ErrQuery.context LCB_CALLBACK_GET
      { ResponsePack.zero with
          resp := { lcb_RESP.zero with rflags := kv.RESP_F.ERRINFO },
          value := some [123, 125], nvalue := 2 }
      LCB_ERR_INVALID_ARGUMENT (by decide) rfl rfl (by decide) rfl).1 (by decide)).2.2 _⟩

/-- C22 (the code at the failing input): on a result with the ERRINFO marker whose
payload the parser accepts, finding a reference but no context, two context queries
call the parser twice, and a reference query followed by two context queries calls
it three times; the strings returned are the same each time. -/
theorem error_queries_parse_again :
    run_queries kv kx_reference_only
        [(ErrQuery.context, LCB_CALLBACK_GET), (ErrQuery.context, LCB_CALLBACK_GET)]
        { ResponsePack.zero with
            resp := { lcb_RESP.zero with rflags := kv.RESP_F.ERRINFO },
            value := some [123, 125], nvalue := 2 } =
      ([none, none],
       { ResponsePack.zero with
            resp := { lcb_RESP.zero with rflags := kv.RESP_F.ERRINFO },
            value := some [123, 125], nvalue := 2, err_ref := some "ref" }, 2) ∧
    run_queries kv kx_reference_only
        [(ErrQuery.reference, LCB_CALLBACK_GET), (ErrQuery.context, LCB_CALLBACK_GET),
         (ErrQuery.context, LCB_CALLBACK_GET)]
        { ResponsePack.zero with
            resp := { lcb_RESP.zero with rflags := kv.RESP_F.ERRINFO },
            value := some [123, 125], nvalue := 2 } =
      ([some "ref", none, none],
       { ResponsePack.zero with
            resp := { lcb_RESP.zero with rflags := kv.RESP_F.ERRINFO },
            value := some [123, 125], nvalue := 2, err_ref := some "ref" }, 3) := by
  decide

/-! ## Observe-seqno and observe payloads: theorems -/

theorem init_resp_old (K : Headers) (X : Externals) (inst : Option lcb_INSTANCE)
    (pipeline : mc_PIPELINE) (mc_resp : MemcachedResponse) (req : mc_PACKET)
    (immerr : lcb_STATUS) (resp : lcb_RESP) :
    (init_resp K X inst pipeline mc_resp req immerr resp).old_uuid = resp.old_uuid ∧
    (init_resp K X inst pipeline mc_resp req immerr resp).old_seqno = resp.old_seqno := by
  unfold init_resp
  cases inst <;> cases pipeline.curhost <;> exact ⟨rfl, rfl⟩

theorem observe_seqno_payload_plain (host : Endian) (response : MemcachedResponse)
    (resp : lcb_RESP) (d : List Byte) (hval : response.value = d) (hlen : 27 ≤ d.length)
    (h0 : decodeBE (d.take 1) = 0) :
    observe_seqno_payload host response resp =
      Except.ok { resp with vbid := decodeBE ((d.drop 1).take 2),
                            cur_uuid := decodeBE ((d.drop 3).take 8),
                            persisted_seqno := decodeBE ((d.drop 11).take 8),
                            mem_seqno := decodeBE ((d.drop 19).take 8) } := by
  subst hval
  unfold observe_seqno_payload
  rw [readBytes_ok _ 0 1 (by omega), readBytes_ok _ 1 2 (by omega), readBytes_ok _ 3 8 (by omega),
    readBytes_ok _ 11 8 (by omega), readBytes_ok _ 19 8 (by omega)]
  simp only [bind, Except.bind, List.drop_zero, h0, ne_eq, not_true_eq_false, if_false,
    pure, Except.pure]
  unfold ntohs lcb_ntohll
  rw [ntoh_memcpy host 2 _ (by rw [List.length_take, List.length_drop]; omega),
    ntoh_memcpy host 8 _ (by rw [List.length_take, List.length_drop]; omega),
    ntoh_memcpy host 8 _ (by rw [List.length_take, List.length_drop]; omega),
    ntoh_memcpy host 8 _ (by rw [List.length_take, List.length_drop]; omega)]

theorem observe_seqno_payload_failover (host : Endian) (response : MemcachedResponse)
    (resp : lcb_RESP) (d : List Byte) (hval : response.value = d) (hlen : 43 ≤ d.length)
    (h0 : decodeBE (d.take 1) ≠ 0) :
    observe_seqno_payload host response resp =
      Except.ok { resp with vbid := decodeBE ((d.drop 1).take 2),
                            cur_uuid := decodeBE ((d.drop 3).take 8),
                            persisted_seqno := decodeBE ((d.drop 11).take 8),
                            mem_seqno := decodeBE ((d.drop 19).take 8),
                            old_uuid := decodeBE ((d.drop 27).take 8),
                            old_seqno := decodeBE ((d.drop 35).take 8) } := by
  subst hval
  unfold observe_seqno_payload
  rw [readBytes_ok _ 0 1 (by omega), readBytes_ok _ 1 2 (by omega), readBytes_ok _ 3 8 (by omega),
    readBytes_ok _ 11 8 (by omega), readBytes_ok _ 19 8 (by omega)]
  simp only [bind, Except.bind, List.drop_zero, h0, ne_eq, not_false_eq_true, if_true,
    pure, Except.pure]
  rw [readBytes_ok _ 27 8 (by omega), readBytes_ok _ 35 8 (by omega)]
  unfold ntohs lcb_ntohll
  simp only
  rw [ntoh_memcpy host 2 _ (by rw [List.length_take, List.length_drop]; omega),
    ntoh_memcpy host 8 _ (by rw [List.length_take, List.length_drop]; omega),
    ntoh_memcpy host 8 _ (by rw [List.length_take, List.length_drop]; omega),
    ntoh_memcpy host 8 _ (by rw [List.length_take, List.length_drop]; omega),
    ntoh_memcpy host 8 _ (by rw [List.length_take, List.length_drop]; omega),
    ntoh_memcpy host 8 _ (by rw [List.length_take, List.length_drop]; omega)]

theorem init_resp_value_irrelevant (K : Headers) (X : Externals) (inst : Option lcb_INSTANCE)
    (pipeline : mc_PIPELINE) (mc_resp : MemcachedResponse) (req : mc_PACKET)
    (immerr : lcb_STATUS) (resp : lcb_RESP) (v : List Byte) :
    init_resp K X inst pipeline { mc_resp with value := v } req immerr resp =
      init_resp K X inst pipeline mc_resp req immerr resp := by
  unfold init_resp make_error make_error_kind
  rfl

theorem H_observe_seqno_plain (K : Headers) (X : Externals) (host : Endian)
    (pipeline : mc_PIPELINE) (request : mc_PACKET) (response : MemcachedResponse)
    (immerr : lcb_STATUS)
    (hrc : (init_resp K X (get_instance pipeline) pipeline response request immerr
      lcb_RESP.zero).rc = LCB_SUCCESS)
    (hlen : 27 ≤ response.value.length) (h0 : decodeBE (response.value.take 1) = 0) :
    H_observe_seqno K X host pipeline request response immerr =
      Except.ok { inst := get_instance pipeline,
                  deliveries := invoke_callback K X request (get_instance pipeline)
                    (Result.plain
                      { init_resp K X (get_instance pipeline) pipeline response request immerr
                          lcb_RESP.zero with
                        server_index := pipeline.index,
                        vbid := decodeBE ((response.value.drop 1).take 2),
                        cur_uuid := decodeBE ((response.value.drop 3).take 8),
                        persisted_seqno := decodeBE ((response.value.drop 11).take 8),
                        mem_seqno := decodeBE ((response.value.drop 19).take 8) })
                    LCB_CALLBACK_OBSEQNO } := by
  have hp := observe_seqno_payload_plain host response
    { init_resp K X (get_instance pipeline) pipeline response request immerr lcb_RESP.zero with
      server_index := pipeline.index } response.value rfl hlen h0
  unfold H_observe_seqno
  simp only
  rw [if_pos hrc, hp]

theorem H_observe_seqno_failover (K : Headers) (X : Externals) (host : Endian)
    (pipeline : mc_PIPELINE) (request : mc_PACKET) (response : MemcachedResponse)
    (immerr : lcb_STATUS)
    (hrc : (init_resp K X (get_instance pipeline) pipeline response request immerr
      lcb_RESP.zero).rc = LCB_SUCCESS)
    (hlen : 43 ≤ response.value.length) (h0 : decodeBE (response.value.take 1) ≠ 0) :
    H_observe_seqno K X host pipeline request response immerr =
      Except.ok { inst := get_instance pipeline,
                  deliveries := invoke_callback K X request (get_instance pipeline)
                    (Result.plain
                      { init_resp K X (get_instance pipeline) pipeline response request immerr
                          lcb_RESP.zero with
                        server_index := pipeline.index,
                        vbid := decodeBE ((response.value.drop 1).take 2),
                        cur_uuid := decodeBE ((response.value.drop 3).take 8),
                        persisted_seqno := decodeBE ((response.value.drop 11).take 8),
                        mem_seqno := decodeBE ((response.value.drop 19).take 8),
                        old_uuid := decodeBE ((response.value.drop 27).take 8),
                        old_seqno := decodeBE ((response.value.drop 35).take 8) })
                    LCB_CALLBACK_OBSEQNO } := by
  have hp := observe_seqno_payload_failover host response
    { init_resp K X (get_instance pipeline) pipeline response request immerr lcb_RESP.zero with
      server_index := pipeline.index } response.value rfl hlen h0
  unfold H_observe_seqno
  simp only
  rw [if_pos hrc, hp]

/-- C25: for an observe-seqno response whose computed kind is success and whose
value `d` starts with the flag byte `b0` and has at least 27 bytes, on a host of
either byte order, the result that `H_observe_seqno` hands to `invoke_callback` has
`vbid` the big-endian value of `d[1..2]`, `cur_uuid` that of `d[3..10]`,
`persisted_seqno` that of `d[11..18]` and `mem_seqno` that of `d[19..26]`.  When
`b0` is 0, `old_uuid` and `old_seqno` are 0 and the outcome is the one for the
value cut after `d[26]`; when `b0` is not 0 and `d` has at least 43 bytes,
`old_uuid` is the big-endian value of `d[27..34]` and `old_seqno` that of
`d[35..42]`. -/
theorem H_observe_seqno_decodes (K : Headers) (X : Externals) (host : Endian)
    (pipeline : mc_PIPELINE) (request : mc_PACKET) (response : MemcachedResponse)
    (immerr : lcb_STATUS) (b0 : Byte) (rest : List Byte)
    (hrc : (make_error K (get_instance pipeline) lcb_RESP.zero.tolcb_RESPBASE response immerr
      request).rc = LCB_SUCCESS)
    (hval : response.value = b0 :: rest) (hlen : 26 ≤ rest.length) :
    (b0.val = 0 →
      (∃ resp, H_observe_seqno K X host pipeline request response immerr =
          Except.ok { inst := get_instance pipeline,
                      deliveries := invoke_callback K X request (get_instance pipeline)
                        (Result.plain resp) LCB_CALLBACK_OBSEQNO } ∧
        resp.vbid = decodeBE ((response.value.drop 1).take 2) ∧
        resp.cur_uuid = decodeBE ((response.value.drop 3).take 8) ∧
        resp.persisted_seqno = decodeBE ((response.value.drop 11).take 8) ∧
        resp.mem_seqno = decodeBE ((response.value.drop 19).take 8) ∧
        resp.old_uuid = 0 ∧ resp.old_seqno = 0) ∧
      H_observe_seqno K X host pipeline request
          { response with value := response.value.take 27 } immerr =
        H_observe_seqno K X host pipeline request response immerr) ∧
    (b0.val ≠ 0 → 42 ≤ rest.length →
      ∃ resp, H_observe_seqno K X host pipeline request response immerr =
          Except.ok { inst := get_instance pipeline,
                      deliveries := invoke_callback K X request (get_instance pipeline)
                        (Result.plain resp) LCB_CALLBACK_OBSEQNO } ∧
        resp.vbid = decodeBE ((response.value.drop 1).take 2) ∧
        resp.cur_uuid = decodeBE ((response.value.drop 3).take 8) ∧
        resp.persisted_seqno = decodeBE ((response.value.drop 11).take 8) ∧
        resp.mem_seqno = decodeBE ((response.value.drop 19).take 8) ∧
        resp.old_uuid = decodeBE ((response.value.drop 27).take 8) ∧
        resp.old_seqno = decodeBE ((response.value.drop 35).take 8)) := by
  have hL : response.value.length = rest.length + 1 := by rw [hval]; rfl
  have hb : decodeBE (response.value.take 1) = b0.val := by
    rw [hval]
    simp [decodeBE]
  have hrc1 : (init_resp K X (get_instance pipeline) pipeline response request immerr
      lcb_RESP.zero).rc = LCB_SUCCESS := by
    rw [init_resp_rc]
    exact hrc
  have hold := init_resp_old K X (get_instance pipeline) pipeline response request immerr
    lcb_RESP.zero
  constructor
  · intro h0
    have hfull := H_observe_seqno_plain K X host pipeline request response immerr hrc1
      (by omega) (by rw [hb]; exact h0)
    constructor
    · exact ⟨_, hfull, rfl, rfl, rfl, rfl, hold.1, hold.2⟩
    · have hirr := init_resp_value_irrelevant K X (get_instance pipeline) pipeline response
        request immerr lcb_RESP.zero (response.value.take 27)
      have htrunc := H_observe_seqno_plain K X host pipeline request
        { response with value := response.value.take 27 } immerr (by rw [hirr]; exact hrc1)
        (by show 27 ≤ (response.value.take 27).length
            rw [List.length_take]; omega)
        (by show decodeBE ((response.value.take 27).take 1) = 0
            rw [List.take_take, hval]
            simpa [decodeBE] using h0)
      rw [hfull, htrunc, hirr]
      simp [List.take_take, List.drop_take]
  · intro h0 h42
    have hfull := H_observe_seqno_failover K X host pipeline request response immerr hrc1
      (by omega) (by rw [hb]; exact h0)
    exact ⟨_, hfull, rfl, rfl, rfl, rfl, rfl, rfl⟩

/-- Witness for C25: a 27-byte record without failover history, vbucket 0x0102. -/
theorem H_observe_seqno_decodes_witness :
    ∃ resp, H_observe_seqno kv kx Endian.little attached_pipeline ⟨0, 0, 0⟩
          ⟨kv.CMD.OBSERVE_SEQNO, 0, 0, 0, [],
            [0, 1, 2, 0, 0, 0, 0, 0, 0, 0, 3, 0, 0, 0, 0, 0, 0, 0, 4, 0, 0, 0, 0, 0, 0, 0, 5]⟩
          LCB_SUCCESS =
        Except.ok { inst := some plain_instance,
                    deliveries := invoke_callback kv kx ⟨0, 0, 0⟩ (some plain_instance)
                      (Result.plain resp) LCB_CALLBACK_OBSEQNO } ∧
      resp.vbid = 258 ∧ resp.cur_uuid = 3 ∧ resp.persisted_seqno = 4 ∧ resp.mem_seqno = 5 ∧
      resp.old_uuid = 0 ∧ resp.old_seqno = 0 :=
  match ((H_observe_seqno_decodes kv kx Endian.little attached_pipeline ⟨0, 0, 0⟩
      ⟨kv.CMD.OBSERVE_SEQNO, 0, 0, 0, [],
        [0, 1, 2, 0, 0, 0, 0, 0, 0, 0, 3, 0, 0, 0, 0, 0, 0, 0, 4, 0, 0, 0, 0, 0, 0, 0, 5]⟩
      LCB_SUCCESS 0 [1, 2, 0, 0, 0, 0, 0, 0, 0, 3, 0, 0, 0, 0, 0, 0, 0, 4, 0, 0, 0, 0, 0, 0, 0, 5]
      (by decide) rfl (by decide)).1 rfl).1 with
  | ⟨resp, h, h1, h2, h3, h4, h5, h6⟩ =>
    ⟨resp, h, by rw [h1]; decide, by rw [h2]; decide, by rw [h3]; decide, by rw [h4]; decide,
      h5, h6⟩

theorem length_observe_encode (r : ObserveRecord) : r.encode.length = 13 + r.key.length := by
  simp [ObserveRecord.encode, length_encodeBE]
  omega

theorem observe_resp_again (pipeline : mc_PIPELINE) (config : mc_CMDQUEUE) (ttp ttr : Nat)
    (resp : lcb_RESP) (q r : ObserveRecord) :
    observe_resp pipeline config ttp ttr (observe_resp pipeline config ttp ttr resp q) r =
      observe_resp pipeline config ttp ttr resp r := rfl

theorem H_observe_loop_end (K : Headers) (X : Externals) (host : Endian)
    (pipeline : mc_PIPELINE) (request : mc_PACKET) (response : MemcachedResponse)
    (root : Option lcb_INSTANCE) (config : mc_CMDQUEUE) (ttp ttr : Nat) (fuel ptr : Nat)
    (resp : lcb_RESP) (h : ptr = response.vallen) :
    H_observe_loop K X host pipeline request response root config ttp ttr (fuel + 1) ptr resp =
      some (Except.ok []) := by
  unfold H_observe_loop
  rw [if_neg (by omega)]

theorem H_observe_loop_record (K : Headers) (X : Externals) (host : Endian)
    (pipeline : mc_PIPELINE) (request : mc_PACKET) (response : MemcachedResponse)
    (i : lcb_INSTANCE) (config : mc_CMDQUEUE) (ttp ttr : Nat) (rd : Nat)
    (hinv : (request.flags &&& K.REQ_F.INVOKED) = 0)
    (hx : X.exdata request = some rd) (hcol : i.use_collections = false)
    (fuel : Nat) (pre rest : List Byte) (r : ObserveRecord) (resp : lcb_RESP)
    (hval : response.value = pre ++ r.encode ++ rest) (hc : r.complete) :
    H_observe_loop K X host pipeline request response (some i) config ttp ttr (fuel + 1)
        pre.length resp =
      match H_observe_loop K X host pipeline request response (some i) config ttp ttr fuel
          (pre.length + r.encode.length) (observe_resp pipeline config ttp ttr resp r) with
      | none => none
      | some (Except.error f) => some (Except.error f)
      | some (Except.ok ds) =>
        some (Except.ok (Delivery.handler rd resp.rc
          (HandlerArg.resp (Result.plain (observe_resp pipeline config ttp ttr resp r))) :: ds)) := by
  have hE := length_observe_encode r
  have hL : response.vallen = pre.length + r.encode.length + rest.length := by
    simp [MemcachedResponse.vallen, hval]
    omega
  have hlt : pre.length < response.vallen := by omega
  have h1 : readBytes response.value pre.length 2 = Except.ok (encodeBE 2 r.vb) := by
    rw [hval, ObserveRecord.encode]
    have : pre ++ (encodeBE 2 r.vb ++ encodeBE 2 r.key.length ++ r.key ++ [r.obs] ++
          encodeBE 8 r.cas) ++ rest
        = pre ++ encodeBE 2 r.vb ++ (encodeBE 2 r.key.length ++ r.key ++ [r.obs] ++
          encodeBE 8 r.cas ++ rest) := by simp
    rw [this]
    exact readBytes_mid _ _ _ _ _ rfl (length_encodeBE _ _).symm
  have h2 : readBytes response.value (pre.length + 2) 2 = Except.ok (encodeBE 2 r.key.length) := by
    rw [hval, ObserveRecord.encode]
    have : pre ++ (encodeBE 2 r.vb ++ encodeBE 2 r.key.length ++ r.key ++ [r.obs] ++
          encodeBE 8 r.cas) ++ rest
        = (pre ++ encodeBE 2 r.vb) ++ encodeBE 2 r.key.length ++ (r.key ++ [r.obs] ++
          encodeBE 8 r.cas ++ rest) := by simp
    rw [this]
    exact readBytes_mid _ _ _ _ _ (by simp [length_encodeBE]) (length_encodeBE _ _).symm
  have h3 : (response.value.drop (pre.length + 4)).take r.key.length = r.key := by
    rw [hval, ObserveRecord.encode]
    have : pre ++ (encodeBE 2 r.vb ++ encodeBE 2 r.key.length ++ r.key ++ [r.obs] ++
          encodeBE 8 r.cas) ++ rest
        = (pre ++ encodeBE 2 r.vb ++ encodeBE 2 r.key.length) ++ r.key ++ ([r.obs] ++
          encodeBE 8 r.cas ++ rest) := by simp
    rw [this]
    exact slice_mid _ _ _ _ _ (by simp [length_encodeBE]) rfl
  have h4 : readBytes response.value (pre.length + 4 + r.key.length) 1 = Except.ok [r.obs] := by
    rw [hval, ObserveRecord.encode]
    have : pre ++ (encodeBE 2 r.vb ++ encodeBE 2 r.key.length ++ r.key ++ [r.obs] ++
          encodeBE 8 r.cas) ++ rest
        = (pre ++ encodeBE 2 r.vb ++ encodeBE 2 r.key.length ++ r.key) ++ [r.obs] ++
          (encodeBE 8 r.cas ++ rest) := by simp
    rw [this]
    exact readBytes_mid _ _ _ _ _ (by simp [length_encodeBE]; omega) rfl
  have h5 : readBytes response.value (pre.length + 4 + r.key.length + 1) 8 =
      Except.ok (encodeBE 8 r.cas) := by
    rw [hval, ObserveRecord.encode]
    have : pre ++ (encodeBE 2 r.vb ++ encodeBE 2 r.key.length ++ r.key ++ [r.obs] ++
          encodeBE 8 r.cas) ++ rest
        = (pre ++ encodeBE 2 r.vb ++ encodeBE 2 r.key.length ++ r.key ++ [r.obs]) ++
          encodeBE 8 r.cas ++ rest := by simp
    rw [this]
    exact readBytes_mid _ _ _ _ _ (by simp [length_encodeBE]; omega) (length_encodeBE _ _).symm
  have hcas : lcb_ntohll host (memcpy_uint host (encodeBE 8 r.cas)) = r.cas := by
    rw [lcb_ntohll, ntoh_memcpy host 8 _ (length_encodeBE 8 r.cas),
      decodeBE_encodeBE 8 r.cas (by have := hc.2.2; norm_num at this ⊢; exact this)]
  have hobs : decodeBE [r.obs] = r.obs.val := by simp [decodeBE]
  have hkl : ((((r.key.length : Nat) : Int) - ((0 : Nat) : Int)) % 2 ^ 64).toNat = r.key.length := by
    have := hc.2.1
    simp only [Nat.cast_zero, sub_zero]
    rw [Int.emod_eq_of_lt (by positivity) (by norm_num; omega)]
    simp
  have hadv : pre.length + 4 + r.key.length + 1 + 8 = pre.length + r.encode.length := by omega
  rw [H_observe_loop]
  rw [if_pos hlt]
  simp only [h1, h2, ntohs_wire host _ hc.1, ntohs_wire host _ hc.2.1, h3, h4, h5, hcas, hobs,
    hcol, Bool.false_eq_true, if_false, List.drop_zero, hkl, if_pos hinv, call_handler, hx, hadv]
  rfl

theorem H_observe_loop_records (K : Headers) (X : Externals) (host : Endian)
    (pipeline : mc_PIPELINE) (request : mc_PACKET) (response : MemcachedResponse)
    (i : lcb_INSTANCE) (config : mc_CMDQUEUE) (ttp ttr : Nat) (rd : Nat)
    (hinv : (request.flags &&& K.REQ_F.INVOKED) = 0)
    (hx : X.exdata request = some rd) (hcol : i.use_collections = false) :
    ∀ (recs : List ObserveRecord) (pre : List Byte) (resp : lcb_RESP) (fuel : Nat),
      response.value = pre ++ observe_stream recs → (∀ q ∈ recs, q.complete) →
      recs.length < fuel →
      H_observe_loop K X host pipeline request response (some i) config ttp ttr fuel
          pre.length resp =
        some (Except.ok (recs.map (fun q => Delivery.handler rd resp.rc
          (HandlerArg.resp (Result.plain (observe_resp pipeline config ttp ttr resp q)))))) := by
  intro recs
  induction recs with
  | nil =>
    intro pre resp fuel hval _ hfuel
    obtain ⟨fuel, rfl⟩ : ∃ f, fuel = f + 1 := ⟨fuel - 1, by omega⟩
    have hend : pre.length = response.vallen := by
      simp [MemcachedResponse.vallen, hval, observe_stream]
    rw [H_observe_loop_end K X host pipeline request response _ config ttp ttr fuel _ resp hend]
    rfl
  | cons r rs ih =>
    intro pre resp fuel hval hc hfuel
    obtain ⟨fuel, rfl⟩ : ∃ f, fuel = f + 1 := ⟨fuel - 1, by omega⟩
    have hval1 : response.value = pre ++ r.encode ++ observe_stream rs := by
      rw [hval, observe_stream, List.append_assoc]
    have hstep := H_observe_loop_record K X host pipeline request response i config ttp ttr rd
      hinv hx hcol fuel pre (observe_stream rs) r resp hval1 (hc r (List.mem_cons_self _ _))
    have hrec := ih (pre ++ r.encode) (observe_resp pipeline config ttp ttr resp r) fuel hval1
      (fun q hq => hc q (List.mem_cons_of_mem _ hq)) (by simpa using hfuel)
    rw [List.length_append] at hrec
    rw [hstep, hrec]
    simp only [List.map_cons, observe_resp_again]
    rfl

/-- C27: for a request not marked invoked that has extended request data `rd`:
when the computed kind is success, the instance is attached with collections
disabled and the value is a concatenation of `N` complete observe records,
`H_observe` makes exactly `N` calls of the handler, one per record and in record
order, each with the kind success and a result that carries the key bytes, the
persistence flag as status and the big-endian CAS of its record; when the computed
kind is not success it makes exactly one call of the handler, with that kind and a
null response, for every value and every fuel. -/
theorem H_observe_records (K : Headers) (X : Externals) (host : Endian) (fuel : Nat)
    (pipeline : mc_PIPELINE) (request : mc_PACKET) (response : MemcachedResponse)
    (immerr : lcb_STATUS) (rd : Nat)
    (hinv : (request.flags &&& K.REQ_F.INVOKED) = 0)
    (hx : X.exdata request = some rd) :
    (∀ (config : mc_CMDQUEUE) (i : lcb_INSTANCE) (recs : List ObserveRecord),
      pipeline.parent = some config → config.cqdata = some i → i.use_collections = false →
      (make_error K (some i) lcb_RESP.zero.tolcb_RESPBASE response immerr request).rc =
        LCB_SUCCESS →
      response.value = observe_stream recs → (∀ q ∈ recs, q.complete) → recs.length < fuel →
      ∃ (ttp ttr : Nat) (resp0 : lcb_RESP),
        H_observe K X host fuel pipeline request response immerr =
          some (Except.ok
            { inst := some i,
              deliveries := recs.map (fun q => Delivery.handler rd LCB_SUCCESS
                (HandlerArg.resp (Result.plain (observe_resp pipeline config ttp ttr resp0 q)))) }) ∧
        ∀ q, (observe_resp pipeline config ttp ttr resp0 q).key = some q.key ∧
          (observe_resp pipeline config ttp ttr resp0 q).key_len = q.key.length ∧
          (observe_resp pipeline config ttp ttr resp0 q).status = q.obs.val ∧
          (observe_resp pipeline config ttp ttr resp0 q).cas = q.cas ∧
          (observe_resp pipeline config ttp ttr resp0 q).rc = LCB_SUCCESS) ∧
    ((make_error K (get_instance pipeline) lcb_RESP.zero.tolcb_RESPBASE response immerr
        request).rc ≠ LCB_SUCCESS →
      H_observe K X host fuel pipeline request response immerr =
        some (Except.ok { inst := get_instance pipeline,
                          deliveries := [Delivery.handler rd
                            (make_error K (get_instance pipeline) lcb_RESP.zero.tolcb_RESPBASE
                              response immerr request).rc HandlerArg.null] })) := by
  constructor
  · intro config i recs hpar hinst hcol hrc hval hc hfuel
    have hroot : get_instance pipeline = some i := by
      unfold get_instance
      rw [hpar]
      exact hinst
    have hloop := H_observe_loop_records K X host pipeline request response i config
      (ntohl host (memcpy_uint host ((mem_bytes host 8 (lcb_htonll host response.cas)).take 4)))
      (ntohl host (memcpy_uint host
        (((mem_bytes host 8 (lcb_htonll host response.cas)).drop 4).take 4)))
      rd hinv hx hcol recs []
      { lcb_RESP.zero with
        rc := (make_error K (some i) lcb_RESP.zero.tolcb_RESPBASE response immerr request).rc,
        rflags := (make_error K (some i) lcb_RESP.zero.tolcb_RESPBASE response immerr
          request).rflags }
      fuel (by simpa using hval) hc hfuel
    simp only [List.length_nil] at hloop
    refine ⟨ntohl host (memcpy_uint host ((mem_bytes host 8 (lcb_htonll host response.cas)).take 4)),
      ntohl host (memcpy_uint host
        (((mem_bytes host 8 (lcb_htonll host response.cas)).drop 4).take 4)),
      { lcb_RESP.zero with
        rc := (make_error K (some i) lcb_RESP.zero.tolcb_RESPBASE response immerr request).rc,
        rflags := (make_error K (some i) lcb_RESP.zero.tolcb_RESPBASE response immerr
          request).rflags }, ?_, fun q => ⟨rfl, rfl, rfl, rfl, hrc⟩⟩
    unfold H_observe
    simp only
    rw [hroot, if_neg (by rw [hrc]; exact fun h => h rfl), hpar]
    simp only
    rw [hloop]
    simp only [hrc]
  · intro hrc
    unfold H_observe
    simp only
    rw [if_pos hrc, if_pos hinv]
    unfold call_handler
    rw [hx]

/-- Witness for C27: two records (keys `a` and `bc`) on an attached instance with
collections disabled give two handler calls; a timed-out request gives one call
with a null response. -/
theorem H_observe_records_witness :
    (∃ ds, H_observe kv kx Endian.little 3 attached_pipeline ⟨0x10, 0, 0⟩
          ⟨kv.CMD.OBSERVE, 0, 0, 0, [],
            [0, 1, 0, 1, 97, 1, 0, 0, 0, 0, 0, 0, 0, 9,
             0, 2, 0, 2, 98, 99, 0, 0, 0, 0, 0, 0, 0, 1, 0]⟩ LCB_SUCCESS =
        some (Except.ok { inst := some plain_instance, deliveries := ds }) ∧
      ds.length = 2) ∧
    H_observe kv kx Endian.little 0 attached_pipeline ⟨0x10, 0, 0⟩
        ⟨kv.CMD.OBSERVE, 0, 0, 0, [], []⟩ LCB_ERR_TIMEOUT =
      some (Except.ok { inst := some plain_instance,
                        deliveries := [Delivery.handler 1 LCB_ERR_TIMEOUT HandlerArg.null] }) :=
  ⟨match (H_observe_records kv kx Endian.little 3 attached_pipeline ⟨0x10, 0, 0⟩
        ⟨kv.CMD.OBSERVE, 0, 0, 0, [],
          [0, 1, 0, 1, 97, 1, 0, 0, 0, 0, 0, 0, 0, 9,
           0, 2, 0, 2, 98, 99, 0, 0, 0, 0, 0, 0, 0, 1, 0]⟩ LCB_SUCCESS 1 (by decide) rfl).1
        { cqdata := some plain_instance, vbmaster := fun _ => 0 } plain_instance
        [⟨1, [97], 1, 9⟩, ⟨2, [98, 99], 0, 256⟩] rfl rfl rfl (by decide) (by decide) (by decide)
        (by decide) with
    | ⟨_, _, _, h, _⟩ => ⟨_, h, rfl⟩,
   (H_observe_records kv kx Endian.little 0 attached_pipeline ⟨0x10, 0, 0⟩
      ⟨kv.CMD.OBSERVE, 0, 0, 0, [], []⟩ LCB_ERR_TIMEOUT 1 (by decide) rfl).2 (by decide)⟩

/-! ## Path index of the entries, cursor of the mutation stream: theorems -/

theorem lookup_entries_index (K : Headers) (idx : Nat) :
    ∀ (recs : List LookupRecord) (off : Nat), ∀ e ∈ lookup_entries K idx off recs, e.index = idx := by
  intro recs
  induction recs with
  | nil => intro off e he; cases he
  | cons r rs ih =>
    intro off e he
    simp only [lookup_entries, List.mem_cons] at he
    rcases he with rfl | he
    · exact lookup_entry_index K idx off r
    · exact ih _ e he

/-- C28 (the code at the failing input): on a multi-path lookup payload of two
records, for a request of two paths, both entries of the collection that
`lcb_sdresult_parse` emits carry in their index field what the local `ent` held
before the loop, since `sdlookup_next` never assigns it: 7 for both when that is 7,
and 0 for both when the local happens to be zero, so the entry at position 1 does
not carry the index 1. -/
theorem sdlookup_entries_index_unset :
    lcb_sdresult_parse kv Endian.little 3 { lcb_SDENTRY.zero with index := 7 }
        { rc := LCB_SUCCESS, rflags := 0,
          responses := some ⟨kv.CMD.SUBDOC_MULTI_LOOKUP, 0, 0, 0, [],
            [0, 0, 0, 0, 0, 1, 65, 0, 0xc0, 0, 0, 0, 0]⟩,
          res := none, nres := 2 } LCB_CALLBACK_SDLOOKUP =
      some (Except.ok
        { rc := LCB_SUCCESS, rflags := 0,
          responses := some ⟨kv.CMD.SUBDOC_MULTI_LOOKUP, 0, 0, 0, [],
            [0, 0, 0, 0, 0, 1, 65, 0, 0xc0, 0, 0, 0, 0]⟩,
          res := some [{ value := some 6, nvalue := 1, status := LCB_SUCCESS, index := 7 },
                       { value := none, nvalue := 0, status := LCB_ERR_SUBDOC_PATH_NOT_FOUND,
                         index := 7 }],
          nres := 2 }) ∧
    lcb_sdresult_parse kv Endian.little 3 lcb_SDENTRY.zero
        { rc := LCB_SUCCESS, rflags := 0,
          responses := some ⟨kv.CMD.SUBDOC_MULTI_LOOKUP, 0, 0, 0, [],
            [0, 0, 0, 0, 0, 1, 65, 0, 0xc0, 0, 0, 0, 0]⟩,
          res := none, nres := 2 } LCB_CALLBACK_SDLOOKUP =
      some (Except.ok
        { rc := LCB_SUCCESS, rflags := 0,
          responses := some ⟨kv.CMD.SUBDOC_MULTI_LOOKUP, 0, 0, 0, [],
            [0, 0, 0, 0, 0, 1, 65, 0, 0xc0, 0, 0, 0, 0]⟩,
          res := some [{ value := some 6, nvalue := 1, status := LCB_SUCCESS, index := 0 },
                       { value := none, nvalue := 0, status := LCB_ERR_SUBDOC_PATH_NOT_FOUND,
                         index := 0 }],
          nres := 2 }) :=
  ⟨rfl, rfl⟩

theorem length_mutate_entries (K : Headers) :
    ∀ (recs : List MutateRecord) (off : Nat), (mutate_entries K off recs).length = recs.length := by
  intro recs
  induction recs with
  | nil => intro off; rfl
  | cons r rs ih => intro off; simp [mutate_entries, ih]

theorem sd_iterate_mutate (K : Headers) (host : Endian) (response : MemcachedResponse)
    (hlen : response.vallen < 2 ^ 32) :
    ∀ (recs : List MutateRecord) (pre : List Byte) (ent : lcb_SDENTRY) (fuel : Nat),
      response.value = pre ++ mutate_stream K recs → (∀ r ∈ recs, r.complete) →
      recs.length < fuel →
      sd_iterate (sdmutate_next K host response) fuel ent pre.length =
        some (Except.ok (mutate_entries K pre.length recs, response.vallen)) := by
  intro recs
  induction recs with
  | nil =>
    intro pre ent fuel hval _ hfuel
    obtain ⟨fuel, rfl⟩ : ∃ f, fuel = f + 1 := ⟨fuel - 1, by omega⟩
    have hend : pre.length = response.vallen := by
      simp [MemcachedResponse.vallen, hval, mutate_stream]
    rw [hend]
    simp [sd_iterate, sdmutate_next_end K host response ent _ rfl, mutate_entries]
  | cons r rs ih =>
    intro pre ent fuel hval hc hfuel
    obtain ⟨fuel, rfl⟩ : ∃ f, fuel = f + 1 := ⟨fuel - 1, by omega⟩
    have hval1 : response.value = pre ++ r.encode K ++ mutate_stream K rs := by
      rw [hval, mutate_stream, List.append_assoc]
    have hstep := sdmutate_next_record K host response ent pre (mutate_stream K rs) r hval1
      (hc r (List.mem_cons_self _ _)) hlen
    have hrec := ih (pre ++ r.encode K) (mutate_entry K pre.length r) fuel hval1
      (fun q hq => hc q (List.mem_cons_of_mem _ hq)) (by simpa using hfuel)
    rw [List.length_append] at hrec
    simp [sd_iterate, hstep, hrec, mutate_entries]

/-- C29: for a multi-path mutation payload that is a concatenation of `N` complete
records (value length within the 32-bit wire field), on a host of either byte
order: a call of `sdmutate_next` at the start of a record returns an entry and
moves the cursor by the size of that record, 3 bytes for a non-success status and
`7 + L` bytes for success with `L` value bytes, no `lcb_assert` failing; repeated
calls from cursor 0 return `N` entries and then 0, with the cursor at the declared
value length, `N + 1` calls being enough; and `lcb_sdresult_parse` finishes without
a fault when every index is below `nres`. -/
theorem sdmutate_next_cursor (K : Headers) (host : Endian) (fuel : Nat) (ent0 : lcb_SDENTRY)
    (response : MemcachedResponse) (recs : List MutateRecord)
    (hval : response.value = mutate_stream K recs)
    (hc : ∀ r ∈ recs, r.complete)
    (hlen : response.vallen < 2 ^ 32)
    (hfuel : recs.length < fuel) :
    (∀ (pre rest : List Byte) (r : MutateRecord) (ent : lcb_SDENTRY),
      response.value = pre ++ r.encode K ++ rest → r.complete →
      ∃ e, sdmutate_next K host response ent pre.length =
        Except.ok (some (e, pre.length +
          (if r.status = K.RESPONSE.SUCCESS then 7 + r.value.length else 3)))) ∧
    (∃ entries, sd_iterate (sdmutate_next K host response) fuel ent0 0 =
        some (Except.ok (entries, response.vallen)) ∧
      sd_iterate (sdmutate_next K host response) (recs.length + 1) ent0 0 =
        some (Except.ok (entries, response.vallen)) ∧
      entries.length = recs.length) ∧
    (∀ ent, sdmutate_next K host response ent response.vallen = Except.ok none) ∧
    (∀ resp : lcb_RESPSUBDOC, resp.responses = some response →
      response.opcode = K.CMD.SUBDOC_MULTI_MUTATION →
      K.CMD.SUBDOC_MULTI_MUTATION ≠ K.CMD.SUBDOC_MULTI_LOOKUP →
      (∀ r ∈ recs, r.index.val < resp.nres) →
      ∃ out, lcb_sdresult_parse K host fuel ent0 resp LCB_CALLBACK_SDMUTATE =
        some (Except.ok out)) := by
  have hval0 : response.value = [] ++ mutate_stream K recs := by simpa using hval
  refine ⟨?_, ?_, ?_, ?_⟩
  · intro pre rest r ent hv hr
    have h := sdmutate_next_record K host response ent pre rest r hv hr hlen
    rw [length_mutate_encode] at h
    exact ⟨_, h⟩
  · have h1 := sd_iterate_mutate K host response hlen recs [] ent0 fuel hval0 hc hfuel
    have h2 := sd_iterate_mutate K host response hlen recs [] ent0 (recs.length + 1) hval0 hc
      (Nat.lt_succ_self _)
    simp only [List.length_nil] at h1 h2
    exact ⟨_, h1, h2, length_mutate_entries K recs 0⟩
  · intro ent
    exact sdmutate_next_end K host response ent _ rfl
  · intro resp hresp hop hcmd hidx
    exact ⟨_, sdmutate_parse_stored K host fuel ent0 resp response recs hcmd hresp hop hval hc
      hlen hidx hfuel⟩

/-- Witness for C29: a success record with two value bytes (9 bytes) followed by a
3-byte record with status PATH_ENOENT: two entries, cursor 12. -/
theorem sdmutate_next_cursor_witness :
    ∃ entries, sd_iterate (sdmutate_next kv Endian.big
          ⟨kv.CMD.SUBDOC_MULTI_MUTATION, 0, 0, 0, [], [0, 0, 0, 0, 0, 0, 2, 7, 8, 2, 0, 0xc0]⟩)
          3 lcb_SDENTRY.zero 0 =
        some (Except.ok (entries, 12)) ∧
      entries.length = 2 :=
  match (sdmutate_next_cursor kv Endian.big 3 lcb_SDENTRY.zero
      ⟨kv.CMD.SUBDOC_MULTI_MUTATION, 0, 0, 0, [], [0, 0, 0, 0, 0, 0, 2, 7, 8, 2, 0, 0xc0]⟩
      [⟨0, 0, [7, 8]⟩, ⟨2, 0xc0, []⟩] (by decide) (by decide) (by decide) (by decide)).2.1 with
  | ⟨entries, h, _, hl⟩ => ⟨entries, h, hl⟩

/-! ## Success short-circuit of the error assembly, time values of observe: theorems -/

theorem lcb_map_error_success (K : Headers) (inst : Option lcb_INSTANCE) :
    lcb_map_error K inst (K.RESPONSE.SUCCESS : Int) = LCB_SUCCESS := by
  unfold lcb_map_error lcb_map_error_cases
  simp

/-- C31: for every wire status, every instance, every request and no immediate
error, `make_error` leaves the same result as the replace-semantics override applied
to the answer of `lcb_map_error` for the wire status, the test for the success
status being redundant: `lcb_map_error` maps the success status to `LCB_SUCCESS`. -/
theorem make_error_refines_mapper (K : Headers) (inst : Option lcb_INSTANCE)
    (resp : lcb_RESPBASE) (response : MemcachedResponse) (req : mc_PACKET) :
    make_error K inst resp response LCB_SUCCESS req =
      make_error_by_mapper K inst resp response req ∧
    lcb_map_error K inst (K.RESPONSE.SUCCESS : Int) = LCB_SUCCESS := by
  refine ⟨?_, lcb_map_error_success K inst⟩
  have hk : make_error_kind K inst resp response LCB_SUCCESS =
      { resp with rc := lcb_map_error K inst response.status } := by
    unfold make_error_kind
    rw [if_neg (fun h => h rfl)]
    by_cases hs : response.status = K.RESPONSE.SUCCESS
    · rw [if_pos hs, hs, lcb_map_error_success]
    · rw [if_neg hs]
  unfold make_error make_error_by_mapper
  rw [hk]

theorem encodeLE_add (a b : Nat) : ∀ x : Nat,
    encodeLE (a + b) x = encodeLE a x ++ encodeLE b (x / 256 ^ a) := by
  induction a with
  | zero => intro x; simp [encodeLE]
  | succ a ih =>
    intro x
    have h : a + 1 + b = (a + b) + 1 := by omega
    rw [h]
    simp only [encodeLE, List.cons_append, ih]
    rw [Nat.div_div_eq_div_mul, pow_succ, Nat.mul_comm]

theorem encodeLE_mod (w : Nat) : ∀ x : Nat, encodeLE w (x % 256 ^ w) = encodeLE w x := by
  induction w with
  | zero => intro x; rfl
  | succ w ih =>
    intro x
    simp only [encodeLE]
    have h1 : x % 256 ^ (w + 1) % 256 = x % 256 := by
      rw [pow_succ]
      exact Nat.mod_mul_left_mod x (256 ^ w) 256
    have h2 : x % 256 ^ (w + 1) / 256 = (x / 256) % 256 ^ w := by
      rw [pow_succ, Nat.mul_comm, Nat.mod_mul_right_div_self]
    congr 1
    · exact Fin.ext h1
    · rw [h2, ih]

theorem decodeBE_encodeBE_mod (w x : Nat) : decodeBE (encodeBE w x) = x % 256 ^ w := by
  have h := decodeBE_encodeBE w (x % 256 ^ w) (Nat.mod_lt _ (by positivity))
  unfold encodeBE at h ⊢
  rw [encodeLE_mod] at h
  exact h

theorem encodeBE_split (x : Nat) : encodeBE 8 x = encodeBE 4 (x / 2 ^ 32) ++ encodeBE 4 x := by
  unfold encodeBE
  rw [show (8 : Nat) = 4 + 4 from rfl, encodeLE_add 4 4 x, List.reverse_append]
  norm_num

theorem mem_bytes_htonll (host : Endian) (c : Nat) :
    mem_bytes host 8 (lcb_htonll host c) = encodeBE 8 c := by
  cases host with
  | big => rfl
  | little =>
    unfold mem_bytes lcb_htonll ntoh
    simp only
    have h1 : decodeBE (encodeLE 8 c) = decodeLE (encodeLE 8 c).reverse := by
      have := decodeBE_reverse (encodeLE 8 c).reverse
      rw [List.reverse_reverse] at this
      exact this
    rw [h1]
    have h2 := encodeLE_decodeLE (encodeLE 8 c).reverse
    rw [List.length_reverse, length_encodeLE] at h2
    rw [h2]
    rfl

theorem observe_ttp (host : Endian) (c : Nat) (hc : c < 2 ^ 64) :
    ntohl host (memcpy_uint host ((mem_bytes host 8 (lcb_htonll host c)).take 4)) = c / 2 ^ 32 := by
  rw [mem_bytes_htonll, encodeBE_split]
  have hl : (encodeBE 4 (c / 2 ^ 32)).length = 4 := length_encodeBE _ _
  rw [List.take_left' hl]
  unfold ntohl
  rw [ntoh_memcpy host 4 _ hl, decodeBE_encodeBE 4 _ (by
    have : c / 2 ^ 32 < 2 ^ 32 := by omega
    norm_num at this ⊢
    exact this)]

theorem observe_ttr (host : Endian) (c : Nat) :
    ntohl host (memcpy_uint host (((mem_bytes host 8 (lcb_htonll host c)).drop 4).take 4)) =
      c % 2 ^ 32 := by
  rw [mem_bytes_htonll, encodeBE_split]
  have hl : (encodeBE 4 (c / 2 ^ 32)).length = 4 := length_encodeBE _ _
  have hl2 : (encodeBE 4 c).length = 4 := length_encodeBE _ _
  rw [List.drop_left' hl, List.take_of_length_le (by omega)]
  unfold ntohl
  rw [ntoh_memcpy host 4 _ hl2, decodeBE_encodeBE_mod]
  norm_num


theorem H_observe_success (K : Headers) (X : Externals) (host : Endian) (fuel : Nat)
    (pipeline : mc_PIPELINE) (request : mc_PACKET) (response : MemcachedResponse)
    (immerr : lcb_STATUS) (rd : Nat) (config : mc_CMDQUEUE) (i : lcb_INSTANCE)
    (recs : List ObserveRecord)
    (hinv : (request.flags &&& K.REQ_F.INVOKED) = 0)
    (hx : X.exdata request = some rd)
    (hpar : pipeline.parent = some config) (hinst : config.cqdata = some i)
    (hcol : i.use_collections = false)
    (hrc : (make_error K (some i) lcb_RESP.zero.tolcb_RESPBASE response immerr request).rc =
      LCB_SUCCESS)
    (hval : response.value = observe_stream recs) (hc : ∀ q ∈ recs, q.complete)
    (hfuel : recs.length < fuel) :
    H_observe K X host fuel pipeline request response immerr =
      some (Except.ok
        { inst := some i,
          deliveries := recs.map (fun q => Delivery.handler rd LCB_SUCCESS
            (HandlerArg.resp (Result.plain (observe_resp pipeline config
              (ntohl host (memcpy_uint host
                ((mem_bytes host 8 (lcb_htonll host response.cas)).take 4)))
              (ntohl host (memcpy_uint host
                (((mem_bytes host 8 (lcb_htonll host response.cas)).drop 4).take 4)))
              { lcb_RESP.zero with
                rc := (make_error K (some i) lcb_RESP.zero.tolcb_RESPBASE response immerr
                  request).rc,
                rflags := (make_error K (some i) lcb_RESP.zero.tolcb_RESPBASE response immerr
                  request).rflags } q)))) }) := by
  have hroot : get_instance pipeline = some i := by
    unfold get_instance
    rw [hpar]
    exact hinst
  have hloop := H_observe_loop_records K X host pipeline request response i config
    (ntohl host (memcpy_uint host ((mem_bytes host 8 (lcb_htonll host response.cas)).take 4)))
    (ntohl host (memcpy_uint host
      (((mem_bytes host 8 (lcb_htonll host response.cas)).drop 4).take 4)))
    rd hinv hx hcol recs []
    { lcb_RESP.zero with
      rc := (make_error K (some i) lcb_RESP.zero.tolcb_RESPBASE response immerr request).rc,
      rflags := (make_error K (some i) lcb_RESP.zero.tolcb_RESPBASE response immerr
        request).rflags }
    fuel (by simpa using hval) hc hfuel
  simp only [List.length_nil] at hloop
  unfold H_observe
  simp only
  rw [hroot, if_neg (by rw [hrc]; exact fun h => h rfl), hpar]
  simp only
  rw [hloop]
  simp only [hrc]

/-- C32: for every host byte order and every 64-bit CAS value `c` of the envelope
of a successful observe response (request not marked invoked, with extended request
data `rd`, instance attached with collections disabled, value a concatenation of
complete records), the two time values that `H_observe` computes from the envelope
are `c / 2^32` and `c mod 2^32`, every result it hands to the handler reports
`ttp = c / 2^32` and `ttr = c mod 2^32`, and `ttp * 2^32 + ttr = c`. -/
theorem H_observe_ttp_ttr (K : Headers) (X : Externals) (host : Endian) (fuel : Nat)
    (pipeline : mc_PIPELINE) (request : mc_PACKET) (response : MemcachedResponse)
    (immerr : lcb_STATUS) (rd : Nat) (config : mc_CMDQUEUE) (i : lcb_INSTANCE)
    (recs : List ObserveRecord)
    (hcas : response.cas < 2 ^ 64)
    (hinv : (request.flags &&& K.REQ_F.INVOKED) = 0)
    (hx : X.exdata request = some rd)
    (hpar : pipeline.parent = some config) (hinst : config.cqdata = some i)
    (hcol : i.use_collections = false)
    (hrc : (make_error K (some i) lcb_RESP.zero.tolcb_RESPBASE response immerr request).rc =
      LCB_SUCCESS)
    (hval : response.value = observe_stream recs) (hc : ∀ q ∈ recs, q.complete)
    (hfuel : recs.length < fuel) :
    ntohl host (memcpy_uint host ((mem_bytes host 8 (lcb_htonll host response.cas)).take 4)) =
      response.cas / 2 ^ 32 ∧
    ntohl host (memcpy_uint host
        (((mem_bytes host 8 (lcb_htonll host response.cas)).drop 4).take 4)) =
      response.cas % 2 ^ 32 ∧
    (∃ resp0 : lcb_RESP,
      H_observe K X host fuel pipeline request response immerr =
        some (Except.ok
          { inst := some i,
            deliveries := recs.map (fun q => Delivery.handler rd LCB_SUCCESS
              (HandlerArg.resp (Result.plain (observe_resp pipeline config
                (response.cas / 2 ^ 32) (response.cas % 2 ^ 32) resp0 q)))) }) ∧
      ∀ q, (observe_resp pipeline config (response.cas / 2 ^ 32) (response.cas % 2 ^ 32)
            resp0 q).ttp = response.cas / 2 ^ 32 ∧
          (observe_resp pipeline config (response.cas / 2 ^ 32) (response.cas % 2 ^ 32)
            resp0 q).ttr = response.cas % 2 ^ 32) ∧
    response.cas / 2 ^ 32 * 2 ^ 32 + response.cas % 2 ^ 32 = response.cas := by
  have h := H_observe_success K X host fuel pipeline request response immerr rd config i recs
    hinv hx hpar hinst hcol hrc hval hc hfuel
  rw [observe_ttp host _ hcas, observe_ttr host _] at h
  exact ⟨observe_ttp host _ hcas, observe_ttr host _, ⟨_, h, fun q => ⟨rfl, rfl⟩⟩,
    Nat.div_add_mod' _ _⟩

/-- Witness for C32: on a little-endian and on a big-endian host, an envelope CAS of
`5 * 2^32 + 7` with one record (key `a`) gives one handler call whose result
reports `ttp = 5` and `ttr = 7`. -/
theorem H_observe_ttp_ttr_witness :
    (∃ resp0 : lcb_RESP,
      H_observe kv kx Endian.little 2 attached_pipeline ⟨0x10, 0, 0⟩
          ⟨kv.CMD.OBSERVE, 0, 0x500000007, 0, [],
            [0, 1, 0, 1, 97, 1, 0, 0, 0, 0, 0, 0, 0, 9]⟩ LCB_SUCCESS =
        some (Except.ok
          { inst := some plain_instance,
            deliveries := [Delivery.handler 1 LCB_SUCCESS
              (HandlerArg.resp (Result.plain (observe_resp attached_pipeline
                { cqdata := some plain_instance, vbmaster := fun _ => 0 }
                5 7 resp0 ⟨1, [97], 1, 9⟩)))] })) ∧
    (∃ resp0 : lcb_RESP,
      H_observe kv kx Endian.big 2 attached_pipeline ⟨0x10, 0, 0⟩
          ⟨kv.CMD.OBSERVE, 0, 0x500000007, 0, [],
            [0, 1, 0, 1, 97, 1, 0, 0, 0, 0, 0, 0, 0, 9]⟩ LCB_SUCCESS =
        some (Except.ok
          { inst := some plain_instance,
            deliveries := [Delivery.handler 1 LCB_SUCCESS
              (HandlerArg.resp (Result.plain (observe_resp attached_pipeline
                { cqdata := some plain_instance, vbmaster := fun _ => 0 }
                5 7 resp0 ⟨1, [97], 1, 9⟩)))] })) :=
  ⟨match (H_observe_ttp_ttr kv kx Endian.little 2 attached_pipeline ⟨0x10, 0, 0⟩
        ⟨kv.CMD.OBSERVE, 0, 0x500000007, 0, [],
          [0, 1, 0, 1, 97, 1, 0, 0, 0, 0, 0, 0, 0, 9]⟩ LCB_SUCCESS 1
        { cqdata := some plain_instance, vbmaster := fun _ => 0 } plain_instance
        [⟨1, [97], 1, 9⟩] (by decide) (by decide) rfl rfl rfl rfl (by decide) (by decide)
        (by decide) (by decide)).2.2.1 with
    | ⟨r, h, _⟩ => ⟨r, h⟩,
   match (H_observe_ttp_ttr kv kx Endian.big 2 attached_pipeline ⟨0x10, 0, 0⟩
        ⟨kv.CMD.OBSERVE, 0, 0x500000007, 0, [],
          [0, 1, 0, 1, 97, 1, 0, 0, 0, 0, 0, 0, 0, 9]⟩ LCB_SUCCESS 1
        { cqdata := some plain_instance, vbmaster := fun _ => 0 } plain_instance
        [⟨1, [97], 1, 9⟩] (by decide) (by decide) rfl rfl rfl rfl (by decide) (by decide)
        (by decide) (by decide)).2.2.1 with
    | ⟨r, h, _⟩ => ⟨r, h⟩⟩

/-! ## Collection-id lookup: theorems -/

theorem init_resp_ids (K : Headers) (X : Externals) (inst : Option lcb_INSTANCE)
    (pipeline : mc_PIPELINE) (mc_resp : MemcachedResponse) (req : mc_PACKET)
    (immerr : lcb_STATUS) (resp : lcb_RESP) :
    (init_resp K X inst pipeline mc_resp req immerr resp).manifest_id = resp.manifest_id ∧
    (init_resp K X inst pipeline mc_resp req immerr resp).collection_id = resp.collection_id := by
  unfold init_resp
  cases inst <;> cases pipeline.curhost <;> exact ⟨rfl, rfl⟩

theorem handle_error_info_ids (K : Headers) (mc_resp : MemcachedResponse) (rp : ResponsePack) :
    (handle_error_info K mc_resp rp).resp.manifest_id = rp.resp.manifest_id ∧
    (handle_error_info K mc_resp rp).resp.collection_id = rp.resp.collection_id := by
  unfold handle_error_info
  split_ifs <;> exact ⟨rfl, rfl⟩

theorem init_resp_ext_irrelevant (K : Headers) (X : Externals) (inst : Option lcb_INSTANCE)
    (pipeline : mc_PIPELINE) (mc_resp : MemcachedResponse) (req : mc_PACKET)
    (immerr : lcb_STATUS) (resp : lcb_RESP) (e : List Byte) :
    init_resp K X inst pipeline { mc_resp with ext := e } req immerr resp =
      init_resp K X inst pipeline mc_resp req immerr resp := by
  unfold init_resp make_error make_error_kind
  rfl

theorem handle_error_info_ext_irrelevant (K : Headers) (mc_resp : MemcachedResponse)
    (rp : ResponsePack) (e : List Byte) :
    handle_error_info K { mc_resp with ext := e } rp = handle_error_info K mc_resp rp := by
  unfold handle_error_info
  rfl

theorem get_cid_scope_fields (resp r : lcb_RESP) (h : get_cid_scope resp = Except.ok r) :
    r.rc = resp.rc ∧ r.manifest_id = resp.manifest_id ∧ r.collection_id = resp.collection_id := by
  unfold get_cid_scope at h
  split at h
  · cases h; exact ⟨rfl, rfl, rfl⟩
  · split_ifs at h
    · split at h
      · cases h
      · cases h; exact ⟨rfl, rfl, rfl⟩
      · cases h; exact ⟨rfl, rfl, rfl⟩
    · cases h; exact ⟨rfl, rfl, rfl⟩

theorem get_cid_payload_no_extras (host : Endian) (response : MemcachedResponse)
    (resp : lcb_RESP) (hrc : resp.rc = LCB_SUCCESS) (hext : response.ext = []) :
    get_cid_payload host response resp =
      Except.ok { resp with manifest_id := 0, collection_id := 0,
                            rc := LCB_ERR_UNSUPPORTED_OPERATION } := by
  unfold get_cid_payload MemcachedResponse.ext_ptr
  rw [if_pos hrc, if_pos hext]

theorem get_cid_payload_extras (host : Endian) (response : MemcachedResponse)
    (resp : lcb_RESP) (hrc : resp.rc = LCB_SUCCESS) (hext : 12 ≤ response.ext.length) :
    get_cid_payload host response resp =
      Except.ok { resp with manifest_id := decodeBE (response.ext.take 8),
                            collection_id := decodeBE ((response.ext.drop 8).take 4) } := by
  have hne : response.ext ≠ [] := by
    intro h
    rw [h] at hext
    simp at hext
  have h8 : ((response.ext.drop 0).take 8).length = 8 := by
    rw [List.length_take, List.length_drop]; omega
  have h4 : ((response.ext.drop 8).take 4).length = 4 := by
    rw [List.length_take, List.length_drop]; omega
  unfold get_cid_payload MemcachedResponse.ext_ptr
  rw [if_pos hrc, if_neg hne]
  simp only [readBytes_ok response.ext 0 8 (by omega), readBytes_ok response.ext 8 4 (by omega)]
  rw [lcb_ntohll, ntohl, ntoh_memcpy host 8 _ h8, ntoh_memcpy host 4 _ h4, List.drop_zero]

theorem get_cid_reports_of_payload (K : Headers) (X : Externals) (host : Endian)
    (pipeline : mc_PIPELINE) (request : mc_PACKET) (response : MemcachedResponse)
    (immerr : lcb_STATUS) (rc : lcb_STATUS) (m c : Nat)
    (h : ∀ resp : lcb_RESP,
      resp.rc = (make_error K (get_instance pipeline) lcb_RESP.zero.tolcb_RESPBASE response
        immerr request).rc →
      resp.manifest_id = 0 → resp.collection_id = 0 →
      ∃ r, get_cid_payload host response resp = Except.ok r ∧ r.rc = rc ∧ r.manifest_id = m ∧
        r.collection_id = c ∧ r.key = resp.key ∧ r.key_len = resp.key_len) :
    get_cid_reports K X host pipeline request response immerr rc m c := by
  unfold get_cid_reports H_collections_get_cid
  simp only
  have hkey := init_resp_key K X (get_instance pipeline) pipeline response request immerr
    ResponsePack.zero.resp
  have hrc0 := init_resp_rc K X (get_instance pipeline) pipeline response request immerr
    ResponsePack.zero.resp
  have hid0 := init_resp_ids K X (get_instance pipeline) pipeline response request immerr
    ResponsePack.zero.resp
  have hkey2 := handle_error_info_key K response
    { ResponsePack.zero with
      resp := init_resp K X (get_instance pipeline) pipeline response request immerr
        ResponsePack.zero.resp }
  have hrc2 := handle_error_info_rc K response
    { ResponsePack.zero with
      resp := init_resp K X (get_instance pipeline) pipeline response request immerr
        ResponsePack.zero.resp }
  have hid2 := handle_error_info_ids K response
    { ResponsePack.zero with
      resp := init_resp K X (get_instance pipeline) pipeline response request immerr
        ResponsePack.zero.resp }
  generalize handle_error_info K response _ = w at hkey2 hrc2 hid2 ⊢
  obtain ⟨r, hr, hr1, hr2, hr3, hr4, hr5⟩ :=
    h { w.resp with rflags := w.resp.rflags ||| K.RESP_F.FINAL }
      (by show w.resp.rc = _
          rw [hrc2]; exact hrc0)
      (by show w.resp.manifest_id = 0
          rw [hid2.1]; exact hid0.1)
      (by show w.resp.collection_id = 0
          rw [hid2.2]; exact hid0.2)
  rw [hr]
  simp only
  constructor
  · intro hq
    rw [if_neg (fun hn => hn hq)]
    exact ⟨_, rfl, hr1, hr2, hr3⟩
  · intro hq rd hx hscan
    rw [if_pos hq]
    obtain ⟨r2, hs⟩ := get_cid_scope_ok r (X.mcreq_get_key (get_instance pipeline) request)
      (by rw [hr4]
          show w.resp.key = _
          rw [hkey2.1]; exact hkey.1)
      (by rw [hr5]
          show w.resp.key_len = _
          rw [hkey2.2]; exact hkey.2)
      hscan
    obtain ⟨f1, f2, f3⟩ := get_cid_scope_fields r r2 hs
    rw [hs]
    simp only
    unfold call_handler
    rw [hx]
    simp only
    refine ⟨{ w with resp := r2 }, ?_, ?_, ?_, ?_⟩
    · rw [f1, hr1]
    · show r2.rc = rc
      rw [f1, hr1]
    · show r2.manifest_id = m
      rw [f2, hr2]
    · show r2.collection_id = c
      rw [f3, hr3]

theorem H_collections_get_cid_ext_irrelevant (K : Headers) (X : Externals) (host : Endian)
    (pipeline : mc_PIPELINE) (request : mc_PACKET) (response : MemcachedResponse)
    (immerr : lcb_STATUS) (e : List Byte)
    (hrc : (make_error K (get_instance pipeline) lcb_RESP.zero.tolcb_RESPBASE response immerr
      request).rc ≠ LCB_SUCCESS) :
    H_collections_get_cid K X host pipeline request { response with ext := e } immerr =
      H_collections_get_cid K X host pipeline request response immerr := by
  unfold H_collections_get_cid
  simp only
  rw [init_resp_ext_irrelevant, handle_error_info_ext_irrelevant]
  have hrc0 := init_resp_rc K X (get_instance pipeline) pipeline response request immerr
    ResponsePack.zero.resp
  have hrc2 := handle_error_info_rc K response
    { ResponsePack.zero with
      resp := init_resp K X (get_instance pipeline) pipeline response request immerr
        ResponsePack.zero.resp }
  generalize handle_error_info K response _ = w at hrc2 ⊢
  have hne : ({ w.resp with rflags := w.resp.rflags ||| K.RESP_F.FINAL } : lcb_RESP).rc ≠
      LCB_SUCCESS := by
    show w.resp.rc ≠ _
    rw [hrc2, hrc0]
    exact hrc
  rw [get_cid_payload_of_error host _ _ hne, get_cid_payload_of_error host _ _ hne]


/-- C33: for a collection-id lookup on either host byte order, the computed kind
being the one `make_error` gives the value-initialised result.  When that kind is
success and the envelope has no extras, `H_collections_get_cid` hands on a result
with the kind `LCB_ERR_UNSUPPORTED_OPERATION`, manifest id 0 and collection id 0;
when it is success and the extras `e` hold at least 12 bytes, the result has the
kind success, as manifest id the big-endian value of `e[0..7]` and as collection id
the big-endian value of `e[8..11]`; when it is not success the result keeps the
computed kind (both ids stay 0) and the outcome is the same for every replacement
of the extras, so no extras byte is read. -/
theorem H_collections_get_cid_ids (K : Headers) (X : Externals) (host : Endian)
    (pipeline : mc_PIPELINE) (request : mc_PACKET) (response : MemcachedResponse)
    (immerr : lcb_STATUS) :
    ((make_error K (get_instance pipeline) lcb_RESP.zero.tolcb_RESPBASE response immerr
        request).rc = LCB_SUCCESS → response.ext = [] →
      get_cid_reports K X host pipeline request response immerr
        LCB_ERR_UNSUPPORTED_OPERATION 0 0) ∧
    ((make_error K (get_instance pipeline) lcb_RESP.zero.tolcb_RESPBASE response immerr
        request).rc = LCB_SUCCESS → 12 ≤ response.ext.length →
      get_cid_reports K X host pipeline request response immerr LCB_SUCCESS
        (decodeBE (response.ext.take 8)) (decodeBE ((response.ext.drop 8).take 4))) ∧
    ((make_error K (get_instance pipeline) lcb_RESP.zero.tolcb_RESPBASE response immerr
        request).rc ≠ LCB_SUCCESS →
      get_cid_reports K X host pipeline request response immerr
        (make_error K (get_instance pipeline) lcb_RESP.zero.tolcb_RESPBASE response immerr
          request).rc 0 0 ∧
      ∀ e : List Byte,
        H_collections_get_cid K X host pipeline request { response with ext := e } immerr =
          H_collections_get_cid K X host pipeline request response immerr) := by
  refine ⟨fun hrc hext => ?_, fun hrc hext => ?_, fun hrc => ⟨?_, fun e => ?_⟩⟩
  · apply get_cid_reports_of_payload
    intro resp h1 _ _
    rw [get_cid_payload_no_extras host response resp (h1.trans hrc) hext]
    exact ⟨_, rfl, rfl, rfl, rfl, rfl, rfl⟩
  · apply get_cid_reports_of_payload
    intro resp h1 _ _
    rw [get_cid_payload_extras host response resp (h1.trans hrc) hext]
    exact ⟨_, rfl, h1.trans hrc, rfl, rfl, rfl, rfl⟩
  · apply get_cid_reports_of_payload
    intro resp h1 h2 h3
    rw [get_cid_payload_of_error host response resp (by rw [h1]; exact hrc)]
    exact ⟨_, rfl, h1, h2, h3, rfl, rfl⟩
  · exact H_collections_get_cid_ext_irrelevant K X host pipeline request response immerr e hrc

/-- Witness for C33, on a little-endian host with an attached instance: without
extras the registered callback gets a result of kind
`LCB_ERR_UNSUPPORTED_OPERATION` with both ids 0; with the extras
`00 00 00 00 00 00 00 05 00 00 00 09` the handler of a request with extended data
gets manifest id 5 and collection id 9 with the kind success; after a timeout the
outcome with three extras bytes is the outcome without extras. -/
theorem H_collections_get_cid_ids_witness :
    (∃ w : ResponsePack,
      H_collections_get_cid kv kx Endian.little attached_pipeline ⟨0, 0, 0⟩
          ⟨kv.CMD.COLLECTIONS_GET_CID, 0, 0, 0, [], []⟩ LCB_SUCCESS =
        Except.ok { inst := some plain_instance,
                    deliveries := invoke_callback kv kx ⟨0, 0, 0⟩ (some plain_instance)
                      (Result.packed w) LCB_CALLBACK_GETCID } ∧
      w.resp.rc = LCB_ERR_UNSUPPORTED_OPERATION ∧ w.resp.manifest_id = 0 ∧
      w.resp.collection_id = 0) ∧
    (∃ w : ResponsePack,
      H_collections_get_cid kv kx Endian.little attached_pipeline ⟨0x10, 0, 0⟩
          ⟨kv.CMD.COLLECTIONS_GET_CID, 0, 0, 0, [0, 0, 0, 0, 0, 0, 0, 5, 0, 0, 0, 9], []⟩
          LCB_SUCCESS =
        Except.ok { inst := some plain_instance,
                    deliveries := [Delivery.handler 1 LCB_SUCCESS
                      (HandlerArg.resp (Result.packed w))] } ∧
      w.resp.rc = LCB_SUCCESS ∧ w.resp.manifest_id = 5 ∧ w.resp.collection_id = 9) ∧
    H_collections_get_cid kv kx Endian.little attached_pipeline ⟨0, 0, 0⟩
        ⟨kv.CMD.COLLECTIONS_GET_CID, 0, 0, 0, [1, 2, 3], []⟩ LCB_ERR_TIMEOUT =
      H_collections_get_cid kv kx Endian.little attached_pipeline ⟨0, 0, 0⟩
        ⟨kv.CMD.COLLECTIONS_GET_CID, 0, 0, 0, [], []⟩ LCB_ERR_TIMEOUT :=
  ⟨((H_collections_get_cid_ids kv kx Endian.little attached_pipeline ⟨0, 0, 0⟩
        ⟨kv.CMD.COLLECTIONS_GET_CID, 0, 0, 0, [], []⟩ LCB_SUCCESS).1 (by decide) rfl).1
      (by decide),
   match ((H_collections_get_cid_ids kv kx Endian.little attached_pipeline ⟨0x10, 0, 0⟩
        ⟨kv.CMD.COLLECTIONS_GET_CID, 0, 0, 0, [0, 0, 0, 0, 0, 0, 0, 5, 0, 0, 0, 9], []⟩
        LCB_SUCCESS).2.1 (by decide) (by decide)).2 (by decide) 1 rfl (Or.inl rfl) with
   | ⟨w, h1, h2, h3, h4⟩ => ⟨w, h1, h2, h3.trans (by decide), h4.trans (by decide)⟩,
   ((H_collections_get_cid_ids kv kx Endian.little attached_pipeline ⟨0, 0, 0⟩
        ⟨kv.CMD.COLLECTIONS_GET_CID, 0, 0, 0, [], []⟩ LCB_ERR_TIMEOUT).2.2 (by decide)).2
      [1, 2, 3]⟩

end LcbHandler
